import Mathlib

/-!
# KVDB control plane (`lib/kvdb/ikvdb.c`): a shallow embedding

The embedding follows `ikvdb.c` function by function.

* `merr_t` is the structured error of `hse_err.h`; every `merr(E)` of the
  source is written `merr E line` with the line of the source it stands on,
  which is what the packed value carries besides the errno.
* A C string is the list of its bytes; a read past the end of the list, or a
  zero byte inside it, is the terminating NUL.
* External collaborators (cndb, c0sk, wal, the REST surface, the allocator, the
  token bucket) are not part of this file: every call to one of them is
  recorded in a trace of `call`s and its result is taken from an environment
  record, so each theorem holds for every behaviour of the collaborators.
* A pointer to an external object is an address (`Nat`), `NULL` is `none`.
* Of `tests/unit/config/hse_gparams_test.c` the helper `check` is embedded; the
  deserialiser it calls is not among the sources and is modelled from the spec.
* Of `lib/cn/blk_list.c` the functions `blk_list_init`, `blk_list_append` and
  `blk_list_free` are embedded, with a trace of their own (`blk_call`).
-/

set_option autoImplicit false

namespace HSE

/-! ## Errors -/

/-- Modelled from the spec: the structured error of `hse_err.h` (absent from the
sources). `merr(E)` packs the errno together with the place of the call; the
value `0` is success. -/
structure merr_t where
  /-- errno carried by the error, `merr_errno` -/
  errno : Nat
  /-- source line of the `merr()` call that built it -/
  line : Nat
deriving DecidableEq, Repr

instance : OfNat merr_t 0 := ⟨⟨0, 0⟩⟩

/-- The macro `merr(errnum)` placed at `line` of `ikvdb.c`. -/
def merr (errnum line : Nat) : merr_t := ⟨errnum, line⟩

/-- The accessor `merr_errno(err)`. -/
def merr_errno (err : merr_t) : Nat := err.errno

/-! errno values of `<errno.h>` on Linux. -/

def ENOENT : Nat := 2
def EBADF : Nat := 9
def EAGAIN : Nat := 11
def ENOMEM : Nat := 12
def EBUSY : Nat := 16
def EEXIST : Nat := 17
def EINVAL : Nat := 22
def EROFS : Nat := 30
def ENAMETOOLONG : Nat := 36
def ECANCELED : Nat := 125

/-- Value of `UINT_MAX` for the 32-bit `unsigned int` of the platform. -/
def UINT_MAX : Nat := 2 ^ 32 - 1

/-- Modelled from the spec: `HSE_KVS_NAME_LEN_MAX` of `hse/limits.h` (absent
from the sources); the spec gives 32. -/
def HSE_KVS_NAME_LEN_MAX : Nat := 32

/-- Size of the thread-local buffer, `sizeof(tls_vbuf)`. -/
def tls_vbufsz : Nat := 32 * 1024

/-- Modelled from the spec: `sizeof(kvs->kk_name)` of `kvdb_kvs.h` (absent from
the sources); by §3 of the spec a slot name holds at most 32 bytes. -/
def sizeof_kk_name : Nat := HSE_KVS_NAME_LEN_MAX

/-- Constants of headers that are not among the sources. The functions below
take them as a parameter, so every theorem holds for each value they can have. -/
structure hse_consts where
  /-- `HSE_KVS_COUNT_MAX`, the length of `ikdb_kvs_vec` -/
  HSE_KVS_COUNT_MAX : Nat
  /-- The spec bounds the slot table by 256, which keeps the `u32` counter
  `ikdb_kvs_cnt` far from wrapping. -/
  count_max_le : HSE_KVS_COUNT_MAX ≤ 256
  /-- `EBUG`, the errno of an internal contract violation -/
  EBUG : Nat
  /-- `HSE_FLAG_PUT_PRIORITY` -/
  HSE_FLAG_PUT_PRIORITY : Nat
  /-- `HSE_FLAG_PUT_VALUE_COMPRESSION_ON` -/
  HSE_FLAG_PUT_VALUE_COMPRESSION_ON : Nat
  /-- `HSE_FLAG_PUT_VALUE_COMPRESSION_OFF` -/
  HSE_FLAG_PUT_VALUE_COMPRESSION_OFF : Nat
  /-- `KVDB_HEALTH_FLAG_ALL` -/
  KVDB_HEALTH_FLAG_ALL : Nat
  /-- `KVDB_HEALTH_FLAG_DELBLKFAIL` -/
  KVDB_HEALTH_FLAG_DELBLKFAIL : Nat
  /-- `PAGE_SIZE` -/
  PAGE_SIZE : Nat
  /-- `VLB_ALLOCSZ_MAX` -/
  VLB_ALLOCSZ_MAX : Nat
  /-- `HSE_SQNREF_SINGLE` -/
  HSE_SQNREF_SINGLE : Nat
  /-- `CN_SMALL_VALUE_THRESHOLD` -/
  CN_SMALL_VALUE_THRESHOLD : Nat
  /-- `HSE_KVS_VALUE_LEN_MAX` -/
  HSE_KVS_VALUE_LEN_MAX : Nat
  /-- `HSE_SQNREF_UNDEFINED`, the view of a cursor that has none yet -/
  HSE_SQNREF_UNDEFINED : Nat
  /-- `HSE_FLAG_CURSOR_REVERSE` -/
  HSE_FLAG_CURSOR_REVERSE : Nat

/-! ## C strings -/

/-- Library function `isalnum` in the "C" locale. -/
def isalnum (c : Nat) : Bool :=
  (48 ≤ c && c ≤ 57) || (65 ≤ c && c ≤ 90) || (97 ≤ c && c ≤ 122)

/-- Library function `strnlen(s, maxlen)`. -/
def strnlen : List Nat → Nat → Nat
  | _, 0 => 0
  | [], _ + 1 => 0
  | c :: s, n + 1 => if c = 0 then 0 else strnlen s n + 1

/-- Library function `strcmp(a, b)`. -/
def strcmp : List Nat → List Nat → Int
  | [], [] => 0
  | [], y :: _ => 0 - (y : Int)
  | x :: _, [] => (x : Int)
  | x :: a, y :: b => if x ≠ y then (x : Int) - (y : Int) else if x = 0 then 0 else strcmp a b

/-- The bytes of a C string up to, and without, its terminating NUL. -/
def cstr (s : List Nat) : List Nat := s.takeWhile (fun c => c != 0)

/-- Library function `strlcpy(dst, src, size)`: the string left in `dst`. -/
def strlcpy (src : List Nat) (size : Nat) : List Nat := (cstr src).take (size - 1)

/-! ## `validate_kvs_name` -/

/-- The `while` loop of `validate_kvs_name` and the two statements after it;
`name` is the rest of the string, `name_len` the counter. -/
def validate_kvs_name_loop : List Nat → Nat → merr_t
  | [], _ => 0
  | c :: name, name_len =>
    if c = 0 then 0
    else
      match name_len with
      | 0 => merr ENAMETOOLONG 264
      | n + 1 =>
        if !isalnum c && c != 95 && c != 45 then merr EINVAL 259
        else validate_kvs_name_loop name n

/-- Embedding of `validate_kvs_name`; `none` is the `NULL` pointer. -/
def validate_kvs_name (name : Option (List Nat)) : merr_t :=
  match name with
  | none => merr EINVAL 247
  | some s =>
    if s.headD 0 = 0 then merr EINVAL 247
    else
      let name_len := strnlen s HSE_KVS_NAME_LEN_MAX
      if name_len = HSE_KVS_NAME_LEN_MAX then merr ENAMETOOLONG 252
      else validate_kvs_name_loop s name_len

/-- The character class `[-_A-Za-z0-9]` of the spec. -/
def kvs_name_char (c : Nat) : Bool :=
  (48 ≤ c && c ≤ 57) || (65 ≤ c && c ≤ 90) || (97 ≤ c && c ≤ 122) || c == 95 || c == 45

/-- The spec's words: the name matches `^[A-Za-z0-9_-]{1,32}$`. -/
def matches_name_regex (s : List Nat) : Bool :=
  decide (1 ≤ s.length) && decide (s.length ≤ 32) && s.all kvs_name_char


/-! ## Data model of the KVS directory -/

/-- The create-time parameters, `struct kvs_cparams`; `pfx_len` is the field
`ikvdb.c` reads. -/
structure kvs_cparams where
  pfx_len : Nat
deriving DecidableEq, Repr

/-- The run-time parameters of a KVS, `struct kvs_rparams`: the fields
`ikvdb_kvs_open` reads or writes. -/
structure kvs_rparams where
  rdonly : Bool
  vcompmin : Nat
deriving DecidableEq, Repr

/-- The slot of a KVS, `struct kvdb_kvs` of `kvdb_kvs.h`, with the fields
`ikvdb.c` uses. `kk_parent` says whether the back pointers `kk_parent`,
`kk_seqno` and `kk_viewset`, which `ikvdb_kvs_open` sets together, point into
the owning `ikvdb_impl`; `kk_vcompress` is the address of the compressor. -/
structure kvdb_kvs where
  kk_name : List Nat
  kk_cnid : Nat
  kk_flags : Nat
  kk_cparams : Option kvs_cparams
  kk_ikvs : Option Nat
  kk_refcnt : Int
  kk_vcompmin : Nat
  kk_vcompbnd : Nat
  kk_vcompress : Option Nat
  kk_parent : Bool
deriving DecidableEq, Repr

/-- The run-time parameters of the database, `struct kvdb_rparams`: the fields
these functions read. -/
structure kvdb_rparams where
  read_only : Bool
  throttle_disable : Bool
deriving DecidableEq, Repr

/-- The private representation of a kvdb, `struct ikvdb_impl`, with the fields
the functions of this file use. `ikdb_kvs_vec` is the array of
`HSE_KVS_COUNT_MAX` slot pointers, `none` a `NULL` entry. -/
structure ikvdb_impl where
  ikdb_rdonly : Bool
  ikdb_rp : kvdb_rparams
  ikdb_wal : Option Nat
  ikdb_c0sk : Option Nat
  ikdb_tb_dbg : Nat
  ikdb_tb_dbg_ops : Nat
  ikdb_tb_dbg_bytes : Nat
  ikdb_tb_dbg_sleep_ns : Nat
  ikdb_kvs_cnt : Nat
  ikdb_kvs_vec : List (Option kvdb_kvs)
  /-- the sequence clock, `atomic64_t ikdb_seqno` -/
  ikdb_seqno : Nat
  /-- the sampled number of active cursors, `atomic_t ikdb_curcnt` -/
  ikdb_curcnt : Int
  ikdb_curcnt_max : Nat
  /-- address of the ViewSet of the cursors -/
  ikdb_cur_viewset : Option Nat
  /-- address of the ViewSet of the transactions -/
  ikdb_txn_viewset : Option Nat
deriving DecidableEq, Repr

/-- A key, `struct kvs_ktuple`. -/
structure kvs_ktuple where
  kt_data : Option Nat
  kt_len : Nat
deriving DecidableEq, Repr

/-- Where a value lives: nowhere (`NULL`), in a buffer of the caller, in the
thread-local `tls_vbuf`, or in a buffer obtained from `vlb_alloc`. -/
inductive vptr where
  | null
  | user (addr : Nat)
  | tls_vbuf
  | vlb (addr : Nat)
deriving DecidableEq, Repr

/-- Modelled from the spec: a value, `struct kvs_vtuple` of `key_value.h`
(absent from the sources), as the triple (buffer, original length, compressed
length) of §4.H; `clen = 0` is an uncompressed value. -/
structure kvs_vtuple where
  vt_data : vptr
  vlen : Nat
  clen : Nat
deriving DecidableEq, Repr

/-- Modelled from the spec: `kvs_vtuple_vlen`, the original length. -/
def kvs_vtuple_vlen (vt : kvs_vtuple) : Nat := vt.vlen

/-- Modelled from the spec: `kvs_vtuple_clen`, the compressed length. -/
def kvs_vtuple_clen (vt : kvs_vtuple) : Nat := vt.clen

/-- Modelled from the spec: `kvs_vtuple_cinit(vt, data, ulen, clen)`. -/
def kvs_vtuple_cinit (data : vptr) (ulen clen : Nat) : kvs_vtuple := ⟨data, ulen, clen⟩

/-- The calls of the performance counters; `line` is the line of `ikvdb.c` the
call stands on. -/
inductive perfc_call where
  | perfc_ison
  | perfc_set (line : Nat) (value : Nat)
  | perfc_lat_start (line : Nat)
  | perfc_lat_record (line : Nat)
  | perfc_inc (line : Nat)
  | perfc_dec (line : Nat)
deriving DecidableEq, Repr

/-- The calls the cursor functions make to the KVS cursor, the ViewSet and the
transaction of the cursor. -/
inductive cursor_call where
  | kvdb_ctxn_get_view_seqno (ctxn : Nat)
  | kvs_cursor_alloc (reverse : Nat)
  | kvdb_ctxn_cursor_bind (ctxn : Nat)
  | kvdb_ctxn_cursor_unbind (bind : Nat)
  | viewset_insert
  | viewset_remove (cookie : Option Nat)
  | kvs_cursor_init (ctxn : Option Nat)
  | kvs_cursor_prepare
  | kvs_cursor_free
  | kvs_cursor_update (ctxn : Option Nat) (seqno : Nat)
  | kvs_cursor_seek (limit : Option Nat)
  | kvs_cursor_read
deriving DecidableEq, Repr

/-- The calls the transaction functions (`ikvdb_txn_alloc`, `ikvdb_txn_free`,
`ikvdb_txn_commit`, `ikvdb_txn_abort`) make beside the performance counters. -/
inductive txn_call where
  | spin_lock
  | spin_unlock
  | kvdb_ctxn_alloc (ctxn : Option Nat)
  | kvdb_ctxn_reset (ctxn : Nat)
  | kvdb_ctxn_abort (ctxn : Nat)
  | kvdb_ctxn_free (ctxn : Nat)
  | kvdb_ctxn_commit (ctxn : Nat)
  | perfc_lat_startu (line : Nat)
deriving DecidableEq, Repr

/-- The calls `ikvdb_close` and `ikvdb_diag_close` make to close and tear down
the members of the kvdb. -/
inductive close_call where
  | destroy_workqueue
  | kvdb_rest_deregister
  | c0sk_close (c0sk : Nat)
  | lc_destroy
  | cn_kvdb_destroy
  | cndb_close
  | kvdb_log_close
  | wal_close (wal : Option Nat)
  | ikvdb_txn_fini
  | kvdb_ctxn_set_destroy
  | c0snr_set_destroy
  | kvdb_keylock_destroy
  | viewset_destroy (viewset : Option Nat)
  | csched_destroy
  | mutex_destroy
  | throttle_fini
  | ikvdb_perfc_free
deriving DecidableEq, Repr

/-- The calls of `ikvdb_maint_task`, of `ikvdb_kvs_names_get` and of
`ikvdb_cndb_open` that the other functions do not make. -/
inductive admin_call where
  | get_time_ns
  | perfc_read
  | hse_log (curcnt : Nat)
  | kvs_maint_task (ikvs : Nat) (tstart : Nat)
  | calloc (nmemb : Nat) (size : Nat)
  | cndb_cn_count
  | cndb_cn_info_idx (idx : Nat)
deriving DecidableEq, Repr

/-- A call that leaves `ikvdb.c`, or an event the C semantics leaves open.
`assert_fail l` is the assertion of line `l` found false (the function goes on
as a build without assertions does); `fault l` is undefined behaviour at line
`l` (a `NULL` read or a store outside an array), after which what the
embedding returns is of no meaning. -/
inductive call where
  | aligned_alloc
  | free
  | mutex_lock
  | mutex_unlock
  | cndb_cn_create (name : List Nat)
  | cndb_cn_cparams (cnid : Nat)
  | cndb_cn_drop (cnid : Nat)
  | kvs_rest_register (name : List Nat)
  | kvs_rest_deregister (name : List Nat)
  | config_deserialize_to_kvs_rparams (name : List Nat)
  | ikvdb_wal_install_callback
  | kvs_open (cnid : Nat)
  | kvdb_health_check (mask : Nat)
  | vlb_alloc (sz : Nat)
  | vlb_free (addr : Nat) (used : Nat)
  | kk_vcompress (vlen : Nat) (dst : vptr) (dstsz : Nat)
  | kvs_put (txn : Option Nat) (kt : kvs_ktuple) (vt : kvs_vtuple) (seqnoref : Nat)
  | kvs_del (txn : Option Nat) (kt : kvs_ktuple) (seqnoref : Nat)
  | kvs_prefix_del (txn : Option Nat) (kt : kvs_ktuple) (seqnoref : Nat)
  | tbkt_request (bytes : Nat)
  | tbkt_delay (ns : Nat)
  | wal_sync
  | c0sk_sync (flags : Nat)
  | assert_fail (line : Nat)
  | fault (line : Nat)
  | usleep (us : Nat)
  | kvs_close (ikvs : Nat)
  | kvdb_ctxn_set_wait_commits
  | kvs_get (txn : Option Nat) (kt : kvs_ktuple) (view_seqno : Nat)
  | kvs_pfx_probe (txn : Option Nat) (kt : kvs_ktuple) (view_seqno : Nat)
  | perfc (c : perfc_call)
  | cursor (c : cursor_call)
  | txn (c : txn_call)
  | close (c : close_call)
  | admin (c : admin_call)
deriving DecidableEq, Repr

/-! ## KVS directory: `get_kvs_index`, `drop_kvs_index` -/

/-- Embedding of `kvdb_kvs_create`: `none` when `aligned_alloc` returned
`NULL`, else the zeroed slot with `kk_vcompmin = UINT_MAX` and `kk_refcnt = 0`. -/
def kvdb_kvs_create (alloc_ok : Bool) : Option kvdb_kvs :=
  if alloc_ok then
    some { kk_name := [], kk_cnid := 0, kk_flags := 0, kk_cparams := none, kk_ikvs := none,
           kk_refcnt := 0, kk_vcompmin := UINT_MAX, kk_vcompbnd := 0, kk_vcompress := none,
           kk_parent := false }
  else none

/-- Embedding of `kvdb_kvs_destroy` on a non-`NULL` slot: its calls. -/
def kvdb_kvs_destroy (kvs : kvdb_kvs) : List call :=
  (if kvs.kk_refcnt = 0 then [] else [call.assert_fail 835]) ++ [call.free]

/-- The `for` loop of `get_kvs_index` with `n` iterations left, at index `i`,
with the current value `av` of the first empty index. The result is the
returned index and, when the loop ran to its end, the value stored to `*avail`. -/
def get_kvs_index_loop (list : List (Option kvdb_kvs)) (kvs_name : List Nat) :
    Nat → Nat → Int → Int × Option Int
  | 0, _, av => (-1, some av)
  | n + 1, i, av =>
    match list.getD i none with
    | none => get_kvs_index_loop list kvs_name n (i + 1) (if av < 0 then (i : Int) else av)
    | some kvs =>
      if strcmp kvs_name kvs.kk_name = 0 then ((i : Int), none)
      else get_kvs_index_loop list kvs_name n (i + 1) av

/-- Embedding of `get_kvs_index(list, kvs_name, avail)` with `avail` non-`NULL`:
the returned index and what was stored to `*avail` (`none`: nothing). -/
def get_kvs_index (K : hse_consts) (list : List (Option kvdb_kvs)) (kvs_name : List Nat) :
    Int × Option Int :=
  get_kvs_index_loop list kvs_name K.HSE_KVS_COUNT_MAX 0 (-1)

/-- Library function `memmove` on the slot array: `n` entries from index `src`
to index `dst` (both ranges inside the array). -/
def memmove_slots (vec : List (Option kvdb_kvs)) (dst src n : Nat) : List (Option kvdb_kvs) :=
  vec.take dst ++ (vec.drop src).take n ++ vec.drop (dst + n)

/-- Embedding of `drop_kvs_index(handle, idx)`: the new state and the calls. -/
def drop_kvs_index (self : ikvdb_impl) (idx : Nat) : ikvdb_impl × List call :=
  let c : Int := (self.ikdb_kvs_cnt : Int) - (idx : Int) - 1
  let destroyed : List call :=
    match self.ikdb_kvs_vec.getD idx none with
    | none => []
    | some kvs => kvdb_kvs_destroy kvs
  let vec := if c ≠ 0 then memmove_slots self.ikdb_kvs_vec idx (idx + 1) c.toNat
             else self.ikdb_kvs_vec
  let cnt := (self.ikdb_kvs_cnt + 2 ^ 32 - 1) % 2 ^ 32
  ({ self with ikdb_kvs_cnt := cnt, ikdb_kvs_vec := vec.set cnt none }, destroyed)

/-! ## `ikvdb_kvs_create` -/

/-- What the collaborators of `ikvdb_kvs_create` answer. -/
structure kvs_create_env where
  /-- `aligned_alloc` in `kvdb_kvs_create` returns a non-`NULL` pointer -/
  alloc_ok : Bool
  /-- `cn_cp2cflags(params)` -/
  cn_cp2cflags : kvs_cparams → Nat
  /-- `cndb_cn_create(cndb, params, &cnid, name)`: its result and the `cnid` it stores -/
  cndb_cn_create : kvs_cparams → List Nat → merr_t × Nat
  /-- `cndb_cn_cparams(cndb, cnid)` -/
  cndb_cn_cparams : Nat → Option kvs_cparams
  /-- `kvs_rest_register(name, kvs)` -/
  kvs_rest_register : List Nat → merr_t

/-- Embedding of `ikvdb_kvs_create(handle, kvs_name, params)`: the result, the
state it leaves and its calls. -/
def ikvdb_kvs_create (K : hse_consts) (E : kvs_create_env) (self : ikvdb_impl)
    (kvs_name : List Nat) (params : kvs_cparams) : merr_t × ikvdb_impl × List call :=
  if self.ikdb_rdonly then (0, self, [])
  else
    let err := validate_kvs_name (some kvs_name)
    if err ≠ 0 then (err, self, [])
    else
      match kvdb_kvs_create E.alloc_ok with
      | none => (merr ENOMEM 1354, self, [call.aligned_alloc])
      | some kvs0 =>
        let kvs1 := { kvs0 with kk_name := strlcpy kvs_name sizeof_kk_name }
        if self.ikdb_kvs_cnt ≥ K.HSE_KVS_COUNT_MAX then
          (merr EINVAL 1363, self,
            [call.aligned_alloc, call.mutex_lock, call.mutex_unlock] ++ kvdb_kvs_destroy kvs1)
        else
          let found := get_kvs_index K self.ikdb_kvs_vec kvs_name
          if found.1 ≥ 0 then
            (merr EEXIST 1368, self,
              [call.aligned_alloc, call.mutex_lock, call.mutex_unlock] ++ kvdb_kvs_destroy kvs1)
          else
            let idx : Int := found.2.getD (-1)
            let asserted : List call := if idx ≥ 0 then [] else [call.assert_fail 1372]
            let kvs2 := { kvs1 with kk_flags := E.cn_cp2cflags params }
            let created := E.cndb_cn_create params kvs2.kk_name
            let kvs3 := { kvs2 with kk_cnid := created.2 }
            if created.1 ≠ 0 then
              (created.1, self,
                [call.aligned_alloc, call.mutex_lock] ++ asserted ++
                  [call.cndb_cn_create kvs2.kk_name, call.mutex_unlock] ++ kvdb_kvs_destroy kvs3)
            else
              let kvs4 := { kvs3 with kk_cparams := E.cndb_cn_cparams kvs3.kk_cnid }
              if kvs4.kk_cparams = none then
                (merr K.EBUG 1384, self,
                  [call.aligned_alloc, call.mutex_lock] ++ asserted ++
                    [call.cndb_cn_create kvs2.kk_name, call.cndb_cn_cparams kvs3.kk_cnid,
                     call.cndb_cn_drop kvs3.kk_cnid, call.mutex_unlock] ++ kvdb_kvs_destroy kvs4)
              else
                let inrange : Bool := decide (0 ≤ idx) && decide (idx.toNat < self.ikdb_kvs_vec.length)
                let self1 :=
                  { self with
                    ikdb_kvs_cnt := (self.ikdb_kvs_cnt + 1) % 2 ^ 32
                    ikdb_kvs_vec :=
                      if inrange then self.ikdb_kvs_vec.set idx.toNat (some kvs4)
                      else self.ikdb_kvs_vec }
                (0, self1,
                  [call.aligned_alloc, call.mutex_lock] ++ asserted ++
                    [call.cndb_cn_create kvs2.kk_name, call.cndb_cn_cparams kvs3.kk_cnid] ++
                    (if inrange then [] else [call.fault 1391]) ++
                    [call.mutex_unlock, call.kvs_rest_register kvs4.kk_name])

/-! ## `ikvdb_kvs_drop` -/

/-- What the collaborators of `ikvdb_kvs_drop` answer. -/
structure kvs_drop_env where
  /-- `cndb_cn_drop(cndb, cnid)` -/
  cndb_cn_drop : Nat → merr_t

/-- Embedding of `ikvdb_kvs_drop(handle, kvs_name)`; `none` is a `NULL` name. -/
def ikvdb_kvs_drop (K : hse_consts) (E : kvs_drop_env) (self : ikvdb_impl)
    (kvs_name : Option (List Nat)) : merr_t × ikvdb_impl × List call :=
  if self.ikdb_rp.read_only then (merr EROFS 1423, self, [])
  else
    let err := validate_kvs_name kvs_name
    if err ≠ 0 then (err, self, [])
    else
      let idx : Int := (get_kvs_index K self.ikdb_kvs_vec (kvs_name.getD [])).1
      if idx < 0 then (merr ENOENT 1435, self, [call.mutex_lock, call.mutex_unlock])
      else
        match self.ikdb_kvs_vec.getD idx.toNat none with
        | none => (0, self, [call.mutex_lock, call.fault 1441])
        | some kvs =>
          if kvs.kk_ikvs.isSome then (merr EBUSY 1442, self, [call.mutex_lock, call.mutex_unlock])
          else
            let asserted : List call :=
              if kvs.kk_refcnt = 0 then [] else [call.assert_fail 1451]
            let err := E.cndb_cn_drop kvs.kk_cnid
            if err ≠ 0 then
              (err, self,
                [call.mutex_lock, call.kvs_rest_deregister kvs.kk_name] ++ asserted ++
                  [call.cndb_cn_drop kvs.kk_cnid, call.mutex_unlock])
            else
              let dropped := drop_kvs_index self idx.toNat
              (err, dropped.1,
                [call.mutex_lock, call.kvs_rest_deregister kvs.kk_name] ++ asserted ++
                  [call.cndb_cn_drop kvs.kk_cnid] ++ dropped.2 ++ [call.mutex_unlock])

/-! ## `ikvdb_kvs_open` -/

/-- The compression operations `vcomp_compress_ops` returns, `struct
compress_ops`: the address of `cop_compress` and the function `cop_estimate`. -/
structure compress_ops where
  cop_compress : Option Nat
  cop_estimate : Nat → Nat

/-- What the collaborators of `ikvdb_kvs_open` answer. -/
structure kvs_open_env where
  /-- `config_deserialize_to_kvs_rparams(config, name, params)`: its result and
  the parameters it leaves -/
  config_deserialize_to_kvs_rparams : List Nat → kvs_rparams → merr_t × kvs_rparams
  /-- `vcomp_compress_ops(params)` -/
  vcomp_compress_ops : kvs_rparams → Option compress_ops
  /-- `kvs_open(handle, kvs, …, params, …, flags)`: its result and the handle it
  hands to `kvdb_kvs_set_ikvs` (`none`: it does not call it) -/
  kvs_open : kvdb_kvs → kvs_rparams → Nat → merr_t × Option Nat

/-- The part of `ikvdb_kvs_open` between the `EBUSY` test and the call of
`kvs_open` (lines 1567 to 1584): the slot with its back pointers and its
compression descriptor set, and the assertions found false. -/
def ikvdb_kvs_open_vcomp (K : hse_consts) (E : kvs_open_env) (kvs : kvdb_kvs)
    (params : kvs_rparams) : kvdb_kvs × List call :=
  let kvs1 := { kvs with kk_parent := true, kk_vcompmin := UINT_MAX }
  match E.vcomp_compress_ops params with
  | none => (kvs1, [])
  | some cops =>
    let est := cops.cop_estimate tls_vbufsz
    let bnd := (tls_vbufsz + 2 ^ 32 - (est + 2 ^ 32 - tls_vbufsz) % 2 ^ 32) % 2 ^ 32
    ({ kvs1 with
       kk_vcompress := cops.cop_compress
       kk_vcompmin := max K.CN_SMALL_VALUE_THRESHOLD params.vcompmin
       kk_vcompbnd := bnd },
     (if cops.cop_compress.isSome then [] else [call.assert_fail 1574]) ++
       (if bnd < tls_vbufsz then [] else [call.assert_fail 1581]) ++
       (if cops.cop_estimate K.HSE_KVS_VALUE_LEN_MAX <
             K.HSE_KVS_VALUE_LEN_MAX + K.PAGE_SIZE * 2 then []
        else [call.assert_fail 1583]))

/-- The parameters `ikvdb_kvs_open` works with after
`config_deserialize_to_kvs_rparams`: `rdonly` is inherited from the kvdb. -/
def ikvdb_kvs_open_params (E : kvs_open_env) (self : ikvdb_impl) (kvs_name : List Nat)
    (params : kvs_rparams) : kvs_rparams :=
  { (E.config_deserialize_to_kvs_rparams kvs_name params).2 with
    rdonly := self.ikdb_rp.read_only }

/-- Embedding of `ikvdb_kvs_open(handle, kvs_name, params, flags, kvs_out)`: the
result, the state, what is stored to `*kvs_out` (the slot, named by its index
in the table; `none`: nothing is stored) and the calls. -/
def ikvdb_kvs_open (K : hse_consts) (E : kvs_open_env) (self : ikvdb_impl)
    (kvs_name : List Nat) (params : kvs_rparams) (flags : Nat) :
    merr_t × ikvdb_impl × Option Nat × List call :=
  let cfg := E.config_deserialize_to_kvs_rparams kvs_name params
  if cfg.1 ≠ 0 then (cfg.1, self, none, [call.config_deserialize_to_kvs_rparams kvs_name])
  else
    let params1 := ikvdb_kvs_open_params E self kvs_name params
    let pre : List call :=
      [call.config_deserialize_to_kvs_rparams kvs_name, call.ikvdb_wal_install_callback,
       call.mutex_lock]
    let idx : Int := (get_kvs_index K self.ikdb_kvs_vec kvs_name).1
    if idx < 0 then (merr ENOENT 1556, self, none, pre ++ [call.mutex_unlock])
    else
      match self.ikdb_kvs_vec.getD idx.toNat none with
      | none => (0, self, none, pre ++ [call.fault 1562])
      | some kvs =>
        if kvs.kk_ikvs.isSome then (merr EBUSY 1563, self, none, pre ++ [call.mutex_unlock])
        else
          let kvs2 := ikvdb_kvs_open_vcomp K E kvs params1
          let opened := E.kvs_open kvs2.1 params1 flags
          let kvs3 := { kvs2.1 with kk_ikvs := opened.2 }
          if opened.1 ≠ 0 then
            (opened.1, { self with ikdb_kvs_vec := self.ikdb_kvs_vec.set idx.toNat (some kvs3) },
              none, pre ++ kvs2.2 ++ [call.kvs_open kvs.kk_cnid, call.mutex_unlock])
          else
            let kvs4 := { kvs3 with kk_refcnt := kvs3.kk_refcnt + 1 }
            (opened.1, { self with ikdb_kvs_vec := self.ikdb_kvs_vec.set idx.toNat (some kvs4) },
              some idx.toNat, pre ++ kvs2.2 ++ [call.kvs_open kvs.kk_cnid, call.mutex_unlock])

/-! ## The write path: `ikvdb_kvs_put`, `ikvdb_kvs_del`, `ikvdb_kvs_prefix_delete`, `ikvdb_sync` -/

/-- The mask `KVDB_HEALTH_FLAG_ALL & ~KVDB_HEALTH_FLAG_DELBLKFAIL`. -/
def health_mask_writes (K : hse_consts) : Nat :=
  K.KVDB_HEALTH_FLAG_ALL ^^^ (K.KVDB_HEALTH_FLAG_ALL &&& K.KVDB_HEALTH_FLAG_DELBLKFAIL)

/-- What the collaborators of the write path answer. -/
structure kvs_write_env where
  /-- `kvs_txn_is_enabled(kk->kk_ikvs)` -/
  kvs_txn_is_enabled : Option Nat → Bool
  /-- `kvdb_health_check(&parent->ikdb_health, mask)` -/
  kvdb_health_check : Nat → merr_t
  /-- `vlb_alloc(sz)`: the address of the buffer, `none` for `NULL` -/
  vlb_alloc : Nat → Option Nat
  /-- `kk->kk_vcompress(src, vlen, dst, dstsz, &clen)`: its result and what it
  stores to `clen` (`none`: nothing) -/
  kk_vcompress : vptr → Nat → vptr → Nat → merr_t × Option Nat
  /-- `kvs_put(kk->kk_ikvs, txn, kt, vt, seqnoref)` -/
  kvs_put : Option Nat → Option Nat → kvs_ktuple → kvs_vtuple → Nat → merr_t
  /-- `kvs_del(kk->kk_ikvs, txn, kt, seqnoref)` -/
  kvs_del : Option Nat → Option Nat → kvs_ktuple → Nat → merr_t
  /-- `kvs_prefix_del(kk->kk_ikvs, txn, kt, seqnoref)` -/
  kvs_prefix_del : Option Nat → Option Nat → kvs_ktuple → Nat → merr_t
  /-- `tbkt_request(&self->ikdb_tb, bytes)`: the delay in nanoseconds -/
  tbkt_request : Nat → Nat
  /-- `wal_sync(self->ikdb_wal)` -/
  wal_sync : Nat → merr_t
  /-- `c0sk_sync(self->ikdb_c0sk, flags)` -/
  c0sk_sync : Option Nat → Nat → merr_t

/-- Embedding of `is_write_allowed(kvs, txn)`. -/
def is_write_allowed (E : kvs_write_env) (kvs : Option Nat) (txn : Option Nat) : Bool :=
  let kvs_is_txn : Bool := E.kvs_txn_is_enabled kvs
  let op_is_txn : Bool := txn.isSome
  if (kvs_is_txn ^^ op_is_txn) = true then false else true

/-- Embedding of `is_read_allowed(kvs, txn)`. -/
def is_read_allowed (E : kvs_write_env) (kvs : Option Nat) (txn : Option Nat) : Bool :=
  if (txn.isSome && !E.kvs_txn_is_enabled kvs) = true then false else true

/-- Embedding of `ikvdb_throttle(self, bytes)`: the state (its debug counters)
and the calls. -/
def ikvdb_throttle (E : kvs_write_env) (self : ikvdb_impl) (bytes : Nat) :
    ikvdb_impl × List call :=
  let sleep_ns := E.tbkt_request bytes
  (if self.ikdb_tb_dbg ≠ 0 then
     { self with
       ikdb_tb_dbg_ops := (self.ikdb_tb_dbg_ops + 1) % 2 ^ 64
       ikdb_tb_dbg_bytes := (self.ikdb_tb_dbg_bytes + bytes) % 2 ^ 64
       ikdb_tb_dbg_sleep_ns := (self.ikdb_tb_dbg_sleep_ns + sleep_ns) % 2 ^ 64 }
   else self,
   [call.tbkt_request bytes, call.tbkt_delay sleep_ns])

/-- The part of `ikvdb_kvs_put` from the test of the compression condition to the
call of `kk_vcompress`: the value handed on, `vlen`, `clen`, `vbuf`, `vbufsz` and
the calls. -/
def ikvdb_kvs_put_compress (K : hse_consts) (E : kvs_write_env) (kk : kvdb_kvs) (flags : Nat)
    (vt : kvs_vtuple) : kvs_vtuple × Nat × Nat × vptr × Nat × List call :=
  let vlen := kvs_vtuple_vlen vt
  let clen := kvs_vtuple_clen vt
  let vbufsz := tls_vbufsz
  if (clen = 0 ∧ vlen > kk.kk_vcompmin ∧ flags &&& K.HSE_FLAG_PUT_VALUE_COMPRESSION_OFF = 0) ∨
      flags &&& K.HSE_FLAG_PUT_VALUE_COMPRESSION_ON ≠ 0 then
    let alloc : vptr × Nat × List call :=
      if vlen > kk.kk_vcompbnd then
        match E.vlb_alloc (vlen + K.PAGE_SIZE * 2) with
        | none => (vptr.null, vlen + K.PAGE_SIZE * 2, [call.vlb_alloc (vlen + K.PAGE_SIZE * 2)])
        | some a => (vptr.vlb a, vlen + K.PAGE_SIZE * 2, [call.vlb_alloc (vlen + K.PAGE_SIZE * 2)])
      else (vptr.tls_vbuf, vbufsz, [])
    if alloc.1 ≠ vptr.null then
      let asserted : List call :=
        if kk.kk_vcompress.isSome then [] else [call.assert_fail 1903, call.fault 1904]
      let res := E.kk_vcompress vt.vt_data vlen alloc.1 alloc.2.1
      let clen1 := res.2.getD clen
      let calls := alloc.2.2 ++ asserted ++ [call.kk_vcompress vlen alloc.1 alloc.2.1]
      if res.1 = 0 ∧ clen1 < vlen then
        (kvs_vtuple_cinit alloc.1 vlen clen1, clen1, clen1, alloc.1, alloc.2.1, calls)
      else (vt, vlen, clen1, alloc.1, alloc.2.1, calls)
    else (vt, vlen, clen, alloc.1, alloc.2.1, alloc.2.2)
  else (vt, vlen, clen, vptr.null, vbufsz, [])

/-- Embedding of `ikvdb_kvs_put(handle, flags, txn, kt, vt)`; `handle` is the
slot the handle points to (`none`: a `NULL` handle) and `parent` the database
`kk->kk_parent` points to. The result, the state of the parent and the calls. -/
def ikvdb_kvs_put (K : hse_consts) (E : kvs_write_env) (parent : ikvdb_impl)
    (handle : Option kvdb_kvs) (flags : Nat) (txn : Option Nat) (kt : kvs_ktuple)
    (vt : kvs_vtuple) : merr_t × ikvdb_impl × List call :=
  match handle with
  | none => (merr EINVAL 1860, parent, [])
  | some kk =>
    if !is_write_allowed E kk.kk_ikvs txn then (merr EINVAL 1863, parent, [])
    else if parent.ikdb_rdonly then (merr EROFS 1867, parent, [])
    else
      let err := E.kvdb_health_check (health_mask_writes K)
      if err ≠ 0 then (err, parent, [call.kvdb_health_check (health_mask_writes K)])
      else
        let throttled : Bool :=
          !(decide (flags &&& K.HSE_FLAG_PUT_PRIORITY ≠ 0) || parent.ikdb_rp.throttle_disable)
        let c := ikvdb_kvs_put_compress K E kk flags vt
        let vt1 := c.1
        let vlen := c.2.1
        let clen := c.2.2.1
        let vbuf := c.2.2.2.1
        let vbufsz := c.2.2.2.2.1
        let seqnoref := if txn.isSome then 0 else K.HSE_SQNREF_SINGLE
        let err := E.kvs_put kk.kk_ikvs txn kt vt1 seqnoref
        let freed : List call :=
          match vbuf with
          | vptr.vlb a => [call.vlb_free a (if vbufsz > K.VLB_ALLOCSZ_MAX then vbufsz else clen)]
          | _ => []
        let calls :=
          [call.kvdb_health_check (health_mask_writes K)] ++ c.2.2.2.2.2 ++
            [call.kvs_put txn kt vt1 seqnoref] ++ freed
        if throttled then
          let bytes := (kt.kt_len + (if clen ≠ 0 then clen else vlen)) % 2 ^ 32
          let t := ikvdb_throttle E parent bytes
          (err, t.1, calls ++ t.2)
        else (err, parent, calls)

/-- Embedding of `ikvdb_kvs_del(handle, flags, txn, kt)`: the result and the calls. -/
def ikvdb_kvs_del (K : hse_consts) (E : kvs_write_env) (parent : ikvdb_impl)
    (handle : Option kvdb_kvs) (flags : Nat) (txn : Option Nat) (kt : kvs_ktuple) :
    merr_t × List call :=
  match handle with
  | none => (merr EINVAL 2012, [])
  | some kk =>
    if !is_write_allowed E kk.kk_ikvs txn then (merr EINVAL 2015, [])
    else if parent.ikdb_rdonly then (merr EROFS 2019, [])
    else
      let err := E.kvdb_health_check (health_mask_writes K)
      if err ≠ 0 then (err, [call.kvdb_health_check (health_mask_writes K)])
      else
        let seqnoref := if txn.isSome then 0 else K.HSE_SQNREF_SINGLE
        (E.kvs_del kk.kk_ikvs txn kt seqnoref,
          [call.kvdb_health_check (health_mask_writes K), call.kvs_del txn kt seqnoref])

/-- Embedding of `ikvdb_kvs_prefix_delete(handle, flags, txn, kt, kvs_pfx_len)`:
the result, what is stored to `*kvs_pfx_len` (`none`: nothing; `want_pfx_len`
says that the pointer is not `NULL`) and the calls. -/
def ikvdb_kvs_prefix_delete (K : hse_consts) (E : kvs_write_env) (parent : ikvdb_impl)
    (handle : Option kvdb_kvs) (flags : Nat) (txn : Option Nat) (kt : kvs_ktuple)
    (want_pfx_len : Bool) : merr_t × Option Nat × List call :=
  match handle with
  | none => (merr EINVAL 2046, none, [])
  | some kk =>
    if !is_write_allowed E kk.kk_ikvs txn then (merr EINVAL 2049, none, [])
    else if parent.ikdb_rdonly then (merr EROFS 2053, none, [])
    else
      match kk.kk_cparams with
      | none => (0, none, [call.fault 2055])
      | some cparams =>
        let ct_pfx_len := cparams.pfx_len
        let out : Option Nat := if want_pfx_len then some ct_pfx_len else none
        if kt.kt_data.isNone ∨ kt.kt_len ≠ ct_pfx_len then (merr EINVAL 2060, out, [])
        else if kt.kt_len = 0 then (merr ENOENT 2062, out, [])
        else
          let seqnoref := if txn.isSome then 0 else K.HSE_SQNREF_SINGLE
          (E.kvs_prefix_del kk.kk_ikvs txn kt seqnoref, out, [call.kvs_prefix_del txn kt seqnoref])

/-- Embedding of `ikvdb_sync(handle, flags)`: the result and the calls. -/
def ikvdb_sync (E : kvs_write_env) (self : ikvdb_impl) (flags : Nat) : merr_t × List call :=
  if self.ikdb_rdonly then (merr EROFS 2487, [])
  else
    match self.ikdb_wal with
    | some wal => (E.wal_sync wal, [call.wal_sync])
    | none => (E.c0sk_sync self.ikdb_c0sk flags, [call.c0sk_sync flags])

/-! ## `ikvdb_kvs_close` -/

/-- What the collaborators of `ikvdb_kvs_close` answer. -/
structure kvs_close_env where
  /-- `kvs_close(ikvs)` -/
  kvs_close : Nat → merr_t
  /-- The value of `kk_refcnt` when the `usleep(333)` of iteration `i` of the
  wait loop is over, given its value before: what the other holders of
  references did meanwhile. -/
  refcnt_after_usleep : Nat → Int → Int

/-- The loop `while (atomic_cmpxchg(&kk->kk_refcnt, 1, 0) > 1) usleep(333);`
with `fuel` iterations left, at iteration `i`, the reference count being
`refcnt`: the reference count it leaves and its calls; `none` when it is still
waiting after `fuel` iterations. -/
def ikvdb_kvs_close_wait (E : kvs_close_env) : Nat → Nat → Int → Option (Int × List call)
  | 0, _, _ => none
  | fuel + 1, i, refcnt =>
    if refcnt = 1 then some (0, [])
    else if refcnt > 1 then
      match ikvdb_kvs_close_wait E fuel (i + 1) (E.refcnt_after_usleep i refcnt) with
      | none => none
      | some r => some (r.1, call.usleep 333 :: r.2)
    else some (refcnt, [])

/-- Embedding of `ikvdb_kvs_close(handle)`; `handle` is the slot, named by its
index in the table of `parent`, the database `kk->kk_parent` points to, and
`fuel` bounds the iterations of the wait loop. The result, the state and the
calls; `none` when the wait loop does not end within `fuel` iterations. -/
def ikvdb_kvs_close (E : kvs_close_env) (fuel : Nat) (parent : ikvdb_impl) (handle : Nat) :
    Option (merr_t × ikvdb_impl × List call) :=
  match parent.ikdb_kvs_vec.getD handle none with
  | none => some (0, parent, [call.fault 1620])
  | some kk =>
    match kk.kk_ikvs with
    | none => some (merr EBADF 1633, parent, [call.mutex_lock, call.mutex_unlock])
    | some ikvs =>
      let kk1 := { kk with kk_vcompmin := UINT_MAX, kk_ikvs := none }
      match ikvdb_kvs_close_wait E fuel 0 kk1.kk_refcnt with
      | none => none
      | some w =>
        let kk2 := { kk1 with kk_refcnt := w.1 }
        some (E.kvs_close ikvs,
          { parent with ikdb_kvs_vec := parent.ikdb_kvs_vec.set handle (some kk2) },
          [call.mutex_lock, call.mutex_unlock] ++ w.2 ++ [call.kvs_close ikvs])

/-! ## The read path: `ikvdb_kvs_get`, `ikvdb_kvs_pfx_probe` -/

/-- What the collaborators of the read path answer. The lookups hand their
findings back through their out parameters, which the embedding leaves out. -/
structure kvs_read_env where
  /-- `kvs_get(kk->kk_ikvs, txn, kt, view_seqno, res, vbuf)` -/
  kvs_get : Option Nat → Option Nat → kvs_ktuple → Nat → merr_t
  /-- `kvs_pfx_probe(kk->kk_ikvs, txn, kt, view_seqno, res, kbuf, vbuf)` -/
  kvs_pfx_probe : Option Nat → Option Nat → kvs_ktuple → Nat → merr_t
  /-- `kvdb_ctxn_set_wait_commits(ctxn_set)`: the value of the sequence clock
  when the wait is over, given its value before -/
  kvdb_ctxn_set_wait_commits : Nat → Nat

/-- Embedding of `ikvdb_kvs_get(handle, flags, txn, kt, res, vbuf)`; `W` answers
`kvs_txn_is_enabled`. The result, the state of the database `kk->kk_parent`
points to (its sequence clock after the wait) and the calls. -/
def ikvdb_kvs_get (W : kvs_write_env) (E : kvs_read_env) (p : ikvdb_impl)
    (handle : Option kvdb_kvs) (flags : Nat) (txn : Option Nat) (kt : kvs_ktuple) :
    merr_t × ikvdb_impl × List call :=
  match handle with
  | none => (merr EINVAL 1977, p, [])
  | some kk =>
    if !is_read_allowed W kk.kk_ikvs txn then (merr EINVAL 1980, p, [])
    else if txn.isSome then
      let view_seqno := 0
      (E.kvs_get kk.kk_ikvs txn kt view_seqno, p, [call.kvs_get txn kt view_seqno])
    else
      let view_seqno := p.ikdb_seqno
      (E.kvs_get kk.kk_ikvs txn kt view_seqno,
        { p with ikdb_seqno := E.kvdb_ctxn_set_wait_commits p.ikdb_seqno },
        [call.kvdb_ctxn_set_wait_commits, call.kvs_get txn kt view_seqno])

/-- Embedding of `ikvdb_kvs_pfx_probe(handle, flags, txn, kt, res, kbuf, vbuf)`. -/
def ikvdb_kvs_pfx_probe (W : kvs_write_env) (E : kvs_read_env) (p : ikvdb_impl)
    (handle : Option kvdb_kvs) (flags : Nat) (txn : Option Nat) (kt : kvs_ktuple) :
    merr_t × ikvdb_impl × List call :=
  match handle with
  | none => (merr EINVAL 1941, p, [])
  | some kk =>
    if !is_read_allowed W kk.kk_ikvs txn then (merr EINVAL 1944, p, [])
    else if txn.isSome then
      let view_seqno := 0
      (E.kvs_pfx_probe kk.kk_ikvs txn kt view_seqno, p, [call.kvs_pfx_probe txn kt view_seqno])
    else
      let view_seqno := p.ikdb_seqno
      (E.kvs_pfx_probe kk.kk_ikvs txn kt view_seqno,
        { p with ikdb_seqno := E.kvdb_ctxn_set_wait_commits p.ikdb_seqno },
        [call.kvdb_ctxn_set_wait_commits, call.kvs_pfx_probe txn kt view_seqno])

/-! ## `ikvdb_horizon`, `ikvdb_txn_horizon` -/

/-- The largest `u64`. -/
def U64_MAX : Nat := 2 ^ 64 - 1

/-- What the collaborators of `ikvdb_horizon` answer. -/
structure horizon_env where
  /-- `viewset_horizon(viewset)`, a `u64` -/
  viewset_horizon : Option Nat → Nat
  /-- `perfc_ison(&kvdb_metrics_pc, PERFC_BA_KVDBMETRICS_SEQNO)` -/
  perfc_ison : Bool

/-- Embedding of `ikvdb_horizon(handle)`: the horizon and the calls. -/
def ikvdb_horizon (E : horizon_env) (self : ikvdb_impl) : Nat × List call :=
  let b := E.viewset_horizon self.ikdb_cur_viewset % 2 ^ 64
  let c := E.viewset_horizon self.ikdb_txn_viewset % 2 ^ 64
  let horizon := min b c
  if E.perfc_ison then
    let a := self.ikdb_seqno % 2 ^ 64
    (horizon,
      (if b = U64_MAX ∨ a ≥ b then [] else [call.assert_fail 2514]) ++
        (if a ≥ c then [] else [call.assert_fail 2515]) ++
        [call.perfc (perfc_call.perfc_set 2517 a), call.perfc (perfc_call.perfc_set 2518 b),
         call.perfc (perfc_call.perfc_set 2519 horizon)])
  else (horizon, [])

/-- Embedding of `ikvdb_txn_horizon(handle)`. -/
def ikvdb_txn_horizon (E : horizon_env) (self : ikvdb_impl) : Nat :=
  E.viewset_horizon self.ikdb_txn_viewset % 2 ^ 64

/-! ## Cursors -/

/-- Value of `ENOTRECOVERABLE` in `<errno.h>` on Linux. -/
def ENOTRECOVERABLE : Nat := 131

/-- The cursor, `struct hse_kvs_cursor`, with the fields `ikvdb.c` works with
(`kc_pkvsl_pc`, which only names the performance counters, is left out).
`kc_kvs` is the slot the cursor points to, `kc_ctxn` and `kc_bind` are
addresses, `kc_viewcookie` is the cookie of `viewset_insert`. -/
structure hse_kvs_cursor where
  kc_kvs : Option kvdb_kvs
  kc_seq : Nat
  kc_flags : Nat
  kc_gen : Int
  kc_ctxn : Option Nat
  kc_bind : Option Nat
  kc_err : merr_t
  kc_on_list : Bool
  kc_viewcookie : Option Nat
  kc_create_time : Nat
deriving DecidableEq, Repr

/-- What the collaborators of the cursor functions answer. -/
structure cursor_env where
  /-- `perfc_lat_start(pkvsl_pc)` at the given line: the time stamp -/
  perfc_lat_start : Nat → Nat
  /-- `kvdb_ctxn_get_view_seqno(ctxn, &vseq)`: its result and the view it stores -/
  kvdb_ctxn_get_view_seqno : Nat → merr_t × Nat
  /-- `kvs_cursor_alloc(kk->kk_ikvs, prefix, pfx_len, reverse)`: the cursor as it is
  allocated, `none` for `NULL` -/
  kvs_cursor_alloc : Option Nat → Option Nat → Nat → Nat → Option hse_kvs_cursor
  /-- `kvdb_ctxn_cursor_bind(ctxn)` -/
  kvdb_ctxn_cursor_bind : Nat → Option Nat
  /-- `viewset_insert(viewset, &kc_seq, &kc_viewcookie)`: its result and what it
  stores to the view and to the cookie (`none`: nothing) -/
  viewset_insert : merr_t × Option (Nat × Option Nat)
  /-- `kvs_cursor_init(cur, ctxn)` -/
  kvs_cursor_init : Option Nat → merr_t
  /-- `kvs_cursor_prepare(cur)` -/
  kvs_cursor_prepare : merr_t
  /-- `kvs_cursor_update(cur, ctxn, seqno)`; the first argument counts the calls
  of it the running function has made before -/
  kvs_cursor_update : Nat → Option Nat → Nat → merr_t
  /-- `kvs_cursor_seek(cur, key, len, limit, limit_len, kt)` -/
  kvs_cursor_seek : Option Nat → Nat → Option Nat → Nat → merr_t
  /-- `kvs_cursor_read(cur, &kvt, eof)`: its result, what it stores to `*eof`, and
  the key and the value it hands back -/
  kvs_cursor_read : merr_t × Bool × kvs_ktuple × kvs_vtuple
  /-- the field `b_ctxn` of the `struct kvdb_ctxn_bind` at the given address, as
  the function reads it -/
  bind_b_ctxn : Nat → Option Nat
  /-- `atomic64_read(&bind->b_gen)` -/
  bind_b_gen : Nat → Int

/-- Embedding of `cursor_view_release(cursor)`: the cursor and the calls. -/
def cursor_view_release (cursor : hse_kvs_cursor) : hse_kvs_cursor × List call :=
  if !cursor.kc_on_list then (cursor, [])
  else ({ cursor with kc_on_list := false }, [call.cursor (cursor_call.viewset_remove cursor.kc_viewcookie)])

/-- Embedding of `cursor_view_acquire(cursor)`: the result, the cursor and the
calls. -/
def cursor_view_acquire (K : hse_consts) (E : cursor_env) (cursor : hse_kvs_cursor) :
    merr_t × hse_kvs_cursor × List call :=
  if cursor.kc_seq ≠ K.HSE_SQNREF_UNDEFINED then (0, cursor, [])
  else
    let cur1 :=
      match E.viewset_insert.2 with
      | none => cursor
      | some w => { cursor with kc_seq := w.1, kc_viewcookie := w.2 }
    (E.viewset_insert.1,
      if E.viewset_insert.1 = 0 then { cur1 with kc_on_list := true } else cur1,
      [call.cursor cursor_call.viewset_insert])

/-- Embedding of `cursor_unbind_txn(cur)`, which always returns 0: the cursor
and the calls. -/
def cursor_unbind_txn (cur : hse_kvs_cursor) : hse_kvs_cursor × List call :=
  match cur.kc_bind with
  | some bind => ({ cur with kc_gen := -1, kc_bind := none }, [call.cursor (cursor_call.kvdb_ctxn_cursor_unbind bind)])
  | none => (cur, [])

/-- Embedding of `ikvdb_kvs_cursor_destroy(cur)` (`none`: a `NULL` cursor), which
always returns 0 and frees the cursor: its calls. -/
def ikvdb_kvs_cursor_destroy (cur : Option hse_kvs_cursor) : List call :=
  match cur with
  | none => []
  | some c =>
    [call.perfc (perfc_call.perfc_lat_start 2444)] ++ (cursor_unbind_txn c).2 ++
      [call.perfc (perfc_call.perfc_dec 2449), call.cursor cursor_call.kvs_cursor_free,
       call.perfc (perfc_call.perfc_lat_record 2453),
       call.perfc (perfc_call.perfc_lat_record 2454)]

/-- Embedding of `ikvdb_kvs_cursor_create(handle, flags, txn, prefix, pfx_len,
cursorp)` with a non-`NULL` handle: `kk` is the slot the handle points to and
`ikvdb` the database `kk->kk_parent` points to; `W` answers
`kvs_txn_is_enabled`; a transaction and its `kvdb_ctxn` have one address. The
result, what `*cursorp` holds at the end (`none`: `NULL`) and the calls. -/
def ikvdb_kvs_cursor_create (K : hse_consts) (W : kvs_write_env) (E : cursor_env)
    (ikvdb : ikvdb_impl) (kk : kvdb_kvs) (flags : Nat) (txn : Option Nat) (pfx : Option Nat)
    (pfx_len : Nat) : merr_t × Option hse_kvs_cursor × List call :=
  if !is_read_allowed W kk.kk_ikvs txn then (merr EINVAL 2185, none, [])
  else if (ikvdb.ikdb_curcnt % 2 ^ 32).toNat > ikvdb.ikdb_curcnt_max then
    (merr ECANCELED 2188, none, [])
  else
    let tstart := E.perfc_lat_start 2191
    let view : merr_t × Nat × List call :=
      match txn with
      | none => (0, K.HSE_SQNREF_UNDEFINED, [])
      | some ctxn =>
        ((E.kvdb_ctxn_get_view_seqno ctxn).1, (E.kvdb_ctxn_get_view_seqno ctxn).2,
          [call.cursor (cursor_call.kvdb_ctxn_get_view_seqno ctxn)])
    let c1 : List call := [call.perfc (perfc_call.perfc_lat_start 2191)] ++ view.2.2
    if view.1 ≠ 0 then (view.1, none, c1)
    else
      let c2 : List call := c1 ++ [call.cursor (cursor_call.kvs_cursor_alloc (flags &&& K.HSE_FLAG_CURSOR_REVERSE))]
      match E.kvs_cursor_alloc kk.kk_ikvs pfx pfx_len (flags &&& K.HSE_FLAG_CURSOR_REVERSE) with
      | none => (merr ENOMEM 2215, none, c2)
      | some cur0 =>
        let bind : Option Nat × List call :=
          match txn with
          | none => (none, [])
          | some ctxn => (E.kvdb_ctxn_cursor_bind ctxn, [call.cursor (cursor_call.kvdb_ctxn_cursor_bind ctxn)])
        let cur1 : hse_kvs_cursor :=
          { cur0 with
            kc_seq := view.2.1, kc_flags := flags, kc_kvs := some kk, kc_gen := 0,
            kc_ctxn := txn, kc_bind := bind.1 }
        let acq := cursor_view_acquire K E cur1
        let c3 : List call := c2 ++ bind.2 ++ acq.2.2
        if acq.1 ≠ 0 then (acq.1, none, c3 ++ ikvdb_kvs_cursor_destroy (some acq.2.1))
        else
          let c4 : List call :=
            c3 ++ [call.perfc (perfc_call.perfc_lat_start 2233),
                   call.cursor (cursor_call.kvs_cursor_init txn),
                   call.perfc (perfc_call.perfc_lat_record 2235)]
          if E.kvs_cursor_init txn ≠ 0 then
            (E.kvs_cursor_init txn, none, c4 ++ ikvdb_kvs_cursor_destroy (some acq.2.1))
          else
            let rel := cursor_view_release acq.2.1
            let c5 : List call :=
              c4 ++ rel.2 ++ (if txn.isNone then [call.kvdb_ctxn_set_wait_commits] else []) ++
                [call.cursor cursor_call.kvs_cursor_prepare]
            if E.kvs_cursor_prepare ≠ 0 then
              (E.kvs_cursor_prepare, none, c5 ++ ikvdb_kvs_cursor_destroy (some rel.1))
            else
              (E.kvs_cursor_prepare, some { rel.1 with kc_create_time := tstart },
                c5 ++ [call.perfc (perfc_call.perfc_inc 2252),
                       call.perfc (perfc_call.perfc_lat_record 2255)])

/-- Embedding of `ikvdb_kvs_cursor_update_view(cur, flags)`: the result, the
cursor and the calls. -/
def ikvdb_kvs_cursor_update_view (K : hse_consts) (E : cursor_env) (cur : hse_kvs_cursor)
    (flags : Nat) : merr_t × hse_kvs_cursor × List call :=
  if cur.kc_err ≠ 0 then (cur.kc_err, cur, [call.perfc (perfc_call.perfc_lat_start 2272)])
  else if cur.kc_ctxn.isSome then (merr EINVAL 2279, cur, [call.perfc (perfc_call.perfc_lat_start 2272)])
  else
    let acq := cursor_view_acquire K E { cur with kc_seq := K.HSE_SQNREF_UNDEFINED }
    let c1 : List call := [call.perfc (perfc_call.perfc_lat_start 2272)] ++ acq.2.2
    if acq.1 ≠ 0 then (acq.1, acq.2.1, c1)
    else
      let err := E.kvs_cursor_update 0 none acq.2.1.kc_seq
      let c2 : List call := c1 ++ [call.cursor (cursor_call.kvs_cursor_update none acq.2.1.kc_seq)]
      let done : hse_kvs_cursor × List call :=
        if err ≠ 0 then ({ acq.2.1 with kc_err := err }, c2)
        else
          let rel := cursor_view_release { acq.2.1 with kc_err := err }
          ({ rel.1 with kc_flags := flags },
            c2 ++ rel.2 ++ [call.kvdb_ctxn_set_wait_commits,
                            call.perfc (perfc_call.perfc_lat_record 2303)])
      let cur3 : hse_kvs_cursor :=
        if merr_errno done.1.kc_err = EAGAIN then
          { done.1 with kc_err := merr ENOTRECOVERABLE 2311 }
        else done.1
      (cur3.kc_err, cur3, done.2)

/-- The expression `cur->kc_bind ? cur->kc_bind->b_ctxn : 0`. -/
def cursor_bind_ctxn (E : cursor_env) (cur : hse_kvs_cursor) : Option Nat :=
  match cur.kc_bind with
  | some bind => E.bind_b_ctxn bind
  | none => none

/-- Embedding of `cursor_refresh(cur)`; `n` counts the calls of
`kvs_cursor_update` the caller has made before. The result, the cursor and the
calls. -/
def cursor_refresh (E : cursor_env) (n : Nat) (cur : hse_kvs_cursor) :
    merr_t × hse_kvs_cursor × List call :=
  match cur.kc_bind with
  | none => (0, cur, [call.fault 2323])
  | some bind =>
    if (E.bind_b_ctxn bind).isNone then
      let u := cursor_unbind_txn cur
      (E.kvs_cursor_update n (cursor_bind_ctxn E u.1) u.1.kc_seq, u.1,
        u.2 ++ [call.cursor (cursor_call.kvs_cursor_update (cursor_bind_ctxn E u.1) u.1.kc_seq)])
    else if E.bind_b_gen bind ≠ cur.kc_gen then
      (E.kvs_cursor_update n (cursor_bind_ctxn E cur) cur.kc_seq, cur,
        [call.cursor (cursor_call.kvs_cursor_update (cursor_bind_ctxn E cur) cur.kc_seq)])
    else (0, cur, [])

/-- The statements `ikvdb_kvs_cursor_seek` (lines 2359 to 2372) and
`ikvdb_kvs_cursor_read` (lines 2398 to 2411) share: the retry of a latched
`EAGAIN` and the refresh of a bound cursor. The error to return at once
(`none`: go on), the cursor and the calls. -/
def ikvdb_kvs_cursor_ready (E : cursor_env) (cur : hse_kvs_cursor) :
    Option merr_t × hse_kvs_cursor × List call :=
  let retried : Option merr_t × hse_kvs_cursor × List call × Nat :=
    if cur.kc_err ≠ 0 then
      if merr_errno cur.kc_err ≠ EAGAIN then (some cur.kc_err, cur, [], 0)
      else
        let err := E.kvs_cursor_update 0 (cursor_bind_ctxn E cur) cur.kc_seq
        (if err ≠ 0 then some err else none, { cur with kc_err := err },
          [call.cursor (cursor_call.kvs_cursor_update (cursor_bind_ctxn E cur) cur.kc_seq)], 1)
    else (none, cur, [], 0)
  match retried.1 with
  | some err => (some err, retried.2.1, retried.2.2.1)
  | none =>
    if retried.2.1.kc_bind.isSome then
      let r := cursor_refresh E retried.2.2.2 retried.2.1
      (if r.1 ≠ 0 then some r.1 else none, { r.2.1 with kc_err := r.1 },
        retried.2.2.1 ++ r.2.2)
    else (none, retried.2.1, retried.2.2.1)

/-- Embedding of `ikvdb_kvs_cursor_seek(cur, flags, key, len, limit, limit_len,
kt)`: the result, the cursor and the calls. -/
def ikvdb_kvs_cursor_seek (K : hse_consts) (E : cursor_env) (cur : hse_kvs_cursor)
    (flags : Nat) (key : Option Nat) (len : Nat) (limit : Option Nat) (limit_len : Nat) :
    merr_t × hse_kvs_cursor × List call :=
  if limit.isSome ∧ cur.kc_flags &&& K.HSE_FLAG_CURSOR_REVERSE ≠ 0 then
    (merr EINVAL 2357, cur, [call.perfc (perfc_call.perfc_lat_start 2354)])
  else
    let r := ikvdb_kvs_cursor_ready E cur
    match r.1 with
    | some err => (err, r.2.1, [call.perfc (perfc_call.perfc_lat_start 2354)] ++ r.2.2)
    | none =>
      (E.kvs_cursor_seek key (len % 2 ^ 32) limit (limit_len % 2 ^ 32), r.2.1,
        [call.perfc (perfc_call.perfc_lat_start 2354)] ++ r.2.2 ++
          [call.cursor (cursor_call.kvs_cursor_seek limit),
           call.perfc (perfc_call.perfc_lat_record 2377)])

/-- Embedding of `ikvdb_kvs_cursor_read(cur, flags, key, key_len, val, val_len,
eof)`: the result, the cursor, what is stored to `*eof` and to the four other
out parameters (`none`: nothing) and the calls. -/
def ikvdb_kvs_cursor_read (E : cursor_env) (cur : hse_kvs_cursor) (flags : Nat) :
    merr_t × hse_kvs_cursor × Option Bool × Option (Option Nat × Nat × vptr × Nat) × List call :=
  let r := ikvdb_kvs_cursor_ready E cur
  match r.1 with
  | some err => (err, r.2.1, none, none, [call.perfc (perfc_call.perfc_lat_start 2396)] ++ r.2.2)
  | none =>
    let rd := E.kvs_cursor_read
    let calls := [call.perfc (perfc_call.perfc_lat_start 2396)] ++ r.2.2 ++ [call.cursor cursor_call.kvs_cursor_read]
    if rd.1 ≠ 0 then (rd.1, r.2.1, some rd.2.1, none, calls)
    else if rd.2.1 then (0, r.2.1, some rd.2.1, none, calls)
    else
      (0, r.2.1, some rd.2.1,
        some (rd.2.2.1.kt_data, rd.2.2.1.kt_len, rd.2.2.2.vt_data, kvs_vtuple_vlen rd.2.2.2),
        calls ++ [call.perfc (perfc_call.perfc_lat_record 2425)])

/-! ## Transactions: `ikvdb_txn_alloc`, `ikvdb_txn_free`, commit and abort -/

/-- Modelled from the spec: `enum kvdb_ctxn_state` of `kvdb_ctxn.h` (absent from
the sources); the spec gives the states `{INVALID, ACTIVE, COMMITTED, ABORTED}`. -/
inductive kvdb_ctxn_state where
  | KVDB_CTXN_INVALID
  | KVDB_CTXN_ACTIVE
  | KVDB_CTXN_COMMITTED
  | KVDB_CTXN_ABORTED
deriving DecidableEq, Repr

/-- A bucket of the transaction cache, `struct kvdb_ctxn_bkt`: `kcb_ctxnv` is
the array of pointers to transactions (`none`: `NULL`), `kcb_ctxnc` the number
of them in use. -/
structure kvdb_ctxn_bkt where
  kcb_ctxnc : Nat
  kcb_ctxnv : List (Option Nat)
deriving DecidableEq, Repr

/-- `NELEM(bkt->kcb_ctxnv)`: the array is declared with 15 elements (line 106). -/
def kcb_ctxnv_nelem : Nat := 15

/-- What the collaborators of the transaction functions answer. -/
structure txn_env where
  /-- `kvdb_ctxn_alloc(...)` of the call of `ikvdb_txn_alloc` with the given
  number: the address of the new transaction, `none` for `NULL` -/
  kvdb_ctxn_alloc : Nat → Option Nat
  /-- `kvdb_ctxn_commit(ctxn)` -/
  kvdb_ctxn_commit : Nat → merr_t
  /-- `kvdb_ctxn_get_state(ctxn)` -/
  kvdb_ctxn_get_state : Nat → kvdb_ctxn_state

/-- Embedding of `ikvdb_txn_alloc(handle)`; `bkt` is the bucket
`ikvdb_txn_tid2bkt` picks for the calling thread and `n` the number of calls of
`ikvdb_txn_alloc` made before. The transaction returned (`none`: `NULL`), the
bucket and the calls. -/
def ikvdb_txn_alloc (E : txn_env) (n : Nat) (bkt : kvdb_ctxn_bkt) :
    Option Nat × kvdb_ctxn_bkt × List call :=
  let popped : Option Nat × kvdb_ctxn_bkt × List call :=
    if bkt.kcb_ctxnc > 0 then
      (bkt.kcb_ctxnv.getD (bkt.kcb_ctxnc - 1) none, { bkt with kcb_ctxnc := bkt.kcb_ctxnc - 1 },
        if bkt.kcb_ctxnc - 1 < kcb_ctxnv_nelem then [] else [call.fault 2551])
    else (none, bkt, [])
  let locked : List call := [call.txn txn_call.spin_lock] ++ popped.2.2 ++ [call.txn txn_call.spin_unlock]
  match popped.1 with
  | some ctxn => (some ctxn, popped.2.1, locked ++ [call.txn (txn_call.kvdb_ctxn_reset ctxn)])
  | none =>
    match E.kvdb_ctxn_alloc n with
    | none => (none, popped.2.1, locked ++ [call.txn (txn_call.kvdb_ctxn_alloc none)])
    | some ctxn =>
      (some ctxn, popped.2.1, locked ++ [call.txn (txn_call.kvdb_ctxn_alloc (some ctxn)),
                                         call.perfc (perfc_call.perfc_inc 2570)])

/-- Embedding of `ikvdb_txn_free(handle, txn)` on the bucket of the calling
thread: the bucket and the calls. -/
def ikvdb_txn_free (bkt : kvdb_ctxn_bkt) (txn : Option Nat) : kvdb_ctxn_bkt × List call :=
  match txn with
  | none => (bkt, [])
  | some ctxn =>
    if bkt.kcb_ctxnc < kcb_ctxnv_nelem then
      ({ kcb_ctxnc := bkt.kcb_ctxnc + 1,
         kcb_ctxnv := bkt.kcb_ctxnv.set bkt.kcb_ctxnc (some ctxn) },
        [call.txn (txn_call.kvdb_ctxn_abort ctxn), call.txn txn_call.spin_lock,
         call.txn txn_call.spin_unlock])
    else
      (bkt,
        [call.txn (txn_call.kvdb_ctxn_abort ctxn), call.txn txn_call.spin_lock,
         call.txn txn_call.spin_unlock, call.perfc (perfc_call.perfc_inc 2596),
         call.txn (txn_call.kvdb_ctxn_free ctxn)])

/-- Embedding of `ikvdb_txn_commit(handle, txn)`: the result and the calls. -/
def ikvdb_txn_commit (E : txn_env) (txn : Nat) : merr_t × List call :=
  (E.kvdb_ctxn_commit txn,
    [call.txn (txn_call.perfc_lat_startu 2627), call.perfc (perfc_call.perfc_inc 2628),
     call.txn (txn_call.kvdb_ctxn_commit txn),
     call.perfc (perfc_call.perfc_dec 2632), call.perfc (perfc_call.perfc_lat_record 2633)])

/-- Embedding of `ikvdb_txn_abort(handle, txn)`: the result and the calls. -/
def ikvdb_txn_abort (txn : Nat) : merr_t × List call :=
  (0, [call.perfc (perfc_call.perfc_inc 2644), call.txn (txn_call.kvdb_ctxn_abort txn),
       call.perfc (perfc_call.perfc_dec 2648)])

/-- Embedding of `ikvdb_txn_state(handle, txn)`. -/
def ikvdb_txn_state (E : txn_env) (txn : Nat) : kvdb_ctxn_state :=
  E.kvdb_ctxn_get_state txn

/-! ## `ikvdb_close`, `ikvdb_diag_close` -/

/-- What the collaborators of `ikvdb_close` answer. -/
structure kvdb_close_env where
  /-- `kvs_close(kvs->kk_ikvs)` -/
  kvs_close : Nat → merr_t
  /-- `c0sk_close(self->ikdb_c0sk)` -/
  c0sk_close : Nat → merr_t
  /-- `cndb_close(self->ikdb_cndb)` -/
  cndb_close : merr_t
  /-- `kvdb_log_close(self->ikdb_log)` -/
  kvdb_log_close : merr_t

/-- The statement `if (ev(err)) ret = ret ?: err;`: the new value of `ret`. -/
def ret_first_error (ret err : merr_t) : merr_t :=
  if err ≠ 0 then (if ret ≠ 0 then ret else err) else ret

/-- The `for` loop of `ikvdb_close` over the slots, with `n` iterations left at
index `i`: the value of `ret`, the table and the calls. -/
def ikvdb_close_loop (E : kvdb_close_env) :
    Nat → Nat → List (Option kvdb_kvs) → merr_t → merr_t × List (Option kvdb_kvs) × List call
  | 0, _, vec, ret => (ret, vec, [])
  | n + 1, i, vec, ret =>
    match vec.getD i none with
    | none => ikvdb_close_loop E n (i + 1) vec ret
    | some kvs =>
      let kvs1 := if kvs.kk_ikvs.isSome then { kvs with kk_refcnt := kvs.kk_refcnt - 1 } else kvs
      let asserted : List call := if kvs1.kk_refcnt = 0 then [] else [call.assert_fail 1746]
      let closed : merr_t × List call :=
        match kvs1.kk_ikvs with
        | some ikvs => (ret_first_error ret (E.kvs_close ikvs), [call.kvs_close ikvs])
        | none => (ret, [])
      let r := ikvdb_close_loop E n (i + 1) (vec.set i none) closed.1
      (r.1, r.2.1,
        [call.kvs_rest_deregister kvs1.kk_name] ++ asserted ++ closed.2 ++
          kvdb_kvs_destroy kvs1 ++ r.2.2)

/-- Embedding of `ikvdb_close(handle)`: the result, the state as it is when
`free(self)` is reached, and the calls. The stores to `ikdb_work_stop` and
`ikdb_lc`, which the state does not carry, are left out; `ikvdb_txn_fini` and
`ikvdb_perfc_free` are recorded as one event each. -/
def ikvdb_close (K : hse_consts) (E : kvdb_close_env) (self : ikvdb_impl) :
    merr_t × ikvdb_impl × List call :=
  let pre : List call :=
    (if !self.ikdb_rdonly then [call.close close_call.destroy_workqueue] else []) ++
      [call.close close_call.kvdb_rest_deregister, call.mutex_lock]
  let l := ikvdb_close_loop E K.HSE_KVS_COUNT_MAX 0 self.ikdb_kvs_vec 0
  let c0 : merr_t × List call :=
    match self.ikdb_c0sk with
    | some c0sk => (ret_first_error l.1 (E.c0sk_close c0sk), [call.close (close_call.c0sk_close c0sk)])
    | none => (l.1, [])
  let ret1 := ret_first_error c0.1 E.cndb_close
  let ret2 := ret_first_error ret1 E.kvdb_log_close
  (ret2, { self with ikdb_kvs_vec := l.2.1 },
    pre ++ l.2.2 ++ c0.2 ++
      [call.close close_call.lc_destroy, call.close close_call.cn_kvdb_destroy,
       call.close close_call.cndb_close, call.close close_call.kvdb_log_close,
       call.close (close_call.wal_close self.ikdb_wal), call.mutex_unlock,
       call.close close_call.ikvdb_txn_fini,
       call.close close_call.kvdb_ctxn_set_destroy,
       call.close close_call.c0snr_set_destroy,
       call.close close_call.kvdb_keylock_destroy,
       call.close (close_call.viewset_destroy self.ikdb_cur_viewset),
       call.close (close_call.viewset_destroy self.ikdb_txn_viewset),
       call.close close_call.csched_destroy, call.close close_call.mutex_destroy,
       call.close close_call.throttle_fini, call.close close_call.ikvdb_perfc_free,
       call.free])

/-- Embedding of `ikvdb_diag_close(handle)`: the result and the calls. -/
def ikvdb_diag_close (E : kvdb_close_env) (self : ikvdb_impl) : merr_t × List call :=
  let ret1 := ret_first_error 0 E.cndb_close
  let ret2 := ret_first_error ret1 E.kvdb_log_close
  (ret2,
    [call.mutex_lock, call.close close_call.cndb_close, call.close close_call.kvdb_log_close,
     call.mutex_unlock,
     call.close close_call.ikvdb_txn_fini,
     call.close (close_call.viewset_destroy self.ikdb_cur_viewset),
     call.close (close_call.viewset_destroy self.ikdb_txn_viewset),
     call.close close_call.kvdb_keylock_destroy,
     call.close close_call.mutex_destroy, call.free])

/-! ## The global parameter `logging.destination` and its unit test -/

/-- Modelled from the spec: the destinations of the log, `enum log_destination`
of the logging header (absent from the sources), under the names the test
`hse_gparams_test.c` uses. -/
inductive log_destination where
  | LD_STDOUT
  | LD_STDERR
  | LD_FILE
  | LD_SYSLOG
deriving DecidableEq, Repr

/-- Modelled from the spec: the global parameters, `struct hse_gparams` of
`hse_gparams.h` (absent from the sources), with the field
`gp_logging.destination`. -/
structure hse_gparams where
  gp_logging_destination : log_destination
deriving DecidableEq, Repr

/-- Modelled from the spec: `hse_gparams_defaults()` (absent from the sources);
the destination before any argument is applied is syslog. -/
def hse_gparams_defaults : hse_gparams :=
  { gp_logging_destination := log_destination.LD_SYSLOG }

/-- The string `logging.destination=`. -/
def str_logging_destination : List Nat :=
  [108, 111, 103, 103, 105, 110, 103, 46, 100, 101, 115, 116, 105, 110, 97, 116, 105, 111, 110,
   61]

/-- The string `stderr`. -/
def str_stderr : List Nat := [115, 116, 100, 101, 114, 114]

/-- The string `stdout`. -/
def str_stdout : List Nat := [115, 116, 100, 111, 117, 116]

/-- The string `syslog`. -/
def str_syslog : List Nat := [115, 121, 115, 108, 111, 103]

/-- The string `file`. -/
def str_file : List Nat := [102, 105, 108, 101]

/-- Modelled from the spec: the converter of the parameter `logging.destination`
(absent from the sources): the values `stderr`, `stdout`, `syslog` and `file`
name a destination, no other value does. -/
def logging_destination_convert (v : List Nat) : Option log_destination :=
  if v = str_stderr then some log_destination.LD_STDERR
  else if v = str_stdout then some log_destination.LD_STDOUT
  else if v = str_syslog then some log_destination.LD_SYSLOG
  else if v = str_file then some log_destination.LD_FILE
  else none

/-- Modelled from the spec: `argv_deserialize_to_hse_gparams(1, &arg, params)`
(absent from the sources) for an argument `logging.destination=<v>`: the
result and the parameters. The model knows no other parameter and refuses
every other argument; the place of its `merr` is not known and written 0. -/
def argv_deserialize_to_hse_gparams (arg : List Nat) (params : hse_gparams) :
    merr_t × hse_gparams :=
  if str_logging_destination.isPrefixOf arg then
    match logging_destination_convert (cstr (arg.drop str_logging_destination.length)) with
    | some d => (0, { params with gp_logging_destination := d })
    | none => (merr EINVAL 0, params)
  else (merr EINVAL 0, params)

/-- Embedding of `check(arg, ...)` of `hse_gparams_test.c`: `args` are the pairs
of an argument and the success expected for it, up to the `NULL` that ends the
list (the function asserts that there is a first one), `D` is
`argv_deserialize_to_hse_gparams` and `params` the global `params` of the test.
The result and `params`. -/
def check (D : List Nat → hse_gparams → merr_t × hse_gparams) :
    List (List Nat × Bool) → hse_gparams → merr_t × hse_gparams
  | [], params => (0, params)
  | (a, success) :: rest, params =>
    let r := D a params
    if success != decide (r.1 = 0) then (r.1, r.2)
    else check D rest r.2

/-- The arguments the test `logging_destination` passes to `check`. -/
def logging_destination_args : List (List Nat × Bool) :=
  [(str_logging_destination ++ [120], false),
   (str_logging_destination ++ str_stderr, true),
   (str_logging_destination ++ str_stdout, true),
   (str_logging_destination ++ str_syslog, true),
   (str_logging_destination ++ str_file, true)]

/-! ## `ikvdb_maint_task` -/

/-- What the collaborators of `ikvdb_maint_task` answer; `k` is the number of
the iteration of its loop, counted from 0. -/
structure maint_env where
  /-- `self->ikdb_work_stop` as the loop test before iteration `k` reads it -/
  work_stop : Nat → Bool
  /-- `get_time_ns()` at the head of iteration `k` -/
  time_start : Nat → Nat
  /-- `get_time_ns()` after the slots were visited in iteration `k` -/
  time_end : Nat → Nat
  /-- the values `perfc_read` stores to `vadd` and to `vsub` in iteration `k` -/
  perfc_read : Nat → Nat × Nat
  /-- the constant `NSEC_PER_SEC` of a header that is not among the sources -/
  NSEC_PER_SEC : Nat

/-- The expression `(vadd > vsub) ? (vadd - vsub) : 0` of line 485 on 64-bit
unsigned operands. -/
def maint_curcnt (vadd vsub : Nat) : Nat :=
  if vadd > vsub then (vadd + 2 ^ 64 - vsub) % 2 ^ 64 else 0

/-- The `for` loop of `ikvdb_maint_task` over the slots below `ikdb_kvs_cnt`,
with `n` iterations left at index `i`: its calls. -/
def ikvdb_maint_task_slots (vec : List (Option kvdb_kvs)) (tstart : Nat) : Nat → Nat → List call
  | 0, _ => []
  | n + 1, i =>
    (if i < vec.length then
       match vec.getD i none with
       | some kvs =>
         match kvs.kk_ikvs with
         | some ikvs => [call.admin (admin_call.kvs_maint_task ikvs tstart)]
         | none => []
       | none => []
     else [call.fault 507]) ++ ikvdb_maint_task_slots vec tstart n (i + 1)

/-- One iteration of the `while` loop of `ikvdb_maint_task`, the iteration
number `k`, entered with the given `maxdelay` and `curcnt_warn`: the database,
`maxdelay` and `curcnt_warn` at its end, and the calls. `usleep` takes a 32-bit
argument. -/
def ikvdb_maint_task_body (E : maint_env) (k : Nat) (self : ikvdb_impl)
    (maxdelay curcnt_warn : Nat) : ikvdb_impl × Nat × Nat × List call :=
  let tstart := E.time_start k % 2 ^ 64
  let vadd := (E.perfc_read k).1 % 2 ^ 64
  let vsub := (E.perfc_read k).2 % 2 ^ 64
  let curcnt := maint_curcnt vadd vsub
  let changed : Bool := decide ((self.ikdb_curcnt % 2 ^ 64).toNat ≠ curcnt)
  let warn : Bool := changed && decide (curcnt > self.ikdb_curcnt_max ∧ tstart > curcnt_warn)
  let self1 :=
    if changed then { self with ikdb_curcnt := ((curcnt : Int) + 2 ^ 31) % 2 ^ 32 - 2 ^ 31 }
    else self
  let curcnt_warn1 := if warn then (tstart + E.NSEC_PER_SEC * 15) % 2 ^ 64 else curcnt_warn
  let elapsed := ((E.time_end k % 2 ^ 64 + 2 ^ 64 - tstart) % 2 ^ 64) / 1024
  let slept : List call :=
    if elapsed < maxdelay then [call.usleep ((maxdelay + 2 ^ 64 - elapsed) % 2 ^ 64 % 2 ^ 32)]
    else []
  let maxdelay1 := if maxdelay < 100000 then (maxdelay + 3000) % 2 ^ 64 else maxdelay
  (self1, maxdelay1, curcnt_warn1,
    [call.admin admin_call.get_time_ns, call.admin admin_call.perfc_read] ++
      (if warn then [call.admin (admin_call.hse_log curcnt)] else []) ++ [call.mutex_lock] ++
      ikvdb_maint_task_slots self1.ikdb_kvs_vec tstart self1.ikdb_kvs_cnt 0 ++
      [call.mutex_unlock, call.admin admin_call.get_time_ns] ++ slept)

/-- The `while` loop of `ikvdb_maint_task` from iteration `k` on, cut after `n`
iterations: the database and `maxdelay` at the end, and the calls. -/
def ikvdb_maint_task_loop (E : maint_env) :
    Nat → Nat → ikvdb_impl → Nat → Nat → ikvdb_impl × Nat × List call
  | 0, _, self, maxdelay, _ => (self, maxdelay, [])
  | n + 1, k, self, maxdelay, curcnt_warn =>
    if E.work_stop k then (self, maxdelay, [])
    else
      let b := ikvdb_maint_task_body E k self maxdelay curcnt_warn
      let r := ikvdb_maint_task_loop E n (k + 1) b.1 b.2.1 b.2.2.1
      (r.1, r.2.1, b.2.2.2 ++ r.2.2)

/-- Embedding of `ikvdb_maint_task(work)`, which runs until `ikdb_work_stop` is
set, cut after `fuel` iterations: the database and `maxdelay` at the end, and
the calls. -/
def ikvdb_maint_task (E : maint_env) (fuel : Nat) (self : ikvdb_impl) :
    ikvdb_impl × Nat × List call :=
  ikvdb_maint_task_loop E fuel 0 self 10000 0

/-! ## `ikvdb_kvs_names_get` -/

/-- The `for` loop of `ikvdb_kvs_names_get`, with `n` iterations left at index
`i`: the strings it copies, in the order of the pointers it stores to `kvsv`. -/
def ikvdb_kvs_names_get_loop (vec : List (Option kvdb_kvs)) : Nat → Nat → List (List Nat)
  | 0, _ => []
  | n + 1, i =>
    match vec.getD i none with
    | none => ikvdb_kvs_names_get_loop vec n (i + 1)
    | some kvs =>
      strlcpy kvs.kk_name HSE_KVS_NAME_LEN_MAX :: ikvdb_kvs_names_get_loop vec n (i + 1)

/-- Embedding of `ikvdb_kvs_names_get(handle, namec, namev)`; `calloc_ok` says
that `calloc` returned a buffer, `has_namec` and `has_namev` that the pointers
are not `NULL`. The result, what is stored to `*namev` (`none`: nothing, `some
none`: `NULL`, else the strings `kvsv[0]`, `kvsv[1]`, ... point to), what is
stored to `*namec`, and the calls. The strings are written from the address of
`kvsv[ikdb_kvs_cnt]` on: a copy through a `NULL` `kvsv` is `fault 1488`, and a
pointer stored at `kvsv[slot]` with `slot ≥ ikdb_kvs_cnt` overwrites the first
string, which is `fault 1490`. -/
def ikvdb_kvs_names_get (K : hse_consts) (calloc_ok : Bool) (self : ikvdb_impl)
    (has_namec has_namev : Bool) :
    merr_t × Option (Option (List (List Nat))) × Option Nat × List call :=
  let alloc : List call :=
    [call.admin (admin_call.calloc K.HSE_KVS_COUNT_MAX (8 + HSE_KVS_NAME_LEN_MAX))]
  if !has_namev then (merr ENOMEM 1475, none, none, alloc)
  else
    let names := ikvdb_kvs_names_get_loop self.ikdb_kvs_vec K.HSE_KVS_COUNT_MAX 0
    let faults : List call :=
      if names = [] then []
      else if !calloc_ok then [call.fault 1488]
      else if names.length > self.ikdb_kvs_cnt then [call.fault 1490]
      else []
    (0, some (if calloc_ok then some names else none),
      if has_namec then some self.ikdb_kvs_cnt else none,
      alloc ++ [call.mutex_lock] ++ faults ++ [call.mutex_unlock])

/-! ## `ikvdb_cndb_open`: the table built at open -/

/-- What the collaborators of `ikvdb_cndb_open` answer after `cndb_replay`. -/
structure cndb_open_env where
  /-- `cndb_cn_count(cndb, &cnt)`: its result and the count it stores -/
  cndb_cn_count : merr_t × Nat
  /-- `aligned_alloc` in the `kvdb_kvs_create` of iteration `i` returns a
  non-`NULL` pointer -/
  alloc_ok : Nat → Bool
  /-- `cndb_cn_info_idx(cndb, i, ...)`: its result and the id, the flags, the
  creation parameters and the name it stores to the slot -/
  cndb_cn_info_idx : Nat → merr_t × Nat × Nat × Option kvs_cparams × List Nat

/-- The `for` loop of `ikvdb_cndb_open` over the KVSs of cndb, with `n`
iterations left at index `i`: the result, the table and the calls. -/
def ikvdb_cndb_open_loop (E : cndb_open_env) :
    Nat → Nat → List (Option kvdb_kvs) → merr_t × List (Option kvdb_kvs) × List call
  | 0, _, vec => (0, vec, [])
  | n + 1, i, vec =>
    match kvdb_kvs_create (E.alloc_ok i) with
    | none => (merr ENOMEM 878, vec, [call.aligned_alloc])
    | some kvs0 =>
      let info := E.cndb_cn_info_idx i
      let kvs1 :=
        { kvs0 with
          kk_cnid := info.2.1, kk_flags := info.2.2.1, kk_cparams := info.2.2.2.1,
          kk_name := info.2.2.2.2 }
      let stored : List call := if i < vec.length then [] else [call.fault 882]
      let vec1 := vec.set i (some kvs1)
      if info.1 ≠ 0 then
        (info.1, vec1,
          [call.aligned_alloc] ++ stored ++ [call.admin (admin_call.cndb_cn_info_idx i)])
      else
        let r := ikvdb_cndb_open_loop E n (i + 1) vec1
        (r.1, r.2.1,
          [call.aligned_alloc] ++ stored ++ [call.admin (admin_call.cndb_cn_info_idx i)] ++ r.2.2)

/-- The part of `ikvdb_cndb_open(self, seqno, ingestid)` after `cndb_replay`
(lines 871 to 892): the result, the database and the calls. -/
def ikvdb_cndb_open_kvs (E : cndb_open_env) (self : ikvdb_impl) :
    merr_t × ikvdb_impl × List call :=
  let self1 := { self with ikdb_kvs_cnt := E.cndb_cn_count.2 % 2 ^ 32 }
  if E.cndb_cn_count.1 ≠ 0 then
    (E.cndb_cn_count.1, self1, [call.admin admin_call.cndb_cn_count])
  else
    let r := ikvdb_cndb_open_loop E self1.ikdb_kvs_cnt 0 self1.ikdb_kvs_vec
    (r.1, { self1 with ikdb_kvs_vec := r.2.1 }, [call.admin admin_call.cndb_cn_count] ++ r.2.2)

/-! ## The buckets of the transaction cache -/

/-- `KVDB_CTXN_BKT_MAX` (line 99), the number of buckets of `ikdb_ctxn_cache`. -/
def KVDB_CTXN_BKT_MAX : Nat := 17

/-- Embedding of `ikvdb_txn_tid2bkt(self)`: the index in `ikdb_ctxn_cache` of the
bucket of the thread whose `pthread_self()` is `tid`. -/
def ikvdb_txn_tid2bkt (tid : Nat) : Nat := tid % 2 ^ 64 % KVDB_CTXN_BKT_MAX

/-! ## `lib/cn/blk_list.c` -/

/-- A list of block ids, `struct blk_list` (declared in a header that is not
among the sources; these are the fields `blk_list.c` uses): `blks` is the array
as `malloc` returned it (`none`: `NULL`), one entry per 64-bit word; `n_alloc`
and `n_blks` are counters, taken without a bound. -/
structure blk_list where
  blks : Option (List Nat)
  n_alloc : Nat
  n_blks : Nat
deriving DecidableEq, Repr

/-- A call that leaves `blk_list.c`, or an event the C semantics leaves open, as
for `call`. -/
inductive blk_call where
  | malloc (size : Nat)
  | memcpy (size : Nat)
  | free
  | assert_fail (line : Nat)
  | fault (line : Nat)
deriving DecidableEq, Repr

/-- Embedding of `blk_list_init(blkl)`: the list it leaves. -/
def blk_list_init : blk_list :=
  { blks := none, n_alloc := 0, n_blks := 0 }

/-- The statements `blks->blks[blks->n_blks] = blkid; blks->n_blks++;` of
`blk_list_append` (lines 116 and 117). -/
def blk_list_store (blks : blk_list) (blkid : Nat) : blk_list × List blk_call :=
  match blks.blks with
  | none => ({ blks with n_blks := blks.n_blks + 1 }, [blk_call.fault 116])
  | some a =>
    if blks.n_blks < a.length then
      ({ blks with blks := some (a.set blks.n_blks blkid), n_blks := blks.n_blks + 1 }, [])
    else ({ blks with n_blks := blks.n_blks + 1 }, [blk_call.fault 116])

/-- Embedding of `blk_list_append(blks, blkid)`. `pre_alloc` is the constant
`BLK_LIST_PRE_ALLOC` of the absent header; `malloc size` is what `malloc`
answers when asked for `size` bytes: `none` for `NULL`, else the content of the
new block, word by word. The result, the list and the calls. -/
def blk_list_append (pre_alloc : Nat) (malloc : Nat → Option (Nat → Nat)) (blks : blk_list)
    (blkid : Nat) : merr_t × blk_list × List blk_call :=
  let asserted : List blk_call :=
    if blks.n_blks ≤ blks.n_alloc then [] else [blk_call.assert_fail 91]
  if blks.n_blks = blks.n_alloc then
    let old_sz := 8 * blks.n_alloc
    let grow_sz := 8 * pre_alloc
    match malloc (old_sz + grow_sz) with
    | none => (merr ENOMEM 103, blks, asserted ++ [blk_call.malloc (old_sz + grow_sz)])
    | some content =>
      let new_mbidv : List Nat := (List.range ((old_sz + grow_sz) / 8)).map content
      let copied : List Nat × List blk_call :=
        if old_sz ≠ 0 then
          match blks.blks with
          | none => (new_mbidv, [blk_call.assert_fail 108, blk_call.fault 109])
          | some old =>
            if old_sz / 8 ≤ old.length then
              (old.take (old_sz / 8) ++ new_mbidv.drop (old_sz / 8),
                [blk_call.memcpy old_sz, blk_call.free])
            else (new_mbidv, [blk_call.fault 109])
        else (new_mbidv, [])
      let stored :=
        blk_list_store
          { blks with blks := some copied.1, n_alloc := blks.n_alloc + pre_alloc } blkid
      (0, stored.1, asserted ++ [blk_call.malloc (old_sz + grow_sz)] ++ copied.2 ++ stored.2)
  else
    let stored := blk_list_store blks blkid
    (0, stored.1, asserted ++ stored.2)

/-- Embedding of `blk_list_free(blks)`; `none` is a `NULL` pointer. The list it
leaves and the calls. -/
def blk_list_free (blks : Option blk_list) : Option blk_list × List blk_call :=
  match blks with
  | none => (none, [])
  | some b => (some { b with blks := none, n_blks := 0 }, [blk_call.free])

/-! ## Notions used to state the properties of the directory -/

/-- The slot holds a KVS that `get_kvs_index` takes for `kvs_name`. -/
def slot_named (kvs_name : List Nat) (slot : Option kvdb_kvs) : Bool :=
  match slot with
  | none => false
  | some kvs => decide (strcmp kvs_name kvs.kk_name = 0)

/-- The first index in `[i, i + n)` whose slot is empty, `-1` when there is none. -/
def first_empty_from (list : List (Option kvdb_kvs)) : Nat → Nat → Int
  | 0, _ => -1
  | n + 1, i =>
    match list.getD i none with
    | none => (i : Int)
    | some _ => first_empty_from list n (i + 1)

/-- The table is compact: it has `HSE_KVS_COUNT_MAX` slots and the occupied ones
are exactly those of index below `ikdb_kvs_cnt`. -/
def dir_compact (K : hse_consts) (self : ikvdb_impl) : Prop :=
  self.ikdb_kvs_vec.length = K.HSE_KVS_COUNT_MAX ∧
    self.ikdb_kvs_cnt ≤ K.HSE_KVS_COUNT_MAX ∧
    ∀ i, i < K.HSE_KVS_COUNT_MAX →
      ((self.ikdb_kvs_vec.getD i none).isSome = true ↔ i < self.ikdb_kvs_cnt)

instance (K : hse_consts) (self : ikvdb_impl) : Decidable (dir_compact K self) := by
  unfold dir_compact
  infer_instance

/-- The slot `ikvdb_kvs_create` installs for `kvs_name`. -/
def created_slot (E : kvs_create_env) (kvs_name : List Nat) (params : kvs_cparams) : kvdb_kvs :=
  { kk_name := strlcpy kvs_name sizeof_kk_name
    kk_cnid := (E.cndb_cn_create params (strlcpy kvs_name sizeof_kk_name)).2
    kk_flags := E.cn_cp2cflags params
    kk_cparams := E.cndb_cn_cparams (E.cndb_cn_create params (strlcpy kvs_name sizeof_kk_name)).2
    kk_ikvs := none
    kk_refcnt := 0
    kk_vcompmin := UINT_MAX
    kk_vcompbnd := 0
    kk_vcompress := none
    kk_parent := false }

/-! ## Concrete inputs -/

/-- A choice of the constants of the absent headers, for concrete inputs. -/
def consts_example : hse_consts :=
  { HSE_KVS_COUNT_MAX := 256
    count_max_le := Nat.le_refl 256
    EBUG := 666
    HSE_FLAG_PUT_PRIORITY := 1
    HSE_FLAG_PUT_VALUE_COMPRESSION_ON := 2
    HSE_FLAG_PUT_VALUE_COMPRESSION_OFF := 4
    KVDB_HEALTH_FLAG_ALL := 63
    KVDB_HEALTH_FLAG_DELBLKFAIL := 2
    PAGE_SIZE := 4096
    VLB_ALLOCSZ_MAX := 4194304
    HSE_SQNREF_SINGLE := 2 ^ 64 - 3
    CN_SMALL_VALUE_THRESHOLD := 8
    HSE_KVS_VALUE_LEN_MAX := 1048576
    HSE_SQNREF_UNDEFINED := 2 ^ 64 - 4
    HSE_FLAG_CURSOR_REVERSE := 1 }

/-- Collaborators of the write path that all succeed; the KVS is not
transaction-enabled. -/
def write_env_example : kvs_write_env :=
  { kvs_txn_is_enabled := fun _ => false
    kvdb_health_check := fun _ => 0
    vlb_alloc := fun _ => some 4096
    kk_vcompress := fun _ vlen _ _ => (0, some (vlen / 2))
    kvs_put := fun _ _ _ _ _ => 0
    kvs_del := fun _ _ _ _ => 0
    kvs_prefix_del := fun _ _ _ _ => 0
    tbkt_request := fun _ => 0
    wal_sync := fun _ => 0
    c0sk_sync := fun _ _ => 0 }

/-- An opened slot named `k1` with prefix length 0. -/
def kvs_example : kvdb_kvs :=
  { kk_name := [107, 49], kk_cnid := 1, kk_flags := 0, kk_cparams := some ⟨0⟩,
    kk_ikvs := some 1, kk_refcnt := 1, kk_vcompmin := UINT_MAX, kk_vcompbnd := 0,
    kk_vcompress := none, kk_parent := true }

/-- A database with an empty slot table; `rdonly` is the mode it was opened in. -/
def ikvdb_example (K : hse_consts) (rdonly : Bool) : ikvdb_impl :=
  { ikdb_rdonly := rdonly
    ikdb_rp := { read_only := rdonly, throttle_disable := false }
    ikdb_wal := none
    ikdb_c0sk := some 1
    ikdb_tb_dbg := 0
    ikdb_tb_dbg_ops := 0
    ikdb_tb_dbg_bytes := 0
    ikdb_tb_dbg_sleep_ns := 0
    ikdb_kvs_cnt := 0
    ikdb_kvs_vec := List.replicate K.HSE_KVS_COUNT_MAX none
    ikdb_seqno := 100
    ikdb_curcnt := 0
    ikdb_curcnt_max := 1000
    ikdb_cur_viewset := some 11
    ikdb_txn_viewset := some 12 }

/-- Collaborators of `ikvdb_kvs_create` that all succeed; the cnid handed out
is 1000. -/
def create_env_example : kvs_create_env :=
  { alloc_ok := true
    cn_cp2cflags := fun _ => 0
    cndb_cn_create := fun _ _ => (0, 1000)
    cndb_cn_cparams := fun _ => some ⟨0⟩
    kvs_rest_register := fun _ => 0 }

/-- Collaborators of `ikvdb_kvs_drop` that succeed. -/
def drop_env_example : kvs_drop_env :=
  { cndb_cn_drop := fun _ => 0 }

/-- The unopened slot number `i`, named `k` followed by the three decimal
digits of `i`. -/
def kvs_numbered (i : Nat) : kvdb_kvs :=
  { kk_name := [107, 48 + i / 100 % 10, 48 + i / 10 % 10, 48 + i % 10], kk_cnid := i + 1,
    kk_flags := 0, kk_cparams := some ⟨0⟩, kk_ikvs := none, kk_refcnt := 0,
    kk_vcompmin := UINT_MAX, kk_vcompbnd := 0, kk_vcompress := none, kk_parent := false }

/-- A writable database whose first `n` slots hold the KVSes numbered `0` to
`n - 1`. -/
def ikvdb_filled (K : hse_consts) (n : Nat) : ikvdb_impl :=
  { ikvdb_example K false with
    ikdb_kvs_cnt := n
    ikdb_kvs_vec :=
      (List.range n).map (fun i => some (kvs_numbered i)) ++
        List.replicate (K.HSE_KVS_COUNT_MAX - n) none }

/-- As `create_env_example`, but the allocation of the slot fails. -/
def create_env_nomem : kvs_create_env :=
  { create_env_example with alloc_ok := false }

/-- As `create_env_example`, but `cndb_cn_cparams` finds no parameters for the
cnid that `cndb_cn_create` has just handed out. -/
def create_env_nocparams : kvs_create_env :=
  { create_env_example with cndb_cn_cparams := fun _ => none }

/-- Collaborators of `ikvdb_kvs_open` that all succeed; no compression. -/
def open_env_example : kvs_open_env :=
  { config_deserialize_to_kvs_rparams := fun _ p => (0, p)
    vcomp_compress_ops := fun _ => none
    kvs_open := fun _ _ _ => (0, some 7) }

/-- As `open_env_example`, but the parameters of the KVS cannot be read from
the configuration. -/
def open_env_badconfig : kvs_open_env :=
  { open_env_example with config_deserialize_to_kvs_rparams := fun _ p => (⟨EINVAL, 77⟩, p) }

/-- Collaborators of `ikvdb_kvs_close` that succeed; nobody else holds a
reference. -/
def close_env_example : kvs_close_env :=
  { kvs_close := fun _ => 0
    refcnt_after_usleep := fun _ r => r }

/-- The slot `kvs_numbered 1`, opened, its only reference that of the open. -/
def kvs_opened : kvdb_kvs :=
  { kvs_numbered 1 with kk_ikvs := some 7, kk_refcnt := 1, kk_parent := true }

/-- The database holding `k000`, `k001`, `k002`, of which `k001` is opened. -/
def ikvdb_opened (K : hse_consts) : ikvdb_impl :=
  { ikvdb_filled K 3 with
    ikdb_kvs_vec := (ikvdb_filled K 3).ikdb_kvs_vec.set 1 (some kvs_opened) }

/-- Collaborators of the read path that succeed; the wait for the commits in
flight sees the sequence clock advance by 5. -/
def read_env_example : kvs_read_env :=
  { kvs_get := fun _ _ _ _ => 0
    kvs_pfx_probe := fun _ _ _ _ => 0
    kvdb_ctxn_set_wait_commits := fun s => s + 5 }

/-- Both ViewSets are empty and the performance counter is off. -/
def horizon_env_example : horizon_env :=
  { viewset_horizon := fun _ => U64_MAX
    perfc_ison := false }

/-- Collaborators of the cursor functions that all succeed: the cursor is
allocated zeroed, the view handed out is 100 under the cookie 5, and the
transaction of a bind is active with generation 0. -/
def cursor_env_example : cursor_env :=
  { perfc_lat_start := fun _ => 0
    kvdb_ctxn_get_view_seqno := fun _ => (0, 90)
    kvs_cursor_alloc := fun _ _ _ _ =>
      some { kc_kvs := none, kc_seq := 0, kc_flags := 0, kc_gen := 0, kc_ctxn := none,
             kc_bind := none, kc_err := 0, kc_on_list := false, kc_viewcookie := none,
             kc_create_time := 0 }
    kvdb_ctxn_cursor_bind := fun _ => some 3
    viewset_insert := (0, some (100, some 5))
    kvs_cursor_init := fun _ => 0
    kvs_cursor_prepare := 0
    kvs_cursor_update := fun _ _ _ => 0
    kvs_cursor_seek := fun _ _ _ _ => 0
    kvs_cursor_read := (0, false, ⟨some 1, 5⟩, ⟨vptr.user 2, 3, 0⟩)
    bind_b_ctxn := fun _ => some 9
    bind_b_gen := fun _ => 0 }

/-- As `write_env_example`, but the health check reports an error (`EIO`). -/
def write_env_unhealthy : kvs_write_env :=
  { write_env_example with kvdb_health_check := fun _ => ⟨5, 1⟩ }

/-- As `write_env_example`, but `kvs_put` fails (`EIO`). -/
def write_env_putfails : kvs_write_env :=
  { write_env_example with kvs_put := fun _ _ _ _ _ => ⟨5, 1⟩ }

/-- As `write_env_example`, but the compressor, succeeding, writes 20 bytes more
than it reads. -/
def write_env_noshrink : kvs_write_env :=
  { write_env_example with kk_vcompress := fun _ vlen _ _ => (0, some (vlen + 20)) }

/-- As `kvs_example`, with the prefix length 3. -/
def kvs_pfx3 : kvdb_kvs :=
  { kvs_example with kk_cparams := some ⟨3⟩ }

/-- As `kvs_example`, opened with a compressor: values longer than 8 bytes are
compressed, into `tls_vbuf` up to 30000 bytes. -/
def kvs_compressing : kvdb_kvs :=
  { kvs_example with kk_vcompmin := 8, kk_vcompbnd := 30000, kk_vcompress := some 1 }

/-- The cursor `ikvdb_kvs_cursor_create` hands out for `kvs_example` with the
flags `HSE_FLAG_CURSOR_REVERSE`, no transaction and `cursor_env_example`. -/
def cursor_reverse_example : hse_kvs_cursor :=
  { kc_kvs := some kvs_example, kc_seq := 100, kc_flags := 1, kc_gen := 0, kc_ctxn := none,
    kc_bind := none, kc_err := 0, kc_on_list := false, kc_viewcookie := some 5,
    kc_create_time := 0 }

/-- As `write_env_example`, but the KVS is transaction-enabled. -/
def write_env_txn : kvs_write_env :=
  { write_env_example with kvs_txn_is_enabled := fun _ => true }

/-- The cursor `ikvdb_kvs_cursor_create` hands out for `kvs_example` with the
flags 0, the transaction at address 7 and `cursor_env_example`: its view is the
view 90 of the transaction and it is bound through the bind at address 3. -/
def cursor_txn_example : hse_kvs_cursor :=
  { kc_kvs := some kvs_example, kc_seq := 90, kc_flags := 0, kc_gen := 0, kc_ctxn := some 7,
    kc_bind := some 3, kc_err := 0, kc_on_list := false, kc_viewcookie := none,
    kc_create_time := 0 }

/-- As `cursor_env_example`, after the transaction of every bind has committed
or aborted: `b_ctxn` of the bind is `NULL`. -/
def cursor_env_committed : cursor_env :=
  { cursor_env_example with bind_b_ctxn := fun _ => none }

/-- As `cursor_env_example`, but `kvs_cursor_init` fails (`EIO`). -/
def cursor_env_initfails : cursor_env :=
  { cursor_env_example with kvs_cursor_init := fun _ => ⟨5, 1⟩ }

/-- As `cursor_env_example`, but `kvs_cursor_update` fails (`EIO`). -/
def cursor_env_updatefails : cursor_env :=
  { cursor_env_example with kvs_cursor_update := fun _ _ _ => ⟨5, 1⟩ }

/-- As `cursor_env_example`, but `viewset_insert` fails with `EAGAIN`. -/
def cursor_env_insert_eagain : cursor_env :=
  { cursor_env_example with viewset_insert := (⟨11, 1⟩, none) }

/-- The thread runs `n` consecutive cycles of `ikvdb_txn_alloc` followed by
`ikvdb_txn_free` of what it returned, on its bucket `bkt`, no other thread
using the bucket; `k` calls of `ikvdb_txn_alloc` were made before. The bucket at
the end and the calls. -/
def txn_alloc_free_cycles (E : txn_env) : Nat → Nat → kvdb_ctxn_bkt → kvdb_ctxn_bkt × List call
  | 0, _, bkt => (bkt, [])
  | n + 1, k, bkt =>
    let a := ikvdb_txn_alloc E k bkt
    let f := ikvdb_txn_free a.2.1 a.1
    let r := txn_alloc_free_cycles E n (k + 1) f.1
    (r.1, a.2.2 ++ f.2 ++ r.2)

/-- The call is a heap allocation of a transaction descriptor: a
`kvdb_ctxn_alloc` that returned one. -/
def is_heap_alloc : call → Bool
  | call.txn (txn_call.kvdb_ctxn_alloc (some _)) => true
  | _ => false

/-- The call is a heap release of a transaction descriptor. -/
def is_heap_release : call → Bool
  | call.txn (txn_call.kvdb_ctxn_free _) => true
  | _ => false

/-- Collaborators of the transaction functions: every `kvdb_ctxn_alloc` succeeds
(the call number `n` returns the address `1000 + n`), a commit of the
transaction 7 is refused with `EINVAL`, every other commit succeeds, and the
transaction 7 is in state `ABORTED`. -/
def txn_env_example : txn_env :=
  { kvdb_ctxn_alloc := fun n => some (1000 + n)
    kvdb_ctxn_commit := fun t => if t = 7 then ⟨22, 1⟩ else 0
    kvdb_ctxn_get_state := fun t =>
      if t = 7 then kvdb_ctxn_state.KVDB_CTXN_ABORTED else kvdb_ctxn_state.KVDB_CTXN_ACTIVE }

/-- An empty bucket. -/
def bkt_example : kvdb_ctxn_bkt :=
  { kcb_ctxnc := 0, kcb_ctxnv := List.replicate 15 none }

/-- The first error of a list of results: its first element other than 0, and
0 when there is none. -/
def first_nonzero : List merr_t → merr_t
  | [] => 0
  | e :: rest => if e ≠ 0 then e else first_nonzero rest

/-- The handle of the opened KVS in slot `i` of the table, `none` for an empty
slot and for a slot that is not open. -/
def opened_in_slot (vec : List (Option kvdb_kvs)) (i : Nat) : Option Nat :=
  match vec.getD i none with
  | some kvs => kvs.kk_ikvs
  | none => none

/-- The handles of the opened KVSes of the slots `i`, …, `i + n - 1`, in slot
order. -/
def opened_from (vec : List (Option kvdb_kvs)) : Nat → Nat → List Nat
  | 0, _ => []
  | n + 1, i =>
    match opened_in_slot vec i with
    | some ikvs => ikvs :: opened_from vec n (i + 1)
    | none => opened_from vec n (i + 1)

/-- The closes of `ikvdb_close` that report a result, in the order of
execution, each with the result the collaborator gives: the `kvs_close` of the
opened KVSes in slot order, `c0sk_close` when there is a c0sk, `cndb_close` and
`kvdb_log_close`. -/
def close_steps (K : hse_consts) (E : kvdb_close_env) (self : ikvdb_impl) :
    List (call × merr_t) :=
  (opened_from self.ikdb_kvs_vec K.HSE_KVS_COUNT_MAX 0).map
      (fun ikvs => (call.kvs_close ikvs, E.kvs_close ikvs)) ++
    (match self.ikdb_c0sk with
     | some c0sk => [(call.close (close_call.c0sk_close c0sk), E.c0sk_close c0sk)]
     | none => []) ++
    [(call.close close_call.cndb_close, E.cndb_close),
     (call.close close_call.kvdb_log_close, E.kvdb_log_close)]

/-- The call is one of the closes that report a result. -/
def is_close_step : call → Bool
  | call.kvs_close _ => true
  | call.close (close_call.c0sk_close _) => true
  | call.close close_call.cndb_close => true
  | call.close close_call.kvdb_log_close => true
  | _ => false

/-- Collaborators of `ikvdb_close`: the close of the KVS with the handle 7
fails with `EIO`, `cndb_close` fails with `EBUSY`, the rest succeeds. -/
def close_env_failing : kvdb_close_env :=
  { kvs_close := fun ikvs => if ikvs = 7 then ⟨5, 1⟩ else 0
    c0sk_close := fun _ => 0
    cndb_close := ⟨16, 2⟩
    kvdb_log_close := 0 }

/-! ## Notions used to state the properties of compression and of the cursor count -/

/-- The spec's words: compression is attempted when the value is not already
compressed, longer than the threshold of the KVS and `COMPRESSION_OFF` is not
set, or when `COMPRESSION_ON` is set. -/
def compression_attempted (K : hse_consts) (kk : kvdb_kvs) (flags : Nat) (vt : kvs_vtuple) :
    Prop :=
  (kvs_vtuple_clen vt = 0 ∧ kk.kk_vcompmin < kvs_vtuple_vlen vt ∧
      flags &&& K.HSE_FLAG_PUT_VALUE_COMPRESSION_OFF = 0) ∨
    flags &&& K.HSE_FLAG_PUT_VALUE_COMPRESSION_ON ≠ 0

instance (K : hse_consts) (kk : kvdb_kvs) (flags : Nat) (vt : kvs_vtuple) :
    Decidable (compression_attempted K kk flags vt) := by
  unfold compression_attempted
  infer_instance

/-- The spec's words: the output buffer is the thread-local buffer when the
length of the value does not exceed the bound of the KVS, else an allocation of
the length of the value plus two pages (`vptr.null` when it fails). -/
def put_output_buffer (K : hse_consts) (E : kvs_write_env) (kk : kvdb_kvs) (vt : kvs_vtuple) :
    vptr :=
  if kvs_vtuple_vlen vt ≤ kk.kk_vcompbnd then vptr.tls_vbuf
  else
    match E.vlb_alloc (kvs_vtuple_vlen vt + 2 * K.PAGE_SIZE) with
    | none => vptr.null
    | some a => vptr.vlb a

/-- The size of the output buffer of `put_output_buffer`. -/
def put_output_size (K : hse_consts) (kk : kvdb_kvs) (vt : kvs_vtuple) : Nat :=
  if kvs_vtuple_vlen vt ≤ kk.kk_vcompbnd then tls_vbufsz
  else kvs_vtuple_vlen vt + 2 * K.PAGE_SIZE

/-- The spec's words: the value handed to the staging layer is the compressed
form (original length, compressed length, buffer) when compression was
attempted, the compressor succeeded and the compressed length is smaller than
the original length; otherwise it is the value of the caller. -/
def put_value_spec (K : hse_consts) (E : kvs_write_env) (kk : kvdb_kvs) (flags : Nat)
    (vt : kvs_vtuple) : kvs_vtuple :=
  let buf := put_output_buffer K E kk vt
  let res := E.kk_vcompress vt.vt_data (kvs_vtuple_vlen vt) buf (put_output_size K kk vt)
  if compression_attempted K kk flags vt ∧ buf ≠ vptr.null ∧ res.1 = 0 ∧
      res.2.getD (kvs_vtuple_clen vt) < kvs_vtuple_vlen vt then
    kvs_vtuple_cinit buf (kvs_vtuple_vlen vt) (res.2.getD (kvs_vtuple_clen vt))
  else vt

/-- Collaborators of `ikvdb_kvs_open` as `open_env_example`, with a compressor
whose worst-case estimate for `n` bytes is `n + 16 + n / 255`. -/
def open_env_compressing : kvs_open_env :=
  { open_env_example with
    vcomp_compress_ops := fun _ => some ⟨some 1, fun n => n + 16 + n / 255⟩ }

/-- What a trace does to the counter `PERFC_BA_KVDBMETRICS_CURCNT`: the number
of its increments (line 2252) less the number of its decrements (line 2449). -/
def curcnt_delta (cs : List call) : Int :=
  (cs.count (call.perfc (perfc_call.perfc_inc 2252)) : Int) -
    (cs.count (call.perfc (perfc_call.perfc_dec 2449)) : Int)

/-! ## Notions used to state the properties of the transaction cache -/

/-- The bucket is a stack in its array: at most `NELEM(kcb_ctxnv)` entries are
in use, the array has that many, and the entries in use are not `NULL`. -/
def bkt_ok (b : kvdb_ctxn_bkt) : Prop :=
  b.kcb_ctxnc ≤ kcb_ctxnv_nelem ∧ b.kcb_ctxnv.length = kcb_ctxnv_nelem ∧
    ∀ i, i < b.kcb_ctxnc → (b.kcb_ctxnv.getD i none).isSome = true

instance (b : kvdb_ctxn_bkt) : Decidable (bkt_ok b) := by
  unfold bkt_ok
  infer_instance

/-- The descriptors a bucket holds, the one pushed first in front. -/
def bkt_stack (b : kvdb_ctxn_bkt) : List (Option Nat) := b.kcb_ctxnv.take b.kcb_ctxnc

/-- A call of `ikvdb_txn_alloc`, or of `ikvdb_txn_free` with the given
transaction, by the thread `tid`. -/
inductive txn_op where
  | alloc (tid : Nat)
  | free (tid : Nat) (txn : Option Nat)
deriving DecidableEq, Repr

/-- The calls of a list on the cache `ikdb_ctxn_cache`, one after the other, each
on the bucket `ikvdb_txn_tid2bkt` picks; `n` calls of `ikvdb_txn_alloc` were made
before. The cache at the end and the calls. -/
def txn_cache_run (E : txn_env) :
    List txn_op → Nat → List kvdb_ctxn_bkt → List kvdb_ctxn_bkt × List call
  | [], _, cache => (cache, [])
  | txn_op.alloc tid :: ops, n, cache =>
    let r := ikvdb_txn_alloc E n (cache.getD (ikvdb_txn_tid2bkt tid) bkt_example)
    let rest := txn_cache_run E ops (n + 1) (cache.set (ikvdb_txn_tid2bkt tid) r.2.1)
    (rest.1, r.2.2 ++ rest.2)
  | txn_op.free tid txn :: ops, n, cache =>
    let r := ikvdb_txn_free (cache.getD (ikvdb_txn_tid2bkt tid) bkt_example) txn
    let rest := txn_cache_run E ops n (cache.set (ikvdb_txn_tid2bkt tid) r.1)
    (rest.1, r.2 ++ rest.2)

/-- The cache with its `KVDB_CTXN_BKT_MAX` buckets empty. -/
def txn_cache_example : List kvdb_ctxn_bkt := List.replicate KVDB_CTXN_BKT_MAX bkt_example

/-- Every bucket of the cache is a stack in its array. -/
def cache_ok (cache : List kvdb_ctxn_bkt) : Prop :=
  cache.length = KVDB_CTXN_BKT_MAX ∧ ∀ b ∈ cache, bkt_ok b

/-- The bucket after 15 calls of `ikvdb_txn_free` on the empty bucket, with the
transactions 100 to 114: it is full. -/
def bkt_full : kvdb_ctxn_bkt :=
  (List.range 15).foldl (fun b i => (ikvdb_txn_free b (some (100 + i))).1) bkt_example

/-! ## Notions used to state the properties of the maintenance task -/

/-- The database, `maxdelay` and `curcnt_warn` at the head of iteration `k` of
the loop of `ikvdb_maint_task`, when the loop was not stopped before. -/
def ikvdb_maint_task_at (E : maint_env) (self : ikvdb_impl) : Nat → ikvdb_impl × Nat × Nat
  | 0 => (self, 10000, 0)
  | k + 1 =>
    let s := ikvdb_maint_task_at E self k
    let b := ikvdb_maint_task_body E k s.1 s.2.1 s.2.2
    (b.1, b.2.1, b.2.2.1)

/-- The time `ikvdb_maint_task_body` measures in iteration `k` that began at
`tstart`: the difference of the two clock readings, divided by 1024. -/
def maint_elapsed (E : maint_env) (k : Nat) : Nat :=
  ((E.time_end k % 2 ^ 64 + 2 ^ 64 - E.time_start k % 2 ^ 64) % 2 ^ 64) / 1024

/-- Collaborators of `ikvdb_maint_task`: never stopped, each visit of the slots
takes 2 ms, and the counter of the cursors reads 5 increments, 7 decrements. -/
def maint_env_example : maint_env :=
  { work_stop := fun _ => false
    time_start := fun k => 1000000000 * k
    time_end := fun k => 1000000000 * k + 2048000
    perfc_read := fun _ => (5, 7)
    NSEC_PER_SEC := 1000000000 }

/-! ## Notions used to state the properties of `blk_list` -/

/-- The appends of a list, one after the other; an element of the list is what
`malloc` answers during the append, and the block id appended. The list at the
end, the ids of the appends that returned 0, in their order, and the calls. -/
def blk_list_run (pre_alloc : Nat) :
    List ((Nat → Option (Nat → Nat)) × Nat) → blk_list → blk_list × List Nat × List blk_call
  | [], b => (b, [], [])
  | op :: ops, b =>
    let r := blk_list_append pre_alloc op.1 b op.2
    let rest := blk_list_run pre_alloc ops r.2.1
    (rest.1, (if r.1 = 0 then [op.2] else []) ++ rest.2.1, r.2.2 ++ rest.2.2)

/-- The array `blks` holds exactly `n_alloc` entries and its first `ids.length`
entries are `ids`; it is absent only when `n_alloc = 0`. -/
def blk_array_holds : Option (List Nat) → Nat → List Nat → Prop
  | none, n_alloc, _ => n_alloc = 0
  | some a, n_alloc, ids => a.length = n_alloc ∧ a.take ids.length = ids

/-- What `blk_list_append` keeps true of a list that holds `ids`: the counters
are in order, `n_alloc` is the smallest multiple of `pre_alloc` that is at least
the number of ids, and the array holds the ids. -/
def blk_inv (pre_alloc : Nat) (b : blk_list) (ids : List Nat) : Prop :=
  b.n_blks = ids.length ∧ b.n_blks ≤ b.n_alloc ∧ pre_alloc ∣ b.n_alloc ∧
    b.n_alloc < ids.length + pre_alloc ∧ blk_array_holds b.blks b.n_alloc ids

/-- The array has exactly `n_alloc` entries, and is absent exactly when
`n_alloc = 0`. -/
def blk_array_ok : Option (List Nat) → Nat → Prop
  | none, n_alloc => n_alloc = 0
  | some a, n_alloc => a.length = n_alloc ∧ n_alloc ≠ 0

instance : ∀ (o : Option (List Nat)) (n : Nat), Decidable (blk_array_ok o n)
  | none, n => inferInstanceAs (Decidable (n = 0))
  | some a, n => inferInstanceAs (Decidable (a.length = n ∧ n ≠ 0))

/-- The representation invariant of a `blk_list`: `n_blks ≤ n_alloc` and the
array has exactly `n_alloc` entries, absent exactly when `n_alloc = 0`. -/
def blk_rep (b : blk_list) : Prop :=
  b.n_blks ≤ b.n_alloc ∧ blk_array_ok b.blks b.n_alloc

instance (b : blk_list) : Decidable (blk_rep b) := by
  unfold blk_rep
  infer_instance

/-- A `malloc` that always returns a block, filled with zeroes. -/
def malloc_example : Nat → Option (Nat → Nat) := fun _ => some (fun _ => 0)

/-- A `malloc` that returns `NULL`. -/
def malloc_fails : Nat → Option (Nat → Nat) := fun _ => none

/-! ## Notions used to state the well-formedness of the directory -/

/-- No two slots hold the same name, as `strcmp` compares names. -/
def dir_names_distinct (vec : List (Option kvdb_kvs)) : Prop :=
  ∀ i j a b, i < j → vec.getD i none = some a → vec.getD j none = some b →
    strcmp a.kk_name b.kk_name ≠ 0

/-- The directory is well formed: the table is compact (`dir_compact`: it has
`HSE_KVS_COUNT_MAX` slots, `ikdb_kvs_cnt` is at most that, and the occupied
slots are exactly those below `ikdb_kvs_cnt`) and no two slots hold the same
name. -/
def dir_wf (K : hse_consts) (self : ikvdb_impl) : Prop :=
  dir_compact K self ∧ dir_names_distinct self.ikdb_kvs_vec

/-- A call of `ikvdb_kvs_create` or of `ikvdb_kvs_drop`, with what its
collaborators answer. -/
inductive dir_op where
  | create (E : kvs_create_env) (kvs_name : List Nat) (params : kvs_cparams)
  | drop (E : kvs_drop_env) (kvs_name : Option (List Nat))

/-- The calls of a list on the database, one after the other: the database at
the end and the calls. -/
def dir_run (K : hse_consts) : List dir_op → ikvdb_impl → ikvdb_impl × List call
  | [], self => (self, [])
  | dir_op.create E kvs_name params :: ops, self =>
    let r := ikvdb_kvs_create K E self kvs_name params
    let rest := dir_run K ops r.2.1
    (rest.1, r.2.2 ++ rest.2)
  | dir_op.drop E kvs_name :: ops, self =>
    let r := ikvdb_kvs_drop K E self kvs_name
    let rest := dir_run K ops r.2.1
    (rest.1, r.2.2 ++ rest.2)

/-- The slot `ikvdb_cndb_open` builds in iteration `i`. -/
def cndb_slot (E : cndb_open_env) (i : Nat) : kvdb_kvs :=
  { kk_name := (E.cndb_cn_info_idx i).2.2.2.2
    kk_cnid := (E.cndb_cn_info_idx i).2.1
    kk_flags := (E.cndb_cn_info_idx i).2.2.1
    kk_cparams := (E.cndb_cn_info_idx i).2.2.2.1
    kk_ikvs := none
    kk_refcnt := 0
    kk_vcompmin := UINT_MAX
    kk_vcompbnd := 0
    kk_vcompress := none
    kk_parent := false }

/-- A cndb that holds the two KVSs `k000` and `k001`. -/
def cndb_open_env_example : cndb_open_env :=
  { cndb_cn_count := (0, 2)
    alloc_ok := fun _ => true
    cndb_cn_info_idx := fun i => (0, i + 1, 0, some ⟨0⟩, (kvs_numbered i).kk_name) }

/-! ## Notions used to state the properties of a second commit or abort -/

/-- Modelled from the spec: `kvdb_ctxn_commit(ctxn)` of `kvdb_ctxn.c` (absent
from the sources) on a transaction in state `st`: its result and the state it
leaves. By §4.C only an `ACTIVE` transaction is committed, and "Double-commit/
abort is a no-op reported as error": in every other state the commit changes
nothing and returns an error (of kind `STATE`, taken as `EINVAL`). `active` is
what the commit of an `ACTIVE` transaction answers, which the spec leaves to the
commit protocol. -/
def kvdb_ctxn_commit (st : kvdb_ctxn_state) (active : merr_t × kvdb_ctxn_state) :
    merr_t × kvdb_ctxn_state :=
  match st with
  | kvdb_ctxn_state.KVDB_CTXN_ACTIVE => active
  | _ => (merr EINVAL 0, st)

/-- Modelled from the spec: `kvdb_ctxn_abort(ctxn)` of `kvdb_ctxn.c` (absent from
the sources), which returns nothing, on a transaction in state `st`: the state
it leaves. By §4.C an `ACTIVE` transaction becomes `ABORTED`, and an abort in
another state is a no-op. -/
def kvdb_ctxn_abort (st : kvdb_ctxn_state) : kvdb_ctxn_state :=
  match st with
  | kvdb_ctxn_state.KVDB_CTXN_ACTIVE => kvdb_ctxn_state.KVDB_CTXN_ABORTED
  | _ => st

/-- The collaborators of the transaction functions when the transaction `t` is
in state `st t` and the transaction layer is the one modelled from the spec;
no descriptor is handed out. -/
def txn_env_of_states (st : Nat → kvdb_ctxn_state) (active : Nat → merr_t × kvdb_ctxn_state) :
    txn_env :=
  { kvdb_ctxn_alloc := fun _ => none
    kvdb_ctxn_commit := fun t => (kvdb_ctxn_commit (st t) (active t)).1
    kvdb_ctxn_get_state := st }

/-- The call goes to the transaction layer to commit or to abort a
transaction. -/
def is_ctxn_end : call → Bool
  | call.txn (txn_call.kvdb_ctxn_commit _) => true
  | call.txn (txn_call.kvdb_ctxn_abort _) => true
  | _ => false

/-- The states of `txn_env_example`: the transaction 7 is `ABORTED`, the
transaction 8 `COMMITTED`, every other one `ACTIVE`. -/
def txn_states_example (t : Nat) : kvdb_ctxn_state :=
  if t = 7 then kvdb_ctxn_state.KVDB_CTXN_ABORTED
  else if t = 8 then kvdb_ctxn_state.KVDB_CTXN_COMMITTED
  else kvdb_ctxn_state.KVDB_CTXN_ACTIVE

/-! ## Theorems -/

theorem cstr_cons_zero (s : List Nat) : cstr (0 :: s) = [] := by
  simp [cstr]

theorem cstr_cons_ne (c : Nat) (s : List Nat) (h : c ≠ 0) : cstr (c :: s) = c :: cstr s := by
  simp [cstr, List.takeWhile_cons, h]

theorem strnlen_eq (s : List Nat) (n : Nat) : strnlen s n = min (cstr s).length n := by
  induction s generalizing n with
  | nil => cases n <;> simp [strnlen, cstr]
  | cons c s ih =>
    cases n with
    | zero => simp [strnlen]
    | succ n =>
      by_cases hc : c = 0
      · subst hc
        simp [strnlen, cstr_cons_zero]
      · simp [strnlen, hc, cstr_cons_ne, ih, Nat.succ_min_succ]

theorem isalnum_class (c : Nat) :
    (!isalnum c && c != 95 && c != 45) = !kvs_name_char c := by
  simp only [isalnum, kvs_name_char]
  cases h1 : (decide (48 ≤ c) && decide (c ≤ 57) || decide (65 ≤ c) && decide (c ≤ 90) ||
    decide (97 ≤ c) && decide (c ≤ 122)) <;> cases h2 : (c == 95) <;> cases h3 : (c == 45) <;>
    simp_all

theorem validate_kvs_name_loop_eq (s : List Nat) (n : Nat) (h : (cstr s).length ≤ n) :
    validate_kvs_name_loop s n =
      if (cstr s).all kvs_name_char then 0 else merr EINVAL 259 := by
  induction s generalizing n with
  | nil => simp [validate_kvs_name_loop, cstr]
  | cons c s ih =>
    by_cases hc : c = 0
    · subst hc
      simp [validate_kvs_name_loop, cstr_cons_zero]
    · rw [cstr_cons_ne c s hc] at h ⊢
      cases n with
      | zero => simp at h
      | succ n =>
        have hn : (cstr s).length ≤ n := by simpa using h
        simp only [validate_kvs_name_loop, hc, if_false, isalnum_class, List.all_cons]
        by_cases hk : kvs_name_char c = true
        · simp [hk, ih n hn]
        · simp [hk]

theorem merr_ne_zero (e l : Nat) (h : e ≠ 0) : merr e l ≠ 0 := by
  intro hh
  have : (merr e l).errno = (0 : merr_t).errno := by rw [hh]
  exact h this

theorem head_zero_iff (s : List Nat) : s.headD 0 = 0 ↔ (cstr s).length = 0 := by
  cases s with
  | nil => simp [cstr]
  | cons c s =>
    by_cases hc : c = 0
    · subst hc; simp [cstr_cons_zero]
    · simp [cstr_cons_ne c s hc, hc]

theorem validate_kvs_name_eq_zero_iff (s : List Nat) :
    validate_kvs_name (some s) = 0 ↔
      (1 ≤ (cstr s).length ∧ (cstr s).length ≤ 31 ∧ (cstr s).all kvs_name_char = true) := by
  unfold validate_kvs_name
  simp only [head_zero_iff, strnlen_eq, HSE_KVS_NAME_LEN_MAX]
  by_cases h0 : (cstr s).length = 0
  · simp [h0, merr_ne_zero, EINVAL]
  · by_cases h32 : 32 ≤ (cstr s).length
    · have : min (cstr s).length 32 = 32 := Nat.min_eq_right h32
      simp only [h0, this, if_false, if_true]
      constructor
      · intro h; exact absurd h (merr_ne_zero _ _ (by decide))
      · intro h; omega
    · have hlt : (cstr s).length < 32 := Nat.lt_of_not_le h32
      have hmin : min (cstr s).length 32 = (cstr s).length := Nat.min_eq_left (Nat.le_of_lt hlt)
      have hne : (cstr s).length ≠ 32 := by omega
      simp only [h0, hmin, hne, if_false]
      rw [validate_kvs_name_loop_eq s _ (Nat.le_refl _)]
      cases hall : (cstr s).all kvs_name_char
      · simp [merr_ne_zero, EINVAL]
      · simp; omega

/-- C1 (as amended): `validate_kvs_name` returns success exactly for the names of
1 to 31 bytes all of whose bytes are in `[-_A-Za-z0-9]`, that is, those matching
`^[A-Za-z0-9_-]{1,31}$`. -/
theorem validate_kvs_name_accepts_iff (s : List Nat) :
    validate_kvs_name (some s) = 0 ↔
      (1 ≤ (cstr s).length ∧ (cstr s).length ≤ 31 ∧ (cstr s).all kvs_name_char = true) :=
  validate_kvs_name_eq_zero_iff s

/-- C1 (counterexample): the 32-byte name `aaaa…a` matches
`^[A-Za-z0-9_-]{1,32}$` and is refused with `ENAMETOOLONG`. -/
theorem validate_kvs_name_rejects_32 :
    matches_name_regex (List.replicate 32 97) = true ∧
      validate_kvs_name (some (List.replicate 32 97)) = merr ENAMETOOLONG 252 ∧
      validate_kvs_name (some (List.replicate 32 97)) ≠ 0 := by
  decide

/-- C2: a name of 32 bytes or more is refused with `ENAMETOOLONG`, whatever its
bytes are. -/
theorem validate_kvs_name_too_long (s : List Nat) (h : 32 ≤ (cstr s).length) :
    validate_kvs_name (some s) = merr ENAMETOOLONG 252 ∧
      merr_errno (validate_kvs_name (some s)) = ENAMETOOLONG := by
  have h0 : ¬ (cstr s).length = 0 := by omega
  have hmin : min (cstr s).length 32 = 32 := Nat.min_eq_right h
  unfold validate_kvs_name
  simp only [head_zero_iff, strnlen_eq, HSE_KVS_NAME_LEN_MAX, h0, hmin, if_false, if_true]
  refine ⟨?_, ?_⟩ <;> first | rfl | trivial

/-- Witness of C2: 32 bytes none of which is in the character class. -/
theorem validate_kvs_name_too_long_witness :
    32 ≤ (cstr (List.replicate 32 33)).length ∧
      validate_kvs_name (some (List.replicate 32 33)) = merr ENAMETOOLONG 252 ∧
      merr_errno (validate_kvs_name (some (List.replicate 32 33))) = ENAMETOOLONG :=
  ⟨by decide, validate_kvs_name_too_long (List.replicate 32 33) (by decide)⟩


/-! ### The write-allowed gate and the read-only gate -/

theorem is_write_allowed_eq (E : kvs_write_env) (kvs txn : Option Nat) :
    is_write_allowed E kvs txn = !(E.kvs_txn_is_enabled kvs ^^ txn.isSome) := by
  unfold is_write_allowed
  cases E.kvs_txn_is_enabled kvs <;> cases txn <;> rfl

/-- C3: with a non-`NULL` handle, each of `ikvdb_kvs_put`, `ikvdb_kvs_del` and
`ikvdb_kvs_prefix_delete` returns the `EINVAL` of its write-allowed check,
having made no call at all (no health check, no staging-layer call, no token
request) and left the database as it was, exactly when (the KVS is
transaction-enabled) XOR (a transaction is passed) is true; as the database
(read-only or not) and the health check are arbitrary, the check comes first. -/
theorem write_allowed_gate (K : hse_consts) (E : kvs_write_env) (parent : ikvdb_impl)
    (kk : kvdb_kvs) (flags : Nat) (txn : Option Nat) (kt : kvs_ktuple) (vt : kvs_vtuple)
    (want_pfx_len : Bool) :
    (ikvdb_kvs_put K E parent (some kk) flags txn kt vt = (merr EINVAL 1863, parent, []) ↔
        (E.kvs_txn_is_enabled kk.kk_ikvs ^^ txn.isSome) = true) ∧
      (ikvdb_kvs_del K E parent (some kk) flags txn kt = (merr EINVAL 2015, []) ↔
        (E.kvs_txn_is_enabled kk.kk_ikvs ^^ txn.isSome) = true) ∧
      (ikvdb_kvs_prefix_delete K E parent (some kk) flags txn kt want_pfx_len =
          (merr EINVAL 2049, none, []) ↔
        (E.kvs_txn_is_enabled kk.kk_ikvs ^^ txn.isSome) = true) ∧
      merr_errno (merr EINVAL 1863) = EINVAL ∧ merr_errno (merr EINVAL 2015) = EINVAL ∧
      merr_errno (merr EINVAL 2049) = EINVAL := by
  refine ⟨?_, ?_, ?_, rfl, rfl, rfl⟩
  · unfold ikvdb_kvs_put
    simp only [is_write_allowed_eq]
    cases hx : (E.kvs_txn_is_enabled kk.kk_ikvs ^^ txn.isSome)
    · simp only [Bool.not_false, Bool.not_true, Bool.false_eq_true, if_false, iff_false]
      by_cases hro : parent.ikdb_rdonly = true
      · simp [hro, merr, EINVAL, EROFS]
      · by_cases hh : E.kvdb_health_check (health_mask_writes K) = 0
        · simp [hro, hh, ikvdb_throttle]
          split <;> simp
        · simp [hro, hh]
    · simp
  · unfold ikvdb_kvs_del
    simp only [is_write_allowed_eq]
    cases hx : (E.kvs_txn_is_enabled kk.kk_ikvs ^^ txn.isSome)
    · simp only [Bool.not_false, Bool.not_true, Bool.false_eq_true, if_false, iff_false]
      by_cases hro : parent.ikdb_rdonly = true
      · simp [hro, merr, EINVAL, EROFS]
      · by_cases hh : E.kvdb_health_check (health_mask_writes K) = 0
        · simp [hro, hh]
        · simp [hro, hh]
    · simp
  · unfold ikvdb_kvs_prefix_delete
    simp only [is_write_allowed_eq]
    cases hx : (E.kvs_txn_is_enabled kk.kk_ikvs ^^ txn.isSome)
    · simp only [Bool.not_false, Bool.not_true, Bool.false_eq_true, if_false, iff_false]
      by_cases hro : parent.ikdb_rdonly = true
      · simp [hro, merr, EINVAL, EROFS]
      · cases hcp : kk.kk_cparams with
        | none => simp [hro]
        | some cp =>
          simp only [hro, Bool.false_eq_true, if_false]
          split
          · simp [merr]
          · split
            · simp [merr, EINVAL, ENOENT]
            · simp
    · simp

/-- C4: on a read-only database `ikvdb_kvs_put`, `ikvdb_kvs_del` and
`ikvdb_kvs_prefix_delete`, called with a permitted combination of KVS and
transaction, and `ikvdb_sync` return `EROFS` and make no call: the staging
layer, the WAL and the token bucket are not reached. -/
theorem read_only_rejects_writes (K : hse_consts) (E : kvs_write_env) (parent : ikvdb_impl)
    (kk : kvdb_kvs) (flags : Nat) (txn : Option Nat) (kt : kvs_ktuple) (vt : kvs_vtuple)
    (want_pfx_len : Bool) (hro : parent.ikdb_rdonly = true)
    (hallowed : is_write_allowed E kk.kk_ikvs txn = true) :
    ikvdb_kvs_put K E parent (some kk) flags txn kt vt = (merr EROFS 1867, parent, []) ∧
      ikvdb_kvs_del K E parent (some kk) flags txn kt = (merr EROFS 2019, []) ∧
      ikvdb_kvs_prefix_delete K E parent (some kk) flags txn kt want_pfx_len =
        (merr EROFS 2053, none, []) ∧
      ikvdb_sync E parent flags = (merr EROFS 2487, []) ∧
      merr_errno (merr EROFS 1867) = EROFS ∧ merr_errno (merr EROFS 2019) = EROFS ∧
      merr_errno (merr EROFS 2053) = EROFS ∧ merr_errno (merr EROFS 2487) = EROFS := by
  refine ⟨?_, ?_, ?_, ?_, rfl, rfl, rfl, rfl⟩
  · simp [ikvdb_kvs_put, hro, hallowed]
  · simp [ikvdb_kvs_del, hro, hallowed]
  · simp [ikvdb_kvs_prefix_delete, hro, hallowed]
  · simp [ikvdb_sync, hro]

/-- Witness of C4: a non-transactional put, delete, prefix delete and a sync on
a read-only database. -/
theorem read_only_rejects_writes_witness :
    ikvdb_kvs_put consts_example write_env_example (ikvdb_example consts_example true)
        (some kvs_example) 0 none ⟨some 1, 5⟩ ⟨vptr.user 2, 3, 0⟩ =
        (merr EROFS 1867, ikvdb_example consts_example true, []) ∧
      ikvdb_kvs_del consts_example write_env_example (ikvdb_example consts_example true)
        (some kvs_example) 0 none ⟨some 1, 5⟩ = (merr EROFS 2019, []) ∧
      ikvdb_kvs_prefix_delete consts_example write_env_example (ikvdb_example consts_example true)
        (some kvs_example) 0 none ⟨some 1, 5⟩ true = (merr EROFS 2053, none, []) ∧
      ikvdb_sync write_env_example (ikvdb_example consts_example true) 0 = (merr EROFS 2487, []) ∧
      merr_errno (merr EROFS 1867) = EROFS ∧ merr_errno (merr EROFS 2019) = EROFS ∧
      merr_errno (merr EROFS 2053) = EROFS ∧ merr_errno (merr EROFS 2487) = EROFS :=
  read_only_rejects_writes consts_example write_env_example (ikvdb_example consts_example true)
    kvs_example 0 none ⟨some 1, 5⟩ ⟨vptr.user 2, 3, 0⟩ true rfl rfl


/-! ### C strings -/

theorem strcmp_cstr_self (s : List Nat) : strcmp s (cstr s) = 0 := by
  induction s with
  | nil => simp [strcmp, cstr]
  | cons c s ih =>
    by_cases hc : c = 0
    · subst hc
      simp [cstr_cons_zero, strcmp]
    · rw [cstr_cons_ne c s hc]
      simp [strcmp, hc, ih]

theorem strlcpy_eq_cstr (s : List Nat) (n : Nat) (h : (cstr s).length < n) :
    strlcpy s n = cstr s := by
  unfold strlcpy
  exact List.take_of_length_le (by omega)

theorem validate_kvs_name_length (s : List Nat) (h : validate_kvs_name (some s) = 0) :
    (cstr s).length < 32 := by
  have := (validate_kvs_name_eq_zero_iff s).1 h
  omega

/-! ### `get_kvs_index` -/

theorem get_kvs_index_loop_absent (list : List (Option kvdb_kvs)) (kvs_name : List Nat)
    (n i : Nat) (av : Int) (hav1 : -1 ≤ av)
    (h : ∀ j, i ≤ j → j < i + n → slot_named kvs_name (list.getD j none) = false) :
    get_kvs_index_loop list kvs_name n i av =
      (-1, some (if av < 0 then first_empty_from list n i else av)) := by
  induction n generalizing i av with
  | zero =>
    simp only [get_kvs_index_loop, first_empty_from]
    by_cases hav : av < 0
    · simp [hav]; omega
    · simp [hav]
  | succ n ih =>
    have hi := h i (Nat.le_refl i) (by omega)
    have hrest : ∀ j, i + 1 ≤ j → j < i + 1 + n →
        slot_named kvs_name (list.getD j none) = false :=
      fun j h1 h2 => h j (by omega) (by omega)
    cases hget : list.getD i none with
    | none =>
      simp only [get_kvs_index_loop, first_empty_from, hget]
      rw [ih (i + 1) _ (by split <;> omega) hrest]
      by_cases hav : av < 0
      · have : ¬ ((i : Int) < 0) := by omega
        simp [hav, this]
      · simp [hav]
    | some kvs =>
      rw [hget] at hi
      have hne : ¬ strcmp kvs_name kvs.kk_name = 0 := by simpa [slot_named] using hi
      simp only [get_kvs_index_loop, first_empty_from, hget, hne, if_false]
      exact ih (i + 1) av hav1 hrest

theorem get_kvs_index_loop_found (list : List (Option kvdb_kvs)) (kvs_name : List Nat)
    (n i k : Nat) (av : Int) (hik : i ≤ k) (hkn : k < i + n)
    (hk : slot_named kvs_name (list.getD k none) = true)
    (hbefore : ∀ j, i ≤ j → j < k → slot_named kvs_name (list.getD j none) = false) :
    get_kvs_index_loop list kvs_name n i av = ((k : Int), none) := by
  induction n generalizing i av with
  | zero => omega
  | succ n ih =>
    by_cases heq : i = k
    · subst heq
      cases hget : list.getD i none with
      | none => rw [hget] at hk; simp [slot_named] at hk
      | some kvs =>
        rw [hget] at hk
        have h0 : strcmp kvs_name kvs.kk_name = 0 := by simpa [slot_named] using hk
        simp only [get_kvs_index_loop, hget, h0, if_true]
    · have hlt : i < k := by omega
      have hi := hbefore i (Nat.le_refl i) hlt
      have hrest : ∀ j, i + 1 ≤ j → j < k →
          slot_named kvs_name (list.getD j none) = false :=
        fun j h1 h2 => hbefore j (by omega) h2
      cases hget : list.getD i none with
      | none =>
        simp only [get_kvs_index_loop, hget]
        exact ih (i + 1) _ (by omega) (by omega) hrest
      | some kvs =>
        rw [hget] at hi
        have hne : ¬ strcmp kvs_name kvs.kk_name = 0 := by simpa [slot_named] using hi
        simp only [get_kvs_index_loop, hget, hne, if_false]
        exact ih (i + 1) av (by omega) (by omega) hrest

theorem first_empty_from_spec (list : List (Option kvdb_kvs)) (n i : Nat)
    (h : ∃ j, i ≤ j ∧ j < i + n ∧ list.getD j none = none) :
    ∃ k : Nat, first_empty_from list n i = (k : Int) ∧ i ≤ k ∧ k < i + n ∧
      list.getD k none = none ∧ ∀ j, i ≤ j → j < k → (list.getD j none).isSome = true := by
  induction n generalizing i with
  | zero => obtain ⟨j, h1, h2, _⟩ := h; omega
  | succ n ih =>
    cases hget : list.getD i none with
    | none =>
      refine ⟨i, ?_, Nat.le_refl i, by omega, hget, ?_⟩
      · simp only [first_empty_from, hget]
      · intro j h1 h2; omega
    | some kvs =>
      obtain ⟨j, h1, h2, h3⟩ := h
      have hji : j ≠ i := by
        intro hh; subst hh; rw [hget] at h3; cases h3
      obtain ⟨k, hk1, hk2, hk3, hk4, hk5⟩ := ih (i + 1) ⟨j, by omega, by omega, h3⟩
      refine ⟨k, ?_, by omega, by omega, hk4, ?_⟩
      · simp only [first_empty_from, hget, hk1]
      · intro j' h1' h2'
        by_cases hj' : j' = i
        · subst hj'; rw [hget]; rfl
        · exact hk5 j' (by omega) h2'

theorem absent_getD (vec : List (Option kvdb_kvs)) (kvs_name : List Nat)
    (h : ∀ s ∈ vec, slot_named kvs_name s = false) (j : Nat) :
    slot_named kvs_name (vec.getD j none) = false := by
  by_cases hj : j < vec.length
  · have : vec.getD j none = vec[j] := by simp [List.getD_eq_getElem?_getD, hj]
    rw [this]
    exact h _ (List.getElem_mem ..)
  · have : vec.getD j none = none := by
      simp [List.getD_eq_getElem?_getD, List.getElem?_eq_none (Nat.le_of_not_lt hj)]
    rw [this]; rfl

theorem exists_empty_of_count (vec : List (Option kvdb_kvs))
    (h : vec.countP Option.isSome < vec.length) :
    ∃ j, j < vec.length ∧ vec.getD j none = none := by
  have hne : ¬ ∀ a ∈ vec, Option.isSome a = true := by
    intro hall
    have := List.countP_eq_length.2 hall
    omega
  push_neg at hne
  obtain ⟨a, ha, hna⟩ := hne
  obtain ⟨j, hj, hja⟩ := List.getElem_of_mem ha
  refine ⟨j, hj, ?_⟩
  have : vec.getD j none = vec[j] := by simp [List.getD_eq_getElem?_getD, hj]
  rw [this, hja]
  cases a with
  | none => rfl
  | some x => simp at hna


theorem get_kvs_index_absent (K : hse_consts) (vec : List (Option kvdb_kvs))
    (kvs_name : List Nat) (h : ∀ s ∈ vec, slot_named kvs_name s = false) :
    get_kvs_index K vec kvs_name = (-1, some (first_empty_from vec K.HSE_KVS_COUNT_MAX 0)) := by
  unfold get_kvs_index
  rw [get_kvs_index_loop_absent vec kvs_name _ 0 (-1) (by omega)
    (fun j _ _ => absent_getD vec kvs_name h j)]
  simp

/-! ### `ikvdb_kvs_create` -/

/-- The calls of a successful `ikvdb_kvs_create`. -/
theorem ikvdb_kvs_create_installs (K : hse_consts) (E : kvs_create_env) (self : ikvdb_impl)
    (kvs_name : List Nat) (params : kvs_cparams)
    (hrw : self.ikdb_rdonly = false)
    (hlen : self.ikdb_kvs_vec.length = K.HSE_KVS_COUNT_MAX)
    (hcnt : self.ikdb_kvs_cnt = self.ikdb_kvs_vec.countP Option.isSome)
    (hlt : self.ikdb_kvs_cnt < K.HSE_KVS_COUNT_MAX)
    (hvalid : validate_kvs_name (some kvs_name) = 0)
    (habsent : ∀ s ∈ self.ikdb_kvs_vec, slot_named kvs_name s = false)
    (halloc : E.alloc_ok = true)
    (hcreate : (E.cndb_cn_create params (strlcpy kvs_name sizeof_kk_name)).1 = 0)
    (hcparams : E.cndb_cn_cparams (E.cndb_cn_create params (strlcpy kvs_name sizeof_kk_name)).2
      ≠ none) :
    ∃ idx : Nat, idx < self.ikdb_kvs_vec.length ∧ self.ikdb_kvs_vec.getD idx none = none ∧
      (∀ j, j < idx → (self.ikdb_kvs_vec.getD j none).isSome = true) ∧
      ikvdb_kvs_create K E self kvs_name params =
        (0,
         { self with
           ikdb_kvs_cnt := self.ikdb_kvs_cnt + 1
           ikdb_kvs_vec := self.ikdb_kvs_vec.set idx (some (created_slot E kvs_name params)) },
         [call.aligned_alloc, call.mutex_lock,
          call.cndb_cn_create (strlcpy kvs_name sizeof_kk_name),
          call.cndb_cn_cparams (E.cndb_cn_create params (strlcpy kvs_name sizeof_kk_name)).2,
          call.mutex_unlock, call.kvs_rest_register (strlcpy kvs_name sizeof_kk_name)]) := by
  obtain ⟨j, hj, hjn⟩ := exists_empty_of_count self.ikdb_kvs_vec (by omega)
  obtain ⟨k, hk1, _, hk3, hk4, hk5⟩ :=
    first_empty_from_spec self.ikdb_kvs_vec K.HSE_KVS_COUNT_MAX 0
      ⟨j, Nat.zero_le j, by omega, hjn⟩
  refine ⟨k, by omega, hk4, fun j hjk => hk5 j (Nat.zero_le j) hjk, ?_⟩
  have hbound := K.count_max_le
  have hmod : (self.ikdb_kvs_cnt + 1) % 2 ^ 32 = self.ikdb_kvs_cnt + 1 :=
    Nat.mod_eq_of_lt (by omega)
  have hge : ¬ self.ikdb_kvs_cnt ≥ K.HSE_KVS_COUNT_MAX := by omega
  have hin : k < self.ikdb_kvs_vec.length := by omega
  unfold ikvdb_kvs_create
  simp only [hrw, hvalid, halloc, kvdb_kvs_create, get_kvs_index_absent K _ _ habsent, hk1, hge,
    hcreate, hmod]
  have hcp' : ¬ E.cndb_cn_cparams (E.cndb_cn_create params (strlcpy kvs_name sizeof_kk_name)).2
      = none := hcparams
  simp [hcp', hin, created_slot]


theorem ikvdb_kvs_create_full (K : hse_consts) (E : kvs_create_env) (self : ikvdb_impl)
    (kvs_name : List Nat) (params : kvs_cparams)
    (hrw : self.ikdb_rdonly = false)
    (hvalid : validate_kvs_name (some kvs_name) = 0)
    (halloc : E.alloc_ok = true)
    (hfull : K.HSE_KVS_COUNT_MAX ≤ self.ikdb_kvs_cnt) :
    ikvdb_kvs_create K E self kvs_name params =
      (merr EINVAL 1363, self,
        [call.aligned_alloc, call.mutex_lock, call.mutex_unlock, call.free]) := by
  unfold ikvdb_kvs_create
  have hge : self.ikdb_kvs_cnt ≥ K.HSE_KVS_COUNT_MAX := hfull
  simp [hrw, hvalid, halloc, kvdb_kvs_create, hge, kvdb_kvs_destroy]

theorem exists_first_named (vec : List (Option kvdb_kvs)) (kvs_name : List Nat) (n : Nat)
    (h : ∃ j, j < n ∧ slot_named kvs_name (vec.getD j none) = true) :
    ∃ k, k < n ∧ slot_named kvs_name (vec.getD k none) = true ∧
      ∀ j, j < k → slot_named kvs_name (vec.getD j none) = false := by
  classical
  refine ⟨Nat.find h, (Nat.find_spec h).1, (Nat.find_spec h).2, ?_⟩
  intro j hj
  have hmin := Nat.find_min h hj
  have hjn : j < n := Nat.lt_trans hj (Nat.find_spec h).1
  cases hs : slot_named kvs_name (vec.getD j none)
  · rfl
  · exact absurd ⟨hjn, hs⟩ hmin

theorem get_kvs_index_found (K : hse_consts) (vec : List (Option kvdb_kvs))
    (kvs_name : List Nat) (k : Nat) (hk : k < K.HSE_KVS_COUNT_MAX)
    (hnamed : slot_named kvs_name (vec.getD k none) = true)
    (hbefore : ∀ j, j < k → slot_named kvs_name (vec.getD j none) = false) :
    get_kvs_index K vec kvs_name = ((k : Int), none) := by
  unfold get_kvs_index
  exact get_kvs_index_loop_found vec kvs_name _ 0 k (-1) (Nat.zero_le k) (by omega) hnamed
    (fun j _ hj => hbefore j hj)

theorem ikvdb_kvs_create_exists (K : hse_consts) (E : kvs_create_env) (self : ikvdb_impl)
    (kvs_name : List Nat) (params : kvs_cparams)
    (hrw : self.ikdb_rdonly = false)
    (hvalid : validate_kvs_name (some kvs_name) = 0)
    (halloc : E.alloc_ok = true)
    (hlt : self.ikdb_kvs_cnt < K.HSE_KVS_COUNT_MAX)
    (hpresent : ∃ j, j < K.HSE_KVS_COUNT_MAX ∧
      slot_named kvs_name (self.ikdb_kvs_vec.getD j none) = true) :
    ikvdb_kvs_create K E self kvs_name params =
      (merr EEXIST 1368, self,
        [call.aligned_alloc, call.mutex_lock, call.mutex_unlock, call.free]) := by
  obtain ⟨k, hk, hnamed, hbefore⟩ := exists_first_named _ _ _ hpresent
  have hge : ¬ self.ikdb_kvs_cnt ≥ K.HSE_KVS_COUNT_MAX := by omega
  unfold ikvdb_kvs_create
  simp [hrw, hvalid, halloc, kvdb_kvs_create, hge, kvdb_kvs_destroy,
    get_kvs_index_found K _ _ k hk hnamed hbefore]

theorem slot_named_created (E : kvs_create_env) (kvs_name : List Nat) (params : kvs_cparams)
    (hvalid : validate_kvs_name (some kvs_name) = 0) :
    slot_named kvs_name (some (created_slot E kvs_name params)) = true := by
  have hl := validate_kvs_name_length kvs_name hvalid
  simp [slot_named, created_slot, strlcpy_eq_cstr kvs_name sizeof_kk_name
    (by simpa [sizeof_kk_name, HSE_KVS_NAME_LEN_MAX] using hl), strcmp_cstr_self]

theorem getD_set_self (vec : List (Option kvdb_kvs)) (i : Nat) (x : Option kvdb_kvs)
    (h : i < vec.length) : (vec.set i x).getD i none = x := by
  simp [List.getD_eq_getElem?_getD, List.getElem?_set, h]

theorem getD_set_other (vec : List (Option kvdb_kvs)) (i j : Nat) (x : Option kvdb_kvs)
    (h : i ≠ j) : (vec.set i x).getD j none = vec.getD j none := by
  simp [List.getD_eq_getElem?_getD, List.getElem?_set, h]

/-! ### `drop_kvs_index` -/

theorem getElem?_congr_idx (vec : List (Option kvdb_kvs)) (a b : Nat) (h : a = b) :
    vec[a]? = vec[b]? := by
  rw [h]

theorem memmove_slots_compacts (vec : List (Option kvdb_kvs)) (cnt k : Nat) (hk : k < cnt)
    (hcnt : cnt ≤ vec.length)
    (hnone : ∀ i, cnt ≤ i → i < vec.length → vec[i]? = some none) :
    (memmove_slots vec k (k + 1) (cnt - k - 1)).set (cnt - 1) none =
      vec.eraseIdx k ++ [none] := by
  apply List.ext_getElem?
  intro i
  have hlen2 : (vec.eraseIdx k).length = vec.length - 1 := by
    rw [List.length_eraseIdx]; simp; omega
  have hbeyond : ∀ j, vec.length ≤ j → vec[j]? = none := fun j hj => List.getElem?_eq_none hj
  simp only [memmove_slots, List.getElem?_set, List.getElem?_append, List.getElem?_take,
    List.getElem?_drop, List.getElem?_eraseIdx, List.length_append, List.length_take,
    List.length_drop, hlen2]
  have e1 : min k vec.length = k := by omega
  have e2 : min (cnt - k - 1) (vec.length - (k + 1)) = cnt - k - 1 := by omega
  by_cases h1 : cnt - 1 = i
  · subst h1
    simp only [e1, e2, if_true]
    have e3 : k + (cnt - k - 1) + (vec.length - (k + (cnt - k - 1))) = vec.length := by omega
    have e4 : cnt - 1 < vec.length := by omega
    simp only [e3, e4, if_true]
    by_cases h2 : cnt - 1 < vec.length - 1
    · have h3 : ¬ (cnt - 1 < k) := by omega
      simp only [h2, h3, if_true, if_false]
      exact (hnone (cnt - 1 + 1) (by omega) (by omega)).symm
    · have : cnt - 1 - (vec.length - 1) = 0 := by omega
      simp [h2, this]
  · simp only [e1, e2, h1, if_false]
    by_cases hik : i < k
    · have a1 : i < k + (cnt - k - 1) := by omega
      have a2 : i < vec.length - 1 := by omega
      simp [hik, a1, a2]
    · by_cases hic : i < cnt - 1
      · have a1 : i < k + (cnt - k - 1) := by omega
        have a2 : i < vec.length - 1 := by omega
        have a3 : i - k < cnt - k - 1 := by omega
        simp only [hik, a1, a2, a3, if_true, if_false]
        exact getElem?_congr_idx vec _ _ (by omega)
      · have a1 : ¬ i < k + (cnt - k - 1) := by omega
        simp only [a1, if_false]
        rw [getElem?_congr_idx vec (k + (cnt - k - 1) + (i - (k + (cnt - k - 1)))) i (by omega)]
        by_cases hil : i < vec.length - 1
        · simp only [hil, hik, if_true, if_false]
          rw [hnone i (by omega) (by omega), hnone (i + 1) (by omega) (by omega)]
        · simp only [hil, if_false]
          by_cases hlast : i = vec.length - 1
          · have : i - (vec.length - 1) = 0 := by omega
            rw [this, hnone i (by omega) (by omega)]
            rfl
          · rw [hbeyond i (by omega)]
            have : i - (vec.length - 1) = (i - vec.length) + 1 := by omega
            rw [this]
            rfl

theorem compact_beyond (K : hse_consts) (self : ikvdb_impl) (h : dir_compact K self) (i : Nat)
    (h1 : self.ikdb_kvs_cnt ≤ i) (h2 : i < self.ikdb_kvs_vec.length) :
    self.ikdb_kvs_vec[i]? = some none := by
  obtain ⟨hlen, _, hocc⟩ := h
  have hi := hocc i (by omega)
  have hns : ¬ (self.ikdb_kvs_vec.getD i none).isSome = true := fun hh => by
    have := hi.1 hh; omega
  rw [List.getD_eq_getElem?_getD, List.getElem?_eq_getElem h2] at hns
  rw [List.getElem?_eq_getElem h2]
  cases hv : self.ikdb_kvs_vec[i] with
  | none => rfl
  | some x => rw [hv] at hns; simp at hns

theorem drop_kvs_index_compact (K : hse_consts) (self : ikvdb_impl) (k : Nat)
    (h : dir_compact K self) (hk : k < self.ikdb_kvs_cnt) :
    (drop_kvs_index self k).1 =
      { self with
        ikdb_kvs_cnt := self.ikdb_kvs_cnt - 1
        ikdb_kvs_vec := self.ikdb_kvs_vec.eraseIdx k ++ [none] } := by
  have hbound := K.count_max_le
  obtain ⟨hlen, hle, _⟩ := id h
  have hcnt : (self.ikdb_kvs_cnt + 2 ^ 32 - 1) % 2 ^ 32 = self.ikdb_kvs_cnt - 1 := by
    rw [show self.ikdb_kvs_cnt + 2 ^ 32 - 1 = (self.ikdb_kvs_cnt - 1) + 2 ^ 32 by omega]
    rw [Nat.add_mod_right]
    exact Nat.mod_eq_of_lt (by omega)
  have hc : ((self.ikdb_kvs_cnt : Int) - (k : Int) - 1).toNat = self.ikdb_kvs_cnt - k - 1 := by
    omega
  have hmm : (if (self.ikdb_kvs_cnt : Int) - (k : Int) - 1 ≠ 0 then
        memmove_slots self.ikdb_kvs_vec k (k + 1) ((self.ikdb_kvs_cnt : Int) - (k : Int) - 1).toNat
      else self.ikdb_kvs_vec) =
      memmove_slots self.ikdb_kvs_vec k (k + 1) (self.ikdb_kvs_cnt - k - 1) := by
    by_cases hz : (self.ikdb_kvs_cnt : Int) - (k : Int) - 1 = 0
    · have : self.ikdb_kvs_cnt - k - 1 = 0 := by omega
      simp [hz, this, memmove_slots]
    · simp [hz, hc]
  unfold drop_kvs_index
  simp only [hcnt, hmm]
  rw [memmove_slots_compacts self.ikdb_kvs_vec self.ikdb_kvs_cnt k hk (by omega)
    (fun i h1 h2 => compact_beyond K self h i h1 h2)]


theorem eraseIdx_compact (K : hse_consts) (self : ikvdb_impl) (k : Nat)
    (h : dir_compact K self) (hk : k < self.ikdb_kvs_cnt) :
    dir_compact K
      { self with
        ikdb_kvs_cnt := self.ikdb_kvs_cnt - 1
        ikdb_kvs_vec := self.ikdb_kvs_vec.eraseIdx k ++ [none] } := by
  obtain ⟨hlen, hle, hocc⟩ := h
  have hlen2 : (self.ikdb_kvs_vec.eraseIdx k).length = self.ikdb_kvs_vec.length - 1 := by
    rw [List.length_eraseIdx]; simp; omega
  refine ⟨?_, ?_, ?_⟩
  · simp only [List.length_append, hlen2, List.length_singleton]; omega
  · simp only; omega
  · intro i hi
    simp only [List.getD_eq_getElem?_getD, List.getElem?_append, hlen2, List.getElem?_eraseIdx]
    by_cases h1 : i < self.ikdb_kvs_vec.length - 1
    · by_cases h2 : i < k
      · have := hocc i hi
        simp only [List.getD_eq_getElem?_getD] at this
        simp only [h1, h2, if_true, this]; omega
      · have := hocc (i + 1) (by omega)
        simp only [List.getD_eq_getElem?_getD] at this
        simp only [h1, h2, if_true, if_false, this]; omega
    · have : i - (self.ikdb_kvs_vec.length - 1) = 0 := by omega
      simp only [h1, if_false, this]
      simp; omega

theorem getD_isSome_lt (vec : List (Option kvdb_kvs)) (k : Nat) (kvs : kvdb_kvs)
    (hget : vec.getD k none = some kvs) : k < vec.length := by
  by_contra hk
  have : vec.getD k none = none := by
    simp [List.getD_eq_getElem?_getD, List.getElem?_eq_none (Nat.le_of_not_lt hk)]
  rw [this] at hget; cases hget

/-- The branch `ikvdb_kvs_drop` takes once `get_kvs_index` has found the slot. -/
theorem ikvdb_kvs_drop_found (K : hse_consts) (E : kvs_drop_env) (self : ikvdb_impl)
    (kvs_name : List Nat) (k : Nat) (kvs : kvdb_kvs)
    (hrw : self.ikdb_rp.read_only = false)
    (hvalid : validate_kvs_name (some kvs_name) = 0)
    (hk : k < K.HSE_KVS_COUNT_MAX)
    (hget : self.ikdb_kvs_vec.getD k none = some kvs)
    (hname : strcmp kvs_name kvs.kk_name = 0)
    (hbefore : ∀ j, j < k → slot_named kvs_name (self.ikdb_kvs_vec.getD j none) = false) :
    ikvdb_kvs_drop K E self (some kvs_name) =
      if kvs.kk_ikvs.isSome then (merr EBUSY 1442, self, [call.mutex_lock, call.mutex_unlock])
      else if E.cndb_cn_drop kvs.kk_cnid ≠ 0 then
        (E.cndb_cn_drop kvs.kk_cnid, self,
          [call.mutex_lock, call.kvs_rest_deregister kvs.kk_name] ++
            (if kvs.kk_refcnt = 0 then [] else [call.assert_fail 1451]) ++
            [call.cndb_cn_drop kvs.kk_cnid, call.mutex_unlock])
      else
        (E.cndb_cn_drop kvs.kk_cnid, (drop_kvs_index self k).1,
          [call.mutex_lock, call.kvs_rest_deregister kvs.kk_name] ++
            (if kvs.kk_refcnt = 0 then [] else [call.assert_fail 1451]) ++
            [call.cndb_cn_drop kvs.kk_cnid] ++ (drop_kvs_index self k).2 ++
            [call.mutex_unlock]) := by
  have hnamed : slot_named kvs_name (self.ikdb_kvs_vec.getD k none) = true := by
    rw [hget]; simp [slot_named, hname]
  have hidx := get_kvs_index_found K self.ikdb_kvs_vec kvs_name k hk hnamed hbefore
  have hnn : ¬ ((k : Int) < 0) := by omega
  unfold ikvdb_kvs_drop
  simp only [hrw, hvalid, Option.getD_some, hidx, hnn, Int.toNat_ofNat, hget]
  simp

theorem ikvdb_kvs_drop_absent (K : hse_consts) (E : kvs_drop_env) (self : ikvdb_impl)
    (kvs_name : List Nat)
    (hrw : self.ikdb_rp.read_only = false)
    (hvalid : validate_kvs_name (some kvs_name) = 0)
    (habsent : ∀ s ∈ self.ikdb_kvs_vec, slot_named kvs_name s = false) :
    ikvdb_kvs_drop K E self (some kvs_name) =
      (merr ENOENT 1435, self, [call.mutex_lock, call.mutex_unlock]) := by
  unfold ikvdb_kvs_drop
  simp [hrw, hvalid, get_kvs_index_absent K _ _ habsent]


/-! ### The concrete databases -/

theorem filled_getD (K : hse_consts) (n i : Nat) :
    (ikvdb_filled K n).ikdb_kvs_vec.getD i none =
      if i < n then some (kvs_numbered i) else none := by
  simp only [ikvdb_filled, List.getD_eq_getElem?_getD, List.getElem?_append, List.length_map,
    List.length_range]
  by_cases h : i < n
  · simp [h, List.getElem?_map, List.getElem?_range h]
  · simp only [h, if_false]
    by_cases h2 : i - n < K.HSE_KVS_COUNT_MAX - n
    · simp [List.getElem?_replicate, h2]
    · simp [List.getElem?_replicate, h2]

theorem filled_length (K : hse_consts) (n : Nat) (h : n ≤ K.HSE_KVS_COUNT_MAX) :
    (ikvdb_filled K n).ikdb_kvs_vec.length = K.HSE_KVS_COUNT_MAX := by
  simp [ikvdb_filled]; omega

theorem filled_compact (K : hse_consts) (n : Nat) (h : n ≤ K.HSE_KVS_COUNT_MAX) :
    dir_compact K (ikvdb_filled K n) := by
  refine ⟨filled_length K n h, h, ?_⟩
  intro i _
  rw [filled_getD]
  by_cases hi : i < n
  · simp [hi, ikvdb_filled]
  · simp [hi, ikvdb_filled]

theorem filled_count (K : hse_consts) (n : Nat) :
    (ikvdb_filled K n).ikdb_kvs_cnt =
      (ikvdb_filled K n).ikdb_kvs_vec.countP Option.isSome := by
  simp only [ikvdb_filled, List.countP_append]
  have h1 : List.countP Option.isSome ((List.range n).map fun i => some (kvs_numbered i)) = n := by
    rw [List.countP_eq_length.2]
    · simp
    · intro a ha
      obtain ⟨i, _, rfl⟩ := List.mem_map.1 ha
      rfl
  have h2 : List.countP Option.isSome
      (List.replicate (K.HSE_KVS_COUNT_MAX - n) (none : Option kvdb_kvs)) = 0 := by
    rw [List.countP_eq_zero]
    intro a ha
    rw [List.eq_of_mem_replicate ha]
    simp
  rw [h1, h2]
  rfl

theorem filled_absent (K : hse_consts) (n c : Nat) (rest : List Nat) (hc : c ≠ 107) :
    ∀ s ∈ (ikvdb_filled K n).ikdb_kvs_vec, slot_named (c :: rest) s = false := by
  intro s hs
  simp only [ikvdb_filled, List.mem_append, List.mem_map] at hs
  rcases hs with ⟨i, _, rfl⟩ | hs
  · simp [slot_named, kvs_numbered, strcmp, hc]
    omega
  · rw [List.eq_of_mem_replicate hs]; rfl

theorem empty_absent (K : hse_consts) (kvs_name : List Nat) :
    ∀ s ∈ (ikvdb_filled K 0).ikdb_kvs_vec, slot_named kvs_name s = false := by
  intro s hs
  simp only [ikvdb_filled, List.range_zero, List.map_nil, List.nil_append] at hs
  rw [List.eq_of_mem_replicate hs]; rfl

theorem ikvdb_kvs_create_nomem (K : hse_consts) (E : kvs_create_env) (self : ikvdb_impl)
    (kvs_name : List Nat) (params : kvs_cparams)
    (hrw : self.ikdb_rdonly = false)
    (hvalid : validate_kvs_name (some kvs_name) = 0)
    (halloc : E.alloc_ok = false) :
    ikvdb_kvs_create K E self kvs_name params = (merr ENOMEM 1354, self, [call.aligned_alloc]) := by
  unfold ikvdb_kvs_create
  simp [hrw, hvalid, halloc, kvdb_kvs_create]

/-! ### The claims on `ikvdb_kvs_create` -/

/-- C5 (as amended): on a writable database holding fewer than
`HSE_KVS_COUNT_MAX` KVSes, for a valid name that no slot holds, when the slot
allocation succeeds, the external create succeeds and `cndb_cn_cparams` finds
the parameters of the new cnid, `ikvdb_kvs_create` returns 0 whatever the REST
registration answers, puts into the lowest-indexed empty slot a slot with that
name, the cnid of the external create, reference count 0 and no open handle,
adds one to the count and leaves every other slot as it was. -/
theorem ikvdb_kvs_create_success (K : hse_consts) (E : kvs_create_env) (self : ikvdb_impl)
    (kvs_name : List Nat) (params : kvs_cparams)
    (hrw : self.ikdb_rdonly = false)
    (hlen : self.ikdb_kvs_vec.length = K.HSE_KVS_COUNT_MAX)
    (hcnt : self.ikdb_kvs_cnt = self.ikdb_kvs_vec.countP Option.isSome)
    (hlt : self.ikdb_kvs_cnt < K.HSE_KVS_COUNT_MAX)
    (hvalid : validate_kvs_name (some kvs_name) = 0)
    (habsent : ∀ s ∈ self.ikdb_kvs_vec, slot_named kvs_name s = false)
    (halloc : E.alloc_ok = true)
    (hcreate : (E.cndb_cn_create params (strlcpy kvs_name sizeof_kk_name)).1 = 0)
    (hcparams : E.cndb_cn_cparams (E.cndb_cn_create params (strlcpy kvs_name sizeof_kk_name)).2
      ≠ none) :
    ∃ idx : Nat, idx < self.ikdb_kvs_vec.length ∧ self.ikdb_kvs_vec.getD idx none = none ∧
      (∀ j, j < idx → (self.ikdb_kvs_vec.getD j none).isSome = true) ∧
      (ikvdb_kvs_create K E self kvs_name params).1 = 0 ∧
      (ikvdb_kvs_create K E self kvs_name params).2.1 =
        { self with
          ikdb_kvs_cnt := self.ikdb_kvs_cnt + 1
          ikdb_kvs_vec := self.ikdb_kvs_vec.set idx (some (created_slot E kvs_name params)) } ∧
      (created_slot E kvs_name params).kk_name = cstr kvs_name ∧
      (created_slot E kvs_name params).kk_cnid = (E.cndb_cn_create params (cstr kvs_name)).2 ∧
      (created_slot E kvs_name params).kk_refcnt = 0 ∧
      (created_slot E kvs_name params).kk_ikvs = none ∧
      (ikvdb_kvs_create K E self kvs_name params).2.1.ikdb_kvs_cnt = self.ikdb_kvs_cnt + 1 ∧
      (∀ j, j ≠ idx →
        (ikvdb_kvs_create K E self kvs_name params).2.1.ikdb_kvs_vec.getD j none =
          self.ikdb_kvs_vec.getD j none) := by
  obtain ⟨idx, h1, h2, h3, h4⟩ := ikvdb_kvs_create_installs K E self kvs_name params hrw hlen
    hcnt hlt hvalid habsent halloc hcreate hcparams
  have hl := validate_kvs_name_length kvs_name hvalid
  have hcpy : strlcpy kvs_name sizeof_kk_name = cstr kvs_name :=
    strlcpy_eq_cstr kvs_name sizeof_kk_name
      (by simpa [sizeof_kk_name, HSE_KVS_NAME_LEN_MAX] using hl)
  refine ⟨idx, h1, h2, h3, ?_, ?_, ?_, ?_, rfl, rfl, ?_, ?_⟩
  · rw [h4]
  · rw [h4]
  · simp [created_slot, hcpy]
  · simp [created_slot, hcpy]
  · rw [h4]
  · intro j hj
    rw [h4]
    exact getD_set_other _ _ _ _ (Ne.symm hj)

/-- Witness of C5: the KVS `k1` is created in an empty table. -/
theorem ikvdb_kvs_create_success_witness :
    ∃ idx : Nat, idx < (ikvdb_filled consts_example 0).ikdb_kvs_vec.length ∧
      (ikvdb_kvs_create consts_example create_env_example (ikvdb_filled consts_example 0)
        [107, 49] ⟨0⟩).1 = 0 ∧
      (ikvdb_kvs_create consts_example create_env_example (ikvdb_filled consts_example 0)
        [107, 49] ⟨0⟩).2.1.ikdb_kvs_cnt = 1 := by
  obtain ⟨idx, h1, _, _, h4, _, _, _, _, _, h10, _⟩ :=
    ikvdb_kvs_create_success consts_example create_env_example (ikvdb_filled consts_example 0)
      [107, 49] ⟨0⟩ rfl (filled_length _ 0 (Nat.zero_le _)) (filled_count _ 0) (by decide)
      (by decide) (empty_absent consts_example [107, 49])
      rfl rfl (by simp [create_env_example])
  exact ⟨idx, h1, h4, h10⟩

theorem ikvdb_kvs_create_no_cparams (K : hse_consts) (E : kvs_create_env) (self : ikvdb_impl)
    (kvs_name : List Nat) (params : kvs_cparams)
    (hrw : self.ikdb_rdonly = false)
    (hlt : self.ikdb_kvs_cnt < K.HSE_KVS_COUNT_MAX)
    (hvalid : validate_kvs_name (some kvs_name) = 0)
    (habsent : ∀ s ∈ self.ikdb_kvs_vec, slot_named kvs_name s = false)
    (halloc : E.alloc_ok = true)
    (hcreate : (E.cndb_cn_create params (strlcpy kvs_name sizeof_kk_name)).1 = 0)
    (hcparams : E.cndb_cn_cparams (E.cndb_cn_create params (strlcpy kvs_name sizeof_kk_name)).2
      = none) :
    (ikvdb_kvs_create K E self kvs_name params).1 = merr K.EBUG 1384 ∧
      (ikvdb_kvs_create K E self kvs_name params).2.1 = self := by
  have hge : ¬ self.ikdb_kvs_cnt ≥ K.HSE_KVS_COUNT_MAX := by omega
  unfold ikvdb_kvs_create
  simp only [hrw, hvalid, halloc, kvdb_kvs_create, get_kvs_index_absent K _ _ habsent, hge,
    hcreate, hcparams]
  simp

/-- C5 (counterexample): in an empty writable table, for the valid name `k1`, the
external create succeeds, `cndb_cn_cparams` then finds no parameters, and
`ikvdb_kvs_create` returns `EBUG` instead of 0 and installs nothing; and when
the allocation of the slot fails it returns `ENOMEM` and installs nothing. -/
theorem ikvdb_kvs_create_ebug :
    (ikvdb_filled consts_example 0).ikdb_rdonly = false ∧
      (ikvdb_filled consts_example 0).ikdb_kvs_cnt < consts_example.HSE_KVS_COUNT_MAX ∧
      validate_kvs_name (some [107, 49]) = 0 ∧
      (∀ s ∈ (ikvdb_filled consts_example 0).ikdb_kvs_vec, slot_named [107, 49] s = false) ∧
      (create_env_nocparams.cndb_cn_create ⟨0⟩ (strlcpy [107, 49] sizeof_kk_name)).1 = 0 ∧
      (ikvdb_kvs_create consts_example create_env_nocparams (ikvdb_filled consts_example 0)
        [107, 49] ⟨0⟩).1 = merr consts_example.EBUG 1384 ∧
      (ikvdb_kvs_create consts_example create_env_nocparams (ikvdb_filled consts_example 0)
        [107, 49] ⟨0⟩).1 ≠ 0 ∧
      (ikvdb_kvs_create consts_example create_env_nocparams (ikvdb_filled consts_example 0)
        [107, 49] ⟨0⟩).2.1 = ikvdb_filled consts_example 0 ∧
      (create_env_nomem.cndb_cn_create ⟨0⟩ (strlcpy [107, 49] sizeof_kk_name)).1 = 0 ∧
      ikvdb_kvs_create consts_example create_env_nomem (ikvdb_filled consts_example 0)
        [107, 49] ⟨0⟩ = (merr ENOMEM 1354, ikvdb_filled consts_example 0, [call.aligned_alloc]) ∧
      merr ENOMEM 1354 ≠ 0 := by
  have h := ikvdb_kvs_create_no_cparams consts_example create_env_nocparams
    (ikvdb_filled consts_example 0) [107, 49] ⟨0⟩ rfl (by decide) (by decide)
    (empty_absent consts_example [107, 49]) rfl rfl rfl
  refine ⟨rfl, by decide, by decide, empty_absent consts_example [107, 49], rfl, h.1, ?_, h.2,
    rfl, ?_, by decide⟩
  · rw [h.1]
    decide
  · exact ikvdb_kvs_create_nomem consts_example create_env_nomem (ikvdb_filled consts_example 0)
      [107, 49] ⟨0⟩ rfl (by decide) rfl

/-- Two creates of the same name, one after the other. -/
theorem ikvdb_kvs_create_again (K : hse_consts) (E1 E2 : kvs_create_env) (self : ikvdb_impl)
    (kvs_name : List Nat) (p1 p2 : kvs_cparams)
    (hrw : self.ikdb_rdonly = false)
    (hlen : self.ikdb_kvs_vec.length = K.HSE_KVS_COUNT_MAX)
    (hcnt : self.ikdb_kvs_cnt = self.ikdb_kvs_vec.countP Option.isSome)
    (hlt : self.ikdb_kvs_cnt < K.HSE_KVS_COUNT_MAX)
    (hvalid : validate_kvs_name (some kvs_name) = 0)
    (habsent : ∀ s ∈ self.ikdb_kvs_vec, slot_named kvs_name s = false)
    (halloc1 : E1.alloc_ok = true)
    (hcreate : (E1.cndb_cn_create p1 (strlcpy kvs_name sizeof_kk_name)).1 = 0)
    (hcparams : E1.cndb_cn_cparams (E1.cndb_cn_create p1 (strlcpy kvs_name sizeof_kk_name)).2
      ≠ none)
    (halloc2 : E2.alloc_ok = true) :
    (ikvdb_kvs_create K E1 self kvs_name p1).1 = 0 ∧
      (self.ikdb_kvs_cnt + 1 < K.HSE_KVS_COUNT_MAX →
        ikvdb_kvs_create K E2 (ikvdb_kvs_create K E1 self kvs_name p1).2.1 kvs_name p2 =
          (merr EEXIST 1368, (ikvdb_kvs_create K E1 self kvs_name p1).2.1,
            [call.aligned_alloc, call.mutex_lock, call.mutex_unlock, call.free])) ∧
      (self.ikdb_kvs_cnt + 1 = K.HSE_KVS_COUNT_MAX →
        ikvdb_kvs_create K E2 (ikvdb_kvs_create K E1 self kvs_name p1).2.1 kvs_name p2 =
          (merr EINVAL 1363, (ikvdb_kvs_create K E1 self kvs_name p1).2.1,
            [call.aligned_alloc, call.mutex_lock, call.mutex_unlock, call.free])) := by
  obtain ⟨idx, h1, _, _, h4⟩ := ikvdb_kvs_create_installs K E1 self kvs_name p1 hrw hlen
    hcnt hlt hvalid habsent halloc1 hcreate hcparams
  rw [h4]
  refine ⟨rfl, ?_, ?_⟩
  · intro hroom
    have hnamed : slot_named kvs_name
        ((self.ikdb_kvs_vec.set idx (some (created_slot E1 kvs_name p1))).getD idx none) = true := by
      rw [getD_set_self _ _ _ h1]
      exact slot_named_created E1 kvs_name p1 hvalid
    exact ikvdb_kvs_create_exists K E2 _ kvs_name p2 hrw hvalid halloc2 hroom
      ⟨idx, by omega, hnamed⟩
  · intro hfull
    exact ikvdb_kvs_create_full K E2 _ kvs_name p2 hrw hvalid halloc2 (Nat.le_of_eq hfull.symm)

/-- C6 (as amended): on a writable database holding fewer than
`HSE_KVS_COUNT_MAX` KVSes none of which has the valid name `n`, with both slot
allocations succeeding and, in the first call, the external create and the
lookup of its parameters succeeding, of two `ikvdb_kvs_create(n)` executed one
after the other the first returns 0 and the second leaves the slot table and
the count as the first made them and returns `EEXIST` when the first create
left an empty slot, `EINVAL` when it filled the table. -/
theorem ikvdb_kvs_create_same_name (K : hse_consts) (E1 E2 : kvs_create_env) (self : ikvdb_impl)
    (kvs_name : List Nat) (p1 p2 : kvs_cparams)
    (hrw : self.ikdb_rdonly = false)
    (hlen : self.ikdb_kvs_vec.length = K.HSE_KVS_COUNT_MAX)
    (hcnt : self.ikdb_kvs_cnt = self.ikdb_kvs_vec.countP Option.isSome)
    (hlt : self.ikdb_kvs_cnt < K.HSE_KVS_COUNT_MAX)
    (hvalid : validate_kvs_name (some kvs_name) = 0)
    (habsent : ∀ s ∈ self.ikdb_kvs_vec, slot_named kvs_name s = false)
    (halloc1 : E1.alloc_ok = true)
    (hcreate : (E1.cndb_cn_create p1 (strlcpy kvs_name sizeof_kk_name)).1 = 0)
    (hcparams : E1.cndb_cn_cparams (E1.cndb_cn_create p1 (strlcpy kvs_name sizeof_kk_name)).2
      ≠ none)
    (halloc2 : E2.alloc_ok = true) :
    (ikvdb_kvs_create K E1 self kvs_name p1).1 = 0 ∧
      (ikvdb_kvs_create K E2 (ikvdb_kvs_create K E1 self kvs_name p1).2.1 kvs_name p2).2.1 =
        (ikvdb_kvs_create K E1 self kvs_name p1).2.1 ∧
      (self.ikdb_kvs_cnt + 1 < K.HSE_KVS_COUNT_MAX →
        (ikvdb_kvs_create K E2 (ikvdb_kvs_create K E1 self kvs_name p1).2.1 kvs_name p2).1 =
          merr EEXIST 1368) ∧
      (self.ikdb_kvs_cnt + 1 = K.HSE_KVS_COUNT_MAX →
        (ikvdb_kvs_create K E2 (ikvdb_kvs_create K E1 self kvs_name p1).2.1 kvs_name p2).1 =
          merr EINVAL 1363) ∧
      merr_errno (merr EEXIST 1368) = EEXIST := by
  obtain ⟨h1, h2, h3⟩ := ikvdb_kvs_create_again K E1 E2 self kvs_name p1 p2 hrw hlen hcnt hlt
    hvalid habsent halloc1 hcreate hcparams halloc2
  refine ⟨h1, ?_, fun h => by rw [h2 h], fun h => by rw [h3 h], rfl⟩
  by_cases hroom : self.ikdb_kvs_cnt + 1 < K.HSE_KVS_COUNT_MAX
  · rw [h2 hroom]
  · rw [h3 (by omega)]

/-- Witness of C6: two creates of `k1` in an empty table; the second finds the
name. -/
theorem ikvdb_kvs_create_same_name_witness :
    (ikvdb_kvs_create consts_example create_env_example (ikvdb_filled consts_example 0)
        [107, 49] ⟨0⟩).1 = 0 ∧
      (ikvdb_kvs_create consts_example create_env_example
        (ikvdb_kvs_create consts_example create_env_example (ikvdb_filled consts_example 0)
          [107, 49] ⟨0⟩).2.1 [107, 49] ⟨0⟩).1 = merr EEXIST 1368 := by
  have h := ikvdb_kvs_create_same_name consts_example create_env_example create_env_example
    (ikvdb_filled consts_example 0) [107, 49] ⟨0⟩ ⟨0⟩ rfl (filled_length _ 0 (Nat.zero_le _))
    (filled_count _ 0) (by decide) (by decide) (empty_absent consts_example [107, 49])
    rfl rfl (by simp [create_env_example]) rfl
  exact ⟨h.1, h.2.2.1 (by decide)⟩

/-- C6 (counterexample): the writable table holds the 255 KVSes `k000` … `k254`
and not the valid name `n`; every collaborator succeeds. The first
`ikvdb_kvs_create(n)` returns 0 and fills the table, and the second returns the
`EINVAL` of the count check, not `EEXIST`. Besides, in the empty table: the
second create returns `ENOMEM` when its slot allocation fails, and the first
create returns `EBUG` when `cndb_cn_cparams` finds nothing and `ENOMEM` when its
slot allocation fails, the external create succeeding. -/
theorem ikvdb_kvs_create_same_name_full :
    (ikvdb_filled consts_example 255).ikdb_rdonly = false ∧
      (∀ s ∈ (ikvdb_filled consts_example 255).ikdb_kvs_vec, slot_named [110] s = false) ∧
      validate_kvs_name (some [110]) = 0 ∧
      (create_env_example.cndb_cn_create ⟨0⟩ (strlcpy [110] sizeof_kk_name)).1 = 0 ∧
      (ikvdb_kvs_create consts_example create_env_example (ikvdb_filled consts_example 255)
        [110] ⟨0⟩).1 = 0 ∧
      (ikvdb_kvs_create consts_example create_env_example
        (ikvdb_kvs_create consts_example create_env_example (ikvdb_filled consts_example 255)
          [110] ⟨0⟩).2.1 [110] ⟨0⟩).1 = merr EINVAL 1363 ∧
      merr_errno (merr EINVAL 1363) ≠ EEXIST ∧
      (ikvdb_kvs_create consts_example create_env_nomem
        (ikvdb_kvs_create consts_example create_env_example (ikvdb_filled consts_example 0)
          [110] ⟨0⟩).2.1 [110] ⟨0⟩).1 = merr ENOMEM 1354 ∧
      merr_errno (merr ENOMEM 1354) ≠ EEXIST ∧
      (ikvdb_kvs_create consts_example create_env_nocparams (ikvdb_filled consts_example 0)
        [110] ⟨0⟩).1 = merr consts_example.EBUG 1384 ∧
      (ikvdb_kvs_create consts_example create_env_nomem (ikvdb_filled consts_example 0)
        [110] ⟨0⟩).1 = merr ENOMEM 1354 ∧
      merr consts_example.EBUG 1384 ≠ 0 ∧ merr ENOMEM 1354 ≠ 0 := by
  have habs := filled_absent consts_example 255 110 [] (by decide)
  have h := ikvdb_kvs_create_again consts_example create_env_example create_env_example
    (ikvdb_filled consts_example 255) [110] ⟨0⟩ ⟨0⟩ rfl (filled_length _ 255 (by decide))
    (filled_count _ 255) (by decide) (by decide) habs rfl rfl (by simp [create_env_example]) rfl
  obtain ⟨idx, _, _, _, h0⟩ := ikvdb_kvs_create_installs consts_example create_env_example
    (ikvdb_filled consts_example 0) [110] ⟨0⟩ rfl (filled_length _ 0 (Nat.zero_le _))
    (filled_count _ 0) (by decide) (by decide) (empty_absent consts_example [110]) rfl rfl
    (by simp [create_env_example])
  refine ⟨rfl, habs, by decide, rfl, h.1, ?_, by decide, ?_, by decide, ?_, ?_, by decide,
    by decide⟩
  · rw [h.2.2 (by decide)]
  · rw [h0, ikvdb_kvs_create_nomem consts_example create_env_nomem _ [110] ⟨0⟩ rfl (by decide) rfl]
  · exact (ikvdb_kvs_create_no_cparams consts_example create_env_nocparams
      (ikvdb_filled consts_example 0) [110] ⟨0⟩ rfl (by decide) (by decide)
      (empty_absent consts_example [110]) rfl rfl rfl).1
  · rw [ikvdb_kvs_create_nomem consts_example create_env_nomem _ [110] ⟨0⟩ rfl (by decide) rfl]

/-- C7 (as amended): when the count has reached `HSE_KVS_COUNT_MAX`,
`ikvdb_kvs_create` on a writable database with a valid name, the slot
allocation succeeding, returns the `EINVAL` of the count check, which is not
`EEXIST`, without calling `cndb_cn_create`, and leaves the table and the count
as they were. -/
theorem ikvdb_kvs_create_table_full (K : hse_consts) (E : kvs_create_env) (self : ikvdb_impl)
    (kvs_name : List Nat) (params : kvs_cparams)
    (hrw : self.ikdb_rdonly = false)
    (hvalid : validate_kvs_name (some kvs_name) = 0)
    (halloc : E.alloc_ok = true)
    (hfull : K.HSE_KVS_COUNT_MAX ≤ self.ikdb_kvs_cnt) :
    (ikvdb_kvs_create K E self kvs_name params).1 = merr EINVAL 1363 ∧
      merr_errno (ikvdb_kvs_create K E self kvs_name params).1 = EINVAL ∧
      EINVAL ≠ EEXIST ∧
      (ikvdb_kvs_create K E self kvs_name params).2.1 = self ∧
      (∀ n, call.cndb_cn_create n ∉ (ikvdb_kvs_create K E self kvs_name params).2.2) := by
  rw [ikvdb_kvs_create_full K E self kvs_name params hrw hvalid halloc hfull]
  refine ⟨rfl, rfl, by decide, rfl, ?_⟩
  intro n
  simp

/-- Witness of C7: a create of `n` in the table that holds `k000` … `k255`. -/
theorem ikvdb_kvs_create_table_full_witness :
    (ikvdb_kvs_create consts_example create_env_example (ikvdb_filled consts_example 256)
        [110] ⟨0⟩).1 = merr EINVAL 1363 :=
  (ikvdb_kvs_create_table_full consts_example create_env_example (ikvdb_filled consts_example 256)
    [110] ⟨0⟩ rfl (by decide) rfl (Nat.le_refl 256)).1

/-- C7 (counterexample): the table holds `HSE_KVS_COUNT_MAX` KVSes, the database
is writable, the name `n` is valid, the allocation of the slot fails, and
`ikvdb_kvs_create` returns `ENOMEM`, not `EINVAL`. -/
theorem ikvdb_kvs_create_table_full_nomem :
    (ikvdb_filled consts_example 256).ikdb_rdonly = false ∧
      (ikvdb_filled consts_example 256).ikdb_kvs_cnt = consts_example.HSE_KVS_COUNT_MAX ∧
      dir_compact consts_example (ikvdb_filled consts_example 256) ∧
      validate_kvs_name (some [110]) = 0 ∧
      ikvdb_kvs_create consts_example create_env_nomem (ikvdb_filled consts_example 256)
        [110] ⟨0⟩ = (merr ENOMEM 1354, ikvdb_filled consts_example 256, [call.aligned_alloc]) ∧
      merr_errno (merr ENOMEM 1354) ≠ EINVAL := by
  exact ⟨rfl, rfl, filled_compact _ 256 (Nat.le_refl 256), by decide,
    ikvdb_kvs_create_nomem consts_example create_env_nomem (ikvdb_filled consts_example 256)
      [110] ⟨0⟩ rfl (by decide) rfl, by decide⟩

/-! ### The claims on `ikvdb_kvs_drop` -/

/-- C8: with a valid name, `ikvdb_kvs_drop` returns `EROFS` on a read-only
database and, on a writable one, `ENOENT` when no slot holds the name and
`EBUSY` when the slot found for the name is opened; in these three cases, and
when the external `cndb_cn_drop` fails (its error is returned), the database,
its slot table and count included, is left as it was. -/
theorem ikvdb_kvs_drop_errors (K : hse_consts) (E : kvs_drop_env) (self : ikvdb_impl)
    (kvs_name : List Nat)
    (hvalid : validate_kvs_name (some kvs_name) = 0)
    (hmode : self.ikdb_rp.read_only = self.ikdb_rdonly) :
    (self.ikdb_rdonly = true →
        ikvdb_kvs_drop K E self (some kvs_name) = (merr EROFS 1423, self, [])) ∧
      (self.ikdb_rdonly = false →
        (∀ s ∈ self.ikdb_kvs_vec, slot_named kvs_name s = false) →
        ikvdb_kvs_drop K E self (some kvs_name) =
          (merr ENOENT 1435, self, [call.mutex_lock, call.mutex_unlock])) ∧
      (self.ikdb_rdonly = false →
        ∀ (k : Nat) (kvs : kvdb_kvs), k < K.HSE_KVS_COUNT_MAX →
          self.ikdb_kvs_vec.getD k none = some kvs → strcmp kvs_name kvs.kk_name = 0 →
          (∀ j, j < k → slot_named kvs_name (self.ikdb_kvs_vec.getD j none) = false) →
          (kvs.kk_ikvs.isSome = true →
            ikvdb_kvs_drop K E self (some kvs_name) =
              (merr EBUSY 1442, self, [call.mutex_lock, call.mutex_unlock])) ∧
          (kvs.kk_ikvs = none → E.cndb_cn_drop kvs.kk_cnid ≠ 0 →
            (ikvdb_kvs_drop K E self (some kvs_name)).1 = E.cndb_cn_drop kvs.kk_cnid ∧
              (ikvdb_kvs_drop K E self (some kvs_name)).2.1 = self)) ∧
      merr_errno (merr EROFS 1423) = EROFS ∧ merr_errno (merr ENOENT 1435) = ENOENT ∧
      merr_errno (merr EBUSY 1442) = EBUSY := by
  refine ⟨?_, ?_, ?_, rfl, rfl, rfl⟩
  · intro hro
    have : self.ikdb_rp.read_only = true := by rw [hmode, hro]
    simp [ikvdb_kvs_drop, this]
  · intro hrw habsent
    exact ikvdb_kvs_drop_absent K E self kvs_name (by rw [hmode, hrw]) hvalid habsent
  · intro hrw k kvs hk hget hname hbefore
    have hfound := ikvdb_kvs_drop_found K E self kvs_name k kvs (by rw [hmode, hrw]) hvalid hk
      hget hname hbefore
    refine ⟨?_, ?_⟩
    · intro hopen
      rw [hfound]; simp [hopen]
    · intro hclosed hfail
      rw [hfound]; simp [hclosed, hfail]

/-- Witness of C8: a drop of `k001` from a read-only database gives `EROFS`. -/
theorem ikvdb_kvs_drop_errors_witness :
    ikvdb_kvs_drop consts_example drop_env_example (ikvdb_example consts_example true)
      (some [107, 48, 48, 49]) = (merr EROFS 1423, ikvdb_example consts_example true, []) :=
  (ikvdb_kvs_drop_errors consts_example drop_env_example (ikvdb_example consts_example true)
    [107, 48, 48, 49] (by decide) rfl).1 rfl

/-- The state and the result of a drop that succeeds. -/
theorem ikvdb_kvs_drop_ok (K : hse_consts) (E : kvs_drop_env) (self : ikvdb_impl)
    (kvs_name : List Nat) (k : Nat) (kvs : kvdb_kvs)
    (hrw : self.ikdb_rp.read_only = false)
    (hvalid : validate_kvs_name (some kvs_name) = 0)
    (hcompact : dir_compact K self)
    (hget : self.ikdb_kvs_vec.getD k none = some kvs)
    (hname : strcmp kvs_name kvs.kk_name = 0)
    (hbefore : ∀ j, j < k → slot_named kvs_name (self.ikdb_kvs_vec.getD j none) = false)
    (hclosed : kvs.kk_ikvs = none)
    (hdrop : E.cndb_cn_drop kvs.kk_cnid = 0) :
    k < self.ikdb_kvs_cnt ∧
      (ikvdb_kvs_drop K E self (some kvs_name)).1 = 0 ∧
      (ikvdb_kvs_drop K E self (some kvs_name)).2.1 =
        { self with
          ikdb_kvs_cnt := self.ikdb_kvs_cnt - 1
          ikdb_kvs_vec := self.ikdb_kvs_vec.eraseIdx k ++ [none] } := by
  have hkl := getD_isSome_lt _ _ _ hget
  have hkN : k < K.HSE_KVS_COUNT_MAX := by rw [← hcompact.1]; exact hkl
  have hkc : k < self.ikdb_kvs_cnt := (hcompact.2.2 k hkN).1 (by rw [hget]; rfl)
  have hfound := ikvdb_kvs_drop_found K E self kvs_name k kvs hrw hvalid hkN hget hname hbefore
  refine ⟨hkc, ?_, ?_⟩
  · rw [hfound]; simp [hclosed, hdrop]
  · rw [hfound]; simp [hclosed, hdrop, drop_kvs_index_compact K self k hcompact hkc]

/-- C9: on a compact table in which only slot `k` holds the name, a successful
`ikvdb_kvs_drop(name)` leaves the old table with entry `k` deleted and a `NULL`
appended: the entries before `k` stay, those after it move down by one in their
order, the occupied slots are those of index below the new count, the count is
one less, the name is in no slot, and a second drop of it returns `ENOENT`. -/
theorem ikvdb_kvs_drop_compacts (K : hse_consts) (E E2 : kvs_drop_env) (self : ikvdb_impl)
    (kvs_name : List Nat) (k : Nat) (kvs : kvdb_kvs)
    (hrw : self.ikdb_rp.read_only = false)
    (hvalid : validate_kvs_name (some kvs_name) = 0)
    (hcompact : dir_compact K self)
    (hget : self.ikdb_kvs_vec.getD k none = some kvs)
    (hname : strcmp kvs_name kvs.kk_name = 0)
    (honly : ∀ j, j ≠ k → slot_named kvs_name (self.ikdb_kvs_vec.getD j none) = false)
    (hclosed : kvs.kk_ikvs = none)
    (hdrop : E.cndb_cn_drop kvs.kk_cnid = 0) :
    (ikvdb_kvs_drop K E self (some kvs_name)).1 = 0 ∧
      (ikvdb_kvs_drop K E self (some kvs_name)).2.1.ikdb_kvs_vec =
        self.ikdb_kvs_vec.eraseIdx k ++ [none] ∧
      (ikvdb_kvs_drop K E self (some kvs_name)).2.1.ikdb_kvs_cnt + 1 = self.ikdb_kvs_cnt ∧
      (∀ i, i < k →
        (ikvdb_kvs_drop K E self (some kvs_name)).2.1.ikdb_kvs_vec.getD i none =
          self.ikdb_kvs_vec.getD i none) ∧
      (∀ i, k ≤ i →
        (ikvdb_kvs_drop K E self (some kvs_name)).2.1.ikdb_kvs_vec.getD i none =
          self.ikdb_kvs_vec.getD (i + 1) none) ∧
      dir_compact K (ikvdb_kvs_drop K E self (some kvs_name)).2.1 ∧
      (∀ s ∈ (ikvdb_kvs_drop K E self (some kvs_name)).2.1.ikdb_kvs_vec,
        slot_named kvs_name s = false) ∧
      ikvdb_kvs_drop K E2 (ikvdb_kvs_drop K E self (some kvs_name)).2.1 (some kvs_name) =
        (merr ENOENT 1435, (ikvdb_kvs_drop K E self (some kvs_name)).2.1,
          [call.mutex_lock, call.mutex_unlock]) := by
  obtain ⟨hkc, h1, h2⟩ := ikvdb_kvs_drop_ok K E self kvs_name k kvs hrw hvalid hcompact hget
    hname (fun j hj => honly j (by omega)) hclosed hdrop
  have hkl := getD_isSome_lt _ _ _ hget
  have hlen2 : (self.ikdb_kvs_vec.eraseIdx k).length = self.ikdb_kvs_vec.length - 1 := by
    rw [List.length_eraseIdx]; simp [hkl]
  have habs : ∀ s ∈ self.ikdb_kvs_vec.eraseIdx k ++ [none], slot_named kvs_name s = false := by
    intro s hs
    rcases List.mem_append.1 hs with hs | hs
    · obtain ⟨i, hik, hi⟩ := List.mem_eraseIdx_iff_getElem?.1 hs
      have := honly i hik
      rw [List.getD_eq_getElem?_getD, hi] at this
      exact this
    · rw [List.mem_singleton.1 hs]; rfl
  rw [h2]
  refine ⟨h1, rfl, by simp only; omega, ?_, ?_, eraseIdx_compact K self k hcompact hkc, habs, ?_⟩
  · intro i hi
    simp only [List.getD_eq_getElem?_getD, List.getElem?_append, hlen2, List.getElem?_eraseIdx]
    have : i < self.ikdb_kvs_vec.length - 1 := by omega
    simp [this, hi]
  · intro i hi
    simp only [List.getD_eq_getElem?_getD, List.getElem?_append, hlen2, List.getElem?_eraseIdx]
    have hnk : ¬ i < k := by omega
    by_cases hil : i < self.ikdb_kvs_vec.length - 1
    · simp [hil, hnk]
    · have hb : self.ikdb_kvs_vec[i + 1]? = none := List.getElem?_eq_none (by omega)
      simp only [hil, if_false, hb]
      by_cases hz : i - (self.ikdb_kvs_vec.length - 1) = 0
      · rw [hz]; rfl
      · have : [(none : Option kvdb_kvs)][i - (self.ikdb_kvs_vec.length - 1)]? = none :=
          List.getElem?_eq_none (by simp; omega)
        rw [this]
  · exact ikvdb_kvs_drop_absent K E2 _ kvs_name hrw hvalid habs

theorem numbered_named (j : Nat) (hj : j < 1000) :
    slot_named [107, 48, 48, 49] (some (kvs_numbered j)) = decide (j = 1) := by
  simp only [slot_named, kvs_numbered, strcmp]
  by_cases h : j = 1
  · subst h; decide
  · simp only [h, decide_False, decide_eq_false_iff_not]
    intro hh
    split at hh
    · omega
    · split at hh
      · omega
      · split at hh
        · omega
        · split at hh
          · omega
          · split at hh
            · omega
            · split at hh
              · omega
              · split at hh
                · omega
                · omega

/-- Witness of C9: `k001` is dropped from the table holding `k000`, `k001`, `k002`. -/
theorem ikvdb_kvs_drop_compacts_witness :
    (ikvdb_kvs_drop consts_example drop_env_example (ikvdb_filled consts_example 3)
        (some [107, 48, 48, 49])).1 = 0 ∧
      (ikvdb_kvs_drop consts_example drop_env_example (ikvdb_filled consts_example 3)
        (some [107, 48, 48, 49])).2.1.ikdb_kvs_cnt + 1 = 3 := by
  have h := ikvdb_kvs_drop_compacts consts_example drop_env_example drop_env_example
    (ikvdb_filled consts_example 3) [107, 48, 48, 49] 1 (kvs_numbered 1) rfl (by decide)
    (filled_compact _ 3 (by decide)) (by rw [filled_getD]; rfl) (by decide)
    (by
      intro j hj
      rw [filled_getD]
      by_cases h3 : j < 3
      · rw [if_pos h3, numbered_named j (by omega)]
        simp [hj]
      · rw [if_neg h3]; rfl)
    rfl rfl
  exact ⟨h.1, h.2.2.1⟩


/-! ### The claims on `ikvdb_kvs_open` -/

/-- The branch `ikvdb_kvs_open` takes once `get_kvs_index` has found the slot. -/
theorem ikvdb_kvs_open_found (K : hse_consts) (E : kvs_open_env) (self : ikvdb_impl)
    (kvs_name : List Nat) (params : kvs_rparams) (flags : Nat) (k : Nat) (kvs : kvdb_kvs)
    (hcfg : (E.config_deserialize_to_kvs_rparams kvs_name params).1 = 0)
    (hk : k < K.HSE_KVS_COUNT_MAX)
    (hget : self.ikdb_kvs_vec.getD k none = some kvs)
    (hname : strcmp kvs_name kvs.kk_name = 0)
    (hbefore : ∀ j, j < k → slot_named kvs_name (self.ikdb_kvs_vec.getD j none) = false) :
    ikvdb_kvs_open K E self kvs_name params flags =
      if kvs.kk_ikvs.isSome then
        (merr EBUSY 1563, self, none,
          [call.config_deserialize_to_kvs_rparams kvs_name, call.ikvdb_wal_install_callback,
           call.mutex_lock, call.mutex_unlock])
      else
        (((E.kvs_open (ikvdb_kvs_open_vcomp K E kvs
              (ikvdb_kvs_open_params E self kvs_name params)).1
            (ikvdb_kvs_open_params E self kvs_name params) flags).1,
          { self with
            ikdb_kvs_vec := self.ikdb_kvs_vec.set k
              (some
                { (ikvdb_kvs_open_vcomp K E kvs
                    (ikvdb_kvs_open_params E self kvs_name params)).1 with
                  kk_ikvs := (E.kvs_open (ikvdb_kvs_open_vcomp K E kvs
                      (ikvdb_kvs_open_params E self kvs_name params)).1
                    (ikvdb_kvs_open_params E self kvs_name params) flags).2
                  kk_refcnt :=
                    if (E.kvs_open (ikvdb_kvs_open_vcomp K E kvs
                        (ikvdb_kvs_open_params E self kvs_name params)).1
                      (ikvdb_kvs_open_params E self kvs_name params) flags).1 ≠ 0
                    then (ikvdb_kvs_open_vcomp K E kvs
                      (ikvdb_kvs_open_params E self kvs_name params)).1.kk_refcnt
                    else (ikvdb_kvs_open_vcomp K E kvs
                      (ikvdb_kvs_open_params E self kvs_name params)).1.kk_refcnt + 1 }) },
          if (E.kvs_open (ikvdb_kvs_open_vcomp K E kvs
              (ikvdb_kvs_open_params E self kvs_name params)).1
            (ikvdb_kvs_open_params E self kvs_name params) flags).1 ≠ 0 then none else some k,
          [call.config_deserialize_to_kvs_rparams kvs_name, call.ikvdb_wal_install_callback,
           call.mutex_lock] ++
            (ikvdb_kvs_open_vcomp K E kvs (ikvdb_kvs_open_params E self kvs_name params)).2 ++
            [call.kvs_open kvs.kk_cnid, call.mutex_unlock])) := by
  have hnamed : slot_named kvs_name (self.ikdb_kvs_vec.getD k none) = true := by
    rw [hget]; simp [slot_named, hname]
  have hidx := get_kvs_index_found K self.ikdb_kvs_vec kvs_name k hk hnamed hbefore
  have hnn : ¬ ((k : Int) < 0) := by omega
  unfold ikvdb_kvs_open
  simp only [hcfg, hidx, hnn, Int.toNat_ofNat, hget]
  by_cases hopen : kvs.kk_ikvs.isSome = true
  · simp [hopen]
  · by_cases hres : (E.kvs_open (ikvdb_kvs_open_vcomp K E kvs
        (ikvdb_kvs_open_params E self kvs_name params)).1
        (ikvdb_kvs_open_params E self kvs_name params) flags).1 = 0
    · simp [hopen, hres]
    · simp [hopen, hres]

theorem ikvdb_kvs_open_vcomp_refcnt (K : hse_consts) (E : kvs_open_env) (kvs : kvdb_kvs)
    (params : kvs_rparams) :
    (ikvdb_kvs_open_vcomp K E kvs params).1.kk_refcnt = kvs.kk_refcnt ∧
      (ikvdb_kvs_open_vcomp K E kvs params).1.kk_name = kvs.kk_name ∧
      (ikvdb_kvs_open_vcomp K E kvs params).1.kk_cnid = kvs.kk_cnid := by
  unfold ikvdb_kvs_open_vcomp
  cases E.vcomp_compress_ops params <;> simp

/-- C10 (as amended): when `config_deserialize_to_kvs_rparams` succeeds,
`ikvdb_kvs_open` returns `ENOENT` if no slot holds the name and `EBUSY` if the
slot found is opened, in both cases without a call of `kvs_open` and leaving
the database, reference counts included, as it was; on an unopened slot, if
`kvs_open` succeeds the reference count of the slot is one more than before
(1 when it was 0) and the slot is stored to `*kvs_out`; if `kvs_open` fails its
error is returned, the reference count is as before and nothing is stored to
`*kvs_out`. -/
theorem ikvdb_kvs_open_outcomes (K : hse_consts) (E : kvs_open_env) (self : ikvdb_impl)
    (kvs_name : List Nat) (params : kvs_rparams) (flags : Nat)
    (hcfg : (E.config_deserialize_to_kvs_rparams kvs_name params).1 = 0) :
    ((∀ s ∈ self.ikdb_kvs_vec, slot_named kvs_name s = false) →
        (ikvdb_kvs_open K E self kvs_name params flags).1 = merr ENOENT 1556 ∧
          (ikvdb_kvs_open K E self kvs_name params flags).2.1 = self ∧
          (ikvdb_kvs_open K E self kvs_name params flags).2.2.1 = none ∧
          ∀ c, call.kvs_open c ∉ (ikvdb_kvs_open K E self kvs_name params flags).2.2.2) ∧
      (∀ (k : Nat) (kvs : kvdb_kvs), k < K.HSE_KVS_COUNT_MAX →
        self.ikdb_kvs_vec.getD k none = some kvs → strcmp kvs_name kvs.kk_name = 0 →
        (∀ j, j < k → slot_named kvs_name (self.ikdb_kvs_vec.getD j none) = false) →
        (kvs.kk_ikvs.isSome = true →
          (ikvdb_kvs_open K E self kvs_name params flags).1 = merr EBUSY 1563 ∧
            (ikvdb_kvs_open K E self kvs_name params flags).2.1 = self ∧
            (ikvdb_kvs_open K E self kvs_name params flags).2.2.1 = none ∧
            ∀ c, call.kvs_open c ∉ (ikvdb_kvs_open K E self kvs_name params flags).2.2.2) ∧
        (kvs.kk_ikvs = none →
          ∃ slot : kvdb_kvs,
            (ikvdb_kvs_open K E self kvs_name params flags).2.1 =
              { self with ikdb_kvs_vec := self.ikdb_kvs_vec.set k (some slot) } ∧
            (ikvdb_kvs_open K E self kvs_name params flags).1 =
              (E.kvs_open (ikvdb_kvs_open_vcomp K E kvs
                  (ikvdb_kvs_open_params E self kvs_name params)).1
                (ikvdb_kvs_open_params E self kvs_name params) flags).1 ∧
            ((ikvdb_kvs_open K E self kvs_name params flags).1 = 0 →
              slot.kk_refcnt = kvs.kk_refcnt + 1 ∧ (kvs.kk_refcnt = 0 → slot.kk_refcnt = 1) ∧
                (ikvdb_kvs_open K E self kvs_name params flags).2.2.1 = some k) ∧
            ((ikvdb_kvs_open K E self kvs_name params flags).1 ≠ 0 →
              slot.kk_refcnt = kvs.kk_refcnt ∧
                (ikvdb_kvs_open K E self kvs_name params flags).2.2.1 = none))) ∧
      merr_errno (merr ENOENT 1556) = ENOENT ∧ merr_errno (merr EBUSY 1563) = EBUSY := by
  refine ⟨?_, ?_, rfl, rfl⟩
  · intro habsent
    unfold ikvdb_kvs_open
    simp [hcfg, get_kvs_index_absent K _ _ habsent]
  · intro k kvs hk hget hname hbefore
    have hfound := ikvdb_kvs_open_found K E self kvs_name params flags k kvs hcfg hk hget hname
      hbefore
    refine ⟨?_, ?_⟩
    · intro hopen
      rw [hfound]
      simp [hopen]
    · intro hclosed
      have hno : kvs.kk_ikvs.isSome = false := by simp [hclosed]
      rw [hno] at hfound
      simp only [Bool.false_eq_true, if_false] at hfound
      rw [hfound]
      have href := (ikvdb_kvs_open_vcomp_refcnt K E kvs
        (ikvdb_kvs_open_params E self kvs_name params)).1
      refine ⟨_, rfl, rfl, ?_, ?_⟩
      · intro hz
        have hz' : (E.kvs_open (ikvdb_kvs_open_vcomp K E kvs
            (ikvdb_kvs_open_params E self kvs_name params)).1
            (ikvdb_kvs_open_params E self kvs_name params) flags).1 = 0 := hz
        simp only [hz', ne_eq, not_true_eq_false, if_false, href]
        refine ⟨trivial, ?_, trivial⟩
        intro h0; rw [h0]; rfl
      · intro hnz
        have hnz' : (E.kvs_open (ikvdb_kvs_open_vcomp K E kvs
            (ikvdb_kvs_open_params E self kvs_name params)).1
            (ikvdb_kvs_open_params E self kvs_name params) flags).1 ≠ 0 := hnz
        simp only [hnz', ne_eq, not_false_eq_true, if_true, href]
        exact ⟨trivial, trivial⟩

/-- Witness of C10: the empty table holds no `k1`, and the open returns `ENOENT`. -/
theorem ikvdb_kvs_open_outcomes_witness :
    (ikvdb_kvs_open consts_example open_env_example (ikvdb_filled consts_example 0) [107, 49]
      ⟨false, 0⟩ 0).1 = merr ENOENT 1556 :=
  ((ikvdb_kvs_open_outcomes consts_example open_env_example (ikvdb_filled consts_example 0)
    [107, 49] ⟨false, 0⟩ 0 rfl).1 (empty_absent consts_example [107, 49])).1

/-- C10 (counterexample): no slot holds `k1`, the deserialisation of the KVS
parameters fails, and `ikvdb_kvs_open` returns that error, not `ENOENT`. -/
theorem ikvdb_kvs_open_badconfig :
    (∀ s ∈ (ikvdb_filled consts_example 0).ikdb_kvs_vec, slot_named [107, 49] s = false) ∧
      ikvdb_kvs_open consts_example open_env_badconfig (ikvdb_filled consts_example 0) [107, 49]
        ⟨false, 0⟩ 0 =
        (⟨EINVAL, 77⟩, ikvdb_filled consts_example 0, none,
          [call.config_deserialize_to_kvs_rparams [107, 49]]) ∧
      merr_errno (⟨EINVAL, 77⟩ : merr_t) ≠ ENOENT := by
  refine ⟨empty_absent consts_example [107, 49], ?_, by decide⟩
  unfold ikvdb_kvs_open
  have hne : (⟨EINVAL, 77⟩ : merr_t) ≠ 0 := by decide
  simp [open_env_badconfig, hne]


/-! ### The claim on `ikvdb_kvs_close` -/

theorem ikvdb_kvs_close_wait_one (E : kvs_close_env) (fuel i : Nat) :
    ikvdb_kvs_close_wait E (fuel + 1) i 1 = some (0, []) := by
  simp [ikvdb_kvs_close_wait]

theorem ikvdb_kvs_close_last (E : kvs_close_env) (fuel : Nat) (parent : ikvdb_impl)
    (handle : Nat) (kk : kvdb_kvs) (ikvs : Nat)
    (hget : parent.ikdb_kvs_vec.getD handle none = some kk)
    (hopen : kk.kk_ikvs = some ikvs) (href : kk.kk_refcnt = 1) :
    ikvdb_kvs_close E (fuel + 1) parent handle =
      some (E.kvs_close ikvs,
        { parent with
          ikdb_kvs_vec := parent.ikdb_kvs_vec.set handle
            (some { kk with kk_ikvs := none, kk_vcompmin := UINT_MAX, kk_refcnt := 0 }) },
        [call.mutex_lock, call.mutex_unlock, call.kvs_close ikvs]) := by
  unfold ikvdb_kvs_close
  simp only [hget, hopen, href, ikvdb_kvs_close_wait_one]
  simp

theorem ikvdb_kvs_close_closed (E : kvs_close_env) (fuel : Nat) (parent : ikvdb_impl)
    (handle : Nat) (kk : kvdb_kvs)
    (hget : parent.ikdb_kvs_vec.getD handle none = some kk)
    (hclosed : kk.kk_ikvs = none) :
    ikvdb_kvs_close E fuel parent handle =
      some (merr EBADF 1633, parent, [call.mutex_lock, call.mutex_unlock]) := by
  unfold ikvdb_kvs_close
  simp only [hget, hclosed]

/-- C11: for an opened slot whose reference count is 1, `ikvdb_kvs_close` (its
wait loop ends at the first iteration) clears `kk_ikvs`, sets `kk_vcompmin` to
`UINT_MAX` and the reference count to 0 and returns what `kvs_close` returns;
a second close of the handle returns `EBADF` and leaves the database as it
is; and an `ikvdb_kvs_open` of the name that follows does not take the `EBUSY`
exit: when the parameters deserialise it reaches `kvs_open`. -/
theorem ikvdb_kvs_close_unopens (K : hse_consts) (E E2 : kvs_close_env) (O : kvs_open_env)
    (fuel fuel2 : Nat) (parent : ikvdb_impl) (handle : Nat) (kk : kvdb_kvs) (ikvs : Nat)
    (kvs_name : List Nat) (params : kvs_rparams) (flags : Nat)
    (hget : parent.ikdb_kvs_vec.getD handle none = some kk)
    (hopen : kk.kk_ikvs = some ikvs) (href : kk.kk_refcnt = 1)
    (hh : handle < K.HSE_KVS_COUNT_MAX)
    (hname : strcmp kvs_name kk.kk_name = 0)
    (hbefore : ∀ j, j < handle →
      slot_named kvs_name (parent.ikdb_kvs_vec.getD j none) = false) :
    ikvdb_kvs_close E (fuel + 1) parent handle =
        some (E.kvs_close ikvs,
          { parent with
            ikdb_kvs_vec := parent.ikdb_kvs_vec.set handle
              (some { kk with kk_ikvs := none, kk_vcompmin := UINT_MAX, kk_refcnt := 0 }) },
          [call.mutex_lock, call.mutex_unlock, call.kvs_close ikvs]) ∧
      ikvdb_kvs_close E2 fuel2
          { parent with
            ikdb_kvs_vec := parent.ikdb_kvs_vec.set handle
              (some { kk with kk_ikvs := none, kk_vcompmin := UINT_MAX, kk_refcnt := 0 }) }
          handle =
        some (merr EBADF 1633,
          { parent with
            ikdb_kvs_vec := parent.ikdb_kvs_vec.set handle
              (some { kk with kk_ikvs := none, kk_vcompmin := UINT_MAX, kk_refcnt := 0 }) },
          [call.mutex_lock, call.mutex_unlock]) ∧
      merr_errno (merr EBADF 1633) = EBADF ∧
      ikvdb_kvs_open K O
          { parent with
            ikdb_kvs_vec := parent.ikdb_kvs_vec.set handle
              (some { kk with kk_ikvs := none, kk_vcompmin := UINT_MAX, kk_refcnt := 0 }) }
          kvs_name params flags ≠
        (merr EBUSY 1563,
          { parent with
            ikdb_kvs_vec := parent.ikdb_kvs_vec.set handle
              (some { kk with kk_ikvs := none, kk_vcompmin := UINT_MAX, kk_refcnt := 0 }) },
          none,
          [call.config_deserialize_to_kvs_rparams kvs_name, call.ikvdb_wal_install_callback,
           call.mutex_lock, call.mutex_unlock]) ∧
      ((O.config_deserialize_to_kvs_rparams kvs_name params).1 = 0 →
        call.kvs_open kk.kk_cnid ∈
          (ikvdb_kvs_open K O
            { parent with
              ikdb_kvs_vec := parent.ikdb_kvs_vec.set handle
                (some { kk with kk_ikvs := none, kk_vcompmin := UINT_MAX, kk_refcnt := 0 }) }
            kvs_name params flags).2.2.2) := by
  have hlt := getD_isSome_lt _ _ _ hget
  have hget1 : (parent.ikdb_kvs_vec.set handle
      (some { kk with kk_ikvs := none, kk_vcompmin := UINT_MAX, kk_refcnt := 0 })).getD handle
        none = some { kk with kk_ikvs := none, kk_vcompmin := UINT_MAX, kk_refcnt := 0 } :=
    getD_set_self _ _ _ hlt
  have hbefore1 : ∀ j, j < handle → slot_named kvs_name
      ((parent.ikdb_kvs_vec.set handle
        (some { kk with kk_ikvs := none, kk_vcompmin := UINT_MAX, kk_refcnt := 0 })).getD j
          none) = false := by
    intro j hj
    rw [getD_set_other _ _ _ _ (by omega)]
    exact hbefore j hj
  have hfound : (O.config_deserialize_to_kvs_rparams kvs_name params).1 = 0 →
      call.kvs_open kk.kk_cnid ∈
        (ikvdb_kvs_open K O
          { parent with
            ikdb_kvs_vec := parent.ikdb_kvs_vec.set handle
              (some { kk with kk_ikvs := none, kk_vcompmin := UINT_MAX, kk_refcnt := 0 }) }
          kvs_name params flags).2.2.2 := by
    intro hcfg
    rw [ikvdb_kvs_open_found K O _ kvs_name params flags handle
      { kk with kk_ikvs := none, kk_vcompmin := UINT_MAX, kk_refcnt := 0 } hcfg hh hget1 hname
      hbefore1]
    simp
  refine ⟨ikvdb_kvs_close_last E fuel parent handle kk ikvs hget hopen href,
    ikvdb_kvs_close_closed E2 fuel2 _ handle _ hget1 rfl, rfl, ?_, hfound⟩
  intro heq
  by_cases hcfg : (O.config_deserialize_to_kvs_rparams kvs_name params).1 = 0
  · have hmem := hfound hcfg
    rw [heq] at hmem
    simp at hmem
  · have htr := congrArg (fun r => r.2.2.2.length) heq
    unfold ikvdb_kvs_open at htr
    simp [hcfg] at htr

/-- Witness of C11: `k001`, opened with reference count 1, is closed. -/
theorem ikvdb_kvs_close_unopens_witness :
    ikvdb_kvs_close close_env_example 1 (ikvdb_opened consts_example) 1 =
      some (0,
        { ikvdb_opened consts_example with
          ikdb_kvs_vec := (ikvdb_opened consts_example).ikdb_kvs_vec.set 1
            (some { kvs_opened with kk_ikvs := none, kk_vcompmin := UINT_MAX, kk_refcnt := 0 }) },
        [call.mutex_lock, call.mutex_unlock, call.kvs_close 7]) := by
  have hl : 1 < (ikvdb_filled consts_example 3).ikdb_kvs_vec.length := by
    rw [filled_length _ 3 (by decide)]; decide
  exact (ikvdb_kvs_close_unopens consts_example close_env_example close_env_example
    open_env_example 0 1 (ikvdb_opened consts_example) 1 kvs_opened 7 [107, 48, 48, 49]
    ⟨false, 0⟩ 0 (getD_set_self _ _ _ hl) rfl rfl (by decide) (by decide)
    (by
      intro j hj
      have hj0 : j = 0 := by omega
      subst hj0
      show slot_named _ (((ikvdb_filled consts_example 3).ikdb_kvs_vec.set 1 _).getD 0 none) = _
      rw [getD_set_other _ _ _ _ (by decide), filled_getD]
      decide)).1


/-! ### The read-allowed gate -/

theorem is_read_allowed_eq (W : kvs_write_env) (kvs txn : Option Nat) :
    is_read_allowed W kvs txn = !(txn.isSome && !W.kvs_txn_is_enabled kvs) := by
  unfold is_read_allowed
  cases W.kvs_txn_is_enabled kvs <;> cases txn <;> rfl

/-- A cursor create that passes the read-allowed check and the cursor count
check starts with the time stamp of line 2191. -/
theorem ikvdb_kvs_cursor_create_admitted (K : hse_consts) (W : kvs_write_env) (E : cursor_env)
    (ikvdb : ikvdb_impl) (kk : kvdb_kvs) (flags : Nat) (txn : Option Nat) (pfx : Option Nat)
    (pfx_len : Nat) (hread : is_read_allowed W kk.kk_ikvs txn = true)
    (hcnt : ¬ (ikvdb.ikdb_curcnt % 2 ^ 32).toNat > ikvdb.ikdb_curcnt_max) :
    ∃ rest, (ikvdb_kvs_cursor_create K W E ikvdb kk flags txn pfx pfx_len).2.2 =
      call.perfc (perfc_call.perfc_lat_start 2191) :: rest := by
  unfold ikvdb_kvs_cursor_create
  simp only [hread, Bool.not_true, Bool.false_eq_true, if_false, hcnt]
  split
  · exact ⟨_, rfl⟩
  · split
    · exact ⟨_, rfl⟩
    · split
      · exact ⟨_, rfl⟩
      · split
        · exact ⟨_, rfl⟩
        · split
          · exact ⟨_, rfl⟩
          · exact ⟨_, rfl⟩

/-- C12: with a non-`NULL` handle, `ikvdb_kvs_get`, `ikvdb_kvs_pfx_probe` and
`ikvdb_kvs_cursor_create` return the `EINVAL` of their read-allowed check,
having made no call, exactly when a transaction is passed and the KVS is not
transaction-enabled; a read without transaction is always admitted, also on a
transaction-enabled KVS, where a write without transaction is not; an admitted
get without transaction passes as view the sequence clock as it was before the
wait for the commits in flight, whatever the clock is after it, and an
admitted get with a transaction passes the view 0 and does not wait. -/
theorem read_allowed_gate (K : hse_consts) (W : kvs_write_env) (E : kvs_read_env)
    (C : cursor_env) (p : ikvdb_impl) (kk : kvdb_kvs) (flags : Nat) (txn : Option Nat)
    (kt : kvs_ktuple) (pfx : Option Nat) (pfx_len : Nat) :
    (ikvdb_kvs_get W E p (some kk) flags txn kt = (merr EINVAL 1980, p, []) ↔
        (txn.isSome && !W.kvs_txn_is_enabled kk.kk_ikvs) = true) ∧
      (ikvdb_kvs_pfx_probe W E p (some kk) flags txn kt = (merr EINVAL 1944, p, []) ↔
        (txn.isSome && !W.kvs_txn_is_enabled kk.kk_ikvs) = true) ∧
      (ikvdb_kvs_cursor_create K W C p kk flags txn pfx pfx_len = (merr EINVAL 2185, none, []) ↔
        (txn.isSome && !W.kvs_txn_is_enabled kk.kk_ikvs) = true) ∧
      is_read_allowed W kk.kk_ikvs none = true ∧
      (W.kvs_txn_is_enabled kk.kk_ikvs = true → is_write_allowed W kk.kk_ikvs none = false) ∧
      ikvdb_kvs_get W E p (some kk) flags none kt =
        (E.kvs_get kk.kk_ikvs none kt p.ikdb_seqno,
          { p with ikdb_seqno := E.kvdb_ctxn_set_wait_commits p.ikdb_seqno },
          [call.kvdb_ctxn_set_wait_commits, call.kvs_get none kt p.ikdb_seqno]) ∧
      (∀ t, is_read_allowed W kk.kk_ikvs (some t) = true →
        ikvdb_kvs_get W E p (some kk) flags (some t) kt =
          (E.kvs_get kk.kk_ikvs (some t) kt 0, p, [call.kvs_get (some t) kt 0])) ∧
      merr_errno (merr EINVAL 1980) = EINVAL ∧ merr_errno (merr EINVAL 1944) = EINVAL ∧
      merr_errno (merr EINVAL 2185) = EINVAL := by
  refine ⟨?_, ?_, ?_, ?_, ?_, ?_, ?_, rfl, rfl, rfl⟩
  · unfold ikvdb_kvs_get
    simp only [is_read_allowed_eq]
    cases hx : (txn.isSome && !W.kvs_txn_is_enabled kk.kk_ikvs)
    · cases txn <;> simp
    · simp
  · unfold ikvdb_kvs_pfx_probe
    simp only [is_read_allowed_eq]
    cases hx : (txn.isSome && !W.kvs_txn_is_enabled kk.kk_ikvs)
    · cases txn <;> simp
    · simp
  · cases hx : (txn.isSome && !W.kvs_txn_is_enabled kk.kk_ikvs)
    · have hread : is_read_allowed W kk.kk_ikvs txn = true := by
        rw [is_read_allowed_eq, hx]; rfl
      simp only [Bool.false_eq_true, iff_false]
      intro heq
      by_cases hcnt : (p.ikdb_curcnt % 2 ^ 32).toNat > p.ikdb_curcnt_max
      · unfold ikvdb_kvs_cursor_create at heq
        simp only [hread, Bool.not_true, Bool.false_eq_true, if_false, hcnt, if_true] at heq
        have herr := congrArg (fun r => r.1.errno) heq
        simp [merr, ECANCELED, EINVAL] at herr
      · obtain ⟨rest, hrest⟩ :=
          ikvdb_kvs_cursor_create_admitted K W C p kk flags txn pfx pfx_len hread hcnt
        rw [heq] at hrest
        cases hrest
    · have hread : is_read_allowed W kk.kk_ikvs txn = false := by
        rw [is_read_allowed_eq, hx]; rfl
      unfold ikvdb_kvs_cursor_create
      simp [hread]
  · rw [is_read_allowed_eq]; rfl
  · intro hen
    rw [is_write_allowed_eq, hen]; rfl
  · unfold ikvdb_kvs_get
    simp [is_read_allowed_eq]
  · intro t ht
    unfold ikvdb_kvs_get
    simp [ht]


/-! ### The admission rules of delete and prefix delete -/

theorem ikvdb_kvs_prefix_delete_calls (K : hse_consts) (E : kvs_write_env)
    (parent : ikvdb_impl) (kk : kvdb_kvs) (flags : Nat) (txn : Option Nat) (kt : kvs_ktuple)
    (want_pfx_len : Bool) :
    (ikvdb_kvs_prefix_delete K E parent (some kk) flags txn kt want_pfx_len).2.2 = [] ∨
      (ikvdb_kvs_prefix_delete K E parent (some kk) flags txn kt want_pfx_len).2.2 =
        [call.fault 2055] ∨
      ∃ r, (ikvdb_kvs_prefix_delete K E parent (some kk) flags txn kt want_pfx_len).2.2 =
        [call.kvs_prefix_del txn kt r] := by
  unfold ikvdb_kvs_prefix_delete
  by_cases hw : is_write_allowed E kk.kk_ikvs txn = true
  · by_cases hro : parent.ikdb_rdonly = true
    · simp [hw, hro]
    · cases hcp : kk.kk_cparams with
      | none => simp [hw, hro, hcp]
      | some cp =>
        simp only [hw, hro, hcp, Bool.not_true, Bool.false_eq_true, if_false]
        by_cases hk : kt.kt_data.isNone = true ∨ kt.kt_len ≠ cp.pfx_len
        · rw [if_pos hk]
          left; trivial
        · rw [if_neg hk]
          by_cases h0 : kt.kt_len = 0
          · rw [if_pos h0]
            left; trivial
          · rw [if_neg h0]
            right; right
            exact ⟨_, rfl⟩
  · simp [hw]

theorem ikvdb_kvs_put_unhealthy (K : hse_consts) (E : kvs_write_env) (parent : ikvdb_impl)
    (kk : kvdb_kvs) (flags : Nat) (txn : Option Nat) (kt : kvs_ktuple) (vt : kvs_vtuple)
    (hallowed : is_write_allowed E kk.kk_ikvs txn = true) (hrw : parent.ikdb_rdonly = false)
    (hbad : E.kvdb_health_check (health_mask_writes K) ≠ 0) :
    ikvdb_kvs_put K E parent (some kk) flags txn kt vt =
      (E.kvdb_health_check (health_mask_writes K), parent,
        [call.kvdb_health_check (health_mask_writes K)]) := by
  simp [ikvdb_kvs_put, hallowed, hrw, hbad]

theorem ikvdb_kvs_del_unhealthy (K : hse_consts) (E : kvs_write_env) (parent : ikvdb_impl)
    (kk : kvdb_kvs) (flags : Nat) (txn : Option Nat) (kt : kvs_ktuple)
    (hallowed : is_write_allowed E kk.kk_ikvs txn = true) (hrw : parent.ikdb_rdonly = false)
    (hbad : E.kvdb_health_check (health_mask_writes K) ≠ 0) :
    ikvdb_kvs_del K E parent (some kk) flags txn kt =
      (E.kvdb_health_check (health_mask_writes K),
        [call.kvdb_health_check (health_mask_writes K)]) := by
  simp [ikvdb_kvs_del, hallowed, hrw, hbad]

theorem health_mask_example : health_mask_writes consts_example = 61 := by decide

/-- C13 (the code at the failing input, and around it): when the health check
reports an error, an admitted `ikvdb_kvs_put` and `ikvdb_kvs_del` on a writable
database return it after that one call; `ikvdb_kvs_prefix_delete` never calls
the health check; and on the database whose health check reports `EIO`, the
prefix delete of a 3-byte key in a KVS of prefix length 3 reaches
`kvs_prefix_del` and returns 0, where put and del return the error. -/
theorem prefix_delete_skips_health_check (K : hse_consts) (E : kvs_write_env)
    (parent : ikvdb_impl) (kk : kvdb_kvs) (flags : Nat) (txn : Option Nat) (kt : kvs_ktuple)
    (vt : kvs_vtuple) (want_pfx_len : Bool) :
    (is_write_allowed E kk.kk_ikvs txn = true → parent.ikdb_rdonly = false →
        E.kvdb_health_check (health_mask_writes K) ≠ 0 →
        ikvdb_kvs_put K E parent (some kk) flags txn kt vt =
            (E.kvdb_health_check (health_mask_writes K), parent,
              [call.kvdb_health_check (health_mask_writes K)]) ∧
          ikvdb_kvs_del K E parent (some kk) flags txn kt =
            (E.kvdb_health_check (health_mask_writes K),
              [call.kvdb_health_check (health_mask_writes K)])) ∧
      (∀ m, call.kvdb_health_check m ∉
        (ikvdb_kvs_prefix_delete K E parent (some kk) flags txn kt want_pfx_len).2.2) ∧
      ikvdb_kvs_put consts_example write_env_unhealthy (ikvdb_example consts_example false)
          (some kvs_pfx3) 0 none ⟨some 1, 3⟩ ⟨vptr.user 2, 3, 0⟩ =
        (⟨5, 1⟩, ikvdb_example consts_example false, [call.kvdb_health_check 61]) ∧
      ikvdb_kvs_del consts_example write_env_unhealthy (ikvdb_example consts_example false)
          (some kvs_pfx3) 0 none ⟨some 1, 3⟩ = (⟨5, 1⟩, [call.kvdb_health_check 61]) ∧
      ikvdb_kvs_prefix_delete consts_example write_env_unhealthy
          (ikvdb_example consts_example false) (some kvs_pfx3) 0 none ⟨some 1, 3⟩ true =
        (0, some 3, [call.kvs_prefix_del none ⟨some 1, 3⟩ (2 ^ 64 - 3)]) := by
  have hrw : (ikvdb_example consts_example false).ikdb_rdonly = false := rfl
  have hbad : write_env_unhealthy.kvdb_health_check (health_mask_writes consts_example) ≠ 0 := by
    decide
  refine ⟨?_, ?_, ?_, ?_, ?_⟩
  · intro hallowed hrw hbad
    exact ⟨ikvdb_kvs_put_unhealthy K E parent kk flags txn kt vt hallowed hrw hbad,
      ikvdb_kvs_del_unhealthy K E parent kk flags txn kt hallowed hrw hbad⟩
  · intro m
    rcases ikvdb_kvs_prefix_delete_calls K E parent kk flags txn kt want_pfx_len with h | h | h
    · rw [h]; simp
    · rw [h]; simp
    · obtain ⟨r, hr⟩ := h
      rw [hr]; simp
  · rw [ikvdb_kvs_put_unhealthy consts_example write_env_unhealthy _ kvs_pfx3 0 none _ _ rfl hrw
      hbad, health_mask_example]
    rfl
  · rw [ikvdb_kvs_del_unhealthy consts_example write_env_unhealthy _ kvs_pfx3 0 none _ rfl hrw
      hbad, health_mask_example]
    rfl
  · have hallowed : is_write_allowed write_env_unhealthy kvs_pfx3.kk_ikvs none = true := rfl
    have hcp : kvs_pfx3.kk_cparams = some ⟨3⟩ := rfl
    unfold ikvdb_kvs_prefix_delete
    simp only [hallowed, hrw, hcp, Bool.not_true, Bool.false_eq_true, if_false]
    rfl

/-- C14: an admitted `ikvdb_kvs_prefix_delete` on a writable database whose key
has no data or a length other than the prefix length of the KVS returns the
`EINVAL` of line 2060 without a call of `kvs_prefix_del` (without any call), and
the out parameter, when there is one, holds the prefix length of the KVS. -/
theorem prefix_delete_wrong_length (K : hse_consts) (E : kvs_write_env) (parent : ikvdb_impl)
    (kk : kvdb_kvs) (flags : Nat) (txn : Option Nat) (kt : kvs_ktuple) (want_pfx_len : Bool)
    (cparams : kvs_cparams)
    (hallowed : is_write_allowed E kk.kk_ikvs txn = true)
    (hrw : parent.ikdb_rdonly = false)
    (hcparams : kk.kk_cparams = some cparams)
    (hkey : kt.kt_data = none ∨ kt.kt_len ≠ cparams.pfx_len) :
    ikvdb_kvs_prefix_delete K E parent (some kk) flags txn kt want_pfx_len =
        (merr EINVAL 2060, if want_pfx_len then some cparams.pfx_len else none, []) ∧
      merr_errno (merr EINVAL 2060) = EINVAL ∧
      (ikvdb_kvs_prefix_delete K E parent (some kk) flags txn kt true).2.1 =
        some cparams.pfx_len := by
  have hk : kt.kt_data.isNone = true ∨ kt.kt_len ≠ cparams.pfx_len := by
    rcases hkey with h | h
    · left; simp [h]
    · right; exact h
  refine ⟨?_, rfl, ?_⟩
  · unfold ikvdb_kvs_prefix_delete
    simp only [hallowed, hrw, hcparams, Bool.not_true, Bool.false_eq_true, if_false, hk, if_true]
  · unfold ikvdb_kvs_prefix_delete
    simp only [hallowed, hrw, hcparams, Bool.not_true, Bool.false_eq_true, if_false, hk, if_true]

/-- Witness of C14: a 5-byte key in a KVS of prefix length 3. -/
theorem prefix_delete_wrong_length_witness :
    ikvdb_kvs_prefix_delete consts_example write_env_example (ikvdb_example consts_example false)
      (some kvs_pfx3) 0 none ⟨some 1, 5⟩ true = (merr EINVAL 2060, some 3, []) :=
  (prefix_delete_wrong_length consts_example write_env_example
    (ikvdb_example consts_example false) kvs_pfx3 0 none ⟨some 1, 5⟩ true ⟨3⟩ rfl rfl rfl
    (Or.inr (by decide))).1

/-- C15 (as amended): an admitted `ikvdb_kvs_prefix_delete` on a writable
database with a key of length 0 returns `ENOENT` when the prefix length of the
KVS is 0 and the key has data, and the `EINVAL` of the length test when the
prefix length is not 0 or the key has no data. -/
theorem prefix_delete_empty_key (K : hse_consts) (E : kvs_write_env) (parent : ikvdb_impl)
    (kk : kvdb_kvs) (flags : Nat) (txn : Option Nat) (kt : kvs_ktuple) (want_pfx_len : Bool)
    (cparams : kvs_cparams)
    (hallowed : is_write_allowed E kk.kk_ikvs txn = true)
    (hrw : parent.ikdb_rdonly = false)
    (hcparams : kk.kk_cparams = some cparams)
    (hempty : kt.kt_len = 0) :
    (cparams.pfx_len = 0 → kt.kt_data ≠ none →
        (ikvdb_kvs_prefix_delete K E parent (some kk) flags txn kt want_pfx_len).1 =
          merr ENOENT 2062) ∧
      (cparams.pfx_len ≠ 0 ∨ kt.kt_data = none →
        (ikvdb_kvs_prefix_delete K E parent (some kk) flags txn kt want_pfx_len).1 =
          merr EINVAL 2060) ∧
      (∀ n r s, call.kvs_prefix_del n r s ∉
        (ikvdb_kvs_prefix_delete K E parent (some kk) flags txn kt want_pfx_len).2.2) ∧
      merr_errno (merr ENOENT 2062) = ENOENT ∧ merr_errno (merr EINVAL 2060) = EINVAL := by
  have hunf : ikvdb_kvs_prefix_delete K E parent (some kk) flags txn kt want_pfx_len =
      if kt.kt_data.isNone = true ∨ kt.kt_len ≠ cparams.pfx_len then
        (merr EINVAL 2060, if want_pfx_len then some cparams.pfx_len else none, [])
      else (merr ENOENT 2062, if want_pfx_len then some cparams.pfx_len else none, []) := by
    unfold ikvdb_kvs_prefix_delete
    simp only [hallowed, hrw, hcparams, Bool.not_true, Bool.false_eq_true, if_false, hempty,
      if_true]
  rw [hunf]
  refine ⟨?_, ?_, ?_, rfl, rfl⟩
  · intro hz hdata
    have h1 : ¬ (kt.kt_data.isNone = true ∨ kt.kt_len ≠ cparams.pfx_len) := by
      intro h
      rcases h with h | h
      · exact hdata (by simpa using h)
      · exact h (by rw [hempty, hz])
    simp only [h1, if_false]
  · intro h
    have h1 : kt.kt_data.isNone = true ∨ kt.kt_len ≠ cparams.pfx_len := by
      rcases h with h | h
      · right; rw [hempty]; exact fun hh => h hh.symm
      · left; simp [h]
    simp only [h1, if_true]
  · intro n r s
    split <;> simp

/-- Witness of C15: the empty key in a KVS of prefix length 0 gives `ENOENT`. -/
theorem prefix_delete_empty_key_witness :
    (ikvdb_kvs_prefix_delete consts_example write_env_example
      (ikvdb_example consts_example false) (some kvs_example) 0 none ⟨some 1, 0⟩ true).1 =
      merr ENOENT 2062 :=
  (prefix_delete_empty_key consts_example write_env_example (ikvdb_example consts_example false)
    kvs_example 0 none ⟨some 1, 0⟩ true ⟨0⟩ rfl rfl rfl rfl).1 rfl (by decide)

/-- C15 (counterexample): the admitted prefix delete of the empty key (with
data) in a KVS of prefix length 3, on a writable database, returns `EINVAL`,
not `ENOENT`. -/
theorem prefix_delete_empty_key_einval :
    is_write_allowed write_env_example kvs_pfx3.kk_ikvs none = true ∧
      (ikvdb_example consts_example false).ikdb_rdonly = false ∧
      ikvdb_kvs_prefix_delete consts_example write_env_example
          (ikvdb_example consts_example false) (some kvs_pfx3) 0 none ⟨some 1, 0⟩ true =
        (merr EINVAL 2060, some 3, []) ∧
      merr_errno (merr EINVAL 2060) ≠ ENOENT := by
  have hrw : (ikvdb_example consts_example false).ikdb_rdonly = false := rfl
  have hallowed : is_write_allowed write_env_example kvs_pfx3.kk_ikvs none = true := rfl
  have hcp : kvs_pfx3.kk_cparams = some ⟨3⟩ := rfl
  refine ⟨rfl, rfl, ?_, by decide⟩
  unfold ikvdb_kvs_prefix_delete
  simp only [hallowed, hrw, hcp, Bool.not_true, Bool.false_eq_true, if_false]
  rfl

theorem ikvdb_kvs_put_compress_no_tbkt (K : hse_consts) (E : kvs_write_env) (kk : kvdb_kvs)
    (flags : Nat) (vt : kvs_vtuple) (b : Nat) :
    call.tbkt_request b ∉ (ikvdb_kvs_put_compress K E kk flags vt).2.2.2.2.2 := by
  unfold ikvdb_kvs_put_compress
  dsimp only
  repeat' split
  all_goals simp

/-- C16 (as amended): for every put without the `PRIORITY` flag on a
database with throttling enabled, tokens are requested from the bucket if and
only if `kvs_put` was called, whatever it returned; with the `PRIORITY` flag or
with throttling disabled no tokens are requested. -/
theorem ikvdb_kvs_put_throttle (K : hse_consts) (E : kvs_write_env) (parent : ikvdb_impl)
    (handle : Option kvdb_kvs) (flags : Nat) (txn : Option Nat) (kt : kvs_ktuple)
    (vt : kvs_vtuple) :
    (flags &&& K.HSE_FLAG_PUT_PRIORITY = 0 ∧ parent.ikdb_rp.throttle_disable = false →
        ((∃ b, call.tbkt_request b ∈ (ikvdb_kvs_put K E parent handle flags txn kt vt).2.2) ↔
          ∃ v s, call.kvs_put txn kt v s ∈
            (ikvdb_kvs_put K E parent handle flags txn kt vt).2.2)) ∧
      (flags &&& K.HSE_FLAG_PUT_PRIORITY ≠ 0 ∨ parent.ikdb_rp.throttle_disable = true →
        ∀ b, call.tbkt_request b ∉ (ikvdb_kvs_put K E parent handle flags txn kt vt).2.2) := by
  cases handle with
  | none => simp [ikvdb_kvs_put]
  | some kk =>
    by_cases hallowed : is_write_allowed E kk.kk_ikvs txn = true
    · by_cases hrw : parent.ikdb_rdonly = true
      · simp [ikvdb_kvs_put, hallowed, hrw]
      · by_cases hok : E.kvdb_health_check (health_mask_writes K) = 0
        · have hA := ikvdb_kvs_put_compress_no_tbkt K E kk flags vt
          constructor
          · rintro ⟨hp, htd⟩
            simp only [ikvdb_kvs_put, hallowed, hrw, hok, hp, htd, ikvdb_throttle]
            simp
            constructor
            · intro _
              exact ⟨_, _, Or.inr (Or.inl ⟨rfl, rfl⟩)⟩
            · intro _
              exact ⟨_, Or.inr (Or.inr rfl)⟩
          · intro h b
            have hnot : (!(decide (flags &&& K.HSE_FLAG_PUT_PRIORITY ≠ 0) ||
                parent.ikdb_rp.throttle_disable)) = false := by
              rcases h with h | h
              · simp [h]
              · simp [h]
            simp only [ikvdb_kvs_put, hallowed, hrw, hok, hnot]
            simp [hA]
            split <;> simp
        · simp [ikvdb_kvs_put, hallowed, hrw, hok]
    · simp [ikvdb_kvs_put, hallowed]

/-- C16 (counterexample): `kvs_put` fails with `EIO`, `ikvdb_kvs_put` returns
that error, and 8 bytes (a key of 5 and a value of 3) were requested from the
bucket all the same. -/
theorem ikvdb_kvs_put_failed_charged :
    ikvdb_kvs_put consts_example write_env_putfails (ikvdb_example consts_example false)
        (some kvs_example) 0 none ⟨some 1, 5⟩ ⟨vptr.user 2, 3, 0⟩ =
      (⟨5, 1⟩, ikvdb_example consts_example false,
        [call.kvdb_health_check 61,
         call.kvs_put none ⟨some 1, 5⟩ ⟨vptr.user 2, 3, 0⟩ (2 ^ 64 - 3),
         call.tbkt_request 8, call.tbkt_delay 0]) := by
  rfl

/-- C17 (the code at the failing input, and around it): where the compression
condition does not hold, an admitted, throttled put hands the value on as it
came and charges the key length plus the length of that value; but with a
compressor that succeeds without shrinking a value of 100 bytes (it writes
120), the put hands the 100 uncompressed bytes to `kvs_put` and charges
5 + 120 = 125 bytes. -/
theorem ikvdb_kvs_put_charges_unused_clen (K : hse_consts) (E : kvs_write_env)
    (parent : ikvdb_impl) (kk : kvdb_kvs) (flags : Nat) (txn : Option Nat) (kt : kvs_ktuple)
    (vt : kvs_vtuple) :
    (is_write_allowed E kk.kk_ikvs txn = true → parent.ikdb_rdonly = false →
        E.kvdb_health_check (health_mask_writes K) = 0 →
        flags &&& K.HSE_FLAG_PUT_PRIORITY = 0 → parent.ikdb_rp.throttle_disable = false →
        ¬ ((kvs_vtuple_clen vt = 0 ∧ kvs_vtuple_vlen vt > kk.kk_vcompmin ∧
              flags &&& K.HSE_FLAG_PUT_VALUE_COMPRESSION_OFF = 0) ∨
            flags &&& K.HSE_FLAG_PUT_VALUE_COMPRESSION_ON ≠ 0) →
        (ikvdb_kvs_put K E parent (some kk) flags txn kt vt).2.2 =
          [call.kvdb_health_check (health_mask_writes K),
           call.kvs_put txn kt vt (if txn.isSome then 0 else K.HSE_SQNREF_SINGLE),
           call.tbkt_request
             ((kt.kt_len +
               (if kvs_vtuple_clen vt ≠ 0 then kvs_vtuple_clen vt else kvs_vtuple_vlen vt)) %
                 2 ^ 32),
           call.tbkt_delay (E.tbkt_request
             ((kt.kt_len +
               (if kvs_vtuple_clen vt ≠ 0 then kvs_vtuple_clen vt else kvs_vtuple_vlen vt)) %
                 2 ^ 32))]) ∧
      ikvdb_kvs_put consts_example write_env_noshrink (ikvdb_example consts_example false)
          (some kvs_compressing) 0 none ⟨some 1, 5⟩ ⟨vptr.user 2, 100, 0⟩ =
        (0, ikvdb_example consts_example false,
          [call.kvdb_health_check 61, call.kk_vcompress 100 vptr.tls_vbuf 32768,
           call.kvs_put none ⟨some 1, 5⟩ ⟨vptr.user 2, 100, 0⟩ (2 ^ 64 - 3),
           call.tbkt_request 125, call.tbkt_delay 0]) := by
  refine ⟨?_, rfl⟩
  intro hallowed hrw hok hp htd hcond
  simp only [ikvdb_kvs_put, ikvdb_kvs_put_compress, hallowed, hrw, hok, hp, htd, hcond,
    ikvdb_throttle]
  simp

/-- C18: `ikvdb_horizon` returns the minimum of the horizon of the cursor
ViewSet and the horizon of the transaction ViewSet (both `u64`); it never
exceeds `ikvdb_txn_horizon` of the same state, and it is `U64_MAX` exactly when
both horizons are `U64_MAX`. -/
theorem ikvdb_horizon_is_min (E : horizon_env) (self : ikvdb_impl) :
    (ikvdb_horizon E self).1 =
        min (E.viewset_horizon self.ikdb_cur_viewset % 2 ^ 64)
          (E.viewset_horizon self.ikdb_txn_viewset % 2 ^ 64) ∧
      (ikvdb_horizon E self).1 ≤ ikvdb_txn_horizon E self ∧
      ((ikvdb_horizon E self).1 = U64_MAX ↔
        E.viewset_horizon self.ikdb_cur_viewset % 2 ^ 64 = U64_MAX ∧
          E.viewset_horizon self.ikdb_txn_viewset % 2 ^ 64 = U64_MAX) := by
  have hval : (ikvdb_horizon E self).1 =
      min (E.viewset_horizon self.ikdb_cur_viewset % 2 ^ 64)
        (E.viewset_horizon self.ikdb_txn_viewset % 2 ^ 64) := by
    unfold ikvdb_horizon
    dsimp only
    split <;> rfl
  have hb : E.viewset_horizon self.ikdb_cur_viewset % 2 ^ 64 < 2 ^ 64 :=
    Nat.mod_lt _ (by norm_num)
  have hc : E.viewset_horizon self.ikdb_txn_viewset % 2 ^ 64 < 2 ^ 64 :=
    Nat.mod_lt _ (by norm_num)
  refine ⟨hval, ?_, ?_⟩
  · rw [hval]
    exact Nat.min_le_right _ _
  · rw [hval]
    unfold U64_MAX
    omega

/-- C19: on an admitted read, with the sampled count of active cursors in the
range of a count, `ikvdb_kvs_cursor_create` leaves by its `ECANCELED` exit
(line 2188: no call made, so no cursor allocated and no view registered, and
the out cursor `NULL`) exactly when the count is strictly greater than
`ikdb_curcnt_max`; at a count up to the maximum, the maximum included, creation
goes on to its first step. -/
theorem ikvdb_kvs_cursor_create_canceled (K : hse_consts) (W : kvs_write_env) (E : cursor_env)
    (ikvdb : ikvdb_impl) (kk : kvdb_kvs) (flags : Nat) (txn : Option Nat) (pfx : Option Nat)
    (pfx_len : Nat) (hread : is_read_allowed W kk.kk_ikvs txn = true)
    (hlo : 0 ≤ ikvdb.ikdb_curcnt) (hhi : ikvdb.ikdb_curcnt < 2 ^ 31) :
    (ikvdb_kvs_cursor_create K W E ikvdb kk flags txn pfx pfx_len =
          (merr ECANCELED 2188, none, []) ↔
        ikvdb.ikdb_curcnt > (ikvdb.ikdb_curcnt_max : Int)) ∧
      (ikvdb.ikdb_curcnt ≤ (ikvdb.ikdb_curcnt_max : Int) →
        ∃ rest, (ikvdb_kvs_cursor_create K W E ikvdb kk flags txn pfx pfx_len).2.2 =
          call.perfc (perfc_call.perfc_lat_start 2191) :: rest) := by
  have hmod : (ikvdb.ikdb_curcnt % 2 ^ 32).toNat > ikvdb.ikdb_curcnt_max ↔
      ikvdb.ikdb_curcnt > (ikvdb.ikdb_curcnt_max : Int) := by
    have h1 : ikvdb.ikdb_curcnt % 2 ^ 32 = ikvdb.ikdb_curcnt :=
      Int.emod_eq_of_lt hlo (by omega)
    rw [h1]
    omega
  constructor
  · constructor
    · intro heq
      by_contra hgt
      have hcnt : ¬ (ikvdb.ikdb_curcnt % 2 ^ 32).toNat > ikvdb.ikdb_curcnt_max :=
        fun h => hgt (hmod.mp h)
      obtain ⟨rest, hrest⟩ :=
        ikvdb_kvs_cursor_create_admitted K W E ikvdb kk flags txn pfx pfx_len hread hcnt
      rw [heq] at hrest
      simp at hrest
    · intro hgt
      have hcnt := hmod.mpr hgt
      unfold ikvdb_kvs_cursor_create
      simp only [hread, Bool.not_true, Bool.false_eq_true, if_false, hcnt, if_true]
  · intro hle
    have hcnt : ¬ (ikvdb.ikdb_curcnt % 2 ^ 32).toNat > ikvdb.ikdb_curcnt_max :=
      fun h => absurd (hmod.mp h) (by omega)
    exact ikvdb_kvs_cursor_create_admitted K W E ikvdb kk flags txn pfx pfx_len hread hcnt

theorem ikvdb_kvs_cursor_create_canceled_witness :
    is_read_allowed write_env_example kvs_example.kk_ikvs none = true ∧
      (ikvdb_kvs_cursor_create consts_example write_env_example cursor_env_example
            { ikvdb_example consts_example false with ikdb_curcnt := 1000 } kvs_example 0 none
            none 0 =
          (merr ECANCELED 2188, none, []) ↔
        (1000 : Int) > ((1000 : Nat) : Int)) ∧
      ((1000 : Int) ≤ ((1000 : Nat) : Int) →
        ∃ rest, (ikvdb_kvs_cursor_create consts_example write_env_example cursor_env_example
            { ikvdb_example consts_example false with ikdb_curcnt := 1000 } kvs_example 0 none
            none 0).2.2 =
          call.perfc (perfc_call.perfc_lat_start 2191) :: rest) :=
  ⟨rfl, ikvdb_kvs_cursor_create_canceled consts_example write_env_example cursor_env_example
    { ikvdb_example consts_example false with ikdb_curcnt := 1000 } kvs_example 0 none none 0
    rfl (by decide) (by decide)⟩

theorem cursor_view_acquire_flags (K : hse_consts) (E : cursor_env) (c : hse_kvs_cursor) :
    (cursor_view_acquire K E c).2.1.kc_flags = c.kc_flags := by
  unfold cursor_view_acquire
  split
  · rfl
  · dsimp only
    split <;> split <;> rfl

theorem cursor_view_release_flags (c : hse_kvs_cursor) :
    (cursor_view_release c).1.kc_flags = c.kc_flags := by
  unfold cursor_view_release
  split <;> rfl

theorem ikvdb_kvs_cursor_update_view_flags (K : hse_consts) (E : cursor_env)
    (cur : hse_kvs_cursor) (flags : Nat)
    (hok : (ikvdb_kvs_cursor_update_view K E cur flags).1 = 0) :
    (ikvdb_kvs_cursor_update_view K E cur flags).2.1.kc_flags = flags := by
  unfold ikvdb_kvs_cursor_update_view at hok ⊢
  dsimp only at hok ⊢
  generalize cursor_view_acquire K E { cur with kc_seq := K.HSE_SQNREF_UNDEFINED } = acq
    at hok ⊢
  by_cases h1 : cur.kc_err = 0
  · by_cases h2 : cur.kc_ctxn.isSome = true
    · simp only [h1, h2, ne_eq, not_true_eq_false, if_false, if_true] at hok
      exact absurd hok (by decide)
    · simp only [h1, h2, ne_eq, not_true_eq_false, if_false, Bool.false_eq_true] at hok ⊢
      by_cases ha : acq.1 = 0
      · simp only [ha, ne_eq, not_true_eq_false, if_false] at hok ⊢
        generalize E.kvs_cursor_update 0 none acq.2.1.kc_seq = err at hok ⊢
        by_cases he : err = 0
        · simp only [he, ne_eq, not_true_eq_false, if_false]
          split <;> rfl
        · simp only [he, ne_eq, not_false_eq_true, if_true] at hok
          split at hok
          · exact absurd hok (merr_ne_zero _ _ (by decide))
          · exact absurd hok he
      · simp only [ha, ne_eq, not_false_eq_true, if_true] at hok
  · simp only [h1, ne_eq, not_false_eq_true, if_true] at hok

theorem ikvdb_kvs_cursor_create_flags (K : hse_consts) (W : kvs_write_env) (E : cursor_env)
    (ikvdb : ikvdb_impl) (kk : kvdb_kvs) (flags : Nat) (txn : Option Nat) (pfx : Option Nat)
    (pfx_len : Nat) (c : hse_kvs_cursor)
    (hc : (ikvdb_kvs_cursor_create K W E ikvdb kk flags txn pfx pfx_len).2.1 = some c) :
    c.kc_flags = flags := by
  unfold ikvdb_kvs_cursor_create at hc
  dsimp only at hc
  repeat' split at hc
  all_goals first
    | (simp at hc; done)
    | (dsimp only at hc
       injection hc with hc
       rw [← hc]
       simp [cursor_view_release_flags, cursor_view_acquire_flags])

/-- C20 (the code at the failing input, and around it): a seek with a limit on
a cursor whose `kc_flags` hold `HSE_FLAG_CURSOR_REVERSE` returns `EINVAL`
(line 2357) without a call of the underlying seek and with the cursor
unchanged, and a created cursor holds the flags of its creation; but
`ikvdb_kvs_cursor_update_view`, when it returns 0, stores its own flags
argument to `kc_flags`, so that the cursor created with the `REVERSE` flag,
after one update of its view with the flags 0, passes a seek with a limit on to
`kvs_cursor_seek`, and the seek returns 0. -/
theorem cursor_seek_limit_after_update_view (K : hse_consts) (W : kvs_write_env)
    (E : cursor_env) (ikvdb : ikvdb_impl) (kk : kvdb_kvs) (cur : hse_kvs_cursor)
    (flags : Nat) (txn : Option Nat) (pfx : Option Nat) (pfx_len : Nat) (key : Option Nat)
    (len : Nat) (limit : Nat) (limit_len : Nat) :
    (cur.kc_flags &&& K.HSE_FLAG_CURSOR_REVERSE ≠ 0 →
        ikvdb_kvs_cursor_seek K E cur flags key len (some limit) limit_len =
          (merr EINVAL 2357, cur, [call.perfc (perfc_call.perfc_lat_start 2354)])) ∧
      (∀ c, (ikvdb_kvs_cursor_create K W E ikvdb kk flags txn pfx pfx_len).2.1 = some c →
        c.kc_flags = flags) ∧
      ((ikvdb_kvs_cursor_update_view K E cur flags).1 = 0 →
        (ikvdb_kvs_cursor_update_view K E cur flags).2.1.kc_flags = flags) ∧
      ikvdb_kvs_cursor_create consts_example write_env_example cursor_env_example
          (ikvdb_example consts_example false) kvs_example 1 none none 0 =
        (0, some cursor_reverse_example,
          [call.perfc (perfc_call.perfc_lat_start 2191),
           call.cursor (cursor_call.kvs_cursor_alloc 1), call.cursor cursor_call.viewset_insert,
           call.perfc (perfc_call.perfc_lat_start 2233),
           call.cursor (cursor_call.kvs_cursor_init none),
           call.perfc (perfc_call.perfc_lat_record 2235),
           call.cursor (cursor_call.viewset_remove (some 5)), call.kvdb_ctxn_set_wait_commits,
           call.cursor cursor_call.kvs_cursor_prepare, call.perfc (perfc_call.perfc_inc 2252),
           call.perfc (perfc_call.perfc_lat_record 2255)]) ∧
      ikvdb_kvs_cursor_update_view consts_example cursor_env_example cursor_reverse_example 0 =
        (0, { cursor_reverse_example with kc_flags := 0 },
          [call.perfc (perfc_call.perfc_lat_start 2272), call.cursor cursor_call.viewset_insert,
           call.cursor (cursor_call.kvs_cursor_update none 100),
           call.cursor (cursor_call.viewset_remove (some 5)), call.kvdb_ctxn_set_wait_commits,
           call.perfc (perfc_call.perfc_lat_record 2303)]) ∧
      ikvdb_kvs_cursor_seek consts_example cursor_env_example
          { cursor_reverse_example with kc_flags := 0 } 0 (some 1) 3 (some 4) 3 =
        (0, { cursor_reverse_example with kc_flags := 0 },
          [call.perfc (perfc_call.perfc_lat_start 2354),
           call.cursor (cursor_call.kvs_cursor_seek (some 4)),
           call.perfc (perfc_call.perfc_lat_record 2377)]) := by
  refine ⟨?_, ?_, ikvdb_kvs_cursor_update_view_flags K E cur flags, rfl, rfl, rfl⟩
  · intro hrev
    simp [ikvdb_kvs_cursor_seek, hrev]
  · intro c hc
    exact ikvdb_kvs_cursor_create_flags K W E ikvdb kk flags txn pfx pfx_len c hc

theorem cursor_view_acquire_ctxn (K : hse_consts) (E : cursor_env) (c : hse_kvs_cursor) :
    (cursor_view_acquire K E c).2.1.kc_ctxn = c.kc_ctxn := by
  unfold cursor_view_acquire
  split
  · rfl
  · dsimp only
    split <;> split <;> rfl

theorem cursor_view_release_ctxn (c : hse_kvs_cursor) :
    (cursor_view_release c).1.kc_ctxn = c.kc_ctxn := by
  unfold cursor_view_release
  split <;> rfl

theorem cursor_view_release_off_list (c : hse_kvs_cursor) :
    (cursor_view_release c).1.kc_on_list = false := by
  unfold cursor_view_release
  by_cases h : c.kc_on_list = true
  · simp [h]
  · simp [h]

theorem ikvdb_kvs_cursor_create_ctxn (K : hse_consts) (W : kvs_write_env) (E : cursor_env)
    (ikvdb : ikvdb_impl) (kk : kvdb_kvs) (flags : Nat) (txn : Option Nat) (pfx : Option Nat)
    (pfx_len : Nat) (c : hse_kvs_cursor)
    (hc : (ikvdb_kvs_cursor_create K W E ikvdb kk flags txn pfx pfx_len).2.1 = some c) :
    c.kc_ctxn = txn ∧ c.kc_on_list = false := by
  unfold ikvdb_kvs_cursor_create at hc
  dsimp only at hc
  repeat' split at hc
  all_goals first
    | (simp at hc; done)
    | (dsimp only at hc
       injection hc with hc
       rw [← hc]
       simp [cursor_view_release_ctxn, cursor_view_acquire_ctxn, cursor_view_release_off_list])

theorem ikvdb_kvs_cursor_update_view_ctxn (K : hse_consts) (E : cursor_env)
    (cur : hse_kvs_cursor) (flags : Nat) (t : Nat) (herr : cur.kc_err = 0)
    (hctxn : cur.kc_ctxn = some t) :
    ikvdb_kvs_cursor_update_view K E cur flags =
      (merr EINVAL 2279, cur, [call.perfc (perfc_call.perfc_lat_start 2272)]) := by
  unfold ikvdb_kvs_cursor_update_view
  simp [herr, hctxn]

theorem ikvdb_kvs_cursor_update_view_latched (K : hse_consts) (E : cursor_env)
    (cur : hse_kvs_cursor) (flags : Nat) (herr : cur.kc_err ≠ 0) :
    ikvdb_kvs_cursor_update_view K E cur flags =
      (cur.kc_err, cur, [call.perfc (perfc_call.perfc_lat_start 2272)]) := by
  unfold ikvdb_kvs_cursor_update_view
  simp [herr]

theorem ikvdb_kvs_cursor_update_view_ok (K : hse_consts) (E : cursor_env)
    (cur : hse_kvs_cursor) (flags : Nat) (seq : Nat) (cookie : Option Nat)
    (herr : cur.kc_err = 0) (hctxn : cur.kc_ctxn = none)
    (hins : E.viewset_insert = (0, some (seq, cookie)))
    (hupd : E.kvs_cursor_update 0 none seq = 0) :
    ikvdb_kvs_cursor_update_view K E cur flags =
      (0, { cur with kc_seq := seq, kc_viewcookie := cookie, kc_on_list := false,
                     kc_flags := flags },
        [call.perfc (perfc_call.perfc_lat_start 2272), call.cursor cursor_call.viewset_insert,
         call.cursor (cursor_call.kvs_cursor_update none seq),
         call.cursor (cursor_call.viewset_remove cookie), call.kvdb_ctxn_set_wait_commits,
         call.perfc (perfc_call.perfc_lat_record 2303)]) := by
  have h0 : merr_errno (0 : merr_t) ≠ EAGAIN := by decide
  unfold ikvdb_kvs_cursor_update_view cursor_view_acquire cursor_view_release
  simp [herr, hctxn, hins, hupd, h0]

/-- C21: a cursor that `ikvdb_kvs_cursor_create` made with a transaction holds
that transaction in `kc_ctxn`; while it is free of error,
`ikvdb_kvs_cursor_update_view` returns the `EINVAL` of line 2279 whatever the
collaborators answer, with the cursor (its view, flags and latched error
among the rest) unchanged and no call but the start of the latency
measurement: no ViewSet call and no `kvs_cursor_update`. -/
theorem cursor_update_view_with_txn (K : hse_consts) (W : kvs_write_env) (E E2 : cursor_env)
    (ikvdb : ikvdb_impl) (kk : kvdb_kvs) (flags flags2 : Nat) (t : Nat) (pfx : Option Nat)
    (pfx_len : Nat) (cur : hse_kvs_cursor)
    (hcreate : (ikvdb_kvs_cursor_create K W E ikvdb kk flags (some t) pfx pfx_len).2.1 =
      some cur)
    (herr : cur.kc_err = 0) :
    cur.kc_ctxn = some t ∧
      ikvdb_kvs_cursor_update_view K E2 cur flags2 =
        (merr EINVAL 2279, cur, [call.perfc (perfc_call.perfc_lat_start 2272)]) ∧
      merr_errno (merr EINVAL 2279) = EINVAL := by
  have hctxn := (ikvdb_kvs_cursor_create_ctxn K W E ikvdb kk flags (some t) pfx pfx_len cur
    hcreate).1
  exact ⟨hctxn, ikvdb_kvs_cursor_update_view_ctxn K E2 cur flags2 t herr hctxn, rfl⟩

theorem cursor_update_view_with_txn_witness :
    cursor_txn_example.kc_ctxn = some 7 ∧
      ikvdb_kvs_cursor_update_view consts_example cursor_env_example cursor_txn_example 0 =
        (merr EINVAL 2279, cursor_txn_example, [call.perfc (perfc_call.perfc_lat_start 2272)]) ∧
      merr_errno (merr EINVAL 2279) = EINVAL :=
  cursor_update_view_with_txn consts_example write_env_txn cursor_env_example
    cursor_env_example (ikvdb_example consts_example false) kvs_example 0 0 7 none 0
    cursor_txn_example rfl rfl

/-- C22 (the code at the failing input, and around it): on a cursor free of
error that has no transaction, with `viewset_insert` and `kvs_cursor_update`
succeeding, `ikvdb_kvs_cursor_update_view` returns 0 and the cursor has the
view `viewset_insert` handed out; but a cursor free of error whose `kc_ctxn` is
set gets `EINVAL` whatever has become of the transaction, and nothing clears
`kc_ctxn`: the cursor created with the transaction 7, after the transaction
has ended (`b_ctxn` of its bind is `NULL`), is unbound by the next seek and
keeps `kc_ctxn`, and `ikvdb_kvs_cursor_update_view` returns `EINVAL` for it
before and after that seek, with the view left at 90. -/
theorem cursor_update_view_after_txn_end (K : hse_consts) (E : cursor_env)
    (cur : hse_kvs_cursor) (flags : Nat) :
    (∀ seq cookie, cur.kc_err = 0 → cur.kc_ctxn = none →
        E.viewset_insert = (0, some (seq, cookie)) → E.kvs_cursor_update 0 none seq = 0 →
        ikvdb_kvs_cursor_update_view K E cur flags =
          (0, { cur with kc_seq := seq, kc_viewcookie := cookie, kc_on_list := false,
                         kc_flags := flags },
            [call.perfc (perfc_call.perfc_lat_start 2272), call.cursor cursor_call.viewset_insert,
             call.cursor (cursor_call.kvs_cursor_update none seq),
             call.cursor (cursor_call.viewset_remove cookie), call.kvdb_ctxn_set_wait_commits,
             call.perfc (perfc_call.perfc_lat_record 2303)])) ∧
      (∀ t, cur.kc_err = 0 → cur.kc_ctxn = some t →
        ikvdb_kvs_cursor_update_view K E cur flags =
          (merr EINVAL 2279, cur, [call.perfc (perfc_call.perfc_lat_start 2272)])) ∧
      ikvdb_kvs_cursor_create consts_example write_env_txn cursor_env_example
          (ikvdb_example consts_example false) kvs_example 0 (some 7) none 0 =
        (0, some cursor_txn_example,
          [call.perfc (perfc_call.perfc_lat_start 2191),
           call.cursor (cursor_call.kvdb_ctxn_get_view_seqno 7),
           call.cursor (cursor_call.kvs_cursor_alloc 0),
           call.cursor (cursor_call.kvdb_ctxn_cursor_bind 7),
           call.perfc (perfc_call.perfc_lat_start 2233),
           call.cursor (cursor_call.kvs_cursor_init (some 7)),
           call.perfc (perfc_call.perfc_lat_record 2235),
           call.cursor cursor_call.kvs_cursor_prepare,
           call.perfc (perfc_call.perfc_inc 2252), call.perfc (perfc_call.perfc_lat_record 2255)]) ∧
      ikvdb_kvs_cursor_update_view consts_example cursor_env_committed cursor_txn_example 0 =
        (merr EINVAL 2279, cursor_txn_example, [call.perfc (perfc_call.perfc_lat_start 2272)]) ∧
      ikvdb_kvs_cursor_seek consts_example cursor_env_committed cursor_txn_example 0 (some 1) 3
          none 0 =
        (0, { cursor_txn_example with kc_gen := -1, kc_bind := none },
          [call.perfc (perfc_call.perfc_lat_start 2354),
           call.cursor (cursor_call.kvdb_ctxn_cursor_unbind 3),
           call.cursor (cursor_call.kvs_cursor_update none 90),
           call.cursor (cursor_call.kvs_cursor_seek none),
           call.perfc (perfc_call.perfc_lat_record 2377)]) ∧
      ikvdb_kvs_cursor_update_view consts_example cursor_env_committed
          { cursor_txn_example with kc_gen := -1, kc_bind := none } 0 =
        (merr EINVAL 2279, { cursor_txn_example with kc_gen := -1, kc_bind := none },
          [call.perfc (perfc_call.perfc_lat_start 2272)]) := by
  refine ⟨?_, ?_, rfl, rfl, rfl, rfl⟩
  · intro seq cookie herr hctxn hins hupd
    exact ikvdb_kvs_cursor_update_view_ok K E cur flags seq cookie herr hctxn hins hupd
  · intro t herr hctxn
    exact ikvdb_kvs_cursor_update_view_ctxn K E cur flags t herr hctxn

theorem ikvdb_kvs_cursor_update_view_insert_failed (K : hse_consts) (E : cursor_env)
    (cur : hse_kvs_cursor) (flags : Nat) (herr : cur.kc_err = 0) (hctxn : cur.kc_ctxn = none)
    (hins : E.viewset_insert.1 ≠ 0) :
    (ikvdb_kvs_cursor_update_view K E cur flags).1 = E.viewset_insert.1 := by
  unfold ikvdb_kvs_cursor_update_view cursor_view_acquire
  simp [herr, hctxn, hins]

theorem ikvdb_kvs_cursor_update_view_updated (K : hse_consts) (E : cursor_env)
    (cur : hse_kvs_cursor) (flags : Nat) (herr : cur.kc_err = 0) (hctxn : cur.kc_ctxn = none)
    (hins : E.viewset_insert.1 = 0) :
    merr_errno (ikvdb_kvs_cursor_update_view K E cur flags).1 ≠ EAGAIN ∧
      (merr_errno (E.kvs_cursor_update 0 none
          (cursor_view_acquire K E { cur with kc_seq := K.HSE_SQNREF_UNDEFINED }).2.1.kc_seq) =
          EAGAIN →
        (ikvdb_kvs_cursor_update_view K E cur flags).1 = merr ENOTRECOVERABLE 2311 ∧
          (ikvdb_kvs_cursor_update_view K E cur flags).2.1.kc_err =
            merr ENOTRECOVERABLE 2311) := by
  have hacq : (cursor_view_acquire K E { cur with kc_seq := K.HSE_SQNREF_UNDEFINED }).1 = 0 := by
    unfold cursor_view_acquire
    simp [hins]
  have h0 : merr_errno (0 : merr_t) ≠ EAGAIN := by decide
  unfold ikvdb_kvs_cursor_update_view
  dsimp only
  generalize cursor_view_acquire K E { cur with kc_seq := K.HSE_SQNREF_UNDEFINED } = acq
    at hacq ⊢
  simp only [herr, hctxn, hacq, ne_eq, not_true_eq_false, if_false, Option.isSome_none,
    Bool.false_eq_true]
  generalize E.kvs_cursor_update 0 none acq.2.1.kc_seq = err
  by_cases he : err = 0
  · subst he
    have hrel : (cursor_view_release { acq.2.1 with kc_err := 0 }).1.kc_err = 0 := by
      unfold cursor_view_release
      split <;> rfl
    simp only [not_true_eq_false, if_false, hrel, h0]
    simp
  · by_cases hag : merr_errno err = EAGAIN
    · simp only [he, not_false_eq_true, if_true, hag]
      simp [merr_errno, merr, ENOTRECOVERABLE, EAGAIN]
    · simp only [he, not_false_eq_true, if_true, hag, if_false]
      simp

/-- C23 (as amended): `ikvdb_kvs_cursor_update_view` returns an error whose
errno is `EAGAIN` exactly when the cursor had latched one before the call, or
when the cursor is free of error, has no transaction and `viewset_insert`
fails with one; when the call gets as far as `kvs_cursor_update` and that
reports `EAGAIN`, the call returns `ENOTRECOVERABLE` (line 2311) and latches it
in `kc_err`. -/
theorem cursor_update_view_eagain (K : hse_consts) (E : cursor_env) (cur : hse_kvs_cursor)
    (flags : Nat) :
    (merr_errno (ikvdb_kvs_cursor_update_view K E cur flags).1 = EAGAIN ↔
        merr_errno cur.kc_err = EAGAIN ∨
          (cur.kc_err = 0 ∧ cur.kc_ctxn = none ∧ merr_errno E.viewset_insert.1 = EAGAIN)) ∧
      (cur.kc_err = 0 → cur.kc_ctxn = none → E.viewset_insert.1 = 0 →
        merr_errno (E.kvs_cursor_update 0 none
          (cursor_view_acquire K E { cur with kc_seq := K.HSE_SQNREF_UNDEFINED }).2.1.kc_seq) =
          EAGAIN →
        (ikvdb_kvs_cursor_update_view K E cur flags).1 = merr ENOTRECOVERABLE 2311 ∧
          (ikvdb_kvs_cursor_update_view K E cur flags).2.1.kc_err =
            merr ENOTRECOVERABLE 2311 ∧
          merr_errno (merr ENOTRECOVERABLE 2311) = ENOTRECOVERABLE) := by
  have h0 : merr_errno (0 : merr_t) ≠ EAGAIN := by decide
  constructor
  · by_cases herr : cur.kc_err = 0
    · cases hctxn : cur.kc_ctxn with
      | some t =>
        rw [ikvdb_kvs_cursor_update_view_ctxn K E cur flags t herr hctxn, herr]
        simp [merr_errno, merr, EINVAL, EAGAIN]
      | none =>
        by_cases hins : E.viewset_insert.1 = 0
        · have h := (ikvdb_kvs_cursor_update_view_updated K E cur flags herr hctxn hins).1
          rw [herr, hins]
          simp [h, h0]
        · rw [ikvdb_kvs_cursor_update_view_insert_failed K E cur flags herr hctxn hins, herr]
          simp [h0]
    · rw [ikvdb_kvs_cursor_update_view_latched K E cur flags herr]
      simp [herr]
  · intro herr hctxn hins hupd
    have h := (ikvdb_kvs_cursor_update_view_updated K E cur flags herr hctxn hins).2 hupd
    exact ⟨h.1, h.2, rfl⟩

/-- C23 (counterexample): a cursor that has latched an `EAGAIN` gets it back
from `ikvdb_kvs_cursor_update_view`, and so does a cursor free of error when
`viewset_insert` fails with `EAGAIN`. -/
theorem cursor_update_view_returns_eagain :
    merr_errno (ikvdb_kvs_cursor_update_view consts_example cursor_env_example
        { cursor_reverse_example with kc_err := ⟨11, 2363⟩ } 0).1 = EAGAIN ∧
      merr_errno (ikvdb_kvs_cursor_update_view consts_example cursor_env_insert_eagain
        cursor_reverse_example 0).1 = EAGAIN := by
  exact ⟨rfl, rfl⟩

theorem ikvdb_kvs_cursor_ready_latched (E : cursor_env) (cur : hse_kvs_cursor)
    (herr : cur.kc_err ≠ 0) (hclass : merr_errno cur.kc_err ≠ EAGAIN) :
    ikvdb_kvs_cursor_ready E cur = (some cur.kc_err, cur, []) := by
  unfold ikvdb_kvs_cursor_ready
  simp [herr, hclass]

theorem ikvdb_kvs_cursor_ready_retry_failed (E : cursor_env) (cur : hse_kvs_cursor)
    (hclass : merr_errno cur.kc_err = EAGAIN)
    (hupd : E.kvs_cursor_update 0 (cursor_bind_ctxn E cur) cur.kc_seq ≠ 0) :
    ikvdb_kvs_cursor_ready E cur =
      (some (E.kvs_cursor_update 0 (cursor_bind_ctxn E cur) cur.kc_seq),
        { cur with kc_err := E.kvs_cursor_update 0 (cursor_bind_ctxn E cur) cur.kc_seq },
        [call.cursor (cursor_call.kvs_cursor_update (cursor_bind_ctxn E cur) cur.kc_seq)]) := by
  have herr : cur.kc_err ≠ 0 := by
    intro h
    rw [h] at hclass
    exact absurd hclass (by decide)
  unfold ikvdb_kvs_cursor_ready
  simp [herr, hclass, hupd]

theorem ikvdb_kvs_cursor_ready_retry_ok (E : cursor_env) (cur : hse_kvs_cursor)
    (hclass : merr_errno cur.kc_err = EAGAIN)
    (hupd : E.kvs_cursor_update 0 (cursor_bind_ctxn E cur) cur.kc_seq = 0)
    (hbind : cur.kc_bind = none) :
    ikvdb_kvs_cursor_ready E cur =
      (none, { cur with kc_err := 0 },
        [call.cursor (cursor_call.kvs_cursor_update (cursor_bind_ctxn E cur) cur.kc_seq)]) := by
  have herr : cur.kc_err ≠ 0 := by
    intro h
    rw [h] at hclass
    exact absurd hclass (by decide)
  unfold ikvdb_kvs_cursor_ready
  simp [herr, hclass, hupd, hbind]

theorem ikvdb_kvs_cursor_update_view_off_list (K : hse_consts) (E : cursor_env)
    (cur : hse_kvs_cursor) (flags : Nat)
    (hok : (ikvdb_kvs_cursor_update_view K E cur flags).1 = 0) :
    (ikvdb_kvs_cursor_update_view K E cur flags).2.1.kc_on_list = false := by
  unfold ikvdb_kvs_cursor_update_view at hok ⊢
  dsimp only at hok ⊢
  generalize cursor_view_acquire K E { cur with kc_seq := K.HSE_SQNREF_UNDEFINED } = acq
    at hok ⊢
  by_cases h1 : cur.kc_err = 0
  · by_cases h2 : cur.kc_ctxn.isSome = true
    · simp only [h1, h2, ne_eq, not_true_eq_false, if_false, if_true] at hok
      exact absurd hok (by decide)
    · simp only [h1, h2, ne_eq, not_true_eq_false, if_false, Bool.false_eq_true] at hok ⊢
      by_cases ha : acq.1 = 0
      · simp only [ha, ne_eq, not_true_eq_false, if_false] at hok ⊢
        generalize E.kvs_cursor_update 0 none acq.2.1.kc_seq = err at hok ⊢
        by_cases he : err = 0
        · simp only [he, ne_eq, not_true_eq_false, if_false]
          split <;> exact cursor_view_release_off_list _
        · simp only [he, ne_eq, not_false_eq_true, if_true] at hok
          split at hok
          · exact absurd hok (merr_ne_zero _ _ (by decide))
          · exact absurd hok he
      · simp only [ha, ne_eq, not_false_eq_true, if_true] at hok
  · simp only [h1, ne_eq, not_false_eq_true, if_true] at hok

/-- C25 (the code at the failing input, and around it): a cursor that
`ikvdb_kvs_cursor_create` hands out, and a cursor for which
`ikvdb_kvs_cursor_update_view` returned 0, is not on the view list; but when
`kvs_cursor_init` fails, `ikvdb_kvs_cursor_create` returns after
`viewset_insert` with no call of `viewset_remove`, and when `kvs_cursor_update`
fails, `ikvdb_kvs_cursor_update_view` returns with the cursor still flagged as
on the view list and no call of `viewset_remove`, which
`ikvdb_kvs_cursor_destroy` does not make either. -/
theorem cursor_view_left_registered (K : hse_consts) (W : kvs_write_env) (E : cursor_env)
    (ikvdb : ikvdb_impl) (kk : kvdb_kvs) (cur : hse_kvs_cursor) (flags : Nat)
    (txn : Option Nat) (pfx : Option Nat) (pfx_len : Nat) :
    (∀ c, (ikvdb_kvs_cursor_create K W E ikvdb kk flags txn pfx pfx_len).2.1 = some c →
        c.kc_on_list = false) ∧
      ((ikvdb_kvs_cursor_update_view K E cur flags).1 = 0 →
        (ikvdb_kvs_cursor_update_view K E cur flags).2.1.kc_on_list = false) ∧
      ikvdb_kvs_cursor_create consts_example write_env_example cursor_env_initfails
          (ikvdb_example consts_example false) kvs_example 0 none none 0 =
        (⟨5, 1⟩, none,
          [call.perfc (perfc_call.perfc_lat_start 2191),
           call.cursor (cursor_call.kvs_cursor_alloc 0), call.cursor cursor_call.viewset_insert,
           call.perfc (perfc_call.perfc_lat_start 2233),
           call.cursor (cursor_call.kvs_cursor_init none),
           call.perfc (perfc_call.perfc_lat_record 2235),
           call.perfc (perfc_call.perfc_lat_start 2444), call.perfc (perfc_call.perfc_dec 2449),
           call.cursor cursor_call.kvs_cursor_free,
           call.perfc (perfc_call.perfc_lat_record 2453),
           call.perfc (perfc_call.perfc_lat_record 2454)]) ∧
      ikvdb_kvs_cursor_update_view consts_example cursor_env_updatefails
          cursor_reverse_example 0 =
        (⟨5, 1⟩, { cursor_reverse_example with kc_on_list := true, kc_err := ⟨5, 1⟩ },
          [call.perfc (perfc_call.perfc_lat_start 2272), call.cursor cursor_call.viewset_insert,
           call.cursor (cursor_call.kvs_cursor_update none 100)]) ∧
      ikvdb_kvs_cursor_destroy
          (some { cursor_reverse_example with kc_on_list := true, kc_err := ⟨5, 1⟩ }) =
        [call.perfc (perfc_call.perfc_lat_start 2444), call.perfc (perfc_call.perfc_dec 2449),
         call.cursor cursor_call.kvs_cursor_free,
         call.perfc (perfc_call.perfc_lat_record 2453),
         call.perfc (perfc_call.perfc_lat_record 2454)] := by
  refine ⟨?_, ikvdb_kvs_cursor_update_view_off_list K E cur flags, rfl, rfl, rfl⟩
  intro c hc
  exact (ikvdb_kvs_cursor_create_ctxn K W E ikvdb kk flags txn pfx pfx_len c hc).2

theorem set_getD_same (l : List (Option Nat)) (i : Nat) (a : Nat)
    (h : l.getD i none = some a) : l.set i (some a) = l := by
  induction l generalizing i with
  | nil => rfl
  | cons x xs ih =>
    cases i with
    | zero =>
      simp only [List.getD_cons_zero] at h
      simp [h]
    | succ j =>
      simp only [List.getD_cons_succ] at h
      simp [ih j h]

theorem getD_set_same (l : List (Option Nat)) (i : Nat) (x : Option Nat)
    (h : i < l.length) : (l.set i x).getD i none = x := by
  simp [List.getD_eq_getElem?_getD, List.getElem?_set, h]

theorem ikvdb_txn_alloc_hit (E : txn_env) (k : Nat) (bkt : kvdb_ctxn_bkt) (a : Nat)
    (hpos : 0 < bkt.kcb_ctxnc) (hle : bkt.kcb_ctxnc ≤ kcb_ctxnv_nelem)
    (htop : bkt.kcb_ctxnv.getD (bkt.kcb_ctxnc - 1) none = some a) :
    ikvdb_txn_alloc E k bkt =
      (some a, { bkt with kcb_ctxnc := bkt.kcb_ctxnc - 1 },
        [call.txn txn_call.spin_lock, call.txn txn_call.spin_unlock,
         call.txn (txn_call.kvdb_ctxn_reset a)]) := by
  have hlt : bkt.kcb_ctxnc - 1 < kcb_ctxnv_nelem := by omega
  unfold ikvdb_txn_alloc
  simp only [gt_iff_lt, hpos, if_true, htop, hlt]
  rfl

theorem ikvdb_txn_alloc_miss (E : txn_env) (k : Nat) (bkt : kvdb_ctxn_bkt)
    (hle : bkt.kcb_ctxnc ≤ kcb_ctxnv_nelem)
    (htop : 0 < bkt.kcb_ctxnc → bkt.kcb_ctxnv.getD (bkt.kcb_ctxnc - 1) none = none) :
    ikvdb_txn_alloc E k bkt =
      (E.kvdb_ctxn_alloc k, { bkt with kcb_ctxnc := bkt.kcb_ctxnc - 1 },
        [call.txn txn_call.spin_lock, call.txn txn_call.spin_unlock,
         call.txn (txn_call.kvdb_ctxn_alloc (E.kvdb_ctxn_alloc k))] ++
          if (E.kvdb_ctxn_alloc k).isSome then [call.perfc (perfc_call.perfc_inc 2570)] else []) := by
  unfold ikvdb_txn_alloc
  by_cases hpos : 0 < bkt.kcb_ctxnc
  · have hlt : bkt.kcb_ctxnc - 1 < kcb_ctxnv_nelem := by omega
    simp only [gt_iff_lt, hpos, if_true, htop hpos, hlt]
    cases E.kvdb_ctxn_alloc k <;> rfl
  · have hzero : bkt.kcb_ctxnc = 0 := by omega
    simp only [gt_iff_lt, hpos, if_false]
    cases bkt
    simp only at hzero
    subst hzero
    cases E.kvdb_ctxn_alloc k <;> rfl

theorem txn_cycles_succ (E : txn_env) (n k : Nat) (bkt : kvdb_ctxn_bkt) :
    txn_alloc_free_cycles E (n + 1) k bkt =
      ((txn_alloc_free_cycles E n (k + 1)
          (ikvdb_txn_free (ikvdb_txn_alloc E k bkt).2.1 (ikvdb_txn_alloc E k bkt).1).1).1,
        (ikvdb_txn_alloc E k bkt).2.2 ++
          (ikvdb_txn_free (ikvdb_txn_alloc E k bkt).2.1 (ikvdb_txn_alloc E k bkt).1).2 ++
          (txn_alloc_free_cycles E n (k + 1)
            (ikvdb_txn_free (ikvdb_txn_alloc E k bkt).2.1 (ikvdb_txn_alloc E k bkt).1).1).2) :=
  rfl

theorem ikvdb_txn_free_push (bkt : kvdb_ctxn_bkt) (a : Nat)
    (hlt : bkt.kcb_ctxnc < kcb_ctxnv_nelem) :
    ikvdb_txn_free bkt (some a) =
      ({ kcb_ctxnc := bkt.kcb_ctxnc + 1, kcb_ctxnv := bkt.kcb_ctxnv.set bkt.kcb_ctxnc (some a) },
        [call.txn (txn_call.kvdb_ctxn_abort a), call.txn txn_call.spin_lock,
         call.txn txn_call.spin_unlock]) := by
  unfold ikvdb_txn_free
  simp only [hlt, if_true]

theorem txn_cycles_hit (E : txn_env) (n k : Nat) (bkt : kvdb_ctxn_bkt) (a : Nat)
    (hpos : 0 < bkt.kcb_ctxnc) (hle : bkt.kcb_ctxnc ≤ kcb_ctxnv_nelem)
    (htop : bkt.kcb_ctxnv.getD (bkt.kcb_ctxnc - 1) none = some a) :
    (txn_alloc_free_cycles E n k bkt).2.countP is_heap_alloc = 0 ∧
      (txn_alloc_free_cycles E n k bkt).2.countP is_heap_release = 0 := by
  induction n generalizing k with
  | zero => exact ⟨rfl, rfl⟩
  | succ n ih =>
    have ha := ikvdb_txn_alloc_hit E k bkt a hpos hle htop
    have hf : ikvdb_txn_free { bkt with kcb_ctxnc := bkt.kcb_ctxnc - 1 } (some a) =
        (bkt, [call.txn (txn_call.kvdb_ctxn_abort a), call.txn txn_call.spin_lock,
               call.txn txn_call.spin_unlock]) := by
      rw [ikvdb_txn_free_push _ _ (by show bkt.kcb_ctxnc - 1 < kcb_ctxnv_nelem; omega)]
      have hc : bkt.kcb_ctxnc - 1 + 1 = bkt.kcb_ctxnc := by omega
      simp only [hc, set_getD_same _ _ _ htop]
    obtain ⟨h2, h3⟩ := ih (k + 1)
    rw [txn_cycles_succ, ha]
    simp only [hf, List.countP_append, h2, h3]
    exact ⟨rfl, rfl⟩

theorem txn_cycles_heap (E : txn_env) (n k : Nat) (bkt : kvdb_ctxn_bkt)
    (hle : bkt.kcb_ctxnc ≤ kcb_ctxnv_nelem) (hlen : bkt.kcb_ctxnv.length = kcb_ctxnv_nelem) :
    (txn_alloc_free_cycles E n k bkt).2.countP is_heap_alloc ≤ 1 ∧
      (txn_alloc_free_cycles E n k bkt).2.countP is_heap_release = 0 := by
  induction n generalizing k bkt with
  | zero => exact ⟨Nat.zero_le _, rfl⟩
  | succ n ih =>
    by_cases hhit : ∃ a, 0 < bkt.kcb_ctxnc ∧
        bkt.kcb_ctxnv.getD (bkt.kcb_ctxnc - 1) none = some a
    · obtain ⟨a, hpos, htop⟩ := hhit
      obtain ⟨h2, h3⟩ := txn_cycles_hit E (n + 1) k bkt a hpos hle htop
      exact ⟨by omega, h3⟩
    · have htop : 0 < bkt.kcb_ctxnc → bkt.kcb_ctxnv.getD (bkt.kcb_ctxnc - 1) none = none := by
        intro hpos
        cases h : bkt.kcb_ctxnv.getD (bkt.kcb_ctxnc - 1) none with
        | none => rfl
        | some a => exact absurd ⟨a, hpos, h⟩ hhit
      have hlt : bkt.kcb_ctxnc - 1 < kcb_ctxnv_nelem := by
        unfold kcb_ctxnv_nelem at hle ⊢
        omega
      have ha := ikvdb_txn_alloc_miss E k bkt hle htop
      rw [txn_cycles_succ, ha]
      cases halloc : E.kvdb_ctxn_alloc k with
      | none =>
        obtain ⟨h1, h2⟩ := ih (k + 1) { bkt with kcb_ctxnc := bkt.kcb_ctxnc - 1 }
          (Nat.le_of_lt hlt) hlen
        simp only [ikvdb_txn_free, List.countP_append, Option.isSome_none, Bool.false_eq_true,
          if_false, List.append_nil]
        constructor
        · have e : List.countP is_heap_alloc
              [call.txn txn_call.spin_lock, call.txn txn_call.spin_unlock,
               call.txn (txn_call.kvdb_ctxn_alloc none)] = 0 := rfl
          rw [e]
          simpa using h1
        · have e : List.countP is_heap_release
              [call.txn txn_call.spin_lock, call.txn txn_call.spin_unlock,
               call.txn (txn_call.kvdb_ctxn_alloc none)] = 0 := rfl
          rw [e]
          simpa using h2
      | some x =>
        have hf := ikvdb_txn_free_push { bkt with kcb_ctxnc := bkt.kcb_ctxnc - 1 } x hlt
        have hlen2 : bkt.kcb_ctxnc - 1 < bkt.kcb_ctxnv.length := by rw [hlen]; exact hlt
        obtain ⟨h2, h3⟩ := txn_cycles_hit E n (k + 1)
          { kcb_ctxnc := bkt.kcb_ctxnc - 1 + 1,
            kcb_ctxnv := bkt.kcb_ctxnv.set (bkt.kcb_ctxnc - 1) (some x) } x
          (Nat.succ_pos _) (Nat.succ_le_of_lt hlt)
          (by
            show (bkt.kcb_ctxnv.set (bkt.kcb_ctxnc - 1) (some x)).getD
              (bkt.kcb_ctxnc - 1 + 1 - 1) none = some x
            rw [Nat.add_sub_cancel]
            exact getD_set_same _ _ _ hlen2)
        simp only [hf, List.countP_append, Option.isSome_some, if_true, h2, h3]
        exact ⟨Nat.le_refl _, rfl⟩

theorem ikvdb_txn_commit_result (E : txn_env) (txn : Nat) :
    (ikvdb_txn_commit E txn).1 = E.kvdb_ctxn_commit txn ∧
      (ikvdb_txn_commit E txn).2.filter is_ctxn_end =
        [call.txn (txn_call.kvdb_ctxn_commit txn)] ∧
      (ikvdb_txn_abort txn).1 = 0 ∧
      (ikvdb_txn_abort txn).2.filter is_ctxn_end = [call.txn (txn_call.kvdb_ctxn_abort txn)] := by
  refine ⟨rfl, rfl, rfl, rfl⟩

theorem kvdb_ctxn_commit_done (st : kvdb_ctxn_state) (active : merr_t × kvdb_ctxn_state)
    (h : st = kvdb_ctxn_state.KVDB_CTXN_COMMITTED ∨ st = kvdb_ctxn_state.KVDB_CTXN_ABORTED) :
    (kvdb_ctxn_commit st active).1 ≠ 0 ∧ (kvdb_ctxn_commit st active).2 = st ∧
      kvdb_ctxn_abort st = st := by
  rcases h with h | h
  · subst h
    exact ⟨merr_ne_zero _ _ (by decide), rfl, rfl⟩
  · subst h
    exact ⟨merr_ne_zero _ _ (by decide), rfl, rfl⟩

/-- C26 (as amended): for every transaction already in state `COMMITTED` or
`ABORTED`, `ikvdb_txn_commit` makes the one call of `kvdb_ctxn_commit`, returns
its result, which is an error, and the state stays what it was;
`ikvdb_txn_abort` makes the one call of `kvdb_ctxn_abort`, which leaves the
state as it was, and returns 0. For every answer of the transaction layer
`ikvdb_txn_commit` returns what `kvdb_ctxn_commit` returned and
`ikvdb_txn_abort` returns 0. -/
theorem ikvdb_txn_double_commit_abort (st : Nat → kvdb_ctxn_state)
    (active : Nat → merr_t × kvdb_ctxn_state) (E : txn_env) (txn : Nat)
    (hdone : st txn = kvdb_ctxn_state.KVDB_CTXN_COMMITTED ∨
      st txn = kvdb_ctxn_state.KVDB_CTXN_ABORTED) :
    ikvdb_txn_state (txn_env_of_states st active) txn = st txn ∧
      (ikvdb_txn_commit (txn_env_of_states st active) txn).1 ≠ 0 ∧
      (ikvdb_txn_commit (txn_env_of_states st active) txn).1 =
        (kvdb_ctxn_commit (st txn) (active txn)).1 ∧
      (ikvdb_txn_commit (txn_env_of_states st active) txn).2.filter is_ctxn_end =
        [call.txn (txn_call.kvdb_ctxn_commit txn)] ∧
      (kvdb_ctxn_commit (st txn) (active txn)).2 = st txn ∧
      (ikvdb_txn_abort txn).1 = 0 ∧
      (ikvdb_txn_abort txn).2.filter is_ctxn_end = [call.txn (txn_call.kvdb_ctxn_abort txn)] ∧
      kvdb_ctxn_abort (st txn) = st txn ∧
      (ikvdb_txn_commit E txn).1 = E.kvdb_ctxn_commit txn := by
  obtain ⟨h1, h2, h3⟩ := kvdb_ctxn_commit_done (st txn) (active txn) hdone
  obtain ⟨c1, c2, c3, c4⟩ := ikvdb_txn_commit_result (txn_env_of_states st active) txn
  exact ⟨rfl, by rw [c1]; exact h1, c1, c2, h2, c3, c4, h3, (ikvdb_txn_commit_result E txn).1⟩

/-- C26 at a concrete input: the transaction 8, which is `COMMITTED`; its second
commit returns an error. -/
theorem ikvdb_txn_double_commit_abort_witness :
    txn_states_example 8 = kvdb_ctxn_state.KVDB_CTXN_COMMITTED ∧
      (ikvdb_txn_commit (txn_env_of_states txn_states_example (fun _ => (0,
        kvdb_ctxn_state.KVDB_CTXN_COMMITTED))) 8).1 ≠ 0 :=
  ⟨rfl,
    (ikvdb_txn_double_commit_abort txn_states_example
      (fun _ => (0, kvdb_ctxn_state.KVDB_CTXN_COMMITTED)) txn_env_example 8
      (Or.inl rfl)).2.1⟩

/-- C26 (counterexample): the transaction 7 is in state `ABORTED`, and
`ikvdb_txn_abort` of it returns 0. -/
theorem ikvdb_txn_abort_twice :
    ikvdb_txn_state txn_env_example 7 = kvdb_ctxn_state.KVDB_CTXN_ABORTED ∧
      ikvdb_txn_abort 7 =
        (0, [call.perfc (perfc_call.perfc_inc 2644), call.txn (txn_call.kvdb_ctxn_abort 7),
             call.perfc (perfc_call.perfc_dec 2648)]) := by
  exact ⟨rfl, rfl⟩

/-- C27: from a bucket that holds at most 15 transactions in its array of 15,
`n` consecutive cycles of `ikvdb_txn_alloc` and `ikvdb_txn_free` by one thread
make at most one `kvdb_ctxn_alloc` that returns a transaction and no
`kvdb_ctxn_free`, whatever `n` is and whatever `kvdb_ctxn_alloc` answers. -/
theorem txn_pool_cycles (E : txn_env) (n k : Nat) (bkt : kvdb_ctxn_bkt)
    (hle : bkt.kcb_ctxnc ≤ kcb_ctxnv_nelem) (hlen : bkt.kcb_ctxnv.length = kcb_ctxnv_nelem) :
    (txn_alloc_free_cycles E n k bkt).2.countP is_heap_alloc ≤ 1 ∧
      (txn_alloc_free_cycles E n k bkt).2.countP is_heap_release = 0 ∧
      ∀ c, call.txn (txn_call.kvdb_ctxn_free c) ∉ (txn_alloc_free_cycles E n k bkt).2 := by
  obtain ⟨h1, h2⟩ := txn_cycles_heap E n k bkt hle hlen
  refine ⟨h1, h2, ?_⟩
  intro c hc
  have hpos : 0 < (txn_alloc_free_cycles E n k bkt).2.countP is_heap_release :=
    List.countP_pos_iff.mpr ⟨_, hc, rfl⟩
  omega

theorem txn_pool_cycles_witness :
    (txn_alloc_free_cycles txn_env_example 40 0 bkt_example).2.countP is_heap_alloc ≤ 1 ∧
      (txn_alloc_free_cycles txn_env_example 40 0 bkt_example).2.countP is_heap_release = 0 ∧
      ∀ c, call.txn (txn_call.kvdb_ctxn_free c) ∉ (txn_alloc_free_cycles txn_env_example 40 0 bkt_example).2 :=
  txn_pool_cycles txn_env_example 40 0 bkt_example (by decide) (by decide)

theorem ret_first_error_eq (ret err : merr_t) :
    ret_first_error ret err = if ret ≠ 0 then ret else err := by
  unfold ret_first_error
  by_cases h1 : err = 0
  · by_cases h2 : ret = 0
    · simp [h1, h2]
    · simp [h1, h2]
  · by_cases h2 : ret = 0
    · simp [h1, h2]
    · simp [h1, h2]

theorem first_nonzero_append (l1 l2 : List merr_t) :
    first_nonzero (l1 ++ l2) =
      if first_nonzero l1 ≠ 0 then first_nonzero l1 else first_nonzero l2 := by
  induction l1 with
  | nil => simp [first_nonzero]
  | cons e rest ih =>
    by_cases he : e = 0
    · simp [first_nonzero, he, ih]
    · simp [first_nonzero, he]

theorem opened_from_set_before (vec : List (Option kvdb_kvs)) (x : Option kvdb_kvs)
    (n i k : Nat) (h : i < k) : opened_from (vec.set i x) n k = opened_from vec n k := by
  induction n generalizing k with
  | zero => rfl
  | succ n ih =>
    have hget : (vec.set i x).getD k none = vec.getD k none :=
      getD_set_other vec i k x (Nat.ne_of_lt h)
    simp only [opened_from, opened_in_slot, hget, ih (k + 1) (Nat.lt_succ_of_lt h)]

theorem kvdb_kvs_destroy_no_close (kvs : kvdb_kvs) :
    (kvdb_kvs_destroy kvs).filter is_close_step = [] := by
  unfold kvdb_kvs_destroy
  split <;> rfl

theorem slots_step (i n j : Nat) (x y : Option kvdb_kvs) (hx : j = i → x = none)
    (hy : j ≠ i → x = y) :
    (if i + 1 ≤ j ∧ j < i + 1 + n then none else x) =
      if i ≤ j ∧ j < i + (n + 1) then none else y := by
  by_cases hj : j = i
  · subst hj
    rw [if_neg (by omega), if_pos (by omega)]
    exact hx rfl
  · by_cases hin : i + 1 ≤ j ∧ j < i + 1 + n
    · rw [if_pos hin, if_pos (by omega)]
    · rw [if_neg hin, if_neg (by omega)]
      exact hy hj

theorem ikvdb_close_loop_spec (E : kvdb_close_env) (n i : Nat) (vec : List (Option kvdb_kvs))
    (ret : merr_t) :
    (ikvdb_close_loop E n i vec ret).1 =
        (if ret ≠ 0 then ret else first_nonzero ((opened_from vec n i).map E.kvs_close)) ∧
      (ikvdb_close_loop E n i vec ret).2.2.filter is_close_step =
        (opened_from vec n i).map call.kvs_close ∧
      ∀ j, (ikvdb_close_loop E n i vec ret).2.1.getD j none =
        if i ≤ j ∧ j < i + n then none else vec.getD j none := by
  induction n generalizing i vec ret with
  | zero =>
    refine ⟨?_, rfl, ?_⟩
    · show ret = if ret ≠ 0 then ret else first_nonzero []
      by_cases h : ret = 0
      · simp [h, first_nonzero]
      · simp [h]
    · intro j
      show vec.getD j none = _
      rw [if_neg (by omega)]
  | succ n ih =>
    cases hget : vec.getD i none with
    | none =>
      obtain ⟨h1, h2, h3⟩ := ih (i + 1) vec ret
      have hstep : ikvdb_close_loop E (n + 1) i vec ret = ikvdb_close_loop E n (i + 1) vec ret := by
        simp only [ikvdb_close_loop, hget]
      have hop : opened_from vec (n + 1) i = opened_from vec n (i + 1) := by
        simp only [opened_from, opened_in_slot, hget]
      rw [hstep, hop]
      refine ⟨h1, h2, ?_⟩
      intro j
      rw [h3 j]
      exact slots_step i n j _ _ (fun h => by rw [h, hget]) (fun _ => rfl)
    | some kvs =>
      have hlt : i < vec.length := getD_isSome_lt vec i kvs hget
      have hslot : ∀ j, (if i + 1 ≤ j ∧ j < i + 1 + n then none else (vec.set i none).getD j none) =
          if i ≤ j ∧ j < i + (n + 1) then none else vec.getD j none := by
        intro j
        exact slots_step i n j _ _ (fun h => by rw [h]; exact getD_set_self vec i none hlt)
          (fun h => getD_set_other vec i j none (fun e => h e.symm))
      cases hik : kvs.kk_ikvs with
      | none =>
        obtain ⟨h1, h2, h3⟩ := ih (i + 1) (vec.set i none) ret
        have hop : opened_from vec (n + 1) i = opened_from vec n (i + 1) := by
          simp only [opened_from, opened_in_slot, hget, hik]
        rw [opened_from_set_before vec none n i (i + 1) (Nat.lt_succ_self i)] at h1 h2
        rw [hop]
        simp only [ikvdb_close_loop, hget, hik, Option.isSome_none, Bool.false_eq_true, if_false]
        refine ⟨h1, ?_, ?_⟩
        · simp only [List.filter_append, kvdb_kvs_destroy_no_close, h2]
          split <;> rfl
        · intro j
          rw [h3 j]
          exact hslot j
      | some ikvs =>
        obtain ⟨h1, h2, h3⟩ := ih (i + 1) (vec.set i none)
          (ret_first_error ret (E.kvs_close ikvs))
        have hop : opened_from vec (n + 1) i = ikvs :: opened_from vec n (i + 1) := by
          simp only [opened_from, opened_in_slot, hget, hik]
        rw [opened_from_set_before vec none n i (i + 1) (Nat.lt_succ_self i)] at h1 h2
        rw [hop]
        simp only [ikvdb_close_loop, hget, hik, Option.isSome_some, if_true]
        refine ⟨?_, ?_, ?_⟩
        · rw [h1, ret_first_error_eq]
          by_cases hr : ret = 0
          · by_cases hc : E.kvs_close ikvs = 0
            · simp [hr, hc, first_nonzero]
            · simp [hr, hc, first_nonzero]
          · simp [hr]
        · simp only [List.filter_append, kvdb_kvs_destroy_no_close, h2]
          split <;> rfl
        · intro j
          rw [h3 j]
          exact hslot j

theorem ikvdb_close_spec (K : hse_consts) (E : kvdb_close_env) (self : ikvdb_impl) :
    (ikvdb_close K E self).1 = first_nonzero ((close_steps K E self).map Prod.snd) ∧
      (ikvdb_close K E self).2.2.filter is_close_step = (close_steps K E self).map Prod.fst ∧
      ∀ j, j < K.HSE_KVS_COUNT_MAX →
        (ikvdb_close K E self).2.1.ikdb_kvs_vec.getD j none = none := by
  obtain ⟨h1, h2, h3⟩ := ikvdb_close_loop_spec E K.HSE_KVS_COUNT_MAX 0 self.ikdb_kvs_vec 0
  have h1' : (ikvdb_close_loop E K.HSE_KVS_COUNT_MAX 0 self.ikdb_kvs_vec 0).1 =
      first_nonzero ((opened_from self.ikdb_kvs_vec K.HSE_KVS_COUNT_MAX 0).map E.kvs_close) := by
    rw [h1]
    simp
  refine ⟨?_, ?_, ?_⟩
  · unfold ikvdb_close close_steps
    simp only [ret_first_error_eq, h1', List.map_append, List.map_map, first_nonzero_append]
    have hm : (Prod.snd ∘ fun ikvs => (call.kvs_close ikvs, E.kvs_close ikvs)) = E.kvs_close := rfl
    rw [hm]
    generalize first_nonzero
      ((opened_from self.ikdb_kvs_vec K.HSE_KVS_COUNT_MAX 0).map E.kvs_close) = a
    cases self.ikdb_c0sk with
    | none =>
      by_cases ha : a = 0 <;> by_cases hb : E.cndb_close = 0 <;>
        by_cases hl : E.kvdb_log_close = 0 <;> simp [first_nonzero, ha, hb, hl]
    | some c0sk =>
      by_cases ha : a = 0 <;> by_cases hc : E.c0sk_close c0sk = 0 <;>
        by_cases hb : E.cndb_close = 0 <;> by_cases hl : E.kvdb_log_close = 0 <;>
        simp [first_nonzero, ret_first_error_eq, ha, hc, hb, hl]
  · unfold ikvdb_close close_steps
    simp only [List.filter_append, h2, List.map_append, List.map_map]
    have hm : (Prod.fst ∘ fun ikvs => (call.kvs_close ikvs, E.kvs_close ikvs)) = call.kvs_close :=
      rfl
    rw [hm]
    cases self.ikdb_c0sk with
    | none =>
      by_cases hro : self.ikdb_rdonly = true
      · simp [hro, is_close_step, List.filter]
      · simp [hro, is_close_step, List.filter]
    | some c0sk =>
      by_cases hro : self.ikdb_rdonly = true
      · simp [hro, is_close_step, List.filter]
      · simp [hro, is_close_step, List.filter]
  · intro j hj
    show (ikvdb_close_loop E K.HSE_KVS_COUNT_MAX 0 self.ikdb_kvs_vec 0).2.1.getD j none = none
    rw [h3 j, if_pos (by omega)]

/-- C28: the result of `ikvdb_close` is the first result other than 0, in the
order of execution, among the `kvs_close` of the opened KVSes in slot order,
the `c0sk_close` (made when the database has a c0sk), the `cndb_close` and the
`kvdb_log_close`, and 0 when there is none; each of these calls is made
whatever the earlier ones returned, in that order, and every slot of the
table is emptied. `ikvdb_diag_close` returns the first error of its
`cndb_close` and `kvdb_log_close` in the same way. -/
theorem ikvdb_close_first_error (K : hse_consts) (E : kvdb_close_env) (self : ikvdb_impl) :
    (ikvdb_close K E self).1 = first_nonzero ((close_steps K E self).map Prod.snd) ∧
      (ikvdb_close K E self).2.2.filter is_close_step = (close_steps K E self).map Prod.fst ∧
      (∀ j, j < K.HSE_KVS_COUNT_MAX →
        (ikvdb_close K E self).2.1.ikdb_kvs_vec.getD j none = none) ∧
      (ikvdb_diag_close E self).1 = first_nonzero [E.cndb_close, E.kvdb_log_close] ∧
      (ikvdb_diag_close E self).2.filter is_close_step =
        [call.close close_call.cndb_close, call.close close_call.kvdb_log_close] := by
  obtain ⟨h1, h2, h3⟩ := ikvdb_close_spec K E self
  refine ⟨h1, h2, h3, ?_, rfl⟩
  unfold ikvdb_diag_close
  simp only [ret_first_error_eq, first_nonzero]
  by_cases hc : E.cndb_close = 0
  · by_cases hl : E.kvdb_log_close = 0
    · simp [hc, hl]
    · simp [hc, hl]
  · simp [hc]

set_option maxRecDepth 100000 in
theorem ikvdb_close_example :
    (ikvdb_close consts_example close_env_failing (ikvdb_opened consts_example)).1 = ⟨5, 1⟩ ∧
      (ikvdb_close consts_example close_env_failing
          (ikvdb_opened consts_example)).2.2.filter is_close_step =
        [call.kvs_close 7, call.close (close_call.c0sk_close 1), call.close close_call.cndb_close,
         call.close close_call.kvdb_log_close] := by
  exact ⟨rfl, rfl⟩

theorem logging_destination_convert_isSome (v : List Nat) :
    (logging_destination_convert v).isSome = true ↔
      v = str_stderr ∨ v = str_stdout ∨ v = str_syslog ∨ v = str_file := by
  unfold logging_destination_convert
  by_cases h1 : v = str_stderr
  · rw [if_pos h1]
    simp [h1]
  · by_cases h2 : v = str_stdout
    · rw [if_neg h1, if_pos h2]
      simp [h2]
    · by_cases h3 : v = str_syslog
      · rw [if_neg h1, if_neg h2, if_pos h3]
        simp [h3]
      · by_cases h4 : v = str_file
        · rw [if_neg h1, if_neg h2, if_neg h3, if_pos h4]
          simp [h4]
        · rw [if_neg h1, if_neg h2, if_neg h3, if_neg h4]
          simp [h1, h2, h3, h4]

theorem argv_deserialize_logging_destination (v : List Nat) (params : hse_gparams) :
    (argv_deserialize_to_hse_gparams (str_logging_destination ++ v) params).1 = 0 ↔
      (logging_destination_convert (cstr v)).isSome = true := by
  have hpre : str_logging_destination.isPrefixOf (str_logging_destination ++ v) = true := by
    simp
  have hdrop : (str_logging_destination ++ v).drop str_logging_destination.length = v := by
    simp
  unfold argv_deserialize_to_hse_gparams
  rw [hpre, hdrop]
  cases h : logging_destination_convert (cstr v) with
  | none =>
    simp only [if_true, Option.isSome_none, Bool.false_eq_true, iff_false]
    exact merr_ne_zero _ _ (by decide)
  | some d => simp

/-- C29: the deserialisation of `logging.destination=<v>` succeeds exactly when
`v` is one of `stderr`, `stdout`, `syslog` and `file`; the default destination
is syslog; and `check`, called as the test `logging_destination` calls it,
after the defaults, returns 0: the value `x` is refused and the four values
are accepted. -/
theorem logging_destination_accepted (v : List Nat) (params : hse_gparams) :
    ((argv_deserialize_to_hse_gparams (str_logging_destination ++ v) params).1 = 0 ↔
        cstr v = str_stderr ∨ cstr v = str_stdout ∨ cstr v = str_syslog ∨ cstr v = str_file) ∧
      hse_gparams_defaults.gp_logging_destination = log_destination.LD_SYSLOG ∧
      (argv_deserialize_to_hse_gparams (str_logging_destination ++ [120])
        hse_gparams_defaults).1 ≠ 0 ∧
      merr_errno (check argv_deserialize_to_hse_gparams logging_destination_args
        hse_gparams_defaults).1 = 0 := by
  refine ⟨?_, rfl, by decide, by decide⟩
  rw [argv_deserialize_logging_destination, logging_destination_convert_isSome]

theorem check_unexpected_success (D : List Nat → hse_gparams → merr_t × hse_gparams)
    (a : List Nat) (rest : List (List Nat × Bool)) (params : hse_gparams)
    (h : (D a params).1 = 0) :
    (check D ((a, false) :: rest) params).1 = 0 := by
  simp [check, h]

theorem validate_kvs_name_short (s : List Nat) (h1 : 1 ≤ (cstr s).length)
    (h32 : (cstr s).length < 32) :
    validate_kvs_name (some s) =
      if (cstr s).all kvs_name_char then 0 else merr EINVAL 259 := by
  unfold validate_kvs_name
  simp only [head_zero_iff, strnlen_eq, HSE_KVS_NAME_LEN_MAX]
  have h0 : ¬ (cstr s).length = 0 := by omega
  have hmin : min (cstr s).length 32 = (cstr s).length := Nat.min_eq_left (by omega)
  have hne : ¬ (cstr s).length = 32 := by omega
  simp only [h0, hmin, hne, if_false]
  exact validate_kvs_name_loop_eq s _ (Nat.le_refl _)

theorem validate_kvs_name_empty (s : List Nat) (h : (cstr s).length = 0) :
    validate_kvs_name (some s) = merr EINVAL 247 := by
  unfold validate_kvs_name
  simp only [head_zero_iff, h, if_true]

/-- C30 (as amended): for a name of 1 to 31 bytes `validate_kvs_name` returns 0
if every byte is in `[-_A-Za-z0-9]` and `EINVAL` otherwise; for a `NULL` or
empty name it returns `EINVAL`; `ikvdb_kvs_create` on a writable database, and
`ikvdb_kvs_drop` on a database that was not opened read-only, return the error
of the validator with the state unchanged and no call made. -/
theorem validate_kvs_name_gate (K : hse_consts) (C : kvs_create_env) (D : kvs_drop_env)
    (self : ikvdb_impl) (s : List Nat) (name : Option (List Nat)) (params : kvs_cparams) :
    (1 ≤ (cstr s).length → (cstr s).length < 32 →
        validate_kvs_name (some s) =
          if (cstr s).all kvs_name_char then 0 else merr EINVAL 259) ∧
      validate_kvs_name none = merr EINVAL 247 ∧
      ((cstr s).length = 0 → validate_kvs_name (some s) = merr EINVAL 247) ∧
      merr_errno (merr EINVAL 259) = EINVAL ∧ merr_errno (merr EINVAL 247) = EINVAL ∧
      (self.ikdb_rdonly = false → validate_kvs_name (some s) ≠ 0 →
        ikvdb_kvs_create K C self s params = (validate_kvs_name (some s), self, [])) ∧
      (self.ikdb_rp.read_only = false → validate_kvs_name name ≠ 0 →
        ikvdb_kvs_drop K D self name = (validate_kvs_name name, self, [])) := by
  refine ⟨validate_kvs_name_short s, rfl, validate_kvs_name_empty s, rfl, rfl, ?_, ?_⟩
  · intro hrw herr
    unfold ikvdb_kvs_create
    simp [hrw, herr]
  · intro hrw herr
    unfold ikvdb_kvs_drop
    simp [hrw, herr]

/-- C30 (counterexample): on a database opened read-only, `ikvdb_kvs_drop` of
the empty name returns `EROFS`, not the `EINVAL` of the validator. -/
theorem ikvdb_kvs_drop_rdonly_first :
    validate_kvs_name (some []) = merr EINVAL 247 ∧
      (ikvdb_kvs_drop consts_example drop_env_example (ikvdb_example consts_example true)
        (some [])).1 = merr EROFS 1423 ∧
      merr EROFS 1423 ≠ merr EINVAL 247 := by
  refine ⟨rfl, rfl, by decide⟩

/-! ## Read-only create, the cursor count, compression -/

theorem ikvdb_kvs_create_rdonly (K : hse_consts) (E : kvs_create_env) (self : ikvdb_impl)
    (kvs_name : List Nat) (params : kvs_cparams) (hro : self.ikdb_rdonly = true) :
    ikvdb_kvs_create K E self kvs_name params = (0, self, []) := by
  simp [ikvdb_kvs_create, hro]

theorem ikvdb_kvs_open_absent (K : hse_consts) (E : kvs_open_env) (self : ikvdb_impl)
    (kvs_name : List Nat) (params : kvs_rparams) (flags : Nat)
    (hcfg : (E.config_deserialize_to_kvs_rparams kvs_name params).1 = 0)
    (habsent : ∀ s ∈ self.ikdb_kvs_vec, slot_named kvs_name s = false) :
    (ikvdb_kvs_open K E self kvs_name params flags).1 = merr ENOENT 1556 ∧
      (ikvdb_kvs_open K E self kvs_name params flags).2.1 = self := by
  unfold ikvdb_kvs_open
  simp [hcfg, get_kvs_index_absent K self.ikdb_kvs_vec kvs_name habsent]

theorem ikvdb_kvs_drop_absent_ne (K : hse_consts) (E : kvs_drop_env) (self : ikvdb_impl)
    (kvs_name : List Nat)
    (habsent : ∀ s ∈ self.ikdb_kvs_vec, slot_named kvs_name s = false) :
    (ikvdb_kvs_drop K E self (some kvs_name)).1 ≠ 0 ∧
      (ikvdb_kvs_drop K E self (some kvs_name)).2.1 = self := by
  unfold ikvdb_kvs_drop
  by_cases hro : self.ikdb_rp.read_only = true
  · simp only [hro, if_true]
    exact ⟨merr_ne_zero _ _ (by decide), trivial⟩
  · by_cases hv : validate_kvs_name (some kvs_name) = 0
    · simp [hro, hv, get_kvs_index_absent K self.ikdb_kvs_vec kvs_name habsent]
      exact merr_ne_zero _ _ (by decide)
    · simp [hro, hv]

/-- C36: on a read-only database `ikvdb_kvs_create` returns 0 for every name with
no call and the database unchanged (the name is not validated, no slot is
allocated, the count is as before); a name no slot held before is not found
afterwards: `ikvdb_kvs_open` returns `ENOENT` once the configuration is read, and
`ikvdb_kvs_drop` returns an error, both leaving the database as it was. -/
theorem ikvdb_kvs_create_read_only (K : hse_consts) (E : kvs_create_env) (O : kvs_open_env)
    (D : kvs_drop_env) (self : ikvdb_impl) (kvs_name : List Nat) (params : kvs_cparams)
    (rparams : kvs_rparams) (flags : Nat) (hro : self.ikdb_rdonly = true) :
    ikvdb_kvs_create K E self kvs_name params = (0, self, []) ∧
      ((∀ s ∈ self.ikdb_kvs_vec, slot_named kvs_name s = false) →
        ((O.config_deserialize_to_kvs_rparams kvs_name rparams).1 = 0 →
          (ikvdb_kvs_open K O (ikvdb_kvs_create K E self kvs_name params).2.1 kvs_name rparams
            flags).1 = merr ENOENT 1556) ∧
        (ikvdb_kvs_drop K D (ikvdb_kvs_create K E self kvs_name params).2.1
          (some kvs_name)).1 ≠ 0 ∧
        (ikvdb_kvs_drop K D (ikvdb_kvs_create K E self kvs_name params).2.1
          (some kvs_name)).2.1 = self) := by
  rw [ikvdb_kvs_create_rdonly K E self kvs_name params hro]
  refine ⟨rfl, fun habsent => ⟨fun hcfg => ?_, ?_⟩⟩
  · exact (ikvdb_kvs_open_absent K O self kvs_name rparams flags hcfg habsent).1
  · exact ikvdb_kvs_drop_absent_ne K D self kvs_name habsent

theorem ikvdb_example_rdonly (K : hse_consts) (b : Bool) : (ikvdb_example K b).ikdb_rdonly = b :=
  rfl

/-- C36 at a concrete input: a read-only database and the name `k/1`, which
`validate_kvs_name` refuses. -/
theorem ikvdb_kvs_create_read_only_witness :
    (ikvdb_example consts_example true).ikdb_rdonly = true ∧
      validate_kvs_name (some [107, 47, 49]) ≠ 0 ∧
      ikvdb_kvs_create consts_example create_env_example (ikvdb_example consts_example true)
          [107, 47, 49] ⟨0⟩ =
        (0, ikvdb_example consts_example true, []) :=
  ⟨rfl, by decide,
    (ikvdb_kvs_create_read_only consts_example create_env_example open_env_example
      drop_env_example (ikvdb_example consts_example true) [107, 47, 49] ⟨0⟩ ⟨false, 0⟩ 0
      (ikvdb_example_rdonly consts_example true)).1⟩

theorem curcnt_delta_append (a b : List call) :
    curcnt_delta (a ++ b) = curcnt_delta a + curcnt_delta b := by
  simp only [curcnt_delta, List.count_append]
  push_cast
  ring

theorem curcnt_delta_nil : curcnt_delta [] = 0 := rfl

theorem curcnt_delta_acquire (K : hse_consts) (E : cursor_env) (c : hse_kvs_cursor) :
    curcnt_delta (cursor_view_acquire K E c).2.2 = 0 := by
  unfold cursor_view_acquire
  split <;> rfl

theorem curcnt_delta_release (c : hse_kvs_cursor) :
    curcnt_delta (cursor_view_release c).2 = 0 := by
  unfold cursor_view_release
  split
  · rfl
  · simp [curcnt_delta, List.count_cons]

theorem curcnt_delta_unbind (c : hse_kvs_cursor) :
    curcnt_delta (cursor_unbind_txn c).2 = 0 := by
  unfold cursor_unbind_txn
  split
  · simp [curcnt_delta, List.count_cons]
  · rfl

theorem curcnt_delta_destroy (c : hse_kvs_cursor) :
    curcnt_delta (ikvdb_kvs_cursor_destroy (some c)) = -1 := by
  simp only [ikvdb_kvs_cursor_destroy, curcnt_delta_append, curcnt_delta_unbind]
  rfl

theorem cursor_free_not_in_acquire (K : hse_consts) (E : cursor_env) (c : hse_kvs_cursor) :
    call.cursor cursor_call.kvs_cursor_free ∉ (cursor_view_acquire K E c).2.2 := by
  unfold cursor_view_acquire
  split <;> simp

theorem cursor_free_not_in_release (c : hse_kvs_cursor) :
    call.cursor cursor_call.kvs_cursor_free ∉ (cursor_view_release c).2 := by
  unfold cursor_view_release
  split <;> simp

theorem cursor_free_in_destroy (c : hse_kvs_cursor) :
    call.cursor cursor_call.kvs_cursor_free ∈ ikvdb_kvs_cursor_destroy (some c) := by
  simp [ikvdb_kvs_cursor_destroy]

theorem curcnt_delta_create (K : hse_consts) (W : kvs_write_env) (E : cursor_env)
    (ikvdb : ikvdb_impl) (kk : kvdb_kvs) (flags : Nat) (txn : Option Nat) (pfx : Option Nat)
    (pfx_len : Nat) (r : merr_t × Option hse_kvs_cursor × List call)
    (hr : ikvdb_kvs_cursor_create K W E ikvdb kk flags txn pfx pfx_len = r) :
    curcnt_delta r.2.2 =
      if r.2.1.isSome then 1
      else if call.cursor cursor_call.kvs_cursor_free ∈ r.2.2 then -1
      else 0 := by
  have hd := curcnt_delta_destroy
  have hf := cursor_free_in_destroy
  have ha := curcnt_delta_acquire K E
  have hr1 := curcnt_delta_release
  have hna := cursor_free_not_in_acquire K E
  have hnr := cursor_free_not_in_release
  unfold ikvdb_kvs_cursor_create at hr
  dsimp only at hr
  repeat' split at hr
  all_goals subst hr
  all_goals simp only [curcnt_delta_append, hd, ha, hr1, List.mem_append, hf, hna, hnr,
    or_true, if_true, Option.isSome_none, Option.isSome_some, Bool.false_eq_true, if_false,
    List.append_assoc]
  all_goals simp [curcnt_delta, List.count_cons]

/-- C37 (the code at the failing input, and around it): the trace of a
successful `ikvdb_kvs_cursor_create` increments the cursor counter once and does
not decrement it, that of `ikvdb_kvs_cursor_destroy` decrements it once, and a
create that fails before the cursor is allocated leaves it alone; but a create
that fails after the cursor was allocated frees it through
`ikvdb_kvs_cursor_destroy` and so decrements the counter it never incremented:
with `kvs_cursor_init` failing, the trace has the decrement of line 2449 and no
increment. -/
theorem cursor_count_unbalanced (K : hse_consts) (W : kvs_write_env) (E : cursor_env)
    (ikvdb : ikvdb_impl) (kk : kvdb_kvs) (flags : Nat) (txn : Option Nat) (pfx : Option Nat)
    (pfx_len : Nat) (c : hse_kvs_cursor) :
    ((ikvdb_kvs_cursor_create K W E ikvdb kk flags txn pfx pfx_len).2.1.isSome = true →
        curcnt_delta (ikvdb_kvs_cursor_create K W E ikvdb kk flags txn pfx pfx_len).2.2 = 1) ∧
      curcnt_delta (ikvdb_kvs_cursor_destroy (some c)) = -1 ∧
      ((ikvdb_kvs_cursor_create K W E ikvdb kk flags txn pfx pfx_len).2.1 = none →
        call.cursor cursor_call.kvs_cursor_free ∉
          (ikvdb_kvs_cursor_create K W E ikvdb kk flags txn pfx pfx_len).2.2 →
        curcnt_delta (ikvdb_kvs_cursor_create K W E ikvdb kk flags txn pfx pfx_len).2.2 = 0) ∧
      ((ikvdb_kvs_cursor_create K W E ikvdb kk flags txn pfx pfx_len).2.1 = none →
        call.cursor cursor_call.kvs_cursor_free ∈
          (ikvdb_kvs_cursor_create K W E ikvdb kk flags txn pfx pfx_len).2.2 →
        curcnt_delta (ikvdb_kvs_cursor_create K W E ikvdb kk flags txn pfx pfx_len).2.2 = -1) ∧
      (ikvdb_kvs_cursor_create consts_example write_env_example cursor_env_initfails
          (ikvdb_example consts_example false) kvs_example 0 none none 0).1 = ⟨5, 1⟩ ∧
      (ikvdb_kvs_cursor_create consts_example write_env_example cursor_env_initfails
          (ikvdb_example consts_example false) kvs_example 0 none none 0).2.1 = none ∧
      curcnt_delta (ikvdb_kvs_cursor_create consts_example write_env_example
          cursor_env_initfails (ikvdb_example consts_example false) kvs_example 0 none none
          0).2.2 = -1 := by
  have h := curcnt_delta_create K W E ikvdb kk flags txn pfx pfx_len _ rfl
  refine ⟨?_, curcnt_delta_destroy c, ?_, ?_, rfl, rfl, ?_⟩
  · intro hs
    rw [h, if_pos hs]
  · intro hn hf
    rw [h, hn, if_neg (by simp), if_neg hf]
  · intro hn hf
    rw [h, hn, if_neg (by simp), if_pos hf]
  · decide

theorem ikvdb_kvs_put_compress_spec (K : hse_consts) (E : kvs_write_env) (kk : kvdb_kvs)
    (flags : Nat) (vt : kvs_vtuple) :
    (ikvdb_kvs_put_compress K E kk flags vt).1 = put_value_spec K E kk flags vt := by
  unfold ikvdb_kvs_put_compress put_value_spec put_output_buffer put_output_size
    compression_attempted
  simp only [Nat.mul_comm 2 K.PAGE_SIZE, gt_iff_lt]
  by_cases hatt : (kvs_vtuple_clen vt = 0 ∧ kk.kk_vcompmin < kvs_vtuple_vlen vt ∧
      flags &&& K.HSE_FLAG_PUT_VALUE_COMPRESSION_OFF = 0) ∨
    flags &&& K.HSE_FLAG_PUT_VALUE_COMPRESSION_ON ≠ 0
  · rw [if_pos hatt]
    by_cases hb : kk.kk_vcompbnd < kvs_vtuple_vlen vt
    · have hb2 : ¬ kvs_vtuple_vlen vt ≤ kk.kk_vcompbnd := Nat.not_le.mpr hb
      simp only [if_pos hb, if_neg hb2]
      cases hal : E.vlb_alloc (kvs_vtuple_vlen vt + K.PAGE_SIZE * 2) with
      | none => simp
      | some a =>
        by_cases hres : (E.kk_vcompress vt.vt_data (kvs_vtuple_vlen vt) (vptr.vlb a)
            (kvs_vtuple_vlen vt + K.PAGE_SIZE * 2)).1 = 0 ∧
          (E.kk_vcompress vt.vt_data (kvs_vtuple_vlen vt) (vptr.vlb a)
            (kvs_vtuple_vlen vt + K.PAGE_SIZE * 2)).2.getD (kvs_vtuple_clen vt) <
              kvs_vtuple_vlen vt
        · simp [hatt, hres]
        · simp [hatt, hres]
    · have hb2 : kvs_vtuple_vlen vt ≤ kk.kk_vcompbnd := Nat.not_lt.mp hb
      simp only [if_neg hb, if_pos hb2]
      by_cases hres : (E.kk_vcompress vt.vt_data (kvs_vtuple_vlen vt) vptr.tls_vbuf
            tls_vbufsz).1 = 0 ∧
          (E.kk_vcompress vt.vt_data (kvs_vtuple_vlen vt) vptr.tls_vbuf
            tls_vbufsz).2.getD (kvs_vtuple_clen vt) < kvs_vtuple_vlen vt
      · simp [hatt, hres]
      · simp [hatt, hres]
  · rw [if_neg hatt]
    simp [hatt]

theorem ikvdb_kvs_put_compress_buffer (K : hse_consts) (E : kvs_write_env) (kk : kvdb_kvs)
    (flags : Nat) (vt : kvs_vtuple) :
    (compression_attempted K kk flags vt →
        (ikvdb_kvs_put_compress K E kk flags vt).2.2.2.1 = put_output_buffer K E kk vt ∧
        (ikvdb_kvs_put_compress K E kk flags vt).2.2.2.2.1 = put_output_size K kk vt ∧
        (kk.kk_vcompbnd < kvs_vtuple_vlen vt →
          call.vlb_alloc (kvs_vtuple_vlen vt + 2 * K.PAGE_SIZE) ∈
            (ikvdb_kvs_put_compress K E kk flags vt).2.2.2.2.2)) ∧
      (¬ compression_attempted K kk flags vt →
        (ikvdb_kvs_put_compress K E kk flags vt).2.2.2.1 = vptr.null ∧
        (ikvdb_kvs_put_compress K E kk flags vt).2.2.2.2.2 = []) := by
  unfold ikvdb_kvs_put_compress put_output_buffer put_output_size compression_attempted
  simp only [Nat.mul_comm 2 K.PAGE_SIZE, gt_iff_lt]
  constructor
  · intro hatt
    rw [if_pos hatt]
    by_cases hb : kk.kk_vcompbnd < kvs_vtuple_vlen vt
    · have hb2 : ¬ kvs_vtuple_vlen vt ≤ kk.kk_vcompbnd := Nat.not_le.mpr hb
      simp only [if_pos hb, if_neg hb2]
      cases hal : E.vlb_alloc (kvs_vtuple_vlen vt + K.PAGE_SIZE * 2) with
      | none => simp
      | some a =>
        by_cases hres : (E.kk_vcompress vt.vt_data (kvs_vtuple_vlen vt) (vptr.vlb a)
            (kvs_vtuple_vlen vt + K.PAGE_SIZE * 2)).1 = 0 ∧
          (E.kk_vcompress vt.vt_data (kvs_vtuple_vlen vt) (vptr.vlb a)
            (kvs_vtuple_vlen vt + K.PAGE_SIZE * 2)).2.getD (kvs_vtuple_clen vt) <
              kvs_vtuple_vlen vt
        · simp [hres]
        · simp [hres]
    · have hb2 : kvs_vtuple_vlen vt ≤ kk.kk_vcompbnd := Nat.not_lt.mp hb
      simp only [if_neg hb, if_pos hb2]
      by_cases hres : (E.kk_vcompress vt.vt_data (kvs_vtuple_vlen vt) vptr.tls_vbuf
            tls_vbufsz).1 = 0 ∧
          (E.kk_vcompress vt.vt_data (kvs_vtuple_vlen vt) vptr.tls_vbuf
            tls_vbufsz).2.getD (kvs_vtuple_clen vt) < kvs_vtuple_vlen vt
      · simp [hres, hb]
      · simp [hres, hb]
  · intro hatt
    rw [if_neg hatt]
    simp

theorem ikvdb_kvs_put_compress_no_put (K : hse_consts) (E : kvs_write_env) (kk : kvdb_kvs)
    (flags : Nat) (vt : kvs_vtuple) (t : Option Nat) (k : kvs_ktuple) (v : kvs_vtuple)
    (s : Nat) :
    call.kvs_put t k v s ∉ (ikvdb_kvs_put_compress K E kk flags vt).2.2.2.2.2 := by
  unfold ikvdb_kvs_put_compress
  dsimp only
  repeat' split
  all_goals simp

theorem ikvdb_kvs_put_calls_kvs_put (K : hse_consts) (E : kvs_write_env) (parent : ikvdb_impl)
    (kk : kvdb_kvs) (flags : Nat) (txn : Option Nat) (kt : kvs_ktuple) (vt : kvs_vtuple)
    (hallowed : is_write_allowed E kk.kk_ikvs txn = true) (hrw : parent.ikdb_rdonly = false)
    (hok : E.kvdb_health_check (health_mask_writes K) = 0)
    (t : Option Nat) (k : kvs_ktuple) (v : kvs_vtuple) (s : Nat) :
    call.kvs_put t k v s ∈ (ikvdb_kvs_put K E parent (some kk) flags txn kt vt).2.2 ↔
      (t = txn ∧ k = kt ∧ v = (ikvdb_kvs_put_compress K E kk flags vt).1 ∧
        s = if txn.isSome then 0 else K.HSE_SQNREF_SINGLE) := by
  have hno := ikvdb_kvs_put_compress_no_put K E kk flags vt t k v s
  unfold ikvdb_kvs_put
  simp only [hallowed, hrw, hok]
  simp only [Bool.not_true, Bool.false_eq_true, if_false, ne_eq, not_true_eq_false]
  repeat' split
  all_goals simp [ikvdb_throttle, hno]

theorem write_allowed_example :
    is_write_allowed write_env_example kvs_compressing.kk_ikvs none = true :=
  rfl

theorem ikvdb_kvs_put_compress_off (K : hse_consts) (E : kvs_write_env) (kk : kvdb_kvs)
    (flags : Nat) (vt : kvs_vtuple) (hmin : kk.kk_vcompmin = UINT_MAX)
    (hlen : kvs_vtuple_vlen vt ≤ UINT_MAX)
    (hon : flags &&& K.HSE_FLAG_PUT_VALUE_COMPRESSION_ON = 0) :
    ikvdb_kvs_put_compress K E kk flags vt =
      (vt, kvs_vtuple_vlen vt, kvs_vtuple_clen vt, vptr.null, tls_vbufsz, []) := by
  unfold ikvdb_kvs_put_compress
  have h : ¬ ((kvs_vtuple_clen vt = 0 ∧ kvs_vtuple_vlen vt > kk.kk_vcompmin ∧
      flags &&& K.HSE_FLAG_PUT_VALUE_COMPRESSION_OFF = 0) ∨
      flags &&& K.HSE_FLAG_PUT_VALUE_COMPRESSION_ON ≠ 0) := by
    rw [hmin]
    rintro (⟨_, h2, _⟩ | h3)
    · omega
    · exact h3 hon
  simp only [if_neg h]

theorem ikvdb_kvs_put_compress_on (K : hse_consts) (E : kvs_write_env) (kk : kvdb_kvs)
    (flags : Nat) (vt : kvs_vtuple) (hnone : kk.kk_vcompress = none)
    (hon : flags &&& K.HSE_FLAG_PUT_VALUE_COMPRESSION_ON ≠ 0)
    (hbuf : kvs_vtuple_vlen vt ≤ kk.kk_vcompbnd ∨
      (E.vlb_alloc (kvs_vtuple_vlen vt + K.PAGE_SIZE * 2)).isSome = true) :
    call.assert_fail 1903 ∈ (ikvdb_kvs_put_compress K E kk flags vt).2.2.2.2.2 := by
  unfold ikvdb_kvs_put_compress
  have h : (kvs_vtuple_clen vt = 0 ∧ kvs_vtuple_vlen vt > kk.kk_vcompmin ∧
      flags &&& K.HSE_FLAG_PUT_VALUE_COMPRESSION_OFF = 0) ∨
      flags &&& K.HSE_FLAG_PUT_VALUE_COMPRESSION_ON ≠ 0 := Or.inr hon
  simp only [if_pos h, hnone]
  by_cases hb : kvs_vtuple_vlen vt > kk.kk_vcompbnd
  · have hal : (E.vlb_alloc (kvs_vtuple_vlen vt + K.PAGE_SIZE * 2)).isSome = true := by
      rcases hbuf with h1 | h1
      · omega
      · exact h1
    obtain ⟨a, ha⟩ := Option.isSome_iff_exists.mp hal
    have hne : vptr.vlb a ≠ vptr.null := by simp
    simp only [if_pos hb, ha]
    rw [if_pos hne]
    split <;> simp
  · have hne : vptr.tls_vbuf ≠ vptr.null := by simp
    simp only [if_neg hb]
    rw [if_pos hne]
    split <;> simp

/-- C38 (the code at the failing input, and around it): `kvdb_kvs_create` leaves
a slot with `kk_vcompmin = UINT_MAX` and no `kk_vcompress`, and `ikvdb_kvs_open`
without a compression algorithm keeps both; on such a KVS a put without the flag
`VALUE_COMPRESSION_ON` of a value of at most `UINT_MAX` bytes does not enter the
compression branch. But the flag `VALUE_COMPRESSION_ON` enters it whatever the
KVS was opened with: once the output buffer is there, the assertion of line
1903 is false and `kk_vcompress`, a `NULL` pointer, is called; so the put of a
3-byte value with that flag on `kvs_example`. -/
theorem put_compression_on_without_compressor (K : hse_consts) (E : kvs_write_env)
    (O : kvs_open_env) (kvs kk : kvdb_kvs) (params : kvs_rparams) (flags : Nat)
    (vt : kvs_vtuple) :
    (∀ kvs0, kvdb_kvs_create true = some kvs0 →
        kvs0.kk_vcompmin = UINT_MAX ∧ kvs0.kk_vcompress = none) ∧
      (O.vcomp_compress_ops params = none →
        (ikvdb_kvs_open_vcomp K O kvs params).1.kk_vcompmin = UINT_MAX ∧
        (ikvdb_kvs_open_vcomp K O kvs params).1.kk_vcompress = kvs.kk_vcompress) ∧
      (kk.kk_vcompmin = UINT_MAX → kvs_vtuple_vlen vt ≤ UINT_MAX →
        flags &&& K.HSE_FLAG_PUT_VALUE_COMPRESSION_ON = 0 →
        ikvdb_kvs_put_compress K E kk flags vt =
          (vt, kvs_vtuple_vlen vt, kvs_vtuple_clen vt, vptr.null, tls_vbufsz, [])) ∧
      (kk.kk_vcompress = none → flags &&& K.HSE_FLAG_PUT_VALUE_COMPRESSION_ON ≠ 0 →
        (kvs_vtuple_vlen vt ≤ kk.kk_vcompbnd ∨
          (E.vlb_alloc (kvs_vtuple_vlen vt + K.PAGE_SIZE * 2)).isSome = true) →
        call.assert_fail 1903 ∈ (ikvdb_kvs_put_compress K E kk flags vt).2.2.2.2.2) ∧
      kvs_example.kk_vcompmin = UINT_MAX ∧ kvs_example.kk_vcompress = none ∧
      (ikvdb_kvs_put consts_example write_env_example (ikvdb_example consts_example false)
          (some kvs_example) consts_example.HSE_FLAG_PUT_VALUE_COMPRESSION_ON none ⟨some 1, 5⟩
          ⟨vptr.user 2, 3, 0⟩).2.2 =
        [call.kvdb_health_check 61, call.vlb_alloc 8195, call.assert_fail 1903,
         call.fault 1904, call.kk_vcompress 3 (vptr.vlb 4096) 8195,
         call.kvs_put none ⟨some 1, 5⟩ ⟨vptr.vlb 4096, 3, 1⟩ (2 ^ 64 - 3),
         call.vlb_free 4096 1, call.tbkt_request 6, call.tbkt_delay 0] := by
  refine ⟨?_, ?_, ikvdb_kvs_put_compress_off K E kk flags vt,
    ikvdb_kvs_put_compress_on K E kk flags vt, rfl, rfl, rfl⟩
  · intro kvs0 h
    simp only [kvdb_kvs_create, if_true, Option.some.injEq] at h
    subst h
    exact ⟨rfl, rfl⟩
  · intro h
    unfold ikvdb_kvs_open_vcomp
    simp [h]

theorem ikvdb_kvs_open_vcomp_bnd (K : hse_consts) (E : kvs_open_env) (kvs : kvdb_kvs)
    (params : kvs_rparams) (cops : compress_ops)
    (hcops : E.vcomp_compress_ops params = some cops) :
    (ikvdb_kvs_open_vcomp K E kvs params).1.kk_vcompbnd =
        (tls_vbufsz + 2 ^ 32 - (cops.cop_estimate tls_vbufsz + 2 ^ 32 - tls_vbufsz) % 2 ^ 32) %
          2 ^ 32 ∧
      (ikvdb_kvs_open_vcomp K E kvs params).1.kk_vcompmin =
        max K.CN_SMALL_VALUE_THRESHOLD params.vcompmin ∧
      (ikvdb_kvs_open_vcomp K E kvs params).1.kk_vcompress = cops.cop_compress := by
  unfold ikvdb_kvs_open_vcomp
  simp [hcops]

theorem ikvdb_kvs_open_vcomp_none (K : hse_consts) (E : kvs_open_env) (kvs : kvdb_kvs)
    (params : kvs_rparams) (h : E.vcomp_compress_ops params = none) :
    (ikvdb_kvs_open_vcomp K E kvs params).1.kk_vcompmin = UINT_MAX := by
  unfold ikvdb_kvs_open_vcomp
  simp [h]

/-- C32: with a compressor whose estimate `e` has an overhead `e n - n` that does
not decrease with `n` and satisfies `tls_vbufsz < e tls_vbufsz ≤ 2 * tls_vbufsz`,
`ikvdb_kvs_open` sets `kk_vcompbnd = 2 * tls_vbufsz - e tls_vbufsz`, which is
below `tls_vbufsz`, and every value of at most `kk_vcompbnd` bytes has an
estimate of at most `tls_vbufsz` = 32768 bytes; it sets `kk_vcompmin` to the
larger of `CN_SMALL_VALUE_THRESHOLD` and `params.vcompmin`; and without a
compressor `kk_vcompmin` is `UINT_MAX`. -/
theorem ikvdb_kvs_open_vcomp_fits (K : hse_consts) (E : kvs_open_env) (kvs : kvdb_kvs)
    (params : kvs_rparams) (cops : compress_ops)
    (hcops : E.vcomp_compress_ops params = some cops)
    (hmono : ∀ a b, a ≤ b →
      (cops.cop_estimate a : Int) - (a : Int) ≤ (cops.cop_estimate b : Int) - (b : Int))
    (hlo : tls_vbufsz < cops.cop_estimate tls_vbufsz)
    (hhi : cops.cop_estimate tls_vbufsz ≤ 2 * tls_vbufsz) :
    (ikvdb_kvs_open_vcomp K E kvs params).1.kk_vcompbnd =
        2 * tls_vbufsz - cops.cop_estimate tls_vbufsz ∧
      (ikvdb_kvs_open_vcomp K E kvs params).1.kk_vcompbnd < tls_vbufsz ∧
      tls_vbufsz = 32768 ∧
      (∀ v, v ≤ (ikvdb_kvs_open_vcomp K E kvs params).1.kk_vcompbnd →
        cops.cop_estimate v ≤ tls_vbufsz) ∧
      (ikvdb_kvs_open_vcomp K E kvs params).1.kk_vcompmin =
        max K.CN_SMALL_VALUE_THRESHOLD params.vcompmin ∧
      (∀ kvs2 params2, E.vcomp_compress_ops params2 = none →
        (ikvdb_kvs_open_vcomp K E kvs2 params2).1.kk_vcompmin = UINT_MAX) := by
  have h := ikvdb_kvs_open_vcomp_bnd K E kvs params cops hcops
  have hT : tls_vbufsz = 32768 := rfl
  have hb : (ikvdb_kvs_open_vcomp K E kvs params).1.kk_vcompbnd =
      2 * tls_vbufsz - cops.cop_estimate tls_vbufsz := by
    rw [h.1]
    rw [hT] at hlo hhi ⊢
    omega
  refine ⟨hb, ?_, hT, ?_, h.2.1, fun kvs2 params2 h2 => ikvdb_kvs_open_vcomp_none K E kvs2 params2 h2⟩
  · rw [hb]
    omega
  · intro v hv
    rw [hb] at hv
    have hm := hmono v tls_vbufsz (by omega)
    omega

/-- C32 at a concrete input: the estimate `n + 16 + n / 255`, for which the bound
is 32624. -/
theorem ikvdb_kvs_open_vcomp_fits_witness :
    (ikvdb_kvs_open_vcomp consts_example open_env_compressing kvs_example ⟨false, 0⟩).1.kk_vcompbnd =
        2 * tls_vbufsz - (tls_vbufsz + 16 + tls_vbufsz / 255) ∧
      (ikvdb_kvs_open_vcomp consts_example open_env_compressing kvs_example
        ⟨false, 0⟩).1.kk_vcompbnd < tls_vbufsz :=
  have h := ikvdb_kvs_open_vcomp_fits consts_example open_env_compressing kvs_example ⟨false, 0⟩
    ⟨some 1, fun n => n + 16 + n / 255⟩ rfl
    (by
      intro a b hab
      have := Nat.div_le_div_right (c := 255) hab
      simp only
      push_cast
      omega)
    (by decide) (by decide)
  ⟨h.1, h.2.1⟩

/-! ## The buckets of the transaction cache -/

theorem bkt_ok_alloc (E : txn_env) (n : Nat) (b : kvdb_ctxn_bkt) (h : bkt_ok b) :
    bkt_ok (ikvdb_txn_alloc E n b).2.1 ∧ ∀ l, call.fault l ∉ (ikvdb_txn_alloc E n b).2.2 := by
  obtain ⟨h1, h2, h3⟩ := h
  have hk : kcb_ctxnv_nelem = 15 := rfl
  by_cases hpos : 0 < b.kcb_ctxnc
  · have hs := h3 (b.kcb_ctxnc - 1) (by omega)
    obtain ⟨a, ha⟩ := Option.isSome_iff_exists.mp hs
    rw [ikvdb_txn_alloc_hit E n b a hpos h1 ha]
    refine ⟨⟨?_, h2, ?_⟩, ?_⟩
    · show b.kcb_ctxnc - 1 ≤ kcb_ctxnv_nelem
      omega
    · intro i hi
      exact h3 i (by
        have : i < b.kcb_ctxnc - 1 := hi
        omega)
    · intro l
      simp
  · rw [ikvdb_txn_alloc_miss E n b h1 (fun h => absurd h hpos)]
    refine ⟨⟨?_, h2, ?_⟩, ?_⟩
    · show b.kcb_ctxnc - 1 ≤ kcb_ctxnv_nelem
      omega
    · intro i hi
      have : i < b.kcb_ctxnc - 1 := hi
      omega
    · intro l
      cases E.kvdb_ctxn_alloc n <;> simp

theorem ikvdb_txn_free_full (b : kvdb_ctxn_bkt) (t : Nat) (h : ¬ b.kcb_ctxnc < kcb_ctxnv_nelem) :
    ikvdb_txn_free b (some t) =
      (b, [call.txn (txn_call.kvdb_ctxn_abort t), call.txn txn_call.spin_lock,
           call.txn txn_call.spin_unlock, call.perfc (perfc_call.perfc_inc 2596),
           call.txn (txn_call.kvdb_ctxn_free t)]) := by
  simp only [ikvdb_txn_free, if_neg h]

theorem getD_set_ne_nat (l : List (Option Nat)) (i j : Nat) (x : Option Nat) (h : i ≠ j) :
    (l.set i x).getD j none = l.getD j none := by
  simp only [List.getD_eq_getElem?_getD, List.getElem?_set_ne h]

theorem bkt_ok_free (b : kvdb_ctxn_bkt) (txn : Option Nat) (h : bkt_ok b) :
    bkt_ok (ikvdb_txn_free b txn).1 ∧ ∀ l, call.fault l ∉ (ikvdb_txn_free b txn).2 := by
  obtain ⟨h1, h2, h3⟩ := h
  cases txn with
  | none => exact ⟨⟨h1, h2, h3⟩, fun l => by simp [ikvdb_txn_free]⟩
  | some t =>
    by_cases hlt : b.kcb_ctxnc < kcb_ctxnv_nelem
    · rw [ikvdb_txn_free_push b t hlt]
      refine ⟨⟨hlt, ?_, ?_⟩, fun l => by simp⟩
      · show (b.kcb_ctxnv.set b.kcb_ctxnc (some t)).length = kcb_ctxnv_nelem
        rw [List.length_set]
        exact h2
      · intro i hi
        have hi2 : i < b.kcb_ctxnc + 1 := hi
        show ((b.kcb_ctxnv.set b.kcb_ctxnc (some t)).getD i none).isSome = true
        by_cases he : i = b.kcb_ctxnc
        · subst he
          rw [getD_set_same _ _ _ (by omega)]
          rfl
        · rw [getD_set_ne_nat _ _ _ _ (fun h => he h.symm)]
          exact h3 i (by omega)
    · rw [ikvdb_txn_free_full b t hlt]
      exact ⟨⟨h1, h2, h3⟩, fun l => by simp⟩

theorem bkt_ok_example : bkt_ok bkt_example := by decide

theorem cache_ok_getD (cache : List kvdb_ctxn_bkt) (h : cache_ok cache) (i : Nat) :
    bkt_ok (cache.getD i bkt_example) := by
  by_cases hi : i < cache.length
  · rw [List.getD_eq_getElem _ _ hi]
    exact h.2 _ (List.getElem_mem _)
  · rw [List.getD_eq_default _ _ (by omega)]
    exact bkt_ok_example

theorem cache_ok_set (cache : List kvdb_ctxn_bkt) (h : cache_ok cache) (i : Nat)
    (b : kvdb_ctxn_bkt) (hb : bkt_ok b) : cache_ok (cache.set i b) := by
  refine ⟨by rw [List.length_set]; exact h.1, ?_⟩
  intro x hx
  rcases List.mem_or_eq_of_mem_set hx with hx | hx
  · exact h.2 x hx
  · rw [hx]
    exact hb

theorem cache_ok_run (E : txn_env) (ops : List txn_op) :
    ∀ (n : Nat) (cache : List kvdb_ctxn_bkt), cache_ok cache →
      cache_ok (txn_cache_run E ops n cache).1 ∧
        ∀ l, call.fault l ∉ (txn_cache_run E ops n cache).2 := by
  induction ops with
  | nil =>
    intro n cache h
    exact ⟨h, fun l => by simp [txn_cache_run]⟩
  | cons op ops ih =>
    intro n cache h
    cases op with
    | alloc tid =>
      have hb := bkt_ok_alloc E n _ (cache_ok_getD cache h (ikvdb_txn_tid2bkt tid))
      have hr := ih (n + 1) _ (cache_ok_set cache h (ikvdb_txn_tid2bkt tid) _ hb.1)
      refine ⟨hr.1, ?_⟩
      intro l hm
      simp only [txn_cache_run, List.mem_append] at hm
      rcases hm with hm | hm
      · exact hb.2 l hm
      · exact hr.2 l hm
    | free tid txn =>
      have hb := bkt_ok_free _ txn (cache_ok_getD cache h (ikvdb_txn_tid2bkt tid))
      have hr := ih n _ (cache_ok_set cache h (ikvdb_txn_tid2bkt tid) _ hb.1)
      refine ⟨hr.1, ?_⟩
      intro l hm
      simp only [txn_cache_run, List.mem_append] at hm
      rcases hm with hm | hm
      · exact hb.2 l hm
      · exact hr.2 l hm

theorem cache_ok_example : cache_ok txn_cache_example := by
  refine ⟨by simp [txn_cache_example], ?_⟩
  intro b hb
  rw [txn_cache_example, List.mem_replicate] at hb
  rw [hb.2]
  exact bkt_ok_example

theorem take_set_self {α : Type} (l : List α) (n : Nat) (a : α) :
    (l.set n a).take n = l.take n :=
  List.ext_getElem? fun i => by
    rw [List.getElem?_take, List.getElem?_take]
    split
    · next h => rw [List.getElem?_set_ne (by omega)]
    · rfl

theorem bkt_stack_push (b : kvdb_ctxn_bkt) (t : Nat) (h : bkt_ok b)
    (hlt : b.kcb_ctxnc < kcb_ctxnv_nelem) :
    bkt_stack (ikvdb_txn_free b (some t)).1 = bkt_stack b ++ [some t] := by
  rw [ikvdb_txn_free_push b t hlt]
  obtain ⟨_, h2, _⟩ := h
  have hl : b.kcb_ctxnc < b.kcb_ctxnv.length := by omega
  show (b.kcb_ctxnv.set b.kcb_ctxnc (some t)).take (b.kcb_ctxnc + 1) =
    b.kcb_ctxnv.take b.kcb_ctxnc ++ [some t]
  rw [List.take_succ, take_set_self]
  simp [hl]

theorem bkt_stack_pop (E : txn_env) (n : Nat) (b : kvdb_ctxn_bkt) (h : bkt_ok b)
    (hpos : 0 < b.kcb_ctxnc) :
    ∃ t, bkt_stack b = bkt_stack (ikvdb_txn_alloc E n b).2.1 ++ [some t] ∧
      ikvdb_txn_alloc E n b =
        (some t, { b with kcb_ctxnc := b.kcb_ctxnc - 1 },
          [call.txn txn_call.spin_lock, call.txn txn_call.spin_unlock,
           call.txn (txn_call.kvdb_ctxn_reset t)]) := by
  obtain ⟨h1, h2, h3⟩ := h
  have hk : kcb_ctxnv_nelem = 15 := rfl
  have hs := h3 (b.kcb_ctxnc - 1) (by omega)
  obtain ⟨a, ha⟩ := Option.isSome_iff_exists.mp hs
  refine ⟨a, ?_, ikvdb_txn_alloc_hit E n b a hpos h1 ha⟩
  rw [ikvdb_txn_alloc_hit E n b a hpos h1 ha]
  show b.kcb_ctxnv.take b.kcb_ctxnc = b.kcb_ctxnv.take (b.kcb_ctxnc - 1) ++ [some a]
  have hl : b.kcb_ctxnc - 1 < b.kcb_ctxnv.length := by omega
  have e : b.kcb_ctxnc = (b.kcb_ctxnc - 1) + 1 := by omega
  rw [List.getD_eq_getElem _ _ hl] at ha
  conv_lhs => rw [e]
  rw [List.take_succ]
  simp [hl, ha]

theorem ikvdb_txn_free_alloc (E : txn_env) (n : Nat) (b : kvdb_ctxn_bkt) (t : Nat)
    (h : bkt_ok b) (hlt : b.kcb_ctxnc < kcb_ctxnv_nelem) :
    (ikvdb_txn_alloc E n (ikvdb_txn_free b (some t)).1).1 = some t := by
  obtain ⟨h1, h2, h3⟩ := h
  rw [ikvdb_txn_free_push b t hlt]
  rw [ikvdb_txn_alloc_hit E n _ t (Nat.succ_pos _) (Nat.succ_le_of_lt hlt)
    (by
      show (b.kcb_ctxnv.set b.kcb_ctxnc (some t)).getD (b.kcb_ctxnc + 1 - 1) none = some t
      rw [Nat.add_sub_cancel]
      exact getD_set_same _ _ _ (by omega))]

/-- C33 (as amended): every bucket of the cache of 17 stays a stack of at most
15 entries in an array of 15 under every sequence of `ikvdb_txn_alloc` and
`ikvdb_txn_free`, with no access outside the array; `ikvdb_txn_free` aborts the
transaction first, then pushes it when the bucket holds fewer than 15 entries
and else releases it, the bucket unchanged; `ikvdb_txn_alloc` on a bucket that is
not empty pops and resets the entry pushed last, with no call of
`kvdb_ctxn_alloc`; a free into a bucket of fewer than 15 entries followed by an
alloc on that bucket returns the transaction freed; and `ikvdb_txn_free(NULL)`
does nothing. -/
theorem txn_bucket_stack (E : txn_env) (ops : List txn_op) (n : Nat)
    (cache : List kvdb_ctxn_bkt) (b : kvdb_ctxn_bkt) (t : Nat) (tid : Nat) :
    KVDB_CTXN_BKT_MAX = 17 ∧ kcb_ctxnv_nelem = 15 ∧ ikvdb_txn_tid2bkt tid < KVDB_CTXN_BKT_MAX ∧
      cache_ok txn_cache_example ∧
      (cache_ok cache →
        cache_ok (txn_cache_run E ops n cache).1 ∧
          ∀ l, call.fault l ∉ (txn_cache_run E ops n cache).2) ∧
      (bkt_ok b → b.kcb_ctxnc < kcb_ctxnv_nelem →
        ikvdb_txn_free b (some t) =
            ({ kcb_ctxnc := b.kcb_ctxnc + 1, kcb_ctxnv := b.kcb_ctxnv.set b.kcb_ctxnc (some t) },
              [call.txn (txn_call.kvdb_ctxn_abort t), call.txn txn_call.spin_lock,
               call.txn txn_call.spin_unlock]) ∧
          bkt_stack (ikvdb_txn_free b (some t)).1 = bkt_stack b ++ [some t]) ∧
      (¬ b.kcb_ctxnc < kcb_ctxnv_nelem →
        ikvdb_txn_free b (some t) =
          (b, [call.txn (txn_call.kvdb_ctxn_abort t), call.txn txn_call.spin_lock,
               call.txn txn_call.spin_unlock, call.perfc (perfc_call.perfc_inc 2596),
               call.txn (txn_call.kvdb_ctxn_free t)])) ∧
      (bkt_ok b → 0 < b.kcb_ctxnc →
        ∃ a, bkt_stack b = bkt_stack (ikvdb_txn_alloc E n b).2.1 ++ [some a] ∧
          ikvdb_txn_alloc E n b =
            (some a, { b with kcb_ctxnc := b.kcb_ctxnc - 1 },
              [call.txn txn_call.spin_lock, call.txn txn_call.spin_unlock,
               call.txn (txn_call.kvdb_ctxn_reset a)])) ∧
      (bkt_ok b → b.kcb_ctxnc < kcb_ctxnv_nelem →
        (ikvdb_txn_alloc E n (ikvdb_txn_free b (some t)).1).1 = some t) ∧
      ikvdb_txn_free b none = (b, []) := by
  refine ⟨rfl, rfl, ?_, cache_ok_example, cache_ok_run E ops n cache, ?_,
    ikvdb_txn_free_full b t, bkt_stack_pop E n b, ikvdb_txn_free_alloc E n b t, rfl⟩
  · exact Nat.mod_lt _ (by decide)
  · intro h hlt
    exact ⟨ikvdb_txn_free_push b t hlt, bkt_stack_push b t h hlt⟩

/-- C33, the case the claim leaves out: the bucket `bkt_full`, reached by 15
calls of `ikvdb_txn_free`, holds 15 entries; `ikvdb_txn_free` of the transaction
7 releases it and leaves the bucket as it is, and the `ikvdb_txn_alloc` that
follows returns the transaction 114, not 7. -/
theorem txn_free_alloc_full_bucket :
    bkt_ok bkt_full ∧ bkt_full.kcb_ctxnc = 15 ∧
      ikvdb_txn_free bkt_full (some 7) =
        (bkt_full,
          [call.txn (txn_call.kvdb_ctxn_abort 7), call.txn txn_call.spin_lock,
           call.txn txn_call.spin_unlock, call.perfc (perfc_call.perfc_inc 2596),
           call.txn (txn_call.kvdb_ctxn_free 7)]) ∧
      (ikvdb_txn_alloc txn_env_example 0 (ikvdb_txn_free bkt_full (some 7)).1).1 = some 114 := by
  refine ⟨by decide, rfl, rfl, rfl⟩

/-! ## The maintenance task -/

theorem ikvdb_maint_task_body_maxdelay (E : maint_env) (k : Nat) (self : ikvdb_impl)
    (maxdelay curcnt_warn : Nat) :
    (ikvdb_maint_task_body E k self maxdelay curcnt_warn).2.1 =
      if maxdelay < 100000 then (maxdelay + 3000) % 2 ^ 64 else maxdelay := rfl

theorem ikvdb_maint_task_at_maxdelay (E : maint_env) (self : ikvdb_impl) (k : Nat) :
    (ikvdb_maint_task_at E self k).2.1 = min (10000 + 3000 * k) 100000 := by
  induction k with
  | zero => rfl
  | succ k ih =>
    simp only [ikvdb_maint_task_at]
    rw [ikvdb_maint_task_body_maxdelay, ih]
    by_cases h : k < 30
    · rw [Nat.min_eq_left (by omega), Nat.min_eq_left (by omega), if_pos (by omega)]
      omega
    · rw [Nat.min_eq_right (by omega), Nat.min_eq_right (by omega), if_neg (by omega)]

theorem ikvdb_maint_task_loop_at (E : maint_env) (self : ikvdb_impl) (n : Nat) :
    ∀ k, (∀ j, k ≤ j → j < k + n → E.work_stop j = false) →
      (ikvdb_maint_task_loop E n k (ikvdb_maint_task_at E self k).1
          (ikvdb_maint_task_at E self k).2.1 (ikvdb_maint_task_at E self k).2.2).1 =
        (ikvdb_maint_task_at E self (k + n)).1 ∧
      (ikvdb_maint_task_loop E n k (ikvdb_maint_task_at E self k).1
          (ikvdb_maint_task_at E self k).2.1 (ikvdb_maint_task_at E self k).2.2).2.1 =
        (ikvdb_maint_task_at E self (k + n)).2.1 := by
  induction n with
  | zero =>
    intro k _
    exact ⟨rfl, rfl⟩
  | succ n ih =>
    intro k h
    have hk : E.work_stop k = false := h k (Nat.le_refl _) (by omega)
    have hr := ih (k + 1) (fun j h1 h2 => h j (by omega) (by omega))
    have e : k + (n + 1) = k + 1 + n := by omega
    rw [e]
    simp only [ikvdb_maint_task_loop, hk, Bool.false_eq_true, if_false]
    exact hr

theorem usleep_not_in_slots (vec : List (Option kvdb_kvs)) (tstart : Nat) (u : Nat) (n : Nat) :
    ∀ i, call.usleep u ∉ ikvdb_maint_task_slots vec tstart n i := by
  induction n with
  | zero =>
    intro i
    simp [ikvdb_maint_task_slots]
  | succ n ih =>
    intro i
    simp only [ikvdb_maint_task_slots, List.mem_append, not_or]
    refine ⟨?_, ih (i + 1)⟩
    repeat' split
    all_goals simp

theorem ikvdb_maint_task_body_usleep (E : maint_env) (k : Nat) (self : ikvdb_impl)
    (maxdelay curcnt_warn : Nat) (hmax : maxdelay ≤ 100000) (u : Nat) :
    call.usleep u ∈ (ikvdb_maint_task_body E k self maxdelay curcnt_warn).2.2.2 ↔
      (maint_elapsed E k < maxdelay ∧ u = maxdelay - maint_elapsed E k) := by
  have hs := usleep_not_in_slots
  unfold ikvdb_maint_task_body maint_elapsed
  simp only [List.mem_append, List.mem_cons, List.mem_singleton, hs, or_false, false_or]
  by_cases hlt : ((E.time_end k % 2 ^ 64 + 2 ^ 64 - E.time_start k % 2 ^ 64) % 2 ^ 64) / 1024 <
      maxdelay
  · simp only [if_pos hlt, hlt, true_and]
    have e : (maxdelay + 2 ^ 64 -
        ((E.time_end k % 2 ^ 64 + 2 ^ 64 - E.time_start k % 2 ^ 64) % 2 ^ 64) / 1024) % 2 ^ 64 %
          2 ^ 32 =
        maxdelay - ((E.time_end k % 2 ^ 64 + 2 ^ 64 - E.time_start k % 2 ^ 64) % 2 ^ 64) / 1024 := by
      omega
    rw [e]
    constructor
    · intro h
      rcases h with h | h
      · split at h <;> simp at h
      · simp at h
        exact h
    · intro h
      right
      simp [h]
  · simp only [if_neg hlt, hlt, false_and, iff_false]
    intro h
    rcases h with h | h
    · split at h <;> simp at h
    · simp at h

theorem ikvdb_maint_task_loop_usleep (E : maint_env) (n : Nat) :
    ∀ (k : Nat) (self : ikvdb_impl) (maxdelay curcnt_warn : Nat),
      maxdelay ≤ 100000 ∧ maxdelay % 3000 = 1000 →
      ∀ u, call.usleep u ∈ (ikvdb_maint_task_loop E n k self maxdelay curcnt_warn).2.2 →
        0 < u ∧ u ≤ 100000 := by
  induction n with
  | zero =>
    intro k self maxdelay curcnt_warn _ u h
    simp [ikvdb_maint_task_loop] at h
  | succ n ih =>
    intro k self maxdelay curcnt_warn hmax u h
    simp only [ikvdb_maint_task_loop] at h
    split at h
    · simp at h
    · simp only [List.mem_append] at h
      rcases h with h | h
      · have := (ikvdb_maint_task_body_usleep E k self maxdelay curcnt_warn hmax.1 u).mp h
        omega
      · refine ih (k + 1) _ _ _ ?_ u h
        rw [ikvdb_maint_task_body_maxdelay]
        have e : (maxdelay + 3000) % 2 ^ 64 = maxdelay + 3000 := Nat.mod_eq_of_lt (by omega)
        rw [e]
        split <;> omega

theorem maint_curcnt_eq (vadd vsub : Nat) :
    maint_curcnt (vadd % 2 ^ 64) (vsub % 2 ^ 64) = vadd % 2 ^ 64 - vsub % 2 ^ 64 := by
  unfold maint_curcnt
  split <;> omega

/-- C34: in `ikvdb_maint_task`, `maxdelay` at the head of iteration `k` (counted
from 0) is `min (10000 + 3000 * k) 100000`: 10000 in the first iteration,
`10000 + 3000 * k` up to `k = 30`, 100000 from there on, never more; that is
also what a run of `n` iterations leaves. An iteration calls `usleep` exactly
when the time it measured is below `maxdelay`, with the difference, which is
then above 0 and at most `maxdelay`, and every `usleep` of a run is for at most
100000 us. The sampled count of cursors is `vadd - vsub` when `vadd > vsub` and 0
otherwise, without wrap-around. With `maint_env_example`, where an iteration
takes 2000 us, the first two iterations sleep 8000 and 11000 us. -/
theorem ikvdb_maint_task_delay (E : maint_env) (self : ikvdb_impl) (k n : Nat)
    (maxdelay curcnt_warn : Nat) (u vadd vsub : Nat) :
    (ikvdb_maint_task_at E self k).2.1 = min (10000 + 3000 * k) 100000 ∧
      (ikvdb_maint_task_at E self 0).2.1 = 10000 ∧
      (k ≤ 30 → (ikvdb_maint_task_at E self k).2.1 = 10000 + 3000 * k) ∧
      (30 ≤ k → (ikvdb_maint_task_at E self k).2.1 = 100000) ∧
      (ikvdb_maint_task_at E self k).2.1 ≤ 100000 ∧
      ((∀ j, j < n → E.work_stop j = false) →
        (ikvdb_maint_task E n self).2.1 = min (10000 + 3000 * n) 100000) ∧
      (maxdelay ≤ 100000 →
        (call.usleep u ∈ (ikvdb_maint_task_body E k self maxdelay curcnt_warn).2.2.2 ↔
          (maint_elapsed E k < maxdelay ∧ u = maxdelay - maint_elapsed E k)) ∧
        (call.usleep u ∈ (ikvdb_maint_task_body E k self maxdelay curcnt_warn).2.2.2 →
          0 < u ∧ u ≤ maxdelay)) ∧
      (call.usleep u ∈ (ikvdb_maint_task E n self).2.2 → 0 < u ∧ u ≤ 100000) ∧
      maint_curcnt (vadd % 2 ^ 64) (vsub % 2 ^ 64) = vadd % 2 ^ 64 - vsub % 2 ^ 64 ∧
      ((maint_curcnt (vadd % 2 ^ 64) (vsub % 2 ^ 64) : Nat) : Int) =
        max (((vadd % 2 ^ 64 : Nat) : Int) - ((vsub % 2 ^ 64 : Nat) : Int)) 0 ∧
      (ikvdb_maint_task maint_env_example 2 (ikvdb_example consts_example false)).2 =
        (16000,
          [call.admin admin_call.get_time_ns, call.admin admin_call.perfc_read, call.mutex_lock,
           call.mutex_unlock, call.admin admin_call.get_time_ns, call.usleep 8000,
           call.admin admin_call.get_time_ns, call.admin admin_call.perfc_read, call.mutex_lock,
           call.mutex_unlock, call.admin admin_call.get_time_ns, call.usleep 11000]) := by
  have hat := ikvdb_maint_task_at_maxdelay E self
  refine ⟨hat k, rfl, ?_, ?_, ?_, ?_, ?_, ?_, maint_curcnt_eq vadd vsub, ?_, rfl⟩
  · intro h
    rw [hat k]
    omega
  · intro h
    rw [hat k]
    omega
  · rw [hat k]
    omega
  · intro h
    have := (ikvdb_maint_task_loop_at E self n 0 (fun j _ h2 => h j (by omega))).2
    rw [Nat.zero_add, hat n] at this
    exact this
  · intro hmax
    have h := ikvdb_maint_task_body_usleep E k self maxdelay curcnt_warn hmax u
    refine ⟨h, fun hm => ?_⟩
    have := h.mp hm
    omega
  · exact ikvdb_maint_task_loop_usleep E n 0 self 10000 0 (by omega) u
  · rw [maint_curcnt_eq]
    omega

/-! ## `blk_list` -/

theorem blk_list_append_nomem (P : Nat) (m : Nat → Option (Nat → Nat)) (b : blk_list)
    (id : Nat) (h : (blk_list_append P m b id).1 ≠ 0) :
    (blk_list_append P m b id).1 = merr ENOMEM 103 ∧ (blk_list_append P m b id).2.1 = b ∧
      b.n_blks = b.n_alloc ∧ m (8 * b.n_alloc + 8 * P) = none := by
  unfold blk_list_append at h ⊢
  by_cases he : b.n_blks = b.n_alloc
  · simp only [if_pos he] at h ⊢
    cases hm : m (8 * b.n_alloc + 8 * P) with
    | none => simp [he]
    | some c =>
      rw [hm] at h
      exact absurd rfl h
  · simp only [if_neg he] at h
    exact absurd rfl h

theorem blk_list_append_grow (P : Nat) (m : Nat → Option (Nat → Nat)) (b : blk_list)
    (id : Nat) (c : Nat → Nat) (old : List Nat) (he : b.n_blks = b.n_alloc)
    (hm : m (8 * b.n_alloc + 8 * P) = some c) (hP : 0 < P)
    (hold : b.n_alloc ≠ 0 → b.blks = some old ∧ old.length = b.n_alloc) :
    blk_list_append P m b id =
      (0,
        { blks := some ((old.take b.n_alloc ++
            ((List.range (b.n_alloc + P)).map c).drop b.n_alloc).set b.n_blks id)
          n_alloc := b.n_alloc + P
          n_blks := b.n_blks + 1 },
        [blk_call.malloc (8 * b.n_alloc + 8 * P)] ++
          (if b.n_alloc ≠ 0 then [blk_call.memcpy (8 * b.n_alloc), blk_call.free] else [])) := by
  have e1 : (8 * b.n_alloc + 8 * P) / 8 = b.n_alloc + P := by omega
  have e2 : 8 * b.n_alloc / 8 = b.n_alloc := by omega
  unfold blk_list_append
  simp only [if_pos he, hm, e1, e2, he, Nat.le_refl, if_true, List.nil_append]
  by_cases h0 : b.n_alloc = 0
  · have h8 : ¬ (8 * b.n_alloc ≠ 0) := by omega
    simp only [if_neg h8, blk_list_store, h0, List.length_map, List.length_range, Nat.zero_add,
      hP, if_true, List.take_zero, List.drop_zero, List.nil_append, ne_eq, not_true_eq_false,
      if_false, List.append_nil, Nat.mul_zero]
  · have h8 : 8 * b.n_alloc ≠ 0 := by omega
    obtain ⟨hb, hl⟩ := hold h0
    have hlen : b.n_alloc < (old.take b.n_alloc ++
        ((List.range (b.n_alloc + P)).map c).drop b.n_alloc).length := by
      simp only [List.length_append, List.length_take, List.length_drop, List.length_map,
        List.length_range, hl]
      omega
    simp only [if_pos h8, hb, hl, Nat.le_refl, if_true, blk_list_store, hlen, if_pos h0,
      List.append_nil]

theorem blk_list_append_store (P : Nat) (m : Nat → Option (Nat → Nat)) (b : blk_list)
    (id : Nat) (a : List Nat) (hlt : b.n_blks < b.n_alloc) (hb : b.blks = some a)
    (hl : a.length = b.n_alloc) :
    blk_list_append P m b id =
      (0, { b with blks := some (a.set b.n_blks id), n_blks := b.n_blks + 1 }, []) := by
  have hne : ¬ b.n_blks = b.n_alloc := by omega
  have hle : b.n_blks ≤ b.n_alloc := by omega
  have hlt2 : b.n_blks < a.length := by omega
  unfold blk_list_append
  simp only [if_neg hne, if_pos hle, blk_list_store, hb, if_pos hlt2, List.nil_append]

theorem take_succ_set_self (a : List Nat) (n : Nat) (id : Nat) (h : n < a.length) :
    (a.set n id).take (n + 1) = a.take n ++ [id] := by
  rw [List.take_succ, take_set_self]
  simp [h]

theorem blk_inv_append (P : Nat) (hP : 0 < P) (m : Nat → Option (Nat → Nat)) (b : blk_list)
    (ids : List Nat) (id : Nat) (h : blk_inv P b ids) :
    ((blk_list_append P m b id).1 = 0 ∧ blk_inv P (blk_list_append P m b id).2.1 (ids ++ [id]) ∨
      (blk_list_append P m b id).1 = merr ENOMEM 103 ∧ (blk_list_append P m b id).2.1 = b) ∧
      (∀ l, blk_call.fault l ∉ (blk_list_append P m b id).2.2) ∧
      (∀ l, blk_call.assert_fail l ∉ (blk_list_append P m b id).2.2) := by
  obtain ⟨h1, h2, h3, h4, h5⟩ := h
  by_cases he : b.n_blks = b.n_alloc
  · cases hm : m (8 * b.n_alloc + 8 * P) with
    | none =>
      have hr : blk_list_append P m b id =
          (merr ENOMEM 103, b, [blk_call.malloc (8 * b.n_alloc + 8 * P)]) := by
        unfold blk_list_append
        simp [he, hm]
      rw [hr]
      exact ⟨Or.inr ⟨rfl, rfl⟩, fun l => by simp, fun l => by simp⟩
    | some c =>
      cases hb : b.blks with
      | none =>
        rw [hb] at h5
        have h0 : b.n_alloc = 0 := h5
        rw [blk_list_append_grow P m b id c [] he hm hP (fun hne => absurd h0 hne)]
        refine ⟨Or.inl ⟨rfl, ?_⟩, fun l => by split <;> simp, fun l => by split <;> simp⟩
        have hi : ids = [] := List.length_eq_zero.mp (by omega)
        subst hi
        refine ⟨by simp [h1], by simp; omega, by simp [h0], by simp; omega, ?_⟩
        show ((([] : List Nat).take b.n_alloc ++
          ((List.range (b.n_alloc + P)).map c).drop b.n_alloc).set b.n_blks id).length =
            b.n_alloc + P ∧ _
        rw [he, h0]
        refine ⟨by simp, ?_⟩
        simp only [List.take_nil, List.nil_append, List.drop_zero, Nat.zero_add,
          List.length_singleton]
        have := take_succ_set_self ((List.range P).map c) 0 id (by simp; exact hP)
        simpa using this
      | some a =>
        rw [hb] at h5
        obtain ⟨hl, ht⟩ := h5
        rw [blk_list_append_grow P m b id c a he hm hP (fun _ => ⟨hb, hl⟩)]
        refine ⟨Or.inl ⟨rfl, ?_⟩, fun l => by split <;> simp, fun l => by split <;> simp⟩
        have hlen : (a.take b.n_alloc ++ ((List.range (b.n_alloc + P)).map c).drop b.n_alloc).length =
            b.n_alloc + P := by
          simp only [List.length_append, List.length_take, List.length_drop, List.length_map,
            List.length_range, hl]
          omega
        refine ⟨by simp [h1], by simp; omega, by simp [h3], by simp; omega, ?_⟩
        show ((a.take b.n_alloc ++ ((List.range (b.n_alloc + P)).map c).drop b.n_alloc).set
          b.n_blks id).length = b.n_alloc + P ∧ _
        refine ⟨by rw [List.length_set]; exact hlen, ?_⟩
        show ((a.take b.n_alloc ++ ((List.range (b.n_alloc + P)).map c).drop b.n_alloc).set
          b.n_blks id).take (ids ++ [id]).length = ids ++ [id]
        rw [List.length_append, List.length_singleton, ← h1,
          take_succ_set_self _ _ _ (by rw [hlen]; omega)]
        congr 1
        rw [he, List.take_append_of_le_length (by simp [hl]), List.take_take, Nat.min_self,
          ← he, h1]
        exact ht
  · have hlt : b.n_blks < b.n_alloc := by omega
    cases hb : b.blks with
    | none =>
      rw [hb] at h5
      have h0 : b.n_alloc = 0 := h5
      omega
    | some a =>
      rw [hb] at h5
      obtain ⟨hl, ht⟩ := h5
      rw [blk_list_append_store P m b id a hlt hb hl]
      refine ⟨Or.inl ⟨rfl, ?_⟩, fun l => by simp, fun l => by simp⟩
      refine ⟨by simp [h1], by simp; omega, h3, by simp; omega, ?_⟩
      show (a.set b.n_blks id).length = b.n_alloc ∧
        (a.set b.n_blks id).take (ids ++ [id]).length = ids ++ [id]
      refine ⟨by rw [List.length_set]; exact hl, ?_⟩
      rw [List.length_append, List.length_singleton, ← h1,
        take_succ_set_self _ _ _ (by omega), h1, ht]

theorem blk_inv_init (P : Nat) (hP : 0 < P) : blk_inv P blk_list_init [] :=
  ⟨rfl, Nat.le_refl _, Nat.dvd_zero _, by show 0 < 0 + P; omega, rfl⟩

theorem blk_inv_run (P : Nat) (hP : 0 < P) (ops : List ((Nat → Option (Nat → Nat)) × Nat)) :
    ∀ (b : blk_list) (ids : List Nat), blk_inv P b ids →
      blk_inv P (blk_list_run P ops b).1 (ids ++ (blk_list_run P ops b).2.1) ∧
        (∀ l, blk_call.fault l ∉ (blk_list_run P ops b).2.2) ∧
        (∀ l, blk_call.assert_fail l ∉ (blk_list_run P ops b).2.2) := by
  induction ops with
  | nil =>
    intro b ids h
    simp only [blk_list_run, List.append_nil]
    exact ⟨h, fun l => by simp, fun l => by simp⟩
  | cons op ops ih =>
    intro b ids h
    obtain ⟨hr, hf, ha⟩ := blk_inv_append P hP op.1 b ids op.2 h
    simp only [blk_list_run]
    rcases hr with ⟨h0, hinv⟩ | ⟨h0, hsame⟩
    · obtain ⟨i1, i2, i3⟩ := ih _ _ hinv
      rw [if_pos h0]
      refine ⟨?_, ?_, ?_⟩
      · rw [← List.append_assoc]
        exact i1
      · intro l hm
        rcases List.mem_append.mp hm with hm | hm
        · exact hf l hm
        · exact i2 l hm
      · intro l hm
        rcases List.mem_append.mp hm with hm | hm
        · exact ha l hm
        · exact i3 l hm
    · have hne : ¬ (blk_list_append P op.1 b op.2).1 = 0 := by
        rw [h0]
        exact merr_ne_zero _ _ (by decide)
      obtain ⟨i1, i2, i3⟩ := ih (blk_list_append P op.1 b op.2).2.1 ids (by rw [hsame]; exact h)
      rw [if_neg hne, List.nil_append]
      refine ⟨i1, ?_, ?_⟩
      · intro l hm
        rcases List.mem_append.mp hm with hm | hm
        · exact hf l hm
        · exact i2 l hm
      · intro l hm
        rcases List.mem_append.mp hm with hm | hm
        · exact ha l hm
        · exact i3 l hm

theorem blk_array_holds_get (o : Option (List Nat)) (n : Nat) (ids : List Nat)
    (h : blk_array_holds o n ids) (hn : ids.length ≤ n) (i : Nat) (hi : i < ids.length) :
    ∃ a, o = some a ∧ a.length = n ∧ a[i]? = ids[i]? := by
  cases o with
  | none =>
    have h0 : n = 0 := h
    omega
  | some a =>
    obtain ⟨hl, ht⟩ := h
    refine ⟨a, rfl, hl, ?_⟩
    rw [← ht, List.getElem?_take_of_lt hi]

/-- C39: starting from `blk_list_init`, after any sequence of appends, of which
those of the ids `b1..bn` returned 0, the list has `n_blks = n`, its array
holds `b(i+1)` at every index `i < n`, `n_blks ≤ n_alloc`, and `n_alloc` is the
smallest multiple of `BLK_LIST_PRE_ALLOC` that is at least `n`; no assertion
fails and no store leaves the array. An append that does not return 0 returns
`ENOMEM` and leaves the list as it was. -/
theorem blk_list_append_keeps_order (P : Nat) (hP : 0 < P)
    (ops : List ((Nat → Option (Nat → Nat)) × Nat)) (m : Nat → Option (Nat → Nat))
    (b : blk_list) (id : Nat) :
    (blk_list_run P ops blk_list_init).1.n_blks = (blk_list_run P ops blk_list_init).2.1.length ∧
      (∀ i, i < (blk_list_run P ops blk_list_init).2.1.length →
        ∃ a, (blk_list_run P ops blk_list_init).1.blks = some a ∧
          a.length = (blk_list_run P ops blk_list_init).1.n_alloc ∧
          a[i]? = (blk_list_run P ops blk_list_init).2.1[i]?) ∧
      (blk_list_run P ops blk_list_init).1.n_blks ≤ (blk_list_run P ops blk_list_init).1.n_alloc ∧
      P ∣ (blk_list_run P ops blk_list_init).1.n_alloc ∧
      (∀ k, P ∣ k → (blk_list_run P ops blk_list_init).2.1.length ≤ k →
        (blk_list_run P ops blk_list_init).1.n_alloc ≤ k) ∧
      (∀ l, blk_call.fault l ∉ (blk_list_run P ops blk_list_init).2.2) ∧
      (∀ l, blk_call.assert_fail l ∉ (blk_list_run P ops blk_list_init).2.2) ∧
      ((blk_list_append P m b id).1 ≠ 0 →
        (blk_list_append P m b id).1 = merr ENOMEM 103 ∧ (blk_list_append P m b id).2.1 = b) := by
  obtain ⟨⟨h1, h2, h3, h4, h5⟩, hf, ha⟩ := blk_inv_run P hP ops blk_list_init [] (blk_inv_init P hP)
  rw [List.nil_append] at h1 h4 h5
  refine ⟨h1, ?_, h2, h3, ?_, hf, ha, ?_⟩
  · intro i hi
    exact blk_array_holds_get _ _ _ h5 (by omega) i hi
  · intro k hk hle
    by_contra hlt
    have hd : P ∣ (blk_list_run P ops blk_list_init).1.n_alloc - k := Nat.dvd_sub' h3 hk
    have := Nat.le_of_dvd (by omega) hd
    omega
  · intro hne
    have := blk_list_append_nomem P m b id hne
    exact ⟨this.1, this.2.1⟩

/-- C39 at a concrete input: three appends with `BLK_LIST_PRE_ALLOC = 2`, the
second of which fails once before it is repeated. -/
theorem blk_list_append_keeps_order_witness :
    (blk_list_run 2 [(malloc_example, 7), (malloc_example, 8), (malloc_fails, 9),
        (malloc_example, 9)] blk_list_init).1 =
      { blks := some [7, 8, 9, 0], n_alloc := 4, n_blks := 3 } ∧
    (blk_list_run 2 [(malloc_example, 7), (malloc_example, 8), (malloc_fails, 9),
        (malloc_example, 9)] blk_list_init).1.n_blks =
      (blk_list_run 2 [(malloc_example, 7), (malloc_example, 8), (malloc_fails, 9),
        (malloc_example, 9)] blk_list_init).2.1.length :=
  ⟨rfl,
    (blk_list_append_keeps_order 2 (by decide)
      [(malloc_example, 7), (malloc_example, 8), (malloc_fails, 9), (malloc_example, 9)]
      malloc_example blk_list_init 0).1⟩

theorem blk_rep_append (P : Nat) (hP : 0 < P) (m : Nat → Option (Nat → Nat)) (b : blk_list)
    (id : Nat) (h : blk_rep b) :
    blk_rep (blk_list_append P m b id).2.1 ∧
      (∀ l, blk_call.fault l ∉ (blk_list_append P m b id).2.2) ∧
      (∀ l, blk_call.assert_fail l ∉ (blk_list_append P m b id).2.2) := by
  obtain ⟨h1, h2⟩ := h
  by_cases he : b.n_blks = b.n_alloc
  · cases hm : m (8 * b.n_alloc + 8 * P) with
    | none =>
      have hr : blk_list_append P m b id =
          (merr ENOMEM 103, b, [blk_call.malloc (8 * b.n_alloc + 8 * P)]) := by
        unfold blk_list_append
        simp [he, hm]
      rw [hr]
      exact ⟨⟨h1, h2⟩, fun l => by simp, fun l => by simp⟩
    | some c =>
      cases hb : b.blks with
      | none =>
        rw [hb] at h2
        have h0 : b.n_alloc = 0 := h2
        rw [blk_list_append_grow P m b id c [] he hm hP (fun hne => absurd h0 hne)]
        refine ⟨⟨?_, ?_⟩, fun l => by split <;> simp, fun l => by split <;> simp⟩
        · show b.n_blks + 1 ≤ b.n_alloc + P
          omega
        · show _ = b.n_alloc + P ∧ b.n_alloc + P ≠ 0
          refine ⟨?_, by omega⟩
          rw [List.length_set, h0]
          simp
      | some a =>
        rw [hb] at h2
        obtain ⟨hl, hn⟩ := h2
        rw [blk_list_append_grow P m b id c a he hm hP (fun _ => ⟨hb, hl⟩)]
        refine ⟨⟨?_, ?_⟩, fun l => by split <;> simp, fun l => by split <;> simp⟩
        · show b.n_blks + 1 ≤ b.n_alloc + P
          omega
        · show _ = b.n_alloc + P ∧ b.n_alloc + P ≠ 0
          refine ⟨?_, by omega⟩
          rw [List.length_set]
          simp only [List.length_append, List.length_take, List.length_drop, List.length_map,
            List.length_range, hl]
          omega
  · have hlt : b.n_blks < b.n_alloc := by omega
    cases hb : b.blks with
    | none =>
      rw [hb] at h2
      have h0 : b.n_alloc = 0 := h2
      omega
    | some a =>
      rw [hb] at h2
      obtain ⟨hl, hn⟩ := h2
      rw [blk_list_append_store P m b id a hlt hb hl]
      refine ⟨⟨?_, ?_⟩, fun l => by simp, fun l => by simp⟩
      · show b.n_blks + 1 ≤ b.n_alloc
        omega
      · show (a.set b.n_blks id).length = b.n_alloc ∧ b.n_alloc ≠ 0
        exact ⟨by rw [List.length_set]; exact hl, hn⟩

/-- C40 (the code at the failing input, and around it): `blk_list_init`
establishes the representation invariant and `blk_list_append` preserves it,
with no assertion failing and no store outside the array; `blk_list_free` of a
list with `n_alloc = 0` leaves the list of `blk_list_init`. But `blk_list_free`
sets `blks` to `NULL` and `n_blks` to 0 and leaves `n_alloc` as it is: after one
append with `BLK_LIST_PRE_ALLOC = 64` and a free, the list has no array and
`n_alloc = 64`, which is not the list of `blk_list_init` and breaks the
invariant, and the next append does not allocate and stores through the `NULL`
pointer (line 116). -/
theorem blk_list_free_keeps_n_alloc (P : Nat) (m : Nat → Option (Nat → Nat)) (b : blk_list)
    (id : Nat) :
    blk_rep blk_list_init ∧
      (0 < P → blk_rep b →
        blk_rep (blk_list_append P m b id).2.1 ∧
          (∀ l, blk_call.fault l ∉ (blk_list_append P m b id).2.2) ∧
          (∀ l, blk_call.assert_fail l ∉ (blk_list_append P m b id).2.2)) ∧
      (b.n_alloc = 0 → (blk_list_free (some b)).1 = some { blk_list_init with blks := none }) ∧
      blk_list_append 64 malloc_example blk_list_init 7 =
        (0, { blks := some (7 :: List.replicate 63 0), n_alloc := 64, n_blks := 1 },
          [blk_call.malloc 512]) ∧
      blk_list_free (some { blks := some (7 :: List.replicate 63 0), n_alloc := 64, n_blks := 1 }) =
        (some { blks := none, n_alloc := 64, n_blks := 0 }, [blk_call.free]) ∧
      ({ blks := none, n_alloc := 64, n_blks := 0 } : blk_list) ≠ blk_list_init ∧
      ¬ blk_rep { blks := none, n_alloc := 64, n_blks := 0 } ∧
      blk_list_append 64 malloc_example { blks := none, n_alloc := 64, n_blks := 0 } 8 =
        (0, { blks := none, n_alloc := 64, n_blks := 1 }, [blk_call.fault 116]) := by
  refine ⟨by decide, fun hP h => blk_rep_append P hP m b id h, ?_, by decide, rfl, by decide,
    by decide, rfl⟩
  intro h0
  simp [blk_list_free, blk_list_init, h0]

/-! ## Well-formedness of the directory -/

theorem cstr_idem (s : List Nat) : cstr (cstr s) = cstr s := by
  induction s with
  | nil => rfl
  | cons c s ih =>
    by_cases hc : c = 0
    · subst hc
      rw [cstr_cons_zero]
      rfl
    · rw [cstr_cons_ne c s hc, cstr_cons_ne c _ hc, ih]

theorem cstr_nil : cstr [] = [] := rfl

theorem strcmp_eq_zero_iff (a : List Nat) : ∀ b, strcmp a b = 0 ↔ cstr a = cstr b := by
  induction a with
  | nil =>
    intro b
    cases b with
    | nil => simp [strcmp]
    | cons y b =>
      by_cases hy : y = 0
      · subst hy
        simp [strcmp, cstr_cons_zero, cstr_nil]
      · simp only [strcmp, cstr_nil, cstr_cons_ne y b hy]
        constructor
        · intro h
          omega
        · intro h
          cases h
  | cons x a ih =>
    intro b
    cases b with
    | nil =>
      by_cases hx : x = 0
      · subst hx
        simp [strcmp, cstr_cons_zero, cstr_nil]
      · simp only [strcmp, cstr_nil, cstr_cons_ne x a hx]
        constructor
        · intro h
          omega
        · intro h
          cases h
    | cons y b =>
      by_cases hxy : x = y
      · subst hxy
        by_cases hx : x = 0
        · subst hx
          simp [strcmp, cstr_cons_zero]
        · simp only [strcmp, ne_eq, not_true_eq_false, if_false, hx, cstr_cons_ne x _ hx,
            List.cons.injEq, true_and]
          exact ih b
      · simp only [strcmp, ne_eq, hxy, not_false_eq_true, if_true]
        constructor
        · intro h
          omega
        · intro h
          exfalso
          by_cases hx : x = 0
          · subst hx
            have hy : y ≠ 0 := fun h => hxy h.symm
            rw [cstr_cons_zero, cstr_cons_ne y b hy] at h
            cases h
          · by_cases hy : y = 0
            · subst hy
              rw [cstr_cons_zero, cstr_cons_ne x a hx] at h
              cases h
            · rw [cstr_cons_ne x a hx, cstr_cons_ne y b hy] at h
              injection h with h1 _
              exact hxy h1

theorem validate_kvs_name_strlcpy (kvs_name : List Nat)
    (h : validate_kvs_name (some kvs_name) = 0) :
    validate_kvs_name (some (strlcpy kvs_name sizeof_kk_name)) = 0 ∧
      strlcpy kvs_name sizeof_kk_name = cstr kvs_name := by
  have hl := validate_kvs_name_length kvs_name h
  have e : strlcpy kvs_name sizeof_kk_name = cstr kvs_name :=
    strlcpy_eq_cstr kvs_name sizeof_kk_name
      (by simpa [sizeof_kk_name, HSE_KVS_NAME_LEN_MAX] using hl)
  refine ⟨?_, e⟩
  rw [e, validate_kvs_name_eq_zero_iff, cstr_idem]
  exact (validate_kvs_name_eq_zero_iff kvs_name).1 h

theorem getD_append_none (vec : List (Option kvdb_kvs)) (i : Nat) :
    (vec ++ [none]).getD i none = vec.getD i none := by
  simp only [List.getD_eq_getElem?_getD, List.getElem?_append]
  by_cases h : i < vec.length
  · simp [h]
  · have : vec[i]? = none := List.getElem?_eq_none (by omega)
    simp only [h, if_false, this]
    cases (i - vec.length) with
    | zero => rfl
    | succ n => rfl

theorem getD_eraseIdx_none (vec : List (Option kvdb_kvs)) (k i : Nat) :
    (vec.eraseIdx k ++ [none]).getD i none =
      if i < k then vec.getD i none else vec.getD (i + 1) none := by
  rw [getD_append_none]
  simp only [List.getD_eq_getElem?_getD, List.getElem?_eraseIdx]
  split <;> rfl

theorem compact_first_empty (K : hse_consts) (self : ikvdb_impl) (h : dir_compact K self)
    (idx : Nat) (hidx : idx < self.ikdb_kvs_vec.length)
    (hnone : self.ikdb_kvs_vec.getD idx none = none)
    (hbefore : ∀ j, j < idx → (self.ikdb_kvs_vec.getD j none).isSome = true) :
    idx = self.ikdb_kvs_cnt := by
  obtain ⟨hlen, hle, hocc⟩ := h
  have h1 : ¬ idx < self.ikdb_kvs_cnt := by
    intro hlt
    have := (hocc idx (by omega)).2 hlt
    rw [hnone] at this
    cases this
  by_contra hne
  have hlt : self.ikdb_kvs_cnt < idx := by omega
  have := (hocc self.ikdb_kvs_cnt (by omega)).1 (hbefore _ hlt)
  omega

theorem compact_count (vec : List (Option kvdb_kvs)) :
    ∀ cnt, cnt ≤ vec.length →
      (∀ i, i < vec.length → ((vec.getD i none).isSome = true ↔ i < cnt)) →
      vec.countP Option.isSome = cnt := by
  induction vec with
  | nil =>
    intro cnt h _
    simp at h
    simp [h]
  | cons x xs ih =>
    intro cnt hle hocc
    cases cnt with
    | zero =>
      have hx : x.isSome = false := by
        have := hocc 0 (by simp)
        simp only [List.getD_cons_zero] at this
        cases hh : x.isSome
        · rfl
        · exact absurd (this.1 hh) (by omega)
      have := ih 0 (by omega) (fun i hi => by
        have := hocc (i + 1) (by simp; omega)
        simp only [List.getD_cons_succ] at this
        constructor
        · intro h
          have := this.1 h
          omega
        · intro h
          omega)
      simp [List.countP_cons, hx, this]
    | succ c =>
      have hx : x.isSome = true := by
        have := hocc 0 (by simp)
        simp only [List.getD_cons_zero] at this
        exact this.2 (by omega)
      have := ih c (by simp at hle; omega) (fun i hi => by
        have := hocc (i + 1) (by simp; omega)
        simp only [List.getD_cons_succ] at this
        constructor
        · intro h
          have := this.1 h
          omega
        · intro h
          exact this.2 (by omega))
      simp [List.countP_cons, hx, this]

theorem dir_compact_count (K : hse_consts) (self : ikvdb_impl) (h : dir_compact K self) :
    self.ikdb_kvs_cnt = self.ikdb_kvs_vec.countP Option.isSome := by
  obtain ⟨hlen, hle, hocc⟩ := h
  exact (compact_count self.ikdb_kvs_vec self.ikdb_kvs_cnt (by omega)
    (fun i hi => hocc i (by omega))).symm

theorem mem_getD (vec : List (Option kvdb_kvs)) (s : Option kvdb_kvs) (h : s ∈ vec) :
    ∃ j, j < vec.length ∧ vec.getD j none = s := by
  obtain ⟨j, hj, hja⟩ := List.getElem_of_mem h
  refine ⟨j, hj, ?_⟩
  rw [List.getD_eq_getElem _ _ hj]
  exact hja

theorem getD_mem (vec : List (Option kvdb_kvs)) (j : Nat) (kvs : kvdb_kvs)
    (h : vec.getD j none = some kvs) : some kvs ∈ vec := by
  have hj := getD_isSome_lt vec j kvs h
  rw [List.getD_eq_getElem _ _ hj] at h
  rw [← h]
  exact List.getElem_mem _

theorem absent_of_not_present (K : hse_consts) (vec : List (Option kvdb_kvs))
    (kvs_name : List Nat) (hlen : vec.length = K.HSE_KVS_COUNT_MAX)
    (h : ¬ ∃ j, j < K.HSE_KVS_COUNT_MAX ∧ slot_named kvs_name (vec.getD j none) = true) :
    ∀ s ∈ vec, slot_named kvs_name s = false := by
  intro s hs
  obtain ⟨j, hj, hjs⟩ := mem_getD vec s hs
  cases hh : slot_named kvs_name s
  · rfl
  · exact absurd ⟨j, by omega, by rw [hjs]; exact hh⟩ h

theorem ikvdb_kvs_create_absent (K : hse_consts) (E : kvs_create_env) (self : ikvdb_impl)
    (kvs_name : List Nat) (params : kvs_cparams)
    (hrw : self.ikdb_rdonly = false)
    (hcompact : dir_compact K self)
    (hlt : self.ikdb_kvs_cnt < K.HSE_KVS_COUNT_MAX)
    (hvalid : validate_kvs_name (some kvs_name) = 0)
    (habsent : ∀ s ∈ self.ikdb_kvs_vec, slot_named kvs_name s = false)
    (halloc : E.alloc_ok = true) :
    ((ikvdb_kvs_create K E self kvs_name params).2.1 = self ∨
      (ikvdb_kvs_create K E self kvs_name params).2.1 =
        { self with
          ikdb_kvs_cnt := self.ikdb_kvs_cnt + 1
          ikdb_kvs_vec :=
            self.ikdb_kvs_vec.set self.ikdb_kvs_cnt (some (created_slot E kvs_name params)) }) ∧
      call.assert_fail 1372 ∉ (ikvdb_kvs_create K E self kvs_name params).2.2 ∧
      ∀ l, call.fault l ∉ (ikvdb_kvs_create K E self kvs_name params).2.2 := by
  have hlen := hcompact.1
  have hcnt := dir_compact_count K self hcompact
  obtain ⟨j, hj, hjn⟩ := exists_empty_of_count self.ikdb_kvs_vec (by omega)
  obtain ⟨k, hk1, _, hk3, hk4, hk5⟩ :=
    first_empty_from_spec self.ikdb_kvs_vec K.HSE_KVS_COUNT_MAX 0
      ⟨j, Nat.zero_le j, by omega, hjn⟩
  have hkc : self.ikdb_kvs_cnt = k :=
    (compact_first_empty K self hcompact k (by omega) hk4
      (fun j hjk => hk5 j (Nat.zero_le j) hjk)).symm
  have hbound := K.count_max_le
  have hmod : (self.ikdb_kvs_cnt + 1) % 2 ^ 32 = self.ikdb_kvs_cnt + 1 :=
    Nat.mod_eq_of_lt (by omega)
  have hge : ¬ self.ikdb_kvs_cnt ≥ K.HSE_KVS_COUNT_MAX := by omega
  subst hkc
  have hin : self.ikdb_kvs_cnt < self.ikdb_kvs_vec.length := by omega
  unfold ikvdb_kvs_create
  simp only [hrw, hvalid, halloc, kvdb_kvs_create, get_kvs_index_absent K _ _ habsent, hk1, hge,
    hmod]
  by_cases hc : (E.cndb_cn_create params (strlcpy kvs_name sizeof_kk_name)).1 = 0
  · by_cases hp : E.cndb_cn_cparams (E.cndb_cn_create params
        (strlcpy kvs_name sizeof_kk_name)).2 = none
    · simp [hc, hp, kvdb_kvs_destroy]
    · refine ⟨Or.inr ?_, ?_, ?_⟩
      · simp [hc, hp, hin, created_slot]
      · simp [hc, hp, hin]
      · simp [hc, hp, hin]
  · simp [hc, kvdb_kvs_destroy]

theorem ikvdb_kvs_create_cases (K : hse_consts) (E : kvs_create_env) (self : ikvdb_impl)
    (kvs_name : List Nat) (params : kvs_cparams) (hcompact : dir_compact K self) :
    ((ikvdb_kvs_create K E self kvs_name params).2.1 = self ∨
      (validate_kvs_name (some kvs_name) = 0 ∧
        (∀ s ∈ self.ikdb_kvs_vec, slot_named kvs_name s = false) ∧
        self.ikdb_kvs_cnt < K.HSE_KVS_COUNT_MAX ∧
        (ikvdb_kvs_create K E self kvs_name params).2.1 =
          { self with
            ikdb_kvs_cnt := self.ikdb_kvs_cnt + 1
            ikdb_kvs_vec :=
              self.ikdb_kvs_vec.set self.ikdb_kvs_cnt
                (some (created_slot E kvs_name params)) })) ∧
      call.assert_fail 1372 ∉ (ikvdb_kvs_create K E self kvs_name params).2.2 ∧
      ∀ l, call.fault l ∉ (ikvdb_kvs_create K E self kvs_name params).2.2 := by
  by_cases hro : self.ikdb_rdonly = true
  · rw [ikvdb_kvs_create_rdonly K E self kvs_name params hro]
    exact ⟨Or.inl rfl, by simp, fun l => by simp⟩
  have hrw : self.ikdb_rdonly = false := by
    cases h : self.ikdb_rdonly
    · rfl
    · exact absurd h hro
  by_cases hvalid : validate_kvs_name (some kvs_name) = 0
  swap
  · have hr : ikvdb_kvs_create K E self kvs_name params =
        (validate_kvs_name (some kvs_name), self, []) := by
      unfold ikvdb_kvs_create
      simp [hrw, hvalid]
    rw [hr]
    exact ⟨Or.inl rfl, by simp, fun l => by simp⟩
  by_cases halloc : E.alloc_ok = true
  swap
  · have hf : E.alloc_ok = false := by
      cases h : E.alloc_ok
      · rfl
      · exact absurd h halloc
    rw [ikvdb_kvs_create_nomem K E self kvs_name params hrw hvalid hf]
    exact ⟨Or.inl rfl, by simp, fun l => by simp⟩
  by_cases hlt : self.ikdb_kvs_cnt < K.HSE_KVS_COUNT_MAX
  swap
  · rw [ikvdb_kvs_create_full K E self kvs_name params hrw hvalid halloc (by omega)]
    exact ⟨Or.inl rfl, by simp, fun l => by simp⟩
  by_cases hpresent : ∃ j, j < K.HSE_KVS_COUNT_MAX ∧
      slot_named kvs_name (self.ikdb_kvs_vec.getD j none) = true
  · rw [ikvdb_kvs_create_exists K E self kvs_name params hrw hvalid halloc hlt hpresent]
    exact ⟨Or.inl rfl, by simp, fun l => by simp⟩
  have habsent := absent_of_not_present K self.ikdb_kvs_vec kvs_name hcompact.1 hpresent
  obtain ⟨h1, h2, h3⟩ :=
    ikvdb_kvs_create_absent K E self kvs_name params hrw hcompact hlt hvalid habsent halloc
  refine ⟨?_, h2, h3⟩
  rcases h1 with h1 | h1
  · exact Or.inl h1
  · exact Or.inr ⟨hvalid, habsent, hlt, h1⟩

theorem dir_wf_install (K : hse_consts) (E : kvs_create_env) (self : ikvdb_impl)
    (kvs_name : List Nat) (params : kvs_cparams) (h : dir_wf K self)
    (hvalid : validate_kvs_name (some kvs_name) = 0)
    (habsent : ∀ s ∈ self.ikdb_kvs_vec, slot_named kvs_name s = false)
    (hlt : self.ikdb_kvs_cnt < K.HSE_KVS_COUNT_MAX) :
    dir_wf K
      { self with
        ikdb_kvs_cnt := self.ikdb_kvs_cnt + 1
        ikdb_kvs_vec :=
          self.ikdb_kvs_vec.set self.ikdb_kvs_cnt (some (created_slot E kvs_name params)) } := by
  obtain ⟨⟨hlen, hle, hocc⟩, hdist⟩ := h
  refine ⟨⟨?_, ?_, ?_⟩, ?_⟩
  · show (self.ikdb_kvs_vec.set _ _).length = _
    rw [List.length_set]
    exact hlen
  · show self.ikdb_kvs_cnt + 1 ≤ _
    omega
  · intro i hi
    show ((self.ikdb_kvs_vec.set self.ikdb_kvs_cnt _).getD i none).isSome = true ↔
      i < self.ikdb_kvs_cnt + 1
    by_cases he : i = self.ikdb_kvs_cnt
    · subst he
      rw [getD_set_self _ _ _ (by omega)]
      simp
    · rw [getD_set_other _ _ _ _ (fun h => he h.symm)]
      rw [hocc i hi]
      omega
  · intro i j a b hij ha hb
    have ha2 : (self.ikdb_kvs_vec.set self.ikdb_kvs_cnt
      (some (created_slot E kvs_name params))).getD i none = some a := ha
    have hb2 : (self.ikdb_kvs_vec.set self.ikdb_kvs_cnt
      (some (created_slot E kvs_name params))).getD j none = some b := hb
    have hjl : j < self.ikdb_kvs_vec.length := by
      have := getD_isSome_lt _ j b hb2
      rw [List.length_set] at this
      exact this
    by_cases hj : j = self.ikdb_kvs_cnt
    · subst hj
      have hi : i ≠ self.ikdb_kvs_cnt := by omega
      rw [getD_set_other _ _ _ _ (fun h => hi h.symm)] at ha2
      rw [getD_set_self _ _ _ (by omega)] at hb2
      injection hb2 with hb2
      have hn := habsent (some a) (getD_mem _ i a ha2)
      have hne : ¬ strcmp kvs_name a.kk_name = 0 := by simpa [slot_named] using hn
      rw [← hb2]
      show strcmp a.kk_name (strlcpy kvs_name sizeof_kk_name) ≠ 0
      rw [(validate_kvs_name_strlcpy kvs_name hvalid).2]
      intro h0
      apply hne
      rw [strcmp_eq_zero_iff] at h0 ⊢
      rw [cstr_idem] at h0
      exact h0.symm
    · rw [getD_set_other _ _ _ _ (fun h => hj h.symm)] at hb2
      by_cases hi : i = self.ikdb_kvs_cnt
      · subst hi
        have := (hocc j (by omega)).1 (by rw [hb2]; rfl)
        omega
      · rw [getD_set_other _ _ _ _ (fun h => hi h.symm)] at ha2
        exact hdist i j a b hij ha2 hb2

theorem dir_wf_erase (K : hse_consts) (self : ikvdb_impl) (k : Nat) (h : dir_wf K self)
    (hk : k < self.ikdb_kvs_cnt) :
    dir_wf K
      { self with
        ikdb_kvs_cnt := self.ikdb_kvs_cnt - 1
        ikdb_kvs_vec := self.ikdb_kvs_vec.eraseIdx k ++ [none] } := by
  refine ⟨eraseIdx_compact K self k h.1 hk, ?_⟩
  intro i j a b hij ha hb
  have ha2 : (self.ikdb_kvs_vec.eraseIdx k ++ [none]).getD i none = some a := ha
  have hb2 : (self.ikdb_kvs_vec.eraseIdx k ++ [none]).getD j none = some b := hb
  rw [getD_eraseIdx_none] at ha2 hb2
  by_cases hi : i < k
  · rw [if_pos hi] at ha2
    by_cases hj : j < k
    · rw [if_pos hj] at hb2
      exact h.2 i j a b hij ha2 hb2
    · rw [if_neg hj] at hb2
      exact h.2 i (j + 1) a b (by omega) ha2 hb2
  · rw [if_neg hi] at ha2
    have hj : ¬ j < k := by omega
    rw [if_neg hj] at hb2
    exact h.2 (i + 1) (j + 1) a b (by omega) ha2 hb2

theorem ikvdb_kvs_drop_cases (K : hse_consts) (E : kvs_drop_env) (self : ikvdb_impl)
    (kvs_name : Option (List Nat)) (hcompact : dir_compact K self) :
    ((ikvdb_kvs_drop K E self kvs_name).2.1 = self ∨
      ∃ k, k < self.ikdb_kvs_cnt ∧
        (ikvdb_kvs_drop K E self kvs_name).2.1 =
          { self with
            ikdb_kvs_cnt := self.ikdb_kvs_cnt - 1
            ikdb_kvs_vec := self.ikdb_kvs_vec.eraseIdx k ++ [none] }) ∧
      ∀ l, call.fault l ∉ (ikvdb_kvs_drop K E self kvs_name).2.2 := by
  by_cases hro : self.ikdb_rp.read_only = true
  · have hr : ikvdb_kvs_drop K E self kvs_name = (merr EROFS 1423, self, []) := by
      unfold ikvdb_kvs_drop
      simp [hro]
    rw [hr]
    exact ⟨Or.inl rfl, fun l => by simp⟩
  have hrw : self.ikdb_rp.read_only = false := by
    cases h : self.ikdb_rp.read_only
    · rfl
    · exact absurd h hro
  by_cases hvalid : validate_kvs_name kvs_name = 0
  swap
  · have hr : ikvdb_kvs_drop K E self kvs_name = (validate_kvs_name kvs_name, self, []) := by
      unfold ikvdb_kvs_drop
      simp [hrw, hvalid]
    rw [hr]
    exact ⟨Or.inl rfl, fun l => by simp⟩
  cases kvs_name with
  | none => exact absurd hvalid (merr_ne_zero _ _ (by decide))
  | some name =>
    by_cases hpresent : ∃ j, j < K.HSE_KVS_COUNT_MAX ∧
        slot_named name (self.ikdb_kvs_vec.getD j none) = true
    · obtain ⟨k, hk, hnamed, hbefore⟩ := exists_first_named _ _ _ hpresent
      cases hget : self.ikdb_kvs_vec.getD k none with
      | none =>
        rw [hget] at hnamed
        cases hnamed
      | some kvs =>
        have hname : strcmp name kvs.kk_name = 0 := by
          rw [hget] at hnamed
          simpa [slot_named] using hnamed
        have hkc : k < self.ikdb_kvs_cnt := (hcompact.2.2 k hk).1 (by rw [hget]; rfl)
        rw [ikvdb_kvs_drop_found K E self name k kvs hrw hvalid hk hget hname hbefore]
        by_cases hopen : kvs.kk_ikvs.isSome = true
        · rw [if_pos hopen]
          exact ⟨Or.inl rfl, fun l => by simp⟩
        · rw [if_neg hopen]
          by_cases hd : E.cndb_cn_drop kvs.kk_cnid ≠ 0
          · rw [if_pos hd]
            refine ⟨Or.inl rfl, fun l => ?_⟩
            split <;> simp
          · rw [if_neg hd]
            refine ⟨Or.inr ⟨k, hkc, drop_kvs_index_compact K self k hcompact hkc⟩, fun l => ?_⟩
            simp only [drop_kvs_index, hget, kvdb_kvs_destroy]
            split <;> simp
    · have habsent := absent_of_not_present K self.ikdb_kvs_vec name hcompact.1 hpresent
      rw [ikvdb_kvs_drop_absent K E self name hrw hvalid habsent]
      exact ⟨Or.inl rfl, fun l => by simp⟩

theorem mem_eraseIdx_none (vec : List (Option kvdb_kvs)) (k : Nat) (kvs : kvdb_kvs)
    (h : some kvs ∈ vec.eraseIdx k ++ [none]) : some kvs ∈ vec := by
  rcases List.mem_append.mp h with h | h
  · exact List.mem_of_mem_eraseIdx h
  · simp at h

theorem dir_run_wf (K : hse_consts) (init : List (Option kvdb_kvs)) (ops : List dir_op) :
    ∀ self : ikvdb_impl, dir_wf K self →
      (∀ kvs, some kvs ∈ self.ikdb_kvs_vec →
        some kvs ∈ init ∨ validate_kvs_name (some kvs.kk_name) = 0) →
      dir_wf K (dir_run K ops self).1 ∧
        (∀ kvs, some kvs ∈ (dir_run K ops self).1.ikdb_kvs_vec →
          some kvs ∈ init ∨ validate_kvs_name (some kvs.kk_name) = 0) ∧
        call.assert_fail 1372 ∉ (dir_run K ops self).2 ∧
        ∀ l, call.fault l ∉ (dir_run K ops self).2 := by
  induction ops with
  | nil =>
    intro self h hn
    exact ⟨h, hn, by simp [dir_run], fun l => by simp [dir_run]⟩
  | cons op ops ih =>
    intro self h hn
    cases op with
    | create E kvs_name params =>
      obtain ⟨hst, ha, hf⟩ := ikvdb_kvs_create_cases K E self kvs_name params h.1
      have hnext : dir_wf K (ikvdb_kvs_create K E self kvs_name params).2.1 ∧
          ∀ kvs, some kvs ∈ (ikvdb_kvs_create K E self kvs_name params).2.1.ikdb_kvs_vec →
            some kvs ∈ init ∨ validate_kvs_name (some kvs.kk_name) = 0 := by
        rcases hst with hst | ⟨hvalid, habsent, hlt, hst⟩
        · rw [hst]
          exact ⟨h, hn⟩
        · rw [hst]
          refine ⟨dir_wf_install K E self kvs_name params h hvalid habsent hlt, ?_⟩
          intro kvs hm
          rcases List.mem_or_eq_of_mem_set hm with hm | hm
          · exact hn kvs hm
          · injection hm with hm
            rw [hm]
            exact Or.inr (validate_kvs_name_strlcpy kvs_name hvalid).1
      obtain ⟨i1, i2, i3, i4⟩ := ih _ hnext.1 hnext.2
      refine ⟨i1, i2, ?_, ?_⟩
      · intro hm
        simp only [dir_run, List.mem_append] at hm
        rcases hm with hm | hm
        · exact ha hm
        · exact i3 hm
      · intro l hm
        simp only [dir_run, List.mem_append] at hm
        rcases hm with hm | hm
        · exact hf l hm
        · exact i4 l hm
    | drop E kvs_name =>
      obtain ⟨hst, hf⟩ := ikvdb_kvs_drop_cases K E self kvs_name h.1
      have hnext : dir_wf K (ikvdb_kvs_drop K E self kvs_name).2.1 ∧
          ∀ kvs, some kvs ∈ (ikvdb_kvs_drop K E self kvs_name).2.1.ikdb_kvs_vec →
            some kvs ∈ init ∨ validate_kvs_name (some kvs.kk_name) = 0 := by
        rcases hst with hst | ⟨k, hk, hst⟩
        · rw [hst]
          exact ⟨h, hn⟩
        · rw [hst]
          refine ⟨dir_wf_erase K self k h hk, ?_⟩
          intro kvs hm
          exact hn kvs (mem_eraseIdx_none _ k kvs hm)
      obtain ⟨i1, i2, i3, i4⟩ := ih _ hnext.1 hnext.2
      refine ⟨i1, i2, ?_, ?_⟩
      · intro hm
        simp only [dir_run, List.mem_append] at hm
        rcases hm with hm | hm
        · have : call.assert_fail 1372 ∉ (ikvdb_kvs_drop K E self kvs_name).2.2 := by
            unfold ikvdb_kvs_drop
            repeat' split
            all_goals simp [drop_kvs_index, kvdb_kvs_destroy]
            all_goals repeat' split
            all_goals simp
          exact this hm
        · exact i3 hm
      · intro l hm
        simp only [dir_run, List.mem_append] at hm
        rcases hm with hm | hm
        · exact hf l hm
        · exact i4 l hm

theorem names_get_loop_none (vec : List (Option kvdb_kvs)) :
    ∀ n i, (∀ j, i ≤ j → vec.getD j none = none) → ikvdb_kvs_names_get_loop vec n i = [] := by
  intro n
  induction n with
  | zero =>
    intro i _
    rfl
  | succ n ih =>
    intro i h
    simp only [ikvdb_kvs_names_get_loop, h i (Nat.le_refl i)]
    exact ih (i + 1) (fun j hj => h j (by omega))

theorem names_get_loop_compact (vec : List (Option kvdb_kvs)) (cnt : Nat)
    (hocc : ∀ j, (vec.getD j none).isSome = true ↔ j < cnt) :
    ∀ n i, i ≤ cnt → cnt ≤ i + n →
      (ikvdb_kvs_names_get_loop vec n i).length = cnt - i ∧
        ∀ d, d < cnt - i →
          ∃ kvs, vec.getD (i + d) none = some kvs ∧
            (ikvdb_kvs_names_get_loop vec n i)[d]? =
              some (strlcpy kvs.kk_name HSE_KVS_NAME_LEN_MAX) := by
  have hnone : ∀ j, cnt ≤ j → vec.getD j none = none := by
    intro j hj
    cases h : vec.getD j none with
    | none => rfl
    | some x =>
      have := (hocc j).1 (by rw [h]; rfl)
      omega
  intro n
  induction n with
  | zero =>
    intro i h1 h2
    have : cnt - i = 0 := by omega
    rw [this]
    exact ⟨rfl, fun d hd => absurd hd (by omega)⟩
  | succ n ih =>
    intro i h1 h2
    by_cases hi : i < cnt
    · obtain ⟨kvs, hk⟩ := Option.isSome_iff_exists.mp ((hocc i).2 hi)
      obtain ⟨l1, l2⟩ := ih (i + 1) (by omega) (by omega)
      simp only [ikvdb_kvs_names_get_loop, hk]
      refine ⟨by simp only [List.length_cons, l1]; omega, ?_⟩
      intro d hd
      cases d with
      | zero => exact ⟨kvs, hk, by simp⟩
      | succ d =>
        obtain ⟨kvs2, g1, g2⟩ := l2 d (by omega)
        refine ⟨kvs2, ?_, ?_⟩
        · rw [← g1]
          congr 1
          omega
        · simpa using g2
    · have hic : i = cnt := by omega
      have : cnt - i = 0 := by omega
      rw [this]
      refine ⟨?_, fun d hd => absurd hd (by omega)⟩
      rw [names_get_loop_none vec (n + 1) i (fun j hj => hnone j (by omega))]
      rfl

theorem compact_occ_all (K : hse_consts) (self : ikvdb_impl) (h : dir_compact K self) (j : Nat) :
    (self.ikdb_kvs_vec.getD j none).isSome = true ↔ j < self.ikdb_kvs_cnt := by
  obtain ⟨hlen, hle, hocc⟩ := h
  by_cases hj : j < K.HSE_KVS_COUNT_MAX
  · exact hocc j hj
  · have : self.ikdb_kvs_vec.getD j none = none := List.getD_eq_default _ _ (by omega)
    rw [this]
    constructor
    · intro h
      cases h
    · intro h
      omega

theorem ikvdb_kvs_names_get_compact (K : hse_consts) (self : ikvdb_impl) (has_namec : Bool)
    (h : dir_compact K self) :
    ikvdb_kvs_names_get K true self has_namec true =
        (0, some (some (ikvdb_kvs_names_get_loop self.ikdb_kvs_vec K.HSE_KVS_COUNT_MAX 0)),
          if has_namec then some self.ikdb_kvs_cnt else none,
          [call.admin (admin_call.calloc K.HSE_KVS_COUNT_MAX (8 + HSE_KVS_NAME_LEN_MAX)),
           call.mutex_lock, call.mutex_unlock]) ∧
      (ikvdb_kvs_names_get_loop self.ikdb_kvs_vec K.HSE_KVS_COUNT_MAX 0).length =
        self.ikdb_kvs_cnt ∧
      ∀ i, i < self.ikdb_kvs_cnt →
        ∃ kvs, self.ikdb_kvs_vec.getD i none = some kvs ∧
          (ikvdb_kvs_names_get_loop self.ikdb_kvs_vec K.HSE_KVS_COUNT_MAX 0)[i]? =
            some (strlcpy kvs.kk_name HSE_KVS_NAME_LEN_MAX) := by
  obtain ⟨l1, l2⟩ := names_get_loop_compact self.ikdb_kvs_vec self.ikdb_kvs_cnt
    (compact_occ_all K self h) K.HSE_KVS_COUNT_MAX 0 (Nat.zero_le _) (by have := h.2.1; omega)
  rw [Nat.sub_zero] at l1 l2
  refine ⟨?_, l1, ?_⟩
  · unfold ikvdb_kvs_names_get
    simp only [Bool.not_true, Bool.false_eq_true, if_false, if_true, l1, gt_iff_lt,
      Nat.lt_irrefl, ite_self, List.append_nil, List.cons_append, List.nil_append]
  · intro i hi
    obtain ⟨kvs, g1, g2⟩ := l2 i hi
    rw [Nat.zero_add] at g1
    exact ⟨kvs, g1, g2⟩

theorem ikvdb_cndb_open_loop_ok (E : cndb_open_env) :
    ∀ (n i : Nat) (vec : List (Option kvdb_kvs)), i + n ≤ vec.length →
      (∀ j, i ≤ j → j < i + n → E.alloc_ok j = true ∧ (E.cndb_cn_info_idx j).1 = 0) →
      (ikvdb_cndb_open_loop E n i vec).1 = 0 ∧
        (ikvdb_cndb_open_loop E n i vec).2.1.length = vec.length ∧
        (∀ j, (ikvdb_cndb_open_loop E n i vec).2.1.getD j none =
          if i ≤ j ∧ j < i + n then some (cndb_slot E j) else vec.getD j none) ∧
        ∀ l, call.fault l ∉ (ikvdb_cndb_open_loop E n i vec).2.2 := by
  intro n
  induction n with
  | zero =>
    intro i vec _ _
    refine ⟨rfl, rfl, fun j => ?_, fun l => by simp [ikvdb_cndb_open_loop]⟩
    have : ¬ (i ≤ j ∧ j < i + 0) := by omega
    simp only [ikvdb_cndb_open_loop, if_neg this]
  | succ n ih =>
    intro i vec hlen hok
    obtain ⟨ha, hi⟩ := hok i (Nat.le_refl i) (by omega)
    have hil : i < vec.length := by omega
    obtain ⟨r1, r2, r3, r4⟩ := ih (i + 1) (vec.set i (some (cndb_slot E i)))
      (by rw [List.length_set]; omega) (fun j h1 h2 => hok j (by omega) (by omega))
    have hne : ¬ (E.cndb_cn_info_idx i).1 ≠ 0 := fun h => h hi
    simp only [ikvdb_cndb_open_loop, ha, kvdb_kvs_create, if_true, hne, if_false, hil]
    refine ⟨r1, ?_, ?_, ?_⟩
    · rw [List.length_set] at r2
      exact r2
    · intro j
      have := r3 j
      simp only [cndb_slot] at this ⊢
      rw [this]
      by_cases hj : j = i
      · subst hj
        have c1 : ¬ (j + 1 ≤ j ∧ j < j + 1 + n) := by omega
        have c2 : j ≤ j ∧ j < j + (n + 1) := by omega
        rw [if_neg c1, if_pos c2]
        exact getD_set_self _ _ _ hil
      · rw [getD_set_other _ _ _ _ (fun h => hj h.symm)]
        by_cases c1 : i + 1 ≤ j ∧ j < i + 1 + n
        · have c2 : i ≤ j ∧ j < i + (n + 1) := by omega
          rw [if_pos c1, if_pos c2]
        · have c2 : ¬ (i ≤ j ∧ j < i + (n + 1)) := by omega
          rw [if_neg c1, if_neg c2]
    · intro l hm
      simp only [List.append_nil, List.cons_append, List.nil_append, List.mem_cons] at hm
      rcases hm with hm | hm | hm
      · cases hm
      · cases hm
      · exact r4 l hm

theorem ikvdb_cndb_open_kvs_wf (K : hse_consts) (E : cndb_open_env) (self : ikvdb_impl)
    (hvec : self.ikdb_kvs_vec = List.replicate K.HSE_KVS_COUNT_MAX none)
    (hcount : E.cndb_cn_count.1 = 0) (hle : E.cndb_cn_count.2 ≤ K.HSE_KVS_COUNT_MAX)
    (hok : ∀ j, j < E.cndb_cn_count.2 →
      E.alloc_ok j = true ∧ (E.cndb_cn_info_idx j).1 = 0)
    (hdist : ∀ i j, i < j → j < E.cndb_cn_count.2 →
      strcmp (E.cndb_cn_info_idx i).2.2.2.2 (E.cndb_cn_info_idx j).2.2.2.2 ≠ 0) :
    (ikvdb_cndb_open_kvs E self).1 = 0 ∧ dir_wf K (ikvdb_cndb_open_kvs E self).2.1 ∧
      (ikvdb_cndb_open_kvs E self).2.1.ikdb_kvs_cnt = E.cndb_cn_count.2 ∧
      ∀ l, call.fault l ∉ (ikvdb_cndb_open_kvs E self).2.2 := by
  have hbound := K.count_max_le
  have hmod : E.cndb_cn_count.2 % 2 ^ 32 = E.cndb_cn_count.2 := Nat.mod_eq_of_lt (by omega)
  have hne : ¬ E.cndb_cn_count.1 ≠ 0 := fun h => h hcount
  have hlen : self.ikdb_kvs_vec.length = K.HSE_KVS_COUNT_MAX := by
    rw [hvec, List.length_replicate]
  have hnone : ∀ j, self.ikdb_kvs_vec.getD j none = none := by
    intro j
    rw [hvec]
    simp only [List.getD_eq_getElem?_getD, List.getElem?_replicate]
    split <;> rfl
  obtain ⟨r1, r2, r3, r4⟩ := ikvdb_cndb_open_loop_ok E E.cndb_cn_count.2 0 self.ikdb_kvs_vec
    (by omega) (fun j _ h2 => hok j (by omega))
  simp only [ikvdb_cndb_open_kvs, hne, if_false, hmod]
  refine ⟨r1, ⟨⟨?_, hle, ?_⟩, ?_⟩, trivial, ?_⟩
  · show (ikvdb_cndb_open_loop E E.cndb_cn_count.2 0 self.ikdb_kvs_vec).2.1.length = _
    rw [r2, hlen]
  · intro i _
    show ((ikvdb_cndb_open_loop E E.cndb_cn_count.2 0 self.ikdb_kvs_vec).2.1.getD i none).isSome
      = true ↔ i < E.cndb_cn_count.2
    rw [r3 i]
    by_cases c : 0 ≤ i ∧ i < 0 + E.cndb_cn_count.2
    · rw [if_pos c]
      simp only [Option.isSome_some, true_iff]
      omega
    · rw [if_neg c, hnone i]
      simp only [Option.isSome_none, Bool.false_eq_true, false_iff]
      omega
  · intro i j a b hij ha hb
    have ha2 : (ikvdb_cndb_open_loop E E.cndb_cn_count.2 0 self.ikdb_kvs_vec).2.1.getD i none =
      some a := ha
    have hb2 : (ikvdb_cndb_open_loop E E.cndb_cn_count.2 0 self.ikdb_kvs_vec).2.1.getD j none =
      some b := hb
    rw [r3 i] at ha2
    rw [r3 j] at hb2
    by_cases cj : 0 ≤ j ∧ j < 0 + E.cndb_cn_count.2
    · have ci : 0 ≤ i ∧ i < 0 + E.cndb_cn_count.2 := by omega
      rw [if_pos ci] at ha2
      rw [if_pos cj] at hb2
      injection ha2 with ha2
      injection hb2 with hb2
      rw [← ha2, ← hb2]
      exact hdist i j hij (by omega)
    · rw [if_neg cj, hnone j] at hb2
      cases hb2
  · intro l hm
    simp only [List.cons_append, List.nil_append, List.mem_cons] at hm
    rcases hm with hm | hm
    · cases hm
    · exact r4 l hm

theorem ikvdb_example_vec (K : hse_consts) (b : Bool) :
    (ikvdb_example K b).ikdb_kvs_vec = List.replicate K.HSE_KVS_COUNT_MAX none := rfl

theorem cndb_open_example_wf :
    dir_wf consts_example
      (ikvdb_cndb_open_kvs cndb_open_env_example (ikvdb_example consts_example false)).2.1 :=
  (ikvdb_cndb_open_kvs_wf consts_example cndb_open_env_example
    (ikvdb_example consts_example false) (ikvdb_example_vec consts_example false) rfl
    (by decide) (fun j _ => ⟨rfl, rfl⟩)
    (by
      intro i j hij hj
      have hj2 : j < 2 := hj
      have hi0 : i = 0 := by omega
      have hj1 : j = 1 := by omega
      subst hi0
      subst hj1
      decide)).2.1

/-- What every sequence of `ikvdb_kvs_create` and `ikvdb_kvs_drop` keeps of a
well-formed table, what `ikvdb_kvs_names_get` hands out on the table it leaves
when `calloc` returns a buffer and `namev` is not `NULL`, and the table
`ikvdb_cndb_open` builds. -/
theorem dir_run_spec (K : hse_consts) (ops : List dir_op) (self : ikvdb_impl)
    (has_namec : Bool) (E0 : cndb_open_env) (self0 : ikvdb_impl) (hwf : dir_wf K self) :
    dir_wf K (dir_run K ops self).1 ∧
      (dir_run K ops self).1.ikdb_kvs_cnt ≤ K.HSE_KVS_COUNT_MAX ∧
      (dir_run K ops self).1.ikdb_kvs_cnt =
        (dir_run K ops self).1.ikdb_kvs_vec.countP Option.isSome ∧
      (∀ i, i < K.HSE_KVS_COUNT_MAX →
        (((dir_run K ops self).1.ikdb_kvs_vec.getD i none).isSome = true ↔
          i < (dir_run K ops self).1.ikdb_kvs_cnt)) ∧
      dir_names_distinct (dir_run K ops self).1.ikdb_kvs_vec ∧
      (∀ kvs, some kvs ∈ (dir_run K ops self).1.ikdb_kvs_vec →
        some kvs ∈ self.ikdb_kvs_vec ∨ validate_kvs_name (some kvs.kk_name) = 0) ∧
      call.assert_fail 1372 ∉ (dir_run K ops self).2 ∧
      (∀ l, call.fault l ∉ (dir_run K ops self).2) ∧
      ikvdb_kvs_names_get K true (dir_run K ops self).1 has_namec true =
        (0,
          some (some (ikvdb_kvs_names_get_loop (dir_run K ops self).1.ikdb_kvs_vec
            K.HSE_KVS_COUNT_MAX 0)),
          if has_namec then some (dir_run K ops self).1.ikdb_kvs_cnt else none,
          [call.admin (admin_call.calloc K.HSE_KVS_COUNT_MAX (8 + HSE_KVS_NAME_LEN_MAX)),
           call.mutex_lock, call.mutex_unlock]) ∧
      (ikvdb_kvs_names_get_loop (dir_run K ops self).1.ikdb_kvs_vec
          K.HSE_KVS_COUNT_MAX 0).length = (dir_run K ops self).1.ikdb_kvs_cnt ∧
      (∀ i, i < (dir_run K ops self).1.ikdb_kvs_cnt →
        ∃ kvs, (dir_run K ops self).1.ikdb_kvs_vec.getD i none = some kvs ∧
          (ikvdb_kvs_names_get_loop (dir_run K ops self).1.ikdb_kvs_vec
              K.HSE_KVS_COUNT_MAX 0)[i]? =
            some (strlcpy kvs.kk_name HSE_KVS_NAME_LEN_MAX)) ∧
      (self0.ikdb_kvs_vec = List.replicate K.HSE_KVS_COUNT_MAX none →
        E0.cndb_cn_count.1 = 0 → E0.cndb_cn_count.2 ≤ K.HSE_KVS_COUNT_MAX →
        (∀ j, j < E0.cndb_cn_count.2 →
          E0.alloc_ok j = true ∧ (E0.cndb_cn_info_idx j).1 = 0) →
        (∀ i j, i < j → j < E0.cndb_cn_count.2 →
          strcmp (E0.cndb_cn_info_idx i).2.2.2.2 (E0.cndb_cn_info_idx j).2.2.2.2 ≠ 0) →
        (ikvdb_cndb_open_kvs E0 self0).1 = 0 ∧ dir_wf K (ikvdb_cndb_open_kvs E0 self0).2.1) := by
  obtain ⟨h1, h2, h3, h4⟩ := dir_run_wf K self.ikdb_kvs_vec ops self hwf (fun kvs h => Or.inl h)
  obtain ⟨n1, n2, n3⟩ := ikvdb_kvs_names_get_compact K (dir_run K ops self).1 has_namec h1.1
  refine ⟨h1, h1.1.2.1, dir_compact_count K _ h1.1, h1.1.2.2, h1.2, h2, h3, h4, n1, n2, n3, ?_⟩
  intro a b c d e
  have := ikvdb_cndb_open_kvs_wf K E0 self0 a b c d e
  exact ⟨this.1, this.2.1⟩

set_option maxRecDepth 100000 in
/-- On the well-formed table that holds the one KVS `k000`:
`ikvdb_kvs_names_get` with a `NULL` `namev`, and with a `calloc` that fails. -/
theorem names_get_filled_example :
    dir_wf consts_example (ikvdb_filled consts_example 1) ∧
      (ikvdb_filled consts_example 1).ikdb_kvs_cnt = 1 ∧
      ikvdb_kvs_names_get consts_example true (ikvdb_filled consts_example 1) true false =
        (merr ENOMEM 1475, none, none, [call.admin (admin_call.calloc 256 40)]) ∧
      ikvdb_kvs_names_get consts_example false (ikvdb_filled consts_example 1) true true =
        (0, some none, some 1,
          [call.admin (admin_call.calloc 256 40), call.mutex_lock, call.fault 1488,
           call.mutex_unlock]) := by
  refine ⟨⟨filled_compact consts_example 1 (by decide), ?_⟩, rfl, rfl, rfl⟩
  intro i j a b hij ha hb
  rw [filled_getD] at ha hb
  by_cases hj : j < 1
  · omega
  · rw [if_neg hj] at hb
    cases hb

theorem ikvdb_kvs_names_get_null_namev (K : hse_consts) (calloc_ok : Bool) (self : ikvdb_impl)
    (has_namec : Bool) :
    ikvdb_kvs_names_get K calloc_ok self has_namec false =
      (merr ENOMEM 1475, none, none,
        [call.admin (admin_call.calloc K.HSE_KVS_COUNT_MAX (8 + HSE_KVS_NAME_LEN_MAX))]) := by
  simp [ikvdb_kvs_names_get]

theorem ikvdb_kvs_names_get_calloc_failed (K : hse_consts) (self : ikvdb_impl)
    (has_namec : Bool) (h : dir_compact K self) (hpos : 0 < self.ikdb_kvs_cnt) :
    ikvdb_kvs_names_get K false self has_namec true =
      (0, some none, if has_namec then some self.ikdb_kvs_cnt else none,
        [call.admin (admin_call.calloc K.HSE_KVS_COUNT_MAX (8 + HSE_KVS_NAME_LEN_MAX)),
         call.mutex_lock, call.fault 1488, call.mutex_unlock]) := by
  have hl := (ikvdb_kvs_names_get_compact K self has_namec h).2.1
  have hne : ¬ ikvdb_kvs_names_get_loop self.ikdb_kvs_vec K.HSE_KVS_COUNT_MAX 0 = [] := by
    intro h0
    rw [h0] at hl
    simp at hl
    omega
  unfold ikvdb_kvs_names_get
  simp only [Bool.not_true, Bool.false_eq_true, if_false, hne, Bool.not_false, if_true,
    List.cons_append, List.nil_append]

/-- C35 (the code at the failing input, and around it): from a well-formed
table, every sequence of `ikvdb_kvs_create` and `ikvdb_kvs_drop` leaves a
well-formed table (`ikdb_kvs_cnt` is at most `HSE_KVS_COUNT_MAX` and is the
number of occupied slots, which are exactly those below it, and no two slots
hold the same name), whose slots are slots of the starting table or hold a name
that passes `validate_kvs_name`; the assertion of line 1372 is never false and
no call leaves the table; the table `ikvdb_cndb_open` builds from a cndb of at
most `HSE_KVS_COUNT_MAX` KVSs with names that differ is well formed; and on a
well-formed table `ikvdb_kvs_names_get`, when `calloc` returns a buffer and
`namev` is not `NULL`, hands out `ikdb_kvs_cnt` names, the name of slot `i` at
index `i`. But the test after `calloc` (line 1474) is on `namev`, not on the
buffer: when `calloc` fails on a table that holds a KVS, the name is copied
through the `NULL` pointer (line 1488), and with a `NULL` `namev` the function
returns `ENOMEM` whatever `calloc` returned, the buffer not freed. So on the
table that holds the one KVS `k000`. -/
theorem ikvdb_kvs_names_get_tests_namev (K : hse_consts) (ops : List dir_op)
    (self : ikvdb_impl) (has_namec calloc_ok : Bool) (E0 : cndb_open_env)
    (self0 : ikvdb_impl) :
    (dir_wf K self →
        dir_wf K (dir_run K ops self).1 ∧
        (dir_run K ops self).1.ikdb_kvs_cnt ≤ K.HSE_KVS_COUNT_MAX ∧
        (dir_run K ops self).1.ikdb_kvs_cnt =
          (dir_run K ops self).1.ikdb_kvs_vec.countP Option.isSome ∧
        (∀ i, i < K.HSE_KVS_COUNT_MAX →
          (((dir_run K ops self).1.ikdb_kvs_vec.getD i none).isSome = true ↔
            i < (dir_run K ops self).1.ikdb_kvs_cnt)) ∧
        dir_names_distinct (dir_run K ops self).1.ikdb_kvs_vec ∧
        (∀ kvs, some kvs ∈ (dir_run K ops self).1.ikdb_kvs_vec →
          some kvs ∈ self.ikdb_kvs_vec ∨ validate_kvs_name (some kvs.kk_name) = 0) ∧
        call.assert_fail 1372 ∉ (dir_run K ops self).2 ∧
        (∀ l, call.fault l ∉ (dir_run K ops self).2) ∧
        ikvdb_kvs_names_get K true (dir_run K ops self).1 has_namec true =
          (0,
            some (some (ikvdb_kvs_names_get_loop (dir_run K ops self).1.ikdb_kvs_vec
              K.HSE_KVS_COUNT_MAX 0)),
            if has_namec then some (dir_run K ops self).1.ikdb_kvs_cnt else none,
            [call.admin (admin_call.calloc K.HSE_KVS_COUNT_MAX (8 + HSE_KVS_NAME_LEN_MAX)),
             call.mutex_lock, call.mutex_unlock]) ∧
        (ikvdb_kvs_names_get_loop (dir_run K ops self).1.ikdb_kvs_vec
            K.HSE_KVS_COUNT_MAX 0).length = (dir_run K ops self).1.ikdb_kvs_cnt ∧
        (∀ i, i < (dir_run K ops self).1.ikdb_kvs_cnt →
          ∃ kvs, (dir_run K ops self).1.ikdb_kvs_vec.getD i none = some kvs ∧
            (ikvdb_kvs_names_get_loop (dir_run K ops self).1.ikdb_kvs_vec
                K.HSE_KVS_COUNT_MAX 0)[i]? =
              some (strlcpy kvs.kk_name HSE_KVS_NAME_LEN_MAX))) ∧
      (self0.ikdb_kvs_vec = List.replicate K.HSE_KVS_COUNT_MAX none →
        E0.cndb_cn_count.1 = 0 → E0.cndb_cn_count.2 ≤ K.HSE_KVS_COUNT_MAX →
        (∀ j, j < E0.cndb_cn_count.2 →
          E0.alloc_ok j = true ∧ (E0.cndb_cn_info_idx j).1 = 0) →
        (∀ i j, i < j → j < E0.cndb_cn_count.2 →
          strcmp (E0.cndb_cn_info_idx i).2.2.2.2 (E0.cndb_cn_info_idx j).2.2.2.2 ≠ 0) →
        (ikvdb_cndb_open_kvs E0 self0).1 = 0 ∧ dir_wf K (ikvdb_cndb_open_kvs E0 self0).2.1) ∧
      (dir_wf K self → 0 < self.ikdb_kvs_cnt →
        ikvdb_kvs_names_get K false self has_namec true =
          (0, some none, if has_namec then some self.ikdb_kvs_cnt else none,
            [call.admin (admin_call.calloc K.HSE_KVS_COUNT_MAX (8 + HSE_KVS_NAME_LEN_MAX)),
             call.mutex_lock, call.fault 1488, call.mutex_unlock])) ∧
      ikvdb_kvs_names_get K calloc_ok self has_namec false =
        (merr ENOMEM 1475, none, none,
          [call.admin (admin_call.calloc K.HSE_KVS_COUNT_MAX (8 + HSE_KVS_NAME_LEN_MAX))]) ∧
      dir_wf consts_example
        (ikvdb_cndb_open_kvs cndb_open_env_example (ikvdb_example consts_example false)).2.1 ∧
      dir_wf consts_example (ikvdb_filled consts_example 1) ∧
      (ikvdb_filled consts_example 1).ikdb_kvs_cnt = 1 ∧
      ikvdb_kvs_names_get consts_example false (ikvdb_filled consts_example 1) true true =
        (0, some none, some 1,
          [call.admin (admin_call.calloc 256 40), call.mutex_lock, call.fault 1488,
           call.mutex_unlock]) ∧
      ikvdb_kvs_names_get consts_example true (ikvdb_filled consts_example 1) true false =
        (merr ENOMEM 1475, none, none, [call.admin (admin_call.calloc 256 40)]) := by
  have hex := names_get_filled_example
  refine ⟨fun hwf => ?_, ?_, ?_, ikvdb_kvs_names_get_null_namev K calloc_ok self has_namec,
    cndb_open_example_wf, hex.1, hex.2.1, hex.2.2.2, hex.2.2.1⟩
  · obtain ⟨h1, h2, h3, h4, h5, h6, h7, h8, h9, h10, h11, _⟩ :=
      dir_run_spec K ops self has_namec E0 self0 hwf
    exact ⟨h1, h2, h3, h4, h5, h6, h7, h8, h9, h10, h11⟩
  · intro a b c d e
    have := ikvdb_cndb_open_kvs_wf K E0 self0 a b c d e
    exact ⟨this.1, this.2.1⟩
  · intro hwf hpos
    exact ikvdb_kvs_names_get_calloc_failed K self has_namec hwf.1 hpos

end HSE
